import Mathlib

/-!
# gFur fur-shell data: a shallow embedding of `FurSkinData.cpp`

Source: `Source/GFur/Private/FurSkinData.cpp`.

Conventions of the embedding.

* `uint32` values are natural numbers; every `uint32` operation of the source is
  wrapped explicitly (`u32`, `u32sub`).
* Floating point scalars (positions, squared distances, fur lengths) are modelled by
  integers with exact arithmetic; `sqrtf` is an input of the model, and so is the
  narrowing of a scalar from `double` to `float` (`toFloat`) where the source converts a
  matrix or a vector to its `float` type.
* A `check(...)` that fails, a spin-wait that can never end, a write through a null
  pointer and a write through the locked pointer outside the locked memory are the
  faults of `Fault`; fallible code returns `Except Fault _`.
* Reading an array outside its bounds is undefined in the source; the model reads a
  default element there.  A write into the index array outside its bounds is dropped
  and is caught by the final `check(Idx <= Indices.Num())`.  The reads `SrcSections[0]`
  of a mesh without sections in the sparse build and `LODRenderData[InLod]` of the base
  mesh and of a guide mesh in `GenerateSplines` are faults when the index is out of
  range.
* Members of `FFurData` that the file calls but does not define (`UnpackNormals`,
  `GenerateSplineMap`, `GenerateFurVertices`, `GenerateFurVertex`, ...) are inputs of
  the model, collected in `Env`.
* The two threads are modelled by a queue of render commands: the game thread appends
  the commands it enqueues, the render thread runs them in order, and it is the only
  one to run while the game thread spins on `RenderThreadDataSubmissionPending`.
* Objects on the heap are identified by their address, a natural number; a pointer that
  may be null is an `Option`.  The registry of fur datasets is the list of the objects
  that the static array points to, together with the cleanup tasks and the delete
  commands that are pending and with the order in which the lock is taken and released
  and builds are run.
* Constants and constructors that are declared outside the file (`MinimalFurLayerCount`,
  `MaximalFurLayerCount`, the first `RefCount` of an object, `FFurData::Compare`,
  `FFurData::Set`), the skeletal mesh behind an address and the compilation flag
  `WITH_EDITORONLY_DATA` are inputs of the model, collected in `CacheEnv`.
* Buffers of the rendering interface are modelled by their contents; a reference that is
  not valid is `none`.
* A vertex factory object is modelled by its class, one of the eight classes of the file,
  and by what its constructor and `Init` were given.
-/

namespace GFur

/-! ## Machine integers -/

/-- Wrap of a natural number to the range of `uint32`. -/
def u32 (n : Nat) : Nat := n % 4294967296

/-- The `uint32` difference `a - b`, computed modulo `2^32`. -/
def u32sub (a b : Nat) : Nat := (a + (4294967296 - b % 4294967296)) % 4294967296

/-! ## Data model -/

/-- The `BuildType` enumeration.  The source compares `Build >= BuildType::Splines`
and remarks (line 1256) that every call has `Build >= Splines` and that `Minimal` is
never passed, which fixes the order `Minimal < Splines < Full`. -/
inductive BuildType where
  | Minimal
  | Splines
  | Full
  deriving DecidableEq, Repr

/-- Numeric value of a `BuildType`, used for `>=`. -/
def BuildType.toNat : BuildType → Nat
  | .Minimal => 0
  | .Splines => 1
  | .Full => 2

/-- A vector of three scalars (`FVector`, `FVector3f`). -/
abbrev FVector := Int × Int × Int

/-- A pair of scalars (`FVector2f`). -/
abbrev FVector2 := Int × Int

/-- Squared Euclidean distance `FVector::DistSquared`. -/
def DistSquared (a b : FVector) : Int :=
  (a.1 - b.1) * (a.1 - b.1) + (a.2.1 - b.2.1) * (a.2.1 - b.2.1)
    + (a.2.2 - b.2.2) * (a.2.2 - b.2.2)

/-- One render section of the source mesh (`FSkelMeshRenderSection`), restricted to the
fields that `BuildFur` reads. -/
structure FSkelMeshRenderSection where
  BaseVertexIndex : Nat
  NumVertices : Nat
  BaseIndex : Nat
  NumTriangles : Nat
  MaterialIndex : Nat
  BoneMap : List Nat
  deriving DecidableEq, Repr, Inhabited

/-- One fur section (`FFurData::FSection`).  The structure is declared outside the file;
its fields hold the `uint32` values that `BuildFur` assigns to them (`SectionVertexOffset`
and `Idx` are `uint32`, lines 1201 and 1274) and that the sparse build reads back into
`uint32` variables (lines 1403-1404). -/
structure FSection where
  MinVertexIndex : Nat
  MaxVertexIndex : Nat
  BaseIndex : Nat
  NumTriangles : Nat
  MaterialIndex : Nat
  NumBones : Nat
  deriving DecidableEq, Repr, Inhabited

/-- One expanded vertex (`FFurSkinVertex`): the members named by the vertex factory
layout (lines 303-316) and by the sparse build (line 1434). -/
structure FFurSkinVertex where
  Position : FVector
  TangentX : FVector
  TangentZ : FVector
  UV0 : FVector2
  UV1 : FVector2
  UV2 : FVector2
  UV3 : FVector2
  Color : Nat
  InfluenceBones : List Nat
  InfluenceWeights : List Nat
  FurOffset : FVector
  deriving DecidableEq, Repr, Inhabited

/-- The commands that `BuildFur` enqueues for the render thread.  Both closures capture
`this`, so they read the dataset as it is when they run. -/
inductive RenderCommand where
  /-- `Sections = TempSections; VertexCount = NewVertexCount;` (lines 1330-1333). -/
  | UpdateData (NewVertexCount : Nat)
  /-- `RenderThreadDataSubmissionPending = false;` (lines 1347-1349, 1446-1448). -/
  | ClearPending
  deriving DecidableEq, Repr

/-- The members of `FFurSkinData` (and of its base `FFurData`) that the builds read or
write, together with the queue of render commands not yet executed. -/
structure FFurSkinData where
  FurLayerCount : Nat
  OldFurLayerCount : Nat
  RemoveFacesWithoutSplines : Bool
  OldRemoveFacesWithoutSplines : Bool
  FurSplinesUsed : Bool
  FurLength : Int
  bUseHighPrecisionTangentBasis : Bool
  bUseFullPrecisionUVs : Bool
  HasExtraBoneInfluences : Bool
  Normals : List FVector
  SplineMap : List Int
  VertexRemap : List Nat
  VertexCountPerLayer : Nat
  RenderThreadDataSubmissionPending : Bool
  Sections : List FSection
  TempSections : List FSection
  VertexBuffer : List FFurSkinVertex
  IndexBuffer : List Nat
  VertexCount : Nat
  MaxVertexBoneDistance : Int
  RenderQueue : List RenderCommand
  deriving DecidableEq, Repr

/-- The faults a build can end in instead of returning. -/
inductive Fault where
  /-- A `check(...)` failed. -/
  | checkFailed
  /-- The spin-wait on `RenderThreadDataSubmissionPending` can never end. -/
  | spins
  /-- A vertex was written through a null pointer. -/
  | nullPointer
  /-- A vertex was written through the locked pointer outside the locked range. -/
  | outOfBounds
  deriving DecidableEq, Repr

/-- Everything a build reads from outside the dataset: the LOD render data of the
skeletal mesh, the reference skeleton, and the routines of `FFurData`, of the vertex
buffer and of the C library that this file calls but does not define. -/
structure Env where
  /-- `LodRenderData.RenderSections`. -/
  RenderSections : List FSkelMeshRenderSection
  /-- `LodRenderData.MultiSizeIndexContainer.GetIndexBuffer(SourceIndices)`. -/
  SourceIndices : List Nat
  /-- `StaticMeshVertexBuffer.GetUseHighPrecisionTangentBasis()`. -/
  UseHighPrecisionTangentBasis : Bool
  /-- `StaticMeshVertexBuffer.GetUseFullPrecisionUVs()`. -/
  UseFullPrecisionUVs : Bool
  /-- `SkinWeightVertexBuffer.GetMaxBoneInfluences()`. -/
  MaxBoneInfluences : Nat
  /-- `PositionVertexBuffer.GetNumVertices()`. -/
  PositionNumVertices : Nat
  /-- `SkinWeightVertexBuffer.GetNumVertices()`. -/
  SkinWeightNumVertices : Nat
  /-- `StaticMeshVertexBuffer.GetNumVertices()`. -/
  StaticMeshNumVertices : Nat
  /-- `ColorVertexBuffer.GetNumVertices()`. -/
  ColorNumVertices : Nat
  /-- Translations of `SkeletalMesh->GetRefSkeleton().GetRawRefBonePose()`. -/
  RefPose : List FVector
  /-- Whether the file is compiled with `WITH_EDITORONLY_DATA`. -/
  WithEditorOnlyData : Bool
  /-- `UnpackNormals`: the new contents of `Normals`. -/
  UnpackNormals : FFurSkinData → List FVector
  /-- `GenerateSplineMap`: the new `SplineMap`, `VertexRemap` and `VertexCountPerLayer`. -/
  GenerateSplineMap : FFurSkinData → List Int × List Nat × Nat
  /-- `GenerateFurVertices(Begin, End, Vertices + SectionVertexOffset, Blitter)`: from the
  memory behind the pointer it is given, the memory it leaves there and the count it
  returns. -/
  GenerateFurVertices : FFurSkinData → Nat → Nat → List FFurSkinVertex → List FFurSkinVertex × Nat
  /-- `VertexBuffer.Lock<VertexType>(Count)`: `none` is the null pointer, otherwise the
  memory behind the returned pointer. -/
  Lock : Nat → List FFurSkinVertex → Option (List FFurSkinVertex)
  /-- `sqrtf`. -/
  sqrtf : Int → Int
  /-- `GenerateFurLengths(FurLengths)`. -/
  GenerateFurLengths : FFurSkinData → List Int
  /-- `CalcFurGenLayerData(FurLayerCount - Layer)`. -/
  CalcFurGenLayerData : FFurSkinData → Nat → Int
  /-- `GenerateFurVertex(FurOffset, UV1, UV2, UV3, Normal, Length, GenLayerData[, SplineIndex])`:
  the four members passed by reference, before and after. -/
  GenerateFurVertex : FFurSkinData → FVector × FVector2 × FVector2 × FVector2 → FVector → Int → Int →
    Option Int → FVector × FVector2 × FVector2 × FVector2

/-! ## The vertex pass (lines 1201-1247) -/

/-- `VertexType::NumInfluences` for the template argument `bExtraBoneInfluencesT`. -/
def NumInfluences (bExtraBoneInfluencesT : Bool) : Nat :=
  if bExtraBoneInfluencesT then 8 else 4

/-- The loop over the influences of one vertex (lines 1233-1241): `k` iterations remain,
`b` is the loop variable and `m` is `MaxDistSq`. -/
def boneDistanceLoop (RefPose : List FVector) (BoneMap : List Nat) (v : FFurSkinVertex) :
    Nat → Nat → Int → Int
  | 0, _, m => m
  | k + 1, b, m =>
    if v.InfluenceWeights.getD b 0 = 0 then m
    else
      let BoneIndex := BoneMap.getD (v.InfluenceBones.getD b 0) 0
      let distSq := DistSquared v.Position (RefPose.getD BoneIndex default)
      boneDistanceLoop RefPose BoneMap v k (b + 1) (if distSq > m then distSq else m)

/-- The loop over the first `VertCount` vertices of a section (lines 1230-1242): `k`
iterations remain, `i` is the loop variable and `m` is `MaxDistSq`. -/
def vertexDistanceLoop (RefPose : List FVector) (BoneMap : List Nat) (numInfluences : Nat)
    (Vertices : List FFurSkinVertex) (SectionVertexOffset : Nat) : Nat → Nat → Int → Int
  | 0, _, m => m
  | k + 1, i, m =>
    let VertexIndex := u32 (SectionVertexOffset + i)
    vertexDistanceLoop RefPose BoneMap numInfluences Vertices SectionVertexOffset k (i + 1)
      (boneDistanceLoop RefPose BoneMap (Vertices.getD VertexIndex default) numInfluences 0 m)

/-- The local variables of the vertex pass. -/
structure VertexPassState where
  SectionVertexOffset : Nat
  MaxDistSq : Int
  Vertices : List FFurSkinVertex
  LocalSections : List FSection
  deriving DecidableEq, Repr

/-- The body of the loop over the sections (lines 1208-1246) for section `SectionIndex`
with source section `src`. -/
def vertexPassSection (env : Env) (Build : BuildType) (data : FFurSkinData)
    (SectionIndex : Nat) (src : FSkelMeshRenderSection) (s : VertexPassState) : VertexPassState :=
  let secs1 := s.LocalSections.set SectionIndex
    { s.LocalSections.getD SectionIndex default with MinVertexIndex := s.SectionVertexOffset }
  let gen := env.GenerateFurVertices data src.BaseVertexIndex
    (u32 (src.BaseVertexIndex + src.NumVertices)) (s.Vertices.drop s.SectionVertexOffset)
  let verts := s.Vertices.take s.SectionVertexOffset ++ gen.1
  let VertCount := gen.2
  let m := if Build = BuildType.Full then
      vertexDistanceLoop env.RefPose src.BoneMap (NumInfluences data.HasExtraBoneInfluences)
        verts s.SectionVertexOffset VertCount 0 s.MaxDistSq
    else s.MaxDistSq
  let off := u32 (s.SectionVertexOffset + VertCount * data.FurLayerCount)
  let secs2 := secs1.set SectionIndex
    { secs1.getD SectionIndex default with MaxVertexIndex := u32sub off 1 }
  { SectionVertexOffset := off, MaxDistSq := m, Vertices := verts, LocalSections := secs2 }

/-- The loop over the sections (lines 1203-1247), from section `SectionIndex` on. -/
def vertexPassLoop (env : Env) (Build : BuildType) (data : FFurSkinData) :
    List FSkelMeshRenderSection → Nat → VertexPassState → VertexPassState
  | [], _, s => s
  | src :: rest, SectionIndex, s =>
    vertexPassLoop env Build data rest (SectionIndex + 1)
      (vertexPassSection env Build data SectionIndex src s)

/-- `TArray::SetNum`: truncate, or extend by default-constructed elements. -/
def SetNum {α : Type} [Inhabited α] (xs : List α) (n : Nat) : List α :=
  xs.take n ++ List.replicate (n - xs.length) default

/-- The vertex pass: `SectionVertexOffset = 0`, `MaxDistSq = 0.0f` and the loop over all
sections, on the locked memory `Vertices` and the section array `LocalSections`. -/
def vertexPass (env : Env) (Build : BuildType) (data : FFurSkinData)
    (Vertices : List FFurSkinVertex) (LocalSections : List FSection) : VertexPassState :=
  vertexPassLoop env Build data env.RenderSections 0
    { SectionVertexOffset := 0, MaxDistSq := 0, Vertices := Vertices,
      LocalSections := LocalSections }

/-! ## The index rebuild (lines 1264-1323) -/

/-- `SourceIndices[BaseIndex + i]`, the index being a `uint32`. -/
def sourceIndexAt (SourceIndices : List Nat) (BaseIndex i : Nat) : Nat :=
  SourceIndices.getD (u32 (BaseIndex + i)) 0

/-- `Indices[Idx++] = v` on the pair `(Idx, Indices)`. -/
def putIndex (v : Nat) (s : Nat × List Nat) : Nat × List Nat :=
  (s.1 + 1, s.2.set s.1 v)

/-- `VertexIndexOffset` as first computed for a layer (line 1291), as a `uint32` bit
pattern: `Layer * ((Max - Min + 1) / FurLayerCount) + Min`. -/
def layerVertexOffset (FurLayerCount : Nat) (f : FSection) (Layer : Nat) : Nat :=
  u32 (Layer * (u32 (u32sub f.MaxVertexIndex f.MinVertexIndex + 1) / FurLayerCount)
    + f.MinVertexIndex)

/-- Whether the three corners of triangle `t` of a section have a spline
(`SplineMap[Idx0] >= 0 && SplineMap[Idx1] >= 0 && SplineMap[Idx2] >= 0`, line 1303). -/
def triangleCovered (SourceIndices : List Nat) (SplineMap : List Int) (BaseIndex t : Nat) : Bool :=
  decide (0 ≤ SplineMap.getD (sourceIndexAt SourceIndices BaseIndex (t * 3)) 0) &&
  decide (0 ≤ SplineMap.getD (sourceIndexAt SourceIndices BaseIndex (t * 3 + 1)) 0) &&
  decide (0 ≤ SplineMap.getD (sourceIndexAt SourceIndices BaseIndex (t * 3 + 2)) 0)

/-- The loop over the triangles of a section when faces without splines are removed
(lines 1298-1309): `k` iterations remain and `t` is the loop variable. -/
def emitCulled (SourceIndices : List Nat) (SplineMap : List Int) (VertexRemap : List Nat)
    (BaseIndex VertexIndexOffset : Nat) : Nat → Nat → Nat × List Nat → Nat × List Nat
  | 0, _, s => s
  | k + 1, t, s =>
    let Idx0 := sourceIndexAt SourceIndices BaseIndex (t * 3)
    let Idx1 := sourceIndexAt SourceIndices BaseIndex (t * 3 + 1)
    let Idx2 := sourceIndexAt SourceIndices BaseIndex (t * 3 + 2)
    emitCulled SourceIndices SplineMap VertexRemap BaseIndex VertexIndexOffset k (t + 1)
      (if 0 ≤ SplineMap.getD Idx0 0 ∧ 0 ≤ SplineMap.getD Idx1 0 ∧ 0 ≤ SplineMap.getD Idx2 0 then
        putIndex (u32 (VertexRemap.getD Idx2 0 + VertexIndexOffset))
          (putIndex (u32 (VertexRemap.getD Idx1 0 + VertexIndexOffset))
            (putIndex (u32 (VertexRemap.getD Idx0 0 + VertexIndexOffset)) s))
      else s)

/-- The loop over the indices of a section when no face is removed (lines 1314-1315):
`k` iterations remain and `i` is the loop variable. -/
def emitPlain (SourceIndices : List Nat) (BaseIndex VertexIndexOffset : Nat) :
    Nat → Nat → Nat × List Nat → Nat × List Nat
  | 0, _, s => s
  | k + 1, i, s =>
    emitPlain SourceIndices BaseIndex VertexIndexOffset k (i + 1)
      (putIndex (u32 (sourceIndexAt SourceIndices BaseIndex i + VertexIndexOffset)) s)

/-- The body of the loop over the layers (lines 1291-1316) for the source section `src`
and its fur section `f`. -/
def rebuildLayer (env : Env) (data : FFurSkinData) (src : FSkelMeshRenderSection)
    (f : FSection) (Layer : Nat) (s : Nat × List Nat) : Except Fault (Nat × List Nat) :=
  let VertexIndexOffset := layerVertexOffset data.FurLayerCount f Layer
  if 2147483648 ≤ VertexIndexOffset then Except.error Fault.checkFailed
  else if data.FurSplinesUsed && data.RemoveFacesWithoutSplines then
    Except.ok (emitCulled env.SourceIndices data.SplineMap data.VertexRemap src.BaseIndex
      VertexIndexOffset src.NumTriangles 0 s)
  else
    Except.ok (emitPlain env.SourceIndices src.BaseIndex
      (u32sub VertexIndexOffset src.BaseVertexIndex) (u32 (src.NumTriangles * 3)) 0 s)

/-- The loop over the layers (lines 1286-1317): `k` iterations remain. -/
def rebuildLayers (env : Env) (data : FFurSkinData) (src : FSkelMeshRenderSection)
    (f : FSection) : Nat → Nat → Nat × List Nat → Except Fault (Nat × List Nat)
  | 0, _, s => Except.ok s
  | k + 1, Layer, s =>
    match rebuildLayer env data src f Layer s with
    | Except.error e => Except.error e
    | Except.ok s1 => rebuildLayers env data src f k (Layer + 1) s1

/-- The local variables of the index rebuild. -/
structure IndexPassState where
  Idx : Nat
  Indices : List Nat
  LocalSections : List FSection
  deriving DecidableEq, Repr

/-- The body of the loop over the sections (lines 1280-1319). -/
def rebuildSection (env : Env) (data : FFurSkinData) (SectionIndex : Nat)
    (st : IndexPassState) : Except Fault IndexPassState :=
  let SourceSection := env.RenderSections.getD SectionIndex default
  let f1 : FSection :=
    { st.LocalSections.getD SectionIndex default with
      MaterialIndex := SourceSection.MaterialIndex
      BaseIndex := st.Idx }
  match rebuildLayers env data SourceSection f1 data.FurLayerCount 0 (st.Idx, st.Indices) with
  | Except.error e => Except.error e
  | Except.ok s1 =>
    Except.ok
      { Idx := s1.1, Indices := s1.2,
        LocalSections := st.LocalSections.set SectionIndex
          { f1 with
            NumTriangles := u32sub s1.1 f1.BaseIndex / 3
            NumBones := SourceSection.BoneMap.length } }

/-- The loop over the sections (lines 1275-1320): `k` iterations remain. -/
def rebuildSections (env : Env) (data : FFurSkinData) :
    Nat → Nat → IndexPassState → Except Fault IndexPassState
  | 0, _, st => Except.ok st
  | k + 1, SectionIndex, st =>
    match rebuildSection env data SectionIndex st with
    | Except.error e => Except.error e
    | Except.ok st1 => rebuildSections env data k (SectionIndex + 1) st1

/-- The index rebuild (lines 1271-1323): the index array is reset and preallocated with
`SourceIndices.Num() * FurLayerCount` entries, filled section by section, checked and
trimmed to `Idx` entries.  The result is the index array and the section array. -/
def rebuildIndices (env : Env) (data : FFurSkinData) (LocalSections : List FSection) :
    Except Fault (List Nat × List FSection) :=
  match rebuildSections env data env.RenderSections.length 0
      { Idx := 0, Indices := List.replicate (env.SourceIndices.length * data.FurLayerCount) 0,
        LocalSections := LocalSections } with
  | Except.error e => Except.error e
  | Except.ok st =>
    if st.Idx ≤ st.Indices.length then Except.ok (st.Indices.take st.Idx, st.LocalSections)
    else Except.error Fault.checkFailed

/-! ## The render thread and the spin-wait -/

/-- What the render thread does when it runs one command. -/
def renderThreadExecute (c : RenderCommand) (d : FFurSkinData) : FFurSkinData :=
  match c with
  | RenderCommand.UpdateData NewVertexCount =>
    { d with Sections := d.TempSections, VertexCount := NewVertexCount }
  | RenderCommand.ClearPending => { d with RenderThreadDataSubmissionPending := false }

/-- One step of the render thread: it takes the oldest command of the queue and runs
it. -/
def renderThreadStep (d : FFurSkinData) : FFurSkinData :=
  match d.RenderQueue with
  | [] => d
  | c :: q => renderThreadExecute c { d with RenderQueue := q }

/-- The render thread runs every queued command. -/
def renderThreadDrain (d : FFurSkinData) : FFurSkinData :=
  d.RenderQueue.foldl (fun d c => renderThreadExecute c d) { d with RenderQueue := [] }

/-- `while (RenderThreadDataSubmissionPending);` (lines 1179, 1393).  The game thread
does nothing while it spins; the render thread runs its commands in order.  The first
argument is the queue that is left.  The loop ends as soon as the flag is clear; when the
flag is set and no command is left, nothing can clear it and the loop never ends. -/
def spinWaitLoop : List RenderCommand → FFurSkinData → Except Fault FFurSkinData
  | [], d => if d.RenderThreadDataSubmissionPending then Except.error Fault.spins else Except.ok d
  | c :: q, d =>
    if d.RenderThreadDataSubmissionPending then
      spinWaitLoop q (renderThreadExecute c { d with RenderQueue := q })
    else Except.ok d

/-- The spin-wait on the dataset. -/
def spinWait (d : FFurSkinData) : Except Fault FFurSkinData :=
  spinWaitLoop d.RenderQueue d

/-! ## The full and the spline-only build (lines 1103-1356) -/

/-- The statements of `BuildFur` before the spin-wait (lines 1105-1174): the template
dispatch sets the three precision flags, a full build unpacks the normals, a build with
`Build >= Splines` generates the spline map. -/
def BuildFur_beforeWait (env : Env) (Build : BuildType) (d : FFurSkinData) : FFurSkinData :=
  let d1 := { d with
    bUseHighPrecisionTangentBasis := env.UseHighPrecisionTangentBasis
    bUseFullPrecisionUVs := env.UseFullPrecisionUVs
    HasExtraBoneInfluences := decide (4 < env.MaxBoneInfluences) }
  let d2 := if Build = BuildType.Full then { d1 with Normals := env.UnpackNormals d1 } else d1
  if BuildType.Splines.toNat ≤ Build.toNat then
    { d2 with
      SplineMap := (env.GenerateSplineMap d2).1
      VertexRemap := (env.GenerateSplineMap d2).2.1
      VertexCountPerLayer := (env.GenerateSplineMap d2).2.2 }
  else d2

/-- The two `check`s on the vertex counts of the source buffers (lines 1154, 1157). -/
def sourceCountsOk (env : Env) : Bool :=
  decide (env.PositionNumVertices = env.SkinWeightNumVertices) &&
  decide (env.PositionNumVertices = env.StaticMeshNumVertices) &&
  (!decide (0 < env.ColorNumVertices) || decide (env.PositionNumVertices = env.ColorNumVertices))

/-- The section array that `LocalSections` refers to: `TempSections` when `useTemp`,
`Sections` otherwise. -/
def getLocalSections (useTemp : Bool) (d : FFurSkinData) : List FSection :=
  if useTemp then d.TempSections else d.Sections

/-- Assignment through the reference `LocalSections`. -/
def setLocalSections (useTemp : Bool) (d : FFurSkinData) (secs : List FSection) : FFurSkinData :=
  if useTemp then { d with TempSections := secs } else { d with Sections := secs }

/-- The end of `BuildFur` (lines 1346-1355): the flag is set, the command that clears it
is enqueued, and outside the editor the temporary arrays are emptied. -/
def BuildFur_finish (env : Env) (d : FFurSkinData) : FFurSkinData :=
  let d1 := { d with
    RenderThreadDataSubmissionPending := true
    RenderQueue := d.RenderQueue ++ [RenderCommand.ClearPending] }
  if env.WithEditorOnlyData then d1
  else { d1 with Normals := [], SplineMap := [], VertexRemap := [] }

/-- The index rebuild and the publication of `BuildFur` (lines 1253-1339), on the
dataset after the vertex pass. -/
def BuildFur_indexAndPublish (env : Env) (Build : BuildType) (useTemp : Bool)
    (NewVertexCount : Nat) (d : FFurSkinData) : Except Fault FFurSkinData :=
  if BuildType.Splines.toNat ≤ Build.toNat ∨ d.FurLayerCount ≠ d.OldFurLayerCount ∨
      d.RemoveFacesWithoutSplines ≠ d.OldRemoveFacesWithoutSplines then
    let d1 := { d with
      OldFurLayerCount := d.FurLayerCount
      OldRemoveFacesWithoutSplines := d.RemoveFacesWithoutSplines }
    match rebuildIndices env d1 (getLocalSections useTemp d1) with
    | Except.error e => Except.error e
    | Except.ok r =>
      let d2 := setLocalSections useTemp { d1 with IndexBuffer := r.1 } r.2
      if d2.TempSections.length ≠ 0 then
        Except.ok { d2 with
          RenderQueue := d2.RenderQueue ++ [RenderCommand.UpdateData NewVertexCount] }
      else Except.ok { d2 with VertexCount := NewVertexCount }
  else Except.ok d

/-- The statements of `BuildFur` after a successful lock (lines 1201-1356), on the locked
memory `Vertices`: the vertex pass, `MaxVertexBoneDistance`, the index rebuild, the
publication and the end of the build. -/
def BuildFur_afterLock (env : Env) (Build : BuildType) (useTemp : Bool) (NewVertexCount : Nat)
    (d : FFurSkinData) (Vertices : List FFurSkinVertex) : Except Fault FFurSkinData :=
  let vp := vertexPass env Build d Vertices (getLocalSections useTemp d)
  let d2 := setLocalSections useTemp { d with VertexBuffer := vp.Vertices } vp.LocalSections
  let d3 := if Build = BuildType.Full then
      { d2 with MaxVertexBoneDistance := env.sqrtf vp.MaxDistSq }
    else d2
  (BuildFur_indexAndPublish env Build useTemp NewVertexCount d3).map (BuildFur_finish env)

/-- The statements of `BuildFur` after the spin-wait (lines 1182-1356): the section
array is resized before the vertex buffer is locked, and the build returns when the lock
gives the null pointer. -/
def BuildFur_afterWait (env : Env) (Build : BuildType) (d : FFurSkinData) :
    Except Fault FFurSkinData :=
  let NewVertexCount := u32 (d.VertexCountPerLayer * d.FurLayerCount)
  let useTemp := decide (d.Sections.length ≠ 0)
  let d1 := setLocalSections useTemp d
    (SetNum (getLocalSections useTemp d) env.RenderSections.length)
  match env.Lock NewVertexCount d1.VertexBuffer with
  | none => Except.ok d1
  | some Vertices => BuildFur_afterLock env Build useTemp NewVertexCount d1 Vertices

/-- `FFurSkinData::BuildFur(BuildType Build)`. -/
def BuildFur (env : Env) (Build : BuildType) (d : FFurSkinData) : Except Fault FFurSkinData :=
  if sourceCountsOk env then
    match spinWait (BuildFur_beforeWait env Build d) with
    | Except.error e => Except.error e
    | Except.ok d1 => BuildFur_afterWait env Build d1
  else Except.error Fault.checkFailed

/-! ## The sparse build (lines 1358-1449) -/

/-- The local variables of the section scan of the sparse build. -/
structure ScanState where
  SectionIndex : Nat
  SectionVertexIndexBegin : Nat
  SectionVertexIndexEnd : Nat
  DstSectionVertexBegin : Nat
  DstSectionVertexCountPerLayer : Nat
  deriving DecidableEq, Repr

/-- The values the scan variables take for section `SectionIndex` (lines 1399-1404 and
1420-1423). -/
def scanAt (env : Env) (FurLayerCount : Nat) (LocalSections : List FSection)
    (SectionIndex : Nat) : ScanState :=
  { SectionIndex := SectionIndex
    SectionVertexIndexBegin := (env.RenderSections.getD SectionIndex default).BaseVertexIndex
    SectionVertexIndexEnd :=
      u32 ((env.RenderSections.getD SectionIndex default).BaseVertexIndex
        + (env.RenderSections.getD SectionIndex default).NumVertices)
    DstSectionVertexBegin := (LocalSections.getD SectionIndex default).MinVertexIndex
    DstSectionVertexCountPerLayer :=
      u32sub (u32 ((LocalSections.getD SectionIndex default).MaxVertexIndex + 1))
        (LocalSections.getD SectionIndex default).MinVertexIndex / FurLayerCount }

/-- The section scan for one vertex (lines 1416-1425): `fuel` bounds the number of
times the loop condition is evaluated and `checkCounter` is the counter of the bound
check.  `SectionCount + 1` evaluations always suffice, since the check fails at the
latest in iteration `SectionCount + 1`. -/
def sectionScan (env : Env) (FurLayerCount : Nat) (LocalSections : List FSection)
    (SrcVertexIndex : Nat) : Nat → Nat → ScanState → Except Fault ScanState
  | 0, _, _ => Except.error Fault.spins
  | fuel + 1, checkCounter, sc =>
    if SrcVertexIndex < sc.SectionVertexIndexBegin ∨ sc.SectionVertexIndexEnd ≤ SrcVertexIndex then
      if checkCounter < env.RenderSections.length then
        sectionScan env FurLayerCount LocalSections SrcVertexIndex fuel (checkCounter + 1)
          (scanAt env FurLayerCount LocalSections
            ((sc.SectionIndex + 1) % env.RenderSections.length))
      else Except.error Fault.checkFailed
    else Except.ok sc

/-- `DstVertexIndex` (lines 1426-1427). -/
def dstVertexIndex (d : FFurSkinData) (sc : ScanState) (Layer SrcVertexIndex : Nat) : Nat :=
  u32 ((if 0 < d.VertexRemap.length then d.VertexRemap.getD SrcVertexIndex 0
        else u32sub SrcVertexIndex sc.SectionVertexIndexBegin)
    + u32 (sc.DstSectionVertexCountPerLayer * Layer) + sc.DstSectionVertexBegin)

/-- The vertex that lines 1430-1439 leave in place of `Vertex`. -/
def regenerateVertex (env : Env) (d : FFurSkinData) (FurLengths : List Int)
    (GenLayerData : Int) (SrcVertexIndex : Nat) (Vertex : FFurSkinVertex) : FFurSkinVertex :=
  let out :=
    if d.FurSplinesUsed then
      let SplineIndex := d.SplineMap.getD SrcVertexIndex 0
      let Length := if 0 ≤ SplineIndex then FurLengths.getD SplineIndex.toNat 0 else d.FurLength
      env.GenerateFurVertex d (Vertex.FurOffset, Vertex.UV1, Vertex.UV2, Vertex.UV3)
        (d.Normals.getD SrcVertexIndex default) Length GenLayerData (some SplineIndex)
    else
      env.GenerateFurVertex d (Vertex.FurOffset, Vertex.UV1, Vertex.UV2, Vertex.UV3)
        (d.Normals.getD SrcVertexIndex default) d.FurLength GenLayerData none
  { Vertex with FurOffset := out.1, UV1 := out.2.1, UV2 := out.2.2.1, UV3 := out.2.2.2 }

/-- The body of the loop over the vertex set (lines 1416-1439) for one vertex: the
section scan, then the write through `Vertices`, which is `none` when the lock returned
the null pointer. -/
def sparseVertex (env : Env) (d : FFurSkinData) (LocalSections : List FSection)
    (FurLengths : List Int) (Layer : Nat) (GenLayerData : Int) (SrcVertexIndex : Nat)
    (s : ScanState × Option (List FFurSkinVertex)) :
    Except Fault (ScanState × Option (List FFurSkinVertex)) :=
  match sectionScan env d.FurLayerCount LocalSections SrcVertexIndex
      (env.RenderSections.length + 1) 0 s.1 with
  | Except.error e => Except.error e
  | Except.ok sc =>
    match s.2 with
    | none => Except.error Fault.nullPointer
    | some Vertices =>
      if dstVertexIndex d sc Layer SrcVertexIndex < Vertices.length then
        Except.ok (sc, some (Vertices.set (dstVertexIndex d sc Layer SrcVertexIndex)
          (regenerateVertex env d FurLengths GenLayerData SrcVertexIndex
            (Vertices.getD (dstVertexIndex d sc Layer SrcVertexIndex) default))))
      else Except.error Fault.outOfBounds

/-- The loop over the vertex set (lines 1414-1440). -/
def sparseVertices (env : Env) (d : FFurSkinData) (LocalSections : List FSection)
    (FurLengths : List Int) (Layer : Nat) (GenLayerData : Int) :
    List Nat → ScanState × Option (List FFurSkinVertex) →
      Except Fault (ScanState × Option (List FFurSkinVertex))
  | [], s => Except.ok s
  | v :: rest, s =>
    match sparseVertex env d LocalSections FurLengths Layer GenLayerData v s with
    | Except.error e => Except.error e
    | Except.ok s1 => sparseVertices env d LocalSections FurLengths Layer GenLayerData rest s1

/-- The loop over the layers (lines 1411-1441): `k` iterations remain. -/
def sparseLayers (env : Env) (d : FFurSkinData) (LocalSections : List FSection)
    (FurLengths : List Int) (InVertexSet : List Nat) :
    Nat → Nat → ScanState × Option (List FFurSkinVertex) →
      Except Fault (ScanState × Option (List FFurSkinVertex))
  | 0, _, s => Except.ok s
  | k + 1, Layer, s =>
    match sparseVertices env d LocalSections FurLengths Layer
        (env.CalcFurGenLayerData d (d.FurLayerCount - Layer)) InVertexSet s with
    | Except.error e => Except.error e
    | Except.ok s1 => sparseLayers env d LocalSections FurLengths InVertexSet k (Layer + 1) s1

/-- The statements of the sparse build after the spin-wait (lines 1396-1449).  Reading
`SrcSections[0]` of a mesh without sections fails the range check of `TArray`. -/
def BuildFurSparse_afterWait (env : Env) (InVertexSet : List Nat) (d : FFurSkinData) :
    Except Fault FFurSkinData :=
  if env.RenderSections.length = 0 then Except.error Fault.checkFailed
  else
    let LocalSections := if d.TempSections.length ≠ 0 then d.TempSections else d.Sections
    let Vertices := env.Lock (u32 (d.VertexCountPerLayer * d.FurLayerCount)) d.VertexBuffer
    match sparseLayers env d LocalSections (env.GenerateFurLengths d) InVertexSet
        d.FurLayerCount 0 (scanAt env d.FurLayerCount LocalSections 0, Vertices) with
    | Except.error e => Except.error e
    | Except.ok s =>
      Except.ok
        { d with
          VertexBuffer := s.2.getD d.VertexBuffer
          RenderThreadDataSubmissionPending := true
          RenderQueue := d.RenderQueue ++ [RenderCommand.ClearPending] }

/-- `FFurSkinData::BuildFur(const TArray<uint32>& InVertexSet)`. -/
def BuildFurSparse (env : Env) (InVertexSet : List Nat) (d : FFurSkinData) :
    Except Fault FFurSkinData :=
  match spinWait d with
  | Except.error e => Except.error e
  | Except.ok d1 => BuildFurSparse_afterWait env InVertexSet d1

/-! ## Spline generation (lines 1452-1509) -/

/-- The spline asset `UFurSplines`: the control points of all splines, spline after
spline, and the number of control points of one spline. -/
structure UFurSplines where
  Vertices : List FVector
  ControlPointCount : Nat
  deriving DecidableEq, Repr

/-- A skeletal mesh as `GenerateSplines` reads it: for every LOD of
`GetResourceForRendering()->LODRenderData` the positions of
`StaticVertexBuffers.PositionVertexBuffer`.  The mesh has a resource for rendering, as
`check(SkeletalMeshResource)` requires. -/
abbrev USkeletalMesh := List (List FVector)

/-- The loop of lines 1473-1477 over the base mesh, with `k` iterations left:
`Splines->Vertices[i * ControlPointCount] = SourcePositions.VertexPosition(i)`. -/
def splinesBaseLoop (SourcePositions : List FVector) (ControlPointCount : Nat) :
    Nat → Nat → List FVector → List FVector
  | 0, _, Vertices => Vertices
  | k + 1, i, Vertices =>
    splinesBaseLoop SourcePositions ControlPointCount k (i + 1)
      (Vertices.set (u32 (i * ControlPointCount)) (SourcePositions.getD i default))

/-- The loop of lines 1497-1498 over the vertices a guide mesh has:
`Splines->Vertices[i * ControlPointCount + k] = SourcePositions2.VertexPosition(i)`. -/
def splinesGuideLoop (SourcePositions2 : List FVector) (ControlPointCount k : Nat) :
    Nat → Nat → List FVector → List FVector
  | 0, _, Vertices => Vertices
  | n + 1, i, Vertices =>
    splinesGuideLoop SourcePositions2 ControlPointCount k n (i + 1)
      (Vertices.set (u32 (i * ControlPointCount + k)) (SourcePositions2.getD i default))

/-- The loops of lines 1499-1500 and 1504-1505 over the vertices a guide mesh lacks:
`Splines->Vertices[i * ControlPointCount + k] = Splines->Vertices[i * ControlPointCount + (k - 1)]`. -/
def splinesCopyLoop (ControlPointCount k : Nat) : Nat → Nat → List FVector → List FVector
  | 0, _, Vertices => Vertices
  | n + 1, i, Vertices =>
    splinesCopyLoop ControlPointCount k n (i + 1)
      (Vertices.set (u32 (i * ControlPointCount + k))
        (Vertices.getD (u32 (i * ControlPointCount + (k - 1))) default))

/-- The body of the loop over the guide meshes (lines 1490-1506) for the guide mesh that
fills control point `k`; `none` is a null guide mesh.  `InLod` is the LOD after the clamp
against the base mesh; line 1494 indexes `LODRenderData` of the guide mesh with it, and
the index fails the range check of the array when the guide mesh has no such LOD. -/
def splinesGuideMesh (VertexCount ControlPointCount InLod k : Nat)
    (GuideMesh : Option USkeletalMesh) (Vertices : List FVector) :
    Except Fault (List FVector) :=
  match GuideMesh with
  | some mesh =>
    if InLod < mesh.length then
      let SourcePositions2 := mesh.getD InLod []
      let c := min SourcePositions2.length VertexCount
      Except.ok (splinesCopyLoop ControlPointCount k (VertexCount - c) c
        (splinesGuideLoop SourcePositions2 ControlPointCount k c 0 Vertices))
    else Except.error Fault.checkFailed
  | none => Except.ok (splinesCopyLoop ControlPointCount k VertexCount 0 Vertices)

/-- The loop over the guide meshes (lines 1487-1508); `k` is incremented after each. -/
def splinesGuideMeshes (VertexCount ControlPointCount InLod : Nat) :
    List (Option USkeletalMesh) → Nat → List FVector → Except Fault (List FVector)
  | [], _, Vertices => Except.ok Vertices
  | GuideMesh :: rest, k, Vertices =>
    match splinesGuideMesh VertexCount ControlPointCount InLod k GuideMesh Vertices with
    | Except.error e => Except.error e
    | Except.ok Vertices =>
      splinesGuideMeshes VertexCount ControlPointCount InLod rest (k + 1) Vertices

/-- The function `GenerateSplines` (lines 1452-1509).  `InLod` is an `int32`; it is clamped
to the last LOD of the base mesh, and line 1461 indexes `LODRenderData` of the base mesh
with the result, which fails the range check of the array when it is negative (a negative
`InLod`, or a base mesh without LODs).  `AddUninitialized` appends
`uint32 (VertexCount * ControlPointCount)` elements, whose unspecified contents are
modelled by the default vector; element indices are computed in 32 bits. -/
def GenerateSplines (Splines : UFurSplines) (InSkeletalMesh : USkeletalMesh) (InLod : Int)
    (InGuideMeshes : List (Option USkeletalMesh)) : Except Fault UFurSplines :=
  let InLod : Int :=
    if InLod ≥ InSkeletalMesh.length then (InSkeletalMesh.length : Int) - 1 else InLod
  if InLod < 0 then Except.error Fault.checkFailed
  else
    let InLod := InLod.toNat
    let SourcePositions := InSkeletalMesh.getD InLod []
    let VertexCount := SourcePositions.length
    let ControlPointCount := InGuideMeshes.length + 1
    let Vertices :=
      Splines.Vertices ++ List.replicate (u32 (VertexCount * ControlPointCount)) default
    let Vertices := splinesBaseLoop SourcePositions ControlPointCount VertexCount 0 Vertices
    match splinesGuideMeshes VertexCount ControlPointCount InLod InGuideMeshes 1 Vertices with
    | Except.error e => Except.error e
    | Except.ok Vertices =>
      Except.ok { Vertices := Vertices, ControlPointCount := ControlPointCount }


/-! ## The registry of fur datasets (lines 11-12, 846-917, 1021-1096) -/

/-- The members of `UGFurComponent` that the registry reads: the grow mesh and the guide
meshes, as object addresses with `none` for a null pointer, and `Properties` for all the
members that only `FFurData::Set` and `FFurData::Compare` read. -/
structure UGFurComponent where
  SkeletalGrowMesh : Option Nat
  SkeletalGuideMeshes : List (Option Nat)
  Properties : List Int
  deriving DecidableEq, Repr

/-- An object of class `FFurSkinData` as the registry sees it.  `Address` is the value of
the pointer to it.  `RefCount` is declared in the base class, outside the file; the
specification calls it an integer, and it is modelled by an unbounded signed integer.
`Config` stands for the members of the base class that `FFurData::Set` stores from its
three arguments.  `Data` holds the members that the builds use.  `FurSplinesGenerated` is
the spline asset that `Set` has generated from the guide meshes, `none` for a null
pointer. -/
structure FurDataObject where
  Address : Nat
  RefCount : Int
  Config : Int × Int × UGFurComponent
  SkeletalMesh : Option Nat
  GuideMeshes : List (Option Nat)
  Data : FFurSkinData
  FurSplinesGenerated : Option UFurSplines
  deriving DecidableEq, Repr

/-- What the registry functions use from outside the file. -/
structure CacheEnv where
  /-- The constant `MinimalFurLayerCount`. -/
  MinimalFurLayerCount : Int
  /-- The constant `MaximalFurLayerCount`. -/
  MaximalFurLayerCount : Int
  /-- The `RefCount` of an object after `new FFurSkinData()` and `Set`. -/
  NewRefCount : Int
  /-- The build members of an object after `new FFurSkinData()`. -/
  NewData : FFurSkinData
  /-- The build members after `FFurData::Set`. -/
  SetData : Int → Int → UGFurComponent → FFurSkinData → FFurSkinData
  /-- Whether `FFurData::Set` leaves the member `FurSplinesAssigned` other than null. -/
  FurSplinesAssigned : Int → Int → UGFurComponent → Bool
  /-- The skeletal mesh at an address, as `GenerateSplines` reads it. -/
  Mesh : Nat → USkeletalMesh
  /-- Whether the file is compiled with `WITH_EDITORONLY_DATA`. -/
  WithEditorOnlyData : Bool
  /-- The routine `FFurData::Compare`, applied to what `FFurData::Set` stored. -/
  FFurData_Compare : Int × Int × UGFurComponent → Int → Int → UGFurComponent → Bool
  /-- What a build of the object reads from its skeletal mesh at its LOD. -/
  BuildEnv : Option Nat → Int → Env

/-- What can be observed of the registry lock and of the builds. -/
inductive CacheEvent where
  /-- `FScopeLock lock(&FurSkinDataCS)` has acquired the lock. -/
  | Lock
  /-- The destructor of the scope lock has released the lock. -/
  | Unlock
  /-- `BuildFur(BuildType::Full)` is called on the object at `Address`. -/
  | Build (Address : Nat)
  deriving DecidableEq, Repr

/-- The state of the registry: the objects that the static array `FurSkinData` points
to, in order; the next address that `new` returns; the number of cleanup tasks started by
`StartFurDataCleanupTask` and not yet run; the addresses captured by the enqueued
`ReleaseDataCommand` render commands, each of which deletes its object; and the
observations made so far, in program order. -/
structure FurDataCache where
  FurSkinData : List FurDataObject
  NextAddress : Nat
  CleanupTasks : Nat
  ReleaseCommands : List Nat
  Events : List CacheEvent
  deriving DecidableEq, Repr

/-- The method `FFurSkinData::Compare` (lines 1093-1096). -/
def FFurSkinData.Compare (ce : CacheEnv) (Data : FurDataObject) (InFurLayerCount InLod : Int)
    (InFurComponent : UGFurComponent) : Bool :=
  ce.FFurData_Compare Data.Config InFurLayerCount InLod InFurComponent
    && decide (Data.SkeletalMesh = InFurComponent.SkeletalGrowMesh)
    && decide (Data.GuideMeshes = InFurComponent.SkeletalGuideMeshes)

/-- The object that `new FFurSkinData()` (line 875) leaves at the address `Address`; the
constructor is outside the file. -/
def FFurSkinData.new (ce : CacheEnv) (Address : Nat) : FurDataObject :=
  { Address := Address, RefCount := ce.NewRefCount,
    Config := (0, 0, { SkeletalGrowMesh := none, SkeletalGuideMeshes := [], Properties := [] }),
    SkeletalMesh := none, GuideMeshes := [], Data := ce.NewData, FurSplinesGenerated := none }

/-- The method `FFurSkinData::Set` (lines 1021-1091) without the delegate bindings.  When
the file is compiled with `WITH_EDITORONLY_DATA`, the loops of lines 1027-1028 and
1042-1043 call `RemoveFromRoot` on every guide mesh of the old array and `AddToRoot` on
every guide mesh of the new array with no null test: a null entry is a call through a
null pointer.  Then `FFurData::Set`, the two mesh members and `check(SkeletalMesh)`.
Lines 1052-1059 generate the splines from the meshes into a new spline asset when no
asset is assigned and there is a guide mesh, and make the generated asset the one
used. -/
def FFurSkinData.Set (ce : CacheEnv) (InFurLayerCount InLod : Int)
    (InFurComponent : UGFurComponent) (Data : FurDataObject) : Except Fault FurDataObject :=
  if ce.WithEditorOnlyData = true ∧ none ∈ Data.GuideMeshes then
    Except.error Fault.nullPointer
  else
    let Data : FurDataObject :=
      { Data with
        Config := (InFurLayerCount, InLod, InFurComponent)
        Data := ce.SetData InFurLayerCount InLod InFurComponent Data.Data
        SkeletalMesh := InFurComponent.SkeletalGrowMesh
        GuideMeshes := InFurComponent.SkeletalGuideMeshes }
    if ce.WithEditorOnlyData = true ∧ none ∈ InFurComponent.SkeletalGuideMeshes then
      Except.error Fault.nullPointer
    else
      match Data.SkeletalMesh with
      | none => Except.error Fault.checkFailed
      | some SkeletalMesh =>
        if ce.FurSplinesAssigned InFurLayerCount InLod InFurComponent = false
            ∧ Data.GuideMeshes.length > 0 then
          match GenerateSplines { Vertices := [], ControlPointCount := 0 }
              (ce.Mesh SkeletalMesh) InLod (Data.GuideMeshes.map (Option.map ce.Mesh)) with
          | Except.error e => Except.error e
          | Except.ok FurSplinesGenerated =>
            Except.ok
              { Data with
                FurSplinesGenerated := some FurSplinesGenerated
                Data := { Data.Data with FurSplinesUsed := true } }
        else Except.ok Data

/-- The scan of lines 856-863: the first object that compares equal gets `RefCount++`
and its address is returned; `none` when the loop ends without a match. -/
def scanRegistry (ce : CacheEnv) (InFurLayerCount InLod : Int) (InFurComponent : UGFurComponent) :
    List FurDataObject → Option (List FurDataObject × Nat)
  | [] => none
  | Data :: rest =>
    if FFurSkinData.Compare ce Data InFurLayerCount InLod InFurComponent then
      some ({ Data with RefCount := Data.RefCount + 1 } :: rest, Data.Address)
    else
      match scanRegistry ce InFurLayerCount InLod InFurComponent rest with
      | some (rest1, Address) => some (Data :: rest1, Address)
      | none => none

/-- The function `FFurSkinData::CreateFurData` (lines 846-894): the registry it leaves and
the address it returns, or the registry at the fault and the fault. -/
def CreateFurData (ce : CacheEnv) (InFurLayerCount InLod : Int) (InFurComponent : UGFurComponent)
    (c : FurDataCache) : FurDataCache × Except Fault Nat :=
  if InFurLayerCount ≥ ce.MinimalFurLayerCount ∧ InFurLayerCount ≤ ce.MaximalFurLayerCount then
    let c := { c with Events := c.Events ++ [CacheEvent.Lock] }
    match scanRegistry ce InFurLayerCount InLod InFurComponent c.FurSkinData with
    | some (FurSkinData, Address) =>
      ({ c with FurSkinData := FurSkinData, Events := c.Events ++ [CacheEvent.Unlock] },
        Except.ok Address)
    | none =>
      let Data := FFurSkinData.new ce c.NextAddress
      let c := { c with NextAddress := c.NextAddress + 1 }
      match FFurSkinData.Set ce InFurLayerCount InLod InFurComponent Data with
      | Except.error e => (c, Except.error e)
      | Except.ok Data =>
        let c := { c with Events := c.Events ++ [CacheEvent.Build Data.Address] }
        match BuildFur (ce.BuildEnv Data.SkeletalMesh InLod) BuildType.Full Data.Data with
        | Except.error e => (c, Except.error e)
        | Except.ok d =>
          ({ c with FurSkinData := c.FurSkinData ++ [{ Data with Data := d }],
                    Events := c.Events ++ [CacheEvent.Unlock] },
            Except.ok Data.Address)
  else (c, Except.error Fault.checkFailed)

/-- The loop of lines 900-901: `RefCount--` on every object of the array.  An address
that points to no object of the registry is a dangling pointer; the model leaves the
registry as it is there. -/
def releaseLoop : List Nat → List FurDataObject → List FurDataObject
  | [], FurSkinData => FurSkinData
  | Data :: rest, FurSkinData =>
    releaseLoop rest
      (FurSkinData.map
        (fun o => if o.Address = Data then { o with RefCount := o.RefCount - 1 } else o))

/-- The function `FFurSkinData::DestroyFurData` (lines 896-917): the decrements, and one
more cleanup task started. -/
def DestroyFurData (InFurDataArray : List Nat) (c : FurDataCache) : FurDataCache :=
  { c with
    FurSkinData := releaseLoop InFurDataArray c.FurSkinData
    CleanupTasks := c.CleanupTasks + 1
    Events := c.Events ++ [CacheEvent.Lock, CacheEvent.Unlock] }

/-- The loop of lines 907-915, with `i + 1` indices left: the object at index `i` is
removed and a command that deletes it is enqueued when its `RefCount` is 0. -/
def cleanupLoop : Nat → List FurDataObject → List Nat → List FurDataObject × List Nat
  | 0, FurSkinData, Commands => (FurSkinData, Commands)
  | i + 1, FurSkinData, Commands =>
    match FurSkinData[i]? with
    | some Data =>
      if Data.RefCount = 0 then
        cleanupLoop i (FurSkinData.eraseIdx i) (Commands ++ [Data.Address])
      else cleanupLoop i FurSkinData Commands
    | none => cleanupLoop i FurSkinData Commands

/-- The cleanup task that `DestroyFurData` starts (lines 903-916), when it runs. -/
def FurDataCleanupTask (c : FurDataCache) : FurDataCache :=
  { c with
    FurSkinData := (cleanupLoop c.FurSkinData.length c.FurSkinData c.ReleaseCommands).1
    ReleaseCommands := (cleanupLoop c.FurSkinData.length c.FurSkinData c.ReleaseCommands).2
    CleanupTasks := c.CleanupTasks - 1
    Events := c.Events ++ [CacheEvent.Lock, CacheEvent.Unlock] }

/-- The operations on the registry: the two functions, and the run of a started cleanup
task. -/
inductive CacheOp where
  | Create (InFurLayerCount InLod : Int) (InFurComponent : UGFurComponent)
  | Destroy (InFurDataArray : List Nat)
  | Cleanup
  deriving DecidableEq, Repr

/-- A sequence of operations, run from a registry.  A fault ends the run; a cleanup runs
only when a cleanup task has been started. -/
def cacheRun (ce : CacheEnv) : List CacheOp → FurDataCache → FurDataCache
  | [], c => c
  | CacheOp.Create InFurLayerCount InLod InFurComponent :: ops, c =>
    match CreateFurData ce InFurLayerCount InLod InFurComponent c with
    | (c1, Except.ok _) => cacheRun ce ops c1
    | (c1, Except.error _) => c1
  | CacheOp.Destroy InFurDataArray :: ops, c => cacheRun ce ops (DestroyFurData InFurDataArray c)
  | CacheOp.Cleanup :: ops, c =>
    if c.CleanupTasks = 0 then cacheRun ce ops c else cacheRun ce ops (FurDataCleanupTask c)


/-! ## The double-buffered bone data (lines 111-267, 591-790) -/

/-- The feature levels `ERHIFeatureLevel::Type` of the engine, in the order of their
values. -/
inductive ERHIFeatureLevel where
  | ES2_REMOVED
  | ES3_1
  | SM4_REMOVED
  | SM5
  | SM6
  deriving DecidableEq, Repr

/-- Numeric value of a feature level, used for `>=`. -/
def ERHIFeatureLevel.toNat : ERHIFeatureLevel → Nat
  | .ES2_REMOVED => 0
  | .ES3_1 => 1
  | .SM4_REMOVED => 2
  | .SM5 => 3
  | .SM6 => 4

/-- A 4x4 matrix (`FMatrix`, `FMatrix44f`): its 16 scalars, `M[r][c]` at index
`4 * r + c`. -/
abbrev FMatrix := List Int

/-- The engine routine `To3x4MatrixTranspose`: the 12 scalars it writes, in order. -/
def To3x4MatrixTranspose (M : FMatrix) : List Int :=
  [M.getD 0 0, M.getD 4 0, M.getD 8 0, M.getD 12 0,
   M.getD 1 0, M.getD 5 0, M.getD 9 0, M.getD 13 0,
   M.getD 2 0, M.getD 6 0, M.getD 10 0, M.getD 14 0]

/-- The engine routine `GetOrigin`: the translation row of the matrix. -/
def GetOrigin (M : FMatrix) : FVector := (M.getD 12 0, M.getD 13 0, M.getD 14 0)

/-- The conversion `FMatrix44f(const FMatrix&)` of line 675: every scalar of the matrix
is narrowed from `double` to `float`.  The narrowing of one scalar is the parameter
`toFloat`; it is a primitive of the language. -/
def FMatrix44f (toFloat : Int → Int) (M : FMatrix) : FMatrix := M.map toFloat

/-- The conversion `FVector3f(const FVector&)` of lines 678-680: the three scalars of the
vector, each narrowed from `double` to `float`. -/
def FVector3f (toFloat : Int → Int) (v : FVector) : FVector :=
  (toFloat v.1, toFloat v.2.1, toFloat v.2.2)

/-- The static `MaxGPUSkinBones` (line 14), which nothing in the file assigns. -/
def MaxGPUSkinBones : Nat := 256

/-- The members of `FShaderDataType` that the bone update reads and writes.  A slot of
`BoneBuffer` or `BoneFurOffsetsBuffer` is `none` while its `VertexBufferRHI` is not a valid
reference, and holds the contents of the buffer otherwise: scalars for the bone
matrices, vectors for the fur offsets (the fourth component that the conversion to
`FVector4f` adds is left out).  A reference to a slot is modelled by its index. -/
structure FShaderDataType where
  BoneBuffer : List (Option (List Int))
  BoneFurOffsetsBuffer : List (Option (List FVector))
  CurrentBuffer : Nat
  UniformBuffer : Option (List Int)
  BoneCount : Nat
  FeatureLevel : ERHIFeatureLevel
  Discontinuous : Bool
  deriving DecidableEq, Repr

/-- The constructor (lines 113-122).  It leaves `BoneCount` unset; the model starts it
at 0. -/
def FShaderDataType.new (InFeatureLevel : ERHIFeatureLevel) : FShaderDataType :=
  { BoneBuffer := [none, none], BoneFurOffsetsBuffer := [none, none], CurrentBuffer := 0,
    UniformBuffer := none, BoneCount := 0, FeatureLevel := InFeatureLevel,
    Discontinuous := true }

/-- The method `Init` (lines 131-134). -/
def FShaderDataType.Init (InBoneCount : Nat) (sd : FShaderDataType) : FShaderDataType :=
  { sd with BoneCount := u32 InBoneCount }

/-- The method `GoToNextFrame` (lines 593-598). -/
def GoToNextFrame (InDiscontinuous : Bool) (sd : FShaderDataType) : FShaderDataType :=
  { sd with CurrentBuffer := u32sub 1 sd.CurrentBuffer, Discontinuous := InDiscontinuous }

/-- The method `GetBoneBufferInternal` (lines 238-251): the index of the slot of
`BoneBuffer` it returns a reference to. -/
def GetBoneBufferInternal (sd : FShaderDataType) (bPrevious : Bool) : Nat :=
  let bPrevious := if sd.Discontinuous then false else bPrevious
  sd.CurrentBuffer ^^^ (if bPrevious then 1 else 0)

/-- The method `GetBoneFurOffsetsBufferInternal` (lines 253-266): the index of the slot
of `BoneFurOffsetsBuffer` it returns a reference to. -/
def GetBoneFurOffsetsBufferInternal (sd : FShaderDataType) (bPrevious : Bool) : Nat :=
  let bPrevious := if sd.Discontinuous then false else bPrevious
  sd.CurrentBuffer ^^^ (if bPrevious then 1 else 0)

/-- The method `GetBoneBufferForReading` (lines 163-180): the index of the slot it
returns a reference to. -/
def GetBoneBufferForReading (sd : FShaderDataType) (bPrevious : Bool) : Except Fault Nat :=
  if (sd.BoneBuffer.getD (GetBoneBufferInternal sd bPrevious) none).isSome then
    Except.ok (GetBoneBufferInternal sd bPrevious)
  else if bPrevious then
    if (sd.BoneBuffer.getD (GetBoneBufferInternal sd false) none).isSome then
      Except.ok (GetBoneBufferInternal sd false)
    else Except.error Fault.checkFailed
  else Except.error Fault.checkFailed

/-- The method `GetBoneBufferForWriting` (lines 185-191). -/
def GetBoneBufferForWriting (sd : FShaderDataType) (bPrevious : Bool) : Nat :=
  GetBoneBufferInternal sd bPrevious

/-- The method `GetBoneFurOffsetsBufferForReading` (lines 193-210). -/
def GetBoneFurOffsetsBufferForReading (sd : FShaderDataType) (bPrevious : Bool) :
    Except Fault Nat :=
  if (sd.BoneFurOffsetsBuffer.getD (GetBoneFurOffsetsBufferInternal sd bPrevious) none).isSome then
    Except.ok (GetBoneFurOffsetsBufferInternal sd bPrevious)
  else if bPrevious then
    if (sd.BoneFurOffsetsBuffer.getD (GetBoneFurOffsetsBufferInternal sd false) none).isSome then
      Except.ok (GetBoneFurOffsetsBufferInternal sd false)
    else Except.error Fault.checkFailed
  else Except.error Fault.checkFailed

/-- The method `GetBoneFurOffsetsBufferForWriting` (lines 212-218). -/
def GetBoneFurOffsetsBufferForWriting (sd : FShaderDataType) (bPrevious : Bool) : Nat :=
  GetBoneFurOffsetsBufferInternal sd bPrevious

/-- The scalars `vals` written to memory from position `pos` on. -/
def writeFloats (mem : List Int) (pos : Nat) : List Int → List Int
  | [] => mem
  | v :: vals => writeFloats (mem.set pos v) (pos + 1) vals

/-- The loop of lines 668-681 (feature level `ES3_1` and above), with `k` bones left:
the transposed matrix and the three offset vectors of bone `BoneIdx`, each converted from
`double` to `float` scalars before it is stored. -/
def updateBoneLoop (toFloat : Int → Int) (ReferenceToLocalMatrices : List FMatrix)
    (LinearOffsets AngularOffsets : List FVector)
    (LastTransformations : List FMatrix) (BoneMap : List Nat) :
    Nat → Nat → List Int × List FVector → List Int × List FVector
  | 0, _, m => m
  | k + 1, BoneIdx, (ChunkMatrices, Offsets) =>
    let RefToLocalIdx := BoneMap.getD BoneIdx 0
    let RefToLocal := FMatrix44f toFloat (ReferenceToLocalMatrices.getD RefToLocalIdx [])
    let ChunkMatrices := writeFloats ChunkMatrices (BoneIdx * 12) (To3x4MatrixTranspose RefToLocal)
    let Offsets := Offsets.set (BoneIdx * 3)
      (FVector3f toFloat (LinearOffsets.getD RefToLocalIdx default))
    let Offsets := Offsets.set (BoneIdx * 3 + 1)
      (FVector3f toFloat (AngularOffsets.getD RefToLocalIdx default))
    let Offsets := Offsets.set (BoneIdx * 3 + 2)
      (FVector3f toFloat (GetOrigin (LastTransformations.getD RefToLocalIdx [])))
    updateBoneLoop toFloat ReferenceToLocalMatrices LinearOffsets AngularOffsets
      LastTransformations BoneMap k (BoneIdx + 1) (ChunkMatrices, Offsets)

/-- The loop of lines 686-695 (below feature level `ES3_1`), with `k` bones left. -/
def uniformBoneLoop (toFloat : Int → Int) (ReferenceToLocalMatrices : List FMatrix)
    (BoneMap : List Nat) : Nat → Nat → List Int → List Int
  | 0, _, ChunkMatrices => ChunkMatrices
  | k + 1, BoneIdx, ChunkMatrices =>
    let RefToLocalIdx := BoneMap.getD BoneIdx 0
    let RefToLocal := FMatrix44f toFloat (ReferenceToLocalMatrices.getD RefToLocalIdx [])
    uniformBoneLoop toFloat ReferenceToLocalMatrices BoneMap k (BoneIdx + 1)
      (writeFloats ChunkMatrices (BoneIdx * 12) (To3x4MatrixTranspose RefToLocal))

/-- The creation of the buffer of slot `i` when the slot is not valid (lines 625-633 and
the like): `size` elements of unspecified contents, modelled by the default element. -/
def createIfInvalid {α : Type} [Inhabited α] (Slots : List (Option (List α))) (i size : Nat) :
    List (Option (List α)) :=
  if (Slots.getD i none).isSome then Slots else Slots.set i (some (List.replicate size default))

/-- The method `UpdateBoneData` (lines 600-711).  The second component of the state is
the memory of the static `GBoneUniformStruct`, in scalars.  The thread checks are left
out.  A write through a locked pointer beyond the end of its buffer is the fault
`outOfBounds`, raised before the loop.  `toFloat` is the narrowing of a scalar from
`double` to `float`. -/
def UpdateBoneData (toFloat : Int → Int) (ReferenceToLocalMatrices : List FMatrix)
    (LinearOffsets AngularOffsets : List FVector)
    (LastTransformations : List FMatrix) (BoneMap : List Nat) (InDiscontinuous : Bool)
    (InFeatureLevel : ERHIFeatureLevel) (sd : FShaderDataType) (GBoneUniformStruct : List Int) :
    Except Fault (FShaderDataType × List Int) :=
  let NumBones := BoneMap.length
  if NumBones ≤ MaxGPUSkinBones then
    if InFeatureLevel.toNat ≥ ERHIFeatureLevel.ES3_1.toNat then
      let sd := GoToNextFrame InDiscontinuous sd
      let CurrentBoneBuffer := GetBoneBufferForWriting sd false
      let NumVectors := u32 (NumBones * 3)
      if NumVectors ≤ MaxGPUSkinBones * 3 then
        let sd := { sd with
          BoneBuffer := createIfInvalid sd.BoneBuffer CurrentBoneBuffer (NumVectors * 4) }
        let CurrentBoneFurOffsetsBuffer := GetBoneFurOffsetsBufferForWriting sd false
        let sd := { sd with
          BoneFurOffsetsBuffer :=
            createIfInvalid sd.BoneFurOffsetsBuffer CurrentBoneFurOffsetsBuffer (NumBones * 3) }
        if NumBones = 0 then Except.ok (sd, GBoneUniformStruct)
        else
          match sd.BoneBuffer.getD CurrentBoneBuffer none,
              sd.BoneFurOffsetsBuffer.getD CurrentBoneFurOffsetsBuffer none with
          | some ChunkMatrices, some Offsets =>
            if NumBones * 12 ≤ ChunkMatrices.length ∧ NumBones * 3 ≤ Offsets.length then
              let m := updateBoneLoop toFloat ReferenceToLocalMatrices LinearOffsets
                AngularOffsets LastTransformations BoneMap NumBones 0 (ChunkMatrices, Offsets)
              Except.ok
                ({ sd with
                    BoneBuffer := sd.BoneBuffer.set CurrentBoneBuffer (some m.1)
                    BoneFurOffsetsBuffer :=
                      sd.BoneFurOffsetsBuffer.set CurrentBoneFurOffsetsBuffer (some m.2) },
                  GBoneUniformStruct)
            else Except.error Fault.outOfBounds
          | _, _ => Except.error Fault.nullPointer
      else Except.error Fault.checkFailed
    else
      if NumBones ≠ 0 ∧ ¬ (NumBones * 12 ≤ GBoneUniformStruct.length) then
        Except.error Fault.checkFailed
      else
        let G := uniformBoneLoop toFloat ReferenceToLocalMatrices BoneMap NumBones 0
          GBoneUniformStruct
        Except.ok ({ sd with UniformBuffer := some G }, G)
  else Except.error Fault.checkFailed

/-- The method `InitDynamicRHI` (lines 713-790). -/
def InitDynamicRHI (sd : FShaderDataType) (GBoneUniformStruct : List Int) :
    Except Fault FShaderDataType :=
  let NumBones := sd.BoneCount
  if NumBones ≤ MaxGPUSkinBones then
    if sd.FeatureLevel.toNat ≥ ERHIFeatureLevel.ES3_1.toNat then
      let NumVectors := u32 (NumBones * 3)
      if NumVectors ≤ MaxGPUSkinBones * 3 then
        let sd := { sd with
          BoneBuffer :=
            createIfInvalid sd.BoneBuffer (GetBoneBufferForWriting sd false) (NumVectors * 4) }
        let sd := { sd with
          BoneBuffer :=
            createIfInvalid sd.BoneBuffer (GetBoneBufferForWriting sd true) (NumVectors * 4) }
        let sd := { sd with
          BoneFurOffsetsBuffer :=
            createIfInvalid sd.BoneFurOffsetsBuffer (GetBoneFurOffsetsBufferForWriting sd false)
              (NumBones * 3) }
        let sd := { sd with
          BoneFurOffsetsBuffer :=
            createIfInvalid sd.BoneFurOffsetsBuffer (GetBoneFurOffsetsBufferForWriting sd true)
              (NumBones * 3) }
        Except.ok sd
      else Except.error Fault.checkFailed
    else
      if NumBones ≠ 0 ∧ ¬ (NumBones * 12 ≤ GBoneUniformStruct.length) then
        Except.error Fault.checkFailed
      else Except.ok { sd with UniformBuffer := some GBoneUniformStruct }
  else Except.error Fault.checkFailed


/-! ## The vertex factories (lines 449-545, 919-977) -/

/-- The eight vertex factory classes (lines 449-545). -/
inductive FurSkinVertexFactoryClass where
  | FMorphPhysicsExtraInfluencesFurSkinVertexFactory
  | FPhysicsExtraInfluencesFurSkinVertexFactory
  | FMorphExtraInfluencesFurSkinVertexFactory
  | FExtraInfluencesFurSkinVertexFactory
  | FMorphPhysicsFurSkinVertexFactory
  | FPhysicsFurSkinVertexFactory
  | FMorphFurSkinVertexFactory
  | FFurSkinVertexFactory
  deriving DecidableEq, Repr

/-- The template argument `MorphTargets` of the base class
`FFurSkinVertexFactoryBase<MorphTargets, Physics, ExtraInfluences>` of each class. -/
def FurSkinVertexFactoryClass.MorphTargets : FurSkinVertexFactoryClass → Bool
  | .FMorphPhysicsExtraInfluencesFurSkinVertexFactory => true
  | .FPhysicsExtraInfluencesFurSkinVertexFactory => false
  | .FMorphExtraInfluencesFurSkinVertexFactory => true
  | .FExtraInfluencesFurSkinVertexFactory => false
  | .FMorphPhysicsFurSkinVertexFactory => true
  | .FPhysicsFurSkinVertexFactory => false
  | .FMorphFurSkinVertexFactory => true
  | .FFurSkinVertexFactory => false

/-- The template argument `Physics` of the base class of each class. -/
def FurSkinVertexFactoryClass.Physics : FurSkinVertexFactoryClass → Bool
  | .FMorphPhysicsExtraInfluencesFurSkinVertexFactory => true
  | .FPhysicsExtraInfluencesFurSkinVertexFactory => true
  | .FMorphExtraInfluencesFurSkinVertexFactory => false
  | .FExtraInfluencesFurSkinVertexFactory => false
  | .FMorphPhysicsFurSkinVertexFactory => true
  | .FPhysicsFurSkinVertexFactory => true
  | .FMorphFurSkinVertexFactory => false
  | .FFurSkinVertexFactory => false

/-- The template argument `ExtraInfluences` of the base class of each class. -/
def FurSkinVertexFactoryClass.ExtraInfluences : FurSkinVertexFactoryClass → Bool
  | .FMorphPhysicsExtraInfluencesFurSkinVertexFactory => true
  | .FPhysicsExtraInfluencesFurSkinVertexFactory => true
  | .FMorphExtraInfluencesFurSkinVertexFactory => true
  | .FExtraInfluencesFurSkinVertexFactory => true
  | .FMorphPhysicsFurSkinVertexFactory => false
  | .FPhysicsFurSkinVertexFactory => false
  | .FMorphFurSkinVertexFactory => false
  | .FFurSkinVertexFactory => false

/-- A vertex factory object: its class, its shader data, and what `Init` was told: the
two template arguments of `Init` (whether the tangent basis and the texture coordinates
are of high precision) and the morph vertex buffer, by address. -/
structure FFurVertexFactory where
  Class : FurSkinVertexFactoryClass
  ShaderData : FShaderDataType
  TangentBasisHighPrecision : Bool
  UVHighPrecision : Bool
  MorphVertexBuffer : Option Nat
  deriving DecidableEq, Repr

/-- The constructor of a factory class (lines 340-343 and 449-545): the shader data is
constructed with the feature level. -/
def FFurVertexFactory.new (Class : FurSkinVertexFactoryClass)
    (InFeatureLevel : ERHIFeatureLevel) : FFurVertexFactory :=
  { Class := Class, ShaderData := FShaderDataType.new InFeatureLevel,
    TangentBasisHighPrecision := false, UVHighPrecision := false, MorphVertexBuffer := none }

/-- The method `Init<TangentBasisTypeT, UVTypeT>` of a factory (lines 291-326). -/
def FFurVertexFactory.Init (TangentBasisTypeT UVTypeT : Bool) (MorphVertexBuffer : Option Nat)
    (BoneCount : Nat) (vf : FFurVertexFactory) : FFurVertexFactory :=
  { vf with
    ShaderData := FShaderDataType.Init BoneCount vf.ShaderData
    TangentBasisHighPrecision := TangentBasisTypeT
    UVHighPrecision := UVTypeT
    MorphVertexBuffer := MorphVertexBuffer }

/-- The lambda `CreateVertexFactory` of `CreateVertexFactories` (lines 921-939): it
initialises the new factory `vf` for section `s` and adds it to the array. -/
def CreateVertexFactory (d : FFurSkinData) (InMorphVertexBuffer : Option Nat)
    (VertexFactories : List FFurVertexFactory) (s : FSection) (vf : FFurVertexFactory) :
    List FFurVertexFactory :=
  let vf :=
    if d.bUseHighPrecisionTangentBasis then
      if d.bUseFullPrecisionUVs then vf.Init true true InMorphVertexBuffer s.NumBones
      else vf.Init true false InMorphVertexBuffer s.NumBones
    else
      if d.bUseFullPrecisionUVs then vf.Init false true InMorphVertexBuffer s.NumBones
      else vf.Init false false InMorphVertexBuffer s.NumBones
  VertexFactories ++ [vf]

/-- The body of the loop of `CreateVertexFactories` for section `s` (lines 943-975). -/
def createSectionFactory (d : FFurSkinData) (InMorphVertexBuffer : Option Nat)
    (InPhysics : Bool) (InFeatureLevel : ERHIFeatureLevel)
    (VertexFactories : List FFurVertexFactory) (s : FSection) : List FFurVertexFactory :=
  if InPhysics = true ∧ InFeatureLevel.toNat ≥ ERHIFeatureLevel.ES3_1.toNat then
    if InMorphVertexBuffer.isSome then
      if d.HasExtraBoneInfluences then
        CreateVertexFactory d InMorphVertexBuffer VertexFactories s
          (FFurVertexFactory.new
            .FMorphPhysicsExtraInfluencesFurSkinVertexFactory InFeatureLevel)
      else
        CreateVertexFactory d InMorphVertexBuffer VertexFactories s
          (FFurVertexFactory.new .FMorphPhysicsFurSkinVertexFactory InFeatureLevel)
    else
      if d.HasExtraBoneInfluences then
        CreateVertexFactory d InMorphVertexBuffer VertexFactories s
          (FFurVertexFactory.new .FPhysicsExtraInfluencesFurSkinVertexFactory InFeatureLevel)
      else
        CreateVertexFactory d InMorphVertexBuffer VertexFactories s
          (FFurVertexFactory.new .FPhysicsFurSkinVertexFactory InFeatureLevel)
  else
    if InMorphVertexBuffer.isSome then
      if d.HasExtraBoneInfluences then
        CreateVertexFactory d InMorphVertexBuffer VertexFactories s
          (FFurVertexFactory.new .FMorphExtraInfluencesFurSkinVertexFactory InFeatureLevel)
      else
        CreateVertexFactory d InMorphVertexBuffer VertexFactories s
          (FFurVertexFactory.new .FMorphFurSkinVertexFactory InFeatureLevel)
    else
      if d.HasExtraBoneInfluences then
        CreateVertexFactory d InMorphVertexBuffer VertexFactories s
          (FFurVertexFactory.new .FExtraInfluencesFurSkinVertexFactory InFeatureLevel)
      else
        CreateVertexFactory d InMorphVertexBuffer VertexFactories s
          (FFurVertexFactory.new .FFurSkinVertexFactory InFeatureLevel)

/-- `FFurSkinData::CreateVertexFactories` (lines 919-977): the array `VertexFactories`
after the call. -/
def CreateVertexFactories (d : FFurSkinData) (VertexFactories : List FFurVertexFactory)
    (InMorphVertexBuffer : Option Nat) (InPhysics : Bool) (InFeatureLevel : ERHIFeatureLevel) :
    List FFurVertexFactory :=
  d.Sections.foldl (createSectionFactory d InMorphVertexBuffer InPhysics InFeatureLevel)
    VertexFactories


/-! ## What the sparse build may write -/

/-- Two vertices agree on everything the sparse build has no access to: position,
tangents, first texture coordinate, colour and bone influences. -/
def sameFrame (a b : FFurSkinVertex) : Prop :=
  a.Position = b.Position ∧ a.TangentX = b.TangentX ∧ a.TangentZ = b.TangentZ ∧
  a.UV0 = b.UV0 ∧ a.Color = b.Color ∧ a.InfluenceBones = b.InfluenceBones ∧
  a.InfluenceWeights = b.InfluenceWeights

/-- Index `j` of the expanded vertex buffer is a destination of the vertex set: there
are a listed vertex `v`, a layer and a section whose source range holds `v` such that
`j` is the `DstVertexIndex` of `v` in that layer and section. -/
def isDestination (env : Env) (d : FFurSkinData) (LocalSections : List FSection)
    (InVertexSet : List Nat) (j : Nat) : Prop :=
  ∃ v, v ∈ InVertexSet ∧ ∃ Layer, Layer < d.FurLayerCount ∧
    ∃ s, s < env.RenderSections.length ∧
      (scanAt env d.FurLayerCount LocalSections s).SectionVertexIndexBegin ≤ v ∧
      v < (scanAt env d.FurLayerCount LocalSections s).SectionVertexIndexEnd ∧
      j = dstVertexIndex d (scanAt env d.FurLayerCount LocalSections s) Layer v

/-- What the memory may look like after some writes of the sparse build: same length,
every vertex agrees with the original one outside `FurOffset`, `UV1`, `UV2`, `UV3`, and
every vertex that is not a destination is the original one. -/
def SparseFrame (env : Env) (d : FFurSkinData) (LocalSections : List FSection)
    (InVertexSet : List Nat) (mem0 mem : List FFurSkinVertex) : Prop :=
  mem.length = mem0.length ∧
  (∀ j, sameFrame (mem.getD j default) (mem0.getD j default)) ∧
  (∀ j, ¬ isDestination env d LocalSections InVertexSet j → mem[j]? = mem0[j]?)

/-! ## What the vertex pass measures -/

/-- The squared distances that the loop of lines 1233-1241 compares for one vertex: one
for every influence slot before the first slot of weight zero, to the reference
translation of the bone of that slot. -/
def vertexBoneDistances (RefPose : List FVector) (BoneMap : List Nat) (numInfluences : Nat)
    (v : FFurSkinVertex) : List Int :=
  ((List.range numInfluences).takeWhile
      (fun b => decide (v.InfluenceWeights.getD b 0 ≠ 0))).map
    (fun b => DistSquared v.Position
      (RefPose.getD (BoneMap.getD (v.InfluenceBones.getD b 0) 0) default))

/-- The squared distances that a full build compares: for every section `s`, for the
first `c s` vertices of the section (its first layer, which starts at
`L * (c 0 + ... + c (s-1))`), the distances of `vertexBoneDistances`. -/
def firstLayerDistances (env : Env) (numInfluences L : Nat) (c : Nat → Nat)
    (Vertices : List FFurSkinVertex) : List Int :=
  (List.range env.RenderSections.length).flatMap (fun s =>
    (List.range (c s)).flatMap (fun i =>
      vertexBoneDistances env.RefPose (env.RenderSections.getD s default).BoneMap
        numInfluences (Vertices.getD (L * Finset.sum (Finset.range s) c + i) default)))

/-- The slot of the dominant bone of a vertex: the first slot of greatest weight. -/
def dominantSlot (numInfluences : Nat) (v : FFurSkinVertex) : Nat :=
  (List.range numInfluences).foldl
    (fun best b =>
      if v.InfluenceWeights.getD best 0 < v.InfluenceWeights.getD b 0 then b else best) 0

/-- The squared distances of the claim: for every vertex with at least one bone
influence, the distance from its position to the reference translation of its dominant
bone. -/
def dominantBoneDistances (RefPose : List FVector) (BoneMap : List Nat) (numInfluences : Nat)
    (Vertices : List FFurSkinVertex) : List Int :=
  (Vertices.filter
      (fun v => decide (v.InfluenceWeights.getD (dominantSlot numInfluences v) 0 ≠ 0))).map
    (fun v => DistSquared v.Position
      (RefPose.getD (BoneMap.getD
        (v.InfluenceBones.getD (dominantSlot numInfluences v) 0) 0) default))

/-! ## What the index rebuild emits, as lists -/

/-- The indices a layer emits when faces without splines are removed: the three remapped
corners of every covered triangle, in the order of the source triangles. -/
def culledLayerIndices (env : Env) (data : FFurSkinData) (src : FSkelMeshRenderSection)
    (f : FSection) (Layer : Nat) : List Nat :=
  ((List.range src.NumTriangles).filter
      (fun t => triangleCovered env.SourceIndices data.SplineMap src.BaseIndex t)).flatMap
    (fun t =>
      [u32 (data.VertexRemap.getD (sourceIndexAt env.SourceIndices src.BaseIndex (t * 3)) 0
          + layerVertexOffset data.FurLayerCount f Layer),
       u32 (data.VertexRemap.getD (sourceIndexAt env.SourceIndices src.BaseIndex (t * 3 + 1)) 0
          + layerVertexOffset data.FurLayerCount f Layer),
       u32 (data.VertexRemap.getD (sourceIndexAt env.SourceIndices src.BaseIndex (t * 3 + 2)) 0
          + layerVertexOffset data.FurLayerCount f Layer)])

/-- The indices a layer emits when no face is removed: every source index of the
section, shifted. -/
def plainLayerIndices (env : Env) (data : FFurSkinData) (src : FSkelMeshRenderSection)
    (f : FSection) (Layer : Nat) : List Nat :=
  (List.range (u32 (src.NumTriangles * 3))).map
    (fun i => u32 (sourceIndexAt env.SourceIndices src.BaseIndex i
      + u32sub (layerVertexOffset data.FurLayerCount f Layer) src.BaseVertexIndex))

/-- The indices a layer emits. -/
def layerIndices (env : Env) (data : FFurSkinData) (src : FSkelMeshRenderSection)
    (f : FSection) (Layer : Nat) : List Nat :=
  if data.FurSplinesUsed && data.RemoveFacesWithoutSplines then
    culledLayerIndices env data src f Layer
  else plainLayerIndices env data src f Layer

/-- The indices a section emits: its layers in order. -/
def sectionIndices (env : Env) (data : FFurSkinData) (src : FSkelMeshRenderSection)
    (f : FSection) : List Nat :=
  (List.range data.FurLayerCount).flatMap (layerIndices env data src f)

/-- The indices all sections emit: the sections in order. -/
def allIndices (env : Env) (data : FFurSkinData) (LocalSections : List FSection) : List Nat :=
  (List.range env.RenderSections.length).flatMap
    (fun s => sectionIndices env data (env.RenderSections.getD s default)
      (LocalSections.getD s default))

/-- Every `check(VertexIndexOffset >= 0)` of the index rebuild holds: the offset of every
layer of every section is below `2^31`. -/
def OffsetsInRange (env : Env) (data : FFurSkinData) (LocalSections : List FSection) : Prop :=
  ∀ s, s < env.RenderSections.length → ∀ Layer, Layer < data.FurLayerCount →
    layerVertexOffset data.FurLayerCount (LocalSections.getD s default) Layer < 2147483648

/-- The writes `Indices[Idx++] = v` for the values `v` of a list, in order. -/
def putAll (vs : List Nat) (s : Nat × List Nat) : Nat × List Nat :=
  vs.foldl (fun s v => putIndex v s) s

/-- The fur section that the index rebuild leaves for source section `s`, given the fur
section `f` it found there and the value `BaseIndex` of `Idx` when it reached it. -/
def rebuiltSection (env : Env) (data : FFurSkinData) (s : Nat) (f : FSection)
    (BaseIndex : Nat) : FSection :=
  { f with
    MaterialIndex := (env.RenderSections.getD s default).MaterialIndex
    BaseIndex := BaseIndex
    NumTriangles :=
      u32sub (BaseIndex + (sectionIndices env data (env.RenderSections.getD s default) f).length)
        BaseIndex / 3
    NumBones := (env.RenderSections.getD s default).BoneMap.length }

/-- The index emitted for corner `i` (position in the triangle list of the section) in
layer `Layer`: through `VertexRemap` when faces without splines are removed (lines
1305-1307), by the shift of line 1315 otherwise. -/
def emittedCorner (env : Env) (data : FFurSkinData) (src : FSkelMeshRenderSection)
    (f : FSection) (Layer i : Nat) : Nat :=
  if data.FurSplinesUsed && data.RemoveFacesWithoutSplines then
    u32 (data.VertexRemap.getD (sourceIndexAt env.SourceIndices src.BaseIndex i) 0
      + layerVertexOffset data.FurLayerCount f Layer)
  else
    u32 (sourceIndexAt env.SourceIndices src.BaseIndex i
      + u32sub (layerVertexOffset data.FurLayerCount f Layer) src.BaseVertexIndex)

/-- The preconditions under which the index rebuild is studied: the section array has
an entry for every source section (`SetNum`), there is at least one layer, the
preallocated count `SourceIndices.Num() * FurLayerCount` fits an `int32`, the triangle
lists of the source sections fit together into the source index buffer, and every
`check(VertexIndexOffset >= 0)` holds. -/
def RebuildPre (env : Env) (data : FFurSkinData) (LocalSections : List FSection) : Prop :=
  env.RenderSections.length ≤ LocalSections.length ∧
  0 < data.FurLayerCount ∧
  env.SourceIndices.length * data.FurLayerCount < 2147483648 ∧
  ((List.range env.RenderSections.length).map
    (fun s => (env.RenderSections.getD s default).NumTriangles * 3)).sum
      ≤ env.SourceIndices.length ∧
  OffsetsInRange env data LocalSections

/-- Number of triangles of a source section whose three corners have a spline. -/
def coveredTriangles (env : Env) (data : FFurSkinData) (src : FSkelMeshRenderSection) : Nat :=
  ((List.range src.NumTriangles).filter
    (fun t => triangleCovered env.SourceIndices data.SplineMap src.BaseIndex t)).length

/-! ## What the spline generation produces -/

/-- The LOD that `GenerateSplines` reads: `InLod`, clamped to the last LOD of the base mesh. -/
def splinesLod (InSkeletalMesh : USkeletalMesh) (InLod : Int) : Nat :=
  if InLod ≥ InSkeletalMesh.length then InSkeletalMesh.length - 1 else InLod.toNat

/-- The guide meshes that are not null have the LOD `Lod`, so that line 1494 reads an
element of their `LODRenderData`. -/
def guidesHaveLod (InGuideMeshes : List (Option USkeletalMesh)) (Lod : Nat) : Prop :=
  ∀ mesh, some mesh ∈ InGuideMeshes → Lod < mesh.length

/-- The positions of a guide mesh at LOD `Lod`; a null guide mesh has none. -/
def meshPositions (GuideMesh : Option USkeletalMesh) (Lod : Nat) : List FVector :=
  match GuideMesh with
  | some mesh => mesh.getD Lod []
  | none => []

/-- The registry before the first call: no object, no task, no command. -/
def emptyCache : FurDataCache :=
  { FurSkinData := [], NextAddress := 0, CleanupTasks := 0, ReleaseCommands := [], Events := [] }

/-- The `RefCount` of the registered object at `Address`, if there is one. -/
def refCountOf (c : FurDataCache) (Address : Nat) : Option Int :=
  (c.FurSkinData.find? (fun o => decide (o.Address = Address))).map (fun o => o.RefCount)

/-- A call of `DestroyFurData` releases no object more often than its `RefCount` says it
is held. -/
def releasesHeld (InFurDataArray : List Nat) (c : FurDataCache) : Bool :=
  c.FurSkinData.all (fun o => decide ((InFurDataArray.count o.Address : Int) ≤ o.RefCount))

/-- Every `DestroyFurData` of the run releases held objects only. -/
def balancedRun (ce : CacheEnv) : List CacheOp → FurDataCache → Bool
  | [], _ => true
  | CacheOp.Create InFurLayerCount InLod InFurComponent :: ops, c =>
    match CreateFurData ce InFurLayerCount InLod InFurComponent c with
    | (c1, Except.ok _) => balancedRun ce ops c1
    | (_, Except.error _) => true
  | CacheOp.Destroy InFurDataArray :: ops, c =>
    releasesHeld InFurDataArray c && balancedRun ce ops (DestroyFurData InFurDataArray c)
  | CacheOp.Cleanup :: ops, c =>
    if c.CleanupTasks = 0 then balancedRun ce ops c else balancedRun ce ops (FurDataCleanupTask c)

/-- No build of the observed events runs while the lock is held; the first argument says
whether the lock is held at the start. -/
def buildsOutsideLock : Bool → List CacheEvent → Bool
  | _, [] => true
  | _, CacheEvent.Lock :: es => buildsOutsideLock true es
  | _, CacheEvent.Unlock :: es => buildsOutsideLock false es
  | held, CacheEvent.Build _ :: es => !held && buildsOutsideLock held es

/-- Every build of the observed events runs while the lock is held. -/
def buildsUnderLock : Bool → List CacheEvent → Bool
  | _, [] => true
  | _, CacheEvent.Lock :: es => buildsUnderLock true es
  | _, CacheEvent.Unlock :: es => buildsUnderLock false es
  | held, CacheEvent.Build _ :: es => held && buildsUnderLock held es

/-- The number of registered objects that compare equal to a configuration. -/
def matchCount (ce : CacheEnv) (InFurLayerCount InLod : Int) (InFurComponent : UGFurComponent)
    (FurSkinData : List FurDataObject) : Nat :=
  FurSkinData.countP (fun o => FFurSkinData.Compare ce o InFurLayerCount InLod InFurComponent)



/-- The entry `p` of the fur-offset buffer that the bone update writes: the linear offset,
the angular offset and the origin of the last transformation of the bone that entry
`p / 3` of the bone map names, in this order, each in `float` scalars. -/
def furOffsetEntry (toFloat : Int → Int) (LinearOffsets AngularOffsets : List FVector)
    (LastTransformations : List FMatrix) (BoneMap : List Nat) (p : Nat) : FVector :=
  if p % 3 = 0 then FVector3f toFloat (LinearOffsets.getD (BoneMap.getD (p / 3) 0) default)
  else if p % 3 = 1 then FVector3f toFloat (AngularOffsets.getD (BoneMap.getD (p / 3) 0) default)
  else FVector3f toFloat (GetOrigin (LastTransformations.getD (BoneMap.getD (p / 3) 0) []))


/-- The three template arguments of a factory class. -/
def variantFlags (c : FurSkinVertexFactoryClass) : Bool × Bool × Bool :=
  (c.MorphTargets, c.Physics, c.ExtraInfluences)


/-- Whether the source vertex `v` lies in the source range of section `s`, as the section
scan of the sparse build tests it. -/
abbrev inSectionRange (env : Env) (s v : Nat) : Prop :=
  (env.RenderSections.getD s default).BaseVertexIndex ≤ v ∧
  v < u32 ((env.RenderSections.getD s default).BaseVertexIndex
    + (env.RenderSections.getD s default).NumVertices)


/-- The configuration of a dataset, which no build changes, and the three precision flags,
which every build sets from the mesh. -/
def configuration (d : FFurSkinData) : Nat × Bool × Bool × Int × Bool × Bool × Bool :=
  (d.FurLayerCount, d.RemoveFacesWithoutSplines, d.FurSplinesUsed, d.FurLength,
    d.bUseHighPrecisionTangentBasis, d.bUseFullPrecisionUVs, d.HasExtraBoneInfluences)

/-- The members of a dataset that the vertex generation and the index rebuild read: the
configuration, and what the first statements of a build have generated. -/
def generationInputs (d : FFurSkinData) :
    (Nat × Bool × Bool × Int × Bool × Bool × Bool) × List FVector × List Int × List Nat × Nat :=
  (configuration d, d.Normals, d.SplineMap, d.VertexRemap, d.VertexCountPerLayer)

/-- The routines that a build calls and this file does not define are functions of what
they read: `UnpackNormals` of the configuration, `GenerateSplineMap` of the configuration
and the normals, `GenerateFurVertices` of the generation inputs and the range; it returns
the count of the vertices of one layer, keeps the size of the memory and writes
`count * FurLayerCount` vertices from the pointer on.  The lock of `n` vertices gives a
memory of `n` vertices. -/
def DeterministicRoutines (env : Env) : Prop :=
  (∀ a b, configuration a = configuration b → env.UnpackNormals a = env.UnpackNormals b) ∧
  (∀ a b, configuration a = configuration b → a.Normals = b.Normals →
    env.GenerateSplineMap a = env.GenerateSplineMap b) ∧
  (∀ a b Begin End (m1 m2 : List FFurSkinVertex),
    generationInputs a = generationInputs b → m1.length = m2.length →
      (env.GenerateFurVertices a Begin End m1).2 = (env.GenerateFurVertices b Begin End m2).2 ∧
      (env.GenerateFurVertices a Begin End m1).1.length = m1.length ∧
      (env.GenerateFurVertices a Begin End m1).1.take
          ((env.GenerateFurVertices a Begin End m1).2 * a.FurLayerCount)
        = (env.GenerateFurVertices b Begin End m2).1.take
          ((env.GenerateFurVertices a Begin End m1).2 * a.FurLayerCount)) ∧
  (∀ n buf, ∃ mem, env.Lock n buf = some mem ∧ mem.length = n)

/-- The expanded index of the specification for the source vertex `v` in layer `Layer` of
the section with source section `src` and fur section `f`:
`MinVertexIndex + Layer * ((MaxVertexIndex + 1 - MinVertexIndex) / L) + (v - BaseVertexIndex)`,
with `VertexRemap[v]` in place of `v - BaseVertexIndex` when a vertex remap is present. -/
def specExpandedIndex (VertexRemap : List Nat) (L : Nat) (src : FSkelMeshRenderSection)
    (f : FSection) (Layer v : Nat) : Nat :=
  f.MinVertexIndex + Layer * ((f.MaxVertexIndex + 1 - f.MinVertexIndex) / L)
    + (if 0 < VertexRemap.length then VertexRemap.getD v 0 else v - src.BaseVertexIndex)

/-- The two buffers hold the bone data of an update in bone-map order: for every local
bone index `i` below the length of the bone map, the 12 scalars from position `12 * i` of
`ChunkMatrices` are the transposed 3x4 form of `ReferenceToLocalMatrices[BoneMap[i]]`,
and the entries `3 * i`, `3 * i + 1` and `3 * i + 2` of `Offsets` are
`LinearOffsets[BoneMap[i]]`, `AngularOffsets[BoneMap[i]]` and the origin of
`LastTransformations[BoneMap[i]]`, all in `float` scalars. -/
def boneDataWritten (toFloat : Int → Int) (ReferenceToLocalMatrices : List FMatrix)
    (LinearOffsets AngularOffsets : List FVector) (LastTransformations : List FMatrix)
    (BoneMap : List Nat) (ChunkMatrices : List Int) (Offsets : List FVector) : Prop :=
  ∀ i, i < BoneMap.length →
    (ChunkMatrices.drop (12 * i)).take 12
      = To3x4MatrixTranspose
          (FMatrix44f toFloat (ReferenceToLocalMatrices.getD (BoneMap.getD i 0) [])) ∧
    3 * i + 2 < Offsets.length ∧
    Offsets.getD (3 * i) default
      = FVector3f toFloat (LinearOffsets.getD (BoneMap.getD i 0) default) ∧
    Offsets.getD (3 * i + 1) default
      = FVector3f toFloat (AngularOffsets.getD (BoneMap.getD i 0) default) ∧
    Offsets.getD (3 * i + 2) default
      = FVector3f toFloat (GetOrigin (LastTransformations.getD (BoneMap.getD i 0) []))

/-- The writes of the sparse build for one layer, as the specification describes them: for
every listed vertex `v` in turn, the vertex at the expanded index of `v` in this layer of
the section `sectionOf v` is regenerated in place. -/
def specSparseVertices (env : Env) (d : FFurSkinData) (LocalSections : List FSection)
    (sectionOf : Nat → Nat) (FurLengths : List Int) (Layer : Nat) (GenLayerData : Int) :
    List Nat → List FFurSkinVertex → List FFurSkinVertex
  | [], Vertices => Vertices
  | v :: rest, Vertices =>
    specSparseVertices env d LocalSections sectionOf FurLengths Layer GenLayerData rest
      (Vertices.set
        (specExpandedIndex d.VertexRemap d.FurLayerCount
          (env.RenderSections.getD (sectionOf v) default)
          (LocalSections.getD (sectionOf v) default) Layer v)
        (regenerateVertex env d FurLengths GenLayerData v
          (Vertices.getD
            (specExpandedIndex d.VertexRemap d.FurLayerCount
              (env.RenderSections.getD (sectionOf v) default)
              (LocalSections.getD (sectionOf v) default) Layer v)
            default)))

/-- The writes of the sparse build for the layers `Layer, ..., Layer + k - 1`, as the
specification describes them. -/
def specSparseLayers (env : Env) (d : FFurSkinData) (LocalSections : List FSection)
    (sectionOf : Nat → Nat) (FurLengths : List Int) (InVertexSet : List Nat) :
    Nat → Nat → List FFurSkinVertex → List FFurSkinVertex
  | 0, _, Vertices => Vertices
  | k + 1, Layer, Vertices =>
    specSparseLayers env d LocalSections sectionOf FurLengths InVertexSet k (Layer + 1)
      (specSparseVertices env d LocalSections sectionOf FurLengths Layer
        (env.CalcFurGenLayerData d (d.FurLayerCount - Layer)) InVertexSet Vertices)

/-- A dataset on which nothing has been built yet. -/
def newFurSkinData (FurLayerCount : Nat) (RemoveFacesWithoutSplines FurSplinesUsed : Bool) :
    FFurSkinData :=
  { FurLayerCount := FurLayerCount, OldFurLayerCount := 0,
    RemoveFacesWithoutSplines := RemoveFacesWithoutSplines,
    OldRemoveFacesWithoutSplines := false, FurSplinesUsed := FurSplinesUsed, FurLength := 1,
    bUseHighPrecisionTangentBasis := false, bUseFullPrecisionUVs := false,
    HasExtraBoneInfluences := false, Normals := [], SplineMap := [], VertexRemap := [],
    VertexCountPerLayer := 0, RenderThreadDataSubmissionPending := false, Sections := [],
    TempSections := [], VertexBuffer := [], IndexBuffer := [], VertexCount := 0,
    MaxVertexBoneDistance := 0, RenderQueue := [] }

/-- Number of source vertices in `[Begin, End)` that have a spline (`SplineMap >= 0`). -/
def coveredCount (SplineMap : List Int) (Begin End : Nat) : Nat :=
  ((List.range (End - Begin)).filter (fun i => decide (0 ≤ SplineMap.getD (Begin + i) (-1)))).length

/-- Integer square root, by counting the `r <= n` with `r * r <= n`. -/
def isqrt (n : Nat) : Nat :=
  ((List.range (n + 1)).filter (fun r => decide (r * r ≤ n))).length - 1

/-- A concrete environment: a mesh with the given sections, index buffer and source
vertices, spline data `SplineMap` and `VertexRemap`, and a vertex generator that leaves the
memory as it is and returns `count Begin End`. -/
def exampleEnv (RenderSections : List FSkelMeshRenderSection) (SourceIndices : List Nat)
    (SourceVertexCount : Nat) (SplineMap : List Int) (VertexRemap : List Nat)
    (VertexCountPerLayer : Nat) (count : Nat → Nat → Nat) (lockSucceeds : Bool) : Env :=
  { RenderSections := RenderSections, SourceIndices := SourceIndices,
    UseHighPrecisionTangentBasis := false, UseFullPrecisionUVs := false,
    MaxBoneInfluences := 4, PositionNumVertices := SourceVertexCount,
    SkinWeightNumVertices := SourceVertexCount, StaticMeshNumVertices := SourceVertexCount,
    ColorNumVertices := 0, RefPose := [(0, 0, 0)], WithEditorOnlyData := true,
    UnpackNormals := fun _ => List.replicate SourceVertexCount (0, 0, 1),
    GenerateSplineMap := fun _ => (SplineMap, VertexRemap, VertexCountPerLayer),
    GenerateFurVertices := fun _ Begin End mem => (mem, count Begin End),
    Lock := fun n mem => if lockSucceeds then some (SetNum mem n) else none,
    sqrtf := fun x => Int.ofNat (isqrt x.toNat),
    GenerateFurLengths := fun _ => [],
    CalcFurGenLayerData := fun _ n => Int.ofNat n,
    GenerateFurVertex := fun _ old Normal Length Layer _ =>
      ((Normal.1 * Length * Layer, Normal.2.1 * Length * Layer, Normal.2.2 * Length * Layer),
        old.2.1, old.2.2.1, old.2.2.2) }

/-- The end-to-end scenario of the specification: 100 vertices in one section, no guide
meshes. -/
def envOneSection : Env :=
  exampleEnv [{ BaseVertexIndex := 0, NumVertices := 100, BaseIndex := 0, NumTriangles := 2,
                MaterialIndex := 0, BoneMap := [0] }]
    [0, 1, 2, 2, 1, 3] 100 [] [] 100 (fun Begin End => End - Begin) true

/-- A mesh of two sections whose first section (3 vertices) has no spline at all and
whose second section (25 vertices) is covered; uncovered vertices are not generated. -/
def envFirstSectionUncovered : Env :=
  exampleEnv
    [{ BaseVertexIndex := 0, NumVertices := 3, BaseIndex := 0, NumTriangles := 1,
       MaterialIndex := 0, BoneMap := [0] },
     { BaseVertexIndex := 3, NumVertices := 25, BaseIndex := 3, NumTriangles := 1,
       MaterialIndex := 1, BoneMap := [0] }]
    [0, 1, 2, 3, 4, 5] 28
    ([-1, -1, -1] ++ (List.range 25).map Int.ofNat)
    ([0, 0, 0] ++ List.range 25) 25
    (coveredCount ([-1, -1, -1] ++ (List.range 25).map Int.ofNat)) true

/-- The two-section mesh above with a triangle list per section: section 0 has one
triangle on its uncovered vertices, section 1 has the triangles `(3, 4, 5)` and
`(5, 4, 6)` on covered vertices. -/
def envCulling : Env :=
  exampleEnv
    [{ BaseVertexIndex := 0, NumVertices := 3, BaseIndex := 0, NumTriangles := 1,
       MaterialIndex := 0, BoneMap := [0] },
     { BaseVertexIndex := 3, NumVertices := 4, BaseIndex := 3, NumTriangles := 2,
       MaterialIndex := 1, BoneMap := [0, 1] }]
    [0, 1, 2, 3, 4, 5, 5, 4, 6] 7
    [0, -1, 1, 2, 3, 4, 5] [0, 0, 1, 0, 1, 2, 3] 6
    (coveredCount [0, -1, 1, 2, 3, 4, 5]) true

/-- A dataset with two layers that removes faces without splines, with the spline map
and the vertex remap of `envCulling` already generated. -/
def dataCulling : FFurSkinData :=
  { newFurSkinData 2 true true with
    SplineMap := [0, -1, 1, 2, 3, 4, 5], VertexRemap := [0, 0, 1, 0, 1, 2, 3],
    VertexCountPerLayer := 6 }

/-- The section array that the vertex pass leaves for `envCulling` and `dataCulling`:
section 0 generates 2 vertices per layer, section 1 generates 4. -/
def sectionsCulling : List FSection :=
  (vertexPass envCulling BuildType.Full dataCulling (List.replicate 12 default)
    (SetNum [] 2)).LocalSections

/-- The dataset of the end-to-end scenario: 4 layers, no splines, no face removal. -/
def dataOneSection : FFurSkinData :=
  { newFurSkinData 4 false false with VertexCountPerLayer := 100 }

/-- The section array that the vertex pass leaves for the end-to-end scenario. -/
def sectionsOneSection : List FSection :=
  (vertexPass envOneSection BuildType.Full dataOneSection (List.replicate 400 default)
    (SetNum [] 1)).LocalSections

/-- A small mesh without splines: one section of 4 vertices and 2 triangles.  The
argument says whether `VertexBuffer.Lock` succeeds. -/
def envQuad (lockSucceeds : Bool) : Env :=
  exampleEnv [{ BaseVertexIndex := 0, NumVertices := 4, BaseIndex := 0, NumTriangles := 2,
                MaterialIndex := 0, BoneMap := [0] }]
    [0, 1, 2, 2, 1, 3] 4 [] [] 4 (fun Begin End => End - Begin) lockSucceeds

/-- The dataset after the first full build of `envQuad` with 2 layers, before the render
thread has run: the submission is pending. -/
def dataQuadPending : FFurSkinData :=
  match BuildFur (envQuad true) BuildType.Full (newFurSkinData 2 false false) with
  | Except.ok d => d
  | Except.error _ => newFurSkinData 2 false false

/-- The dataset after the first full build of `envQuad` with 2 layers and after the
render thread has run its commands. -/
def dataQuadBuilt : FFurSkinData := renderThreadDrain dataQuadPending

/-- The mesh of `envQuad` after an edit: the skin weights now have 8 influences and the
normals have changed. -/
def envQuadEdited : Env :=
  { envQuad true with
    MaxBoneInfluences := 8
    UnpackNormals := fun _ => List.replicate 4 (1, 0, 0) }

/-- A mesh with splines: one section of 4 vertices and 2 triangles, every vertex
covered by a spline. -/
def envSplinesAll : Env :=
  exampleEnv [{ BaseVertexIndex := 0, NumVertices := 4, BaseIndex := 0, NumTriangles := 2,
                MaterialIndex := 0, BoneMap := [0] }]
    [0, 1, 2, 2, 1, 3] 4 [0, 1, 2, 3] [0, 1, 2, 3] 4 (coveredCount [0, 1, 2, 3]) true

/-- The same mesh after the splines were edited: vertex 3 has lost its spline. -/
def envSplinesEdited : Env :=
  exampleEnv [{ BaseVertexIndex := 0, NumVertices := 4, BaseIndex := 0, NumTriangles := 2,
                MaterialIndex := 0, BoneMap := [0] }]
    [0, 1, 2, 2, 1, 3] 4 [0, 1, 2, -1] [0, 1, 2, 0] 3 (coveredCount [0, 1, 2, -1]) true

/-- The dataset (2 layers, faces without splines removed) after the first full build of
`envSplinesAll` and after the render thread has run its commands. -/
def dataSplinesBuilt : FFurSkinData :=
  match BuildFur envSplinesAll BuildType.Full (newFurSkinData 2 true true) with
  | Except.ok d => renderThreadDrain d
  | Except.error _ => newFurSkinData 2 true true

/-- The dataset with `MaxVertexBoneDistance` blanked out. -/
def withoutBoneDistance (d : FFurSkinData) : FFurSkinData :=
  { d with MaxVertexBoneDistance := 0 }

/-- A vertex at the origin skinned to bone slot 0 with weight 200 and to bone slot 1
with weight 55. -/
def vertexTwoBones : FFurSkinVertex :=
  { (default : FFurSkinVertex) with
    InfluenceBones := [0, 1, 0, 0], InfluenceWeights := [200, 55, 0, 0] }

/-- A mesh of one section with one vertex, skinned as `vertexTwoBones`; the reference
pose puts bone 0 at distance 1 and bone 1 at distance 10 from the vertex. -/
def envTwoBones : Env :=
  { exampleEnv [{ BaseVertexIndex := 0, NumVertices := 1, BaseIndex := 0, NumTriangles := 0,
                  MaterialIndex := 0, BoneMap := [0, 1] }]
      [] 1 [] [] 1 (fun Begin End => End - Begin) true with
    RefPose := [(1, 0, 0), (10, 0, 0)]
    GenerateFurVertices := fun _ Begin End mem =>
      ((mem.take (End - Begin)).map (fun _ => vertexTwoBones) ++ mem.drop (End - Begin),
        End - Begin) }

/-- A guide mesh whose only LOD has the first vertex only. -/
def guideOneVertex : USkeletalMesh := [[(7, 8, 9)]]

/-- The positions of a quad mesh with one LOD. -/
def meshQuad : USkeletalMesh := [[(0, 0, 0), (1, 0, 0), (1, 1, 0), (0, 1, 0)]]

/-- A registry environment of an editor build: layer counts from 1 to 128, a new object
held once, the comparison of the base class by layer count, LOD and component properties,
no spline asset assigned, the mesh `guideOneVertex` at address 8 and the quad mesh of
`envQuad` behind every other mesh address. -/
def exampleCacheEnv : CacheEnv :=
  { MinimalFurLayerCount := 1, MaximalFurLayerCount := 128, NewRefCount := 1,
    NewData := newFurSkinData 0 false false,
    SetData := fun L _ _ d => { d with FurLayerCount := L.toNat },
    FurSplinesAssigned := fun _ _ _ => false,
    Mesh := fun a => if a = 8 then guideOneVertex else meshQuad,
    WithEditorOnlyData := true,
    FFurData_Compare := fun s L Lod C =>
      decide (s.1 = L) && decide (s.2.1 = Lod) && decide (s.2.2.Properties = C.Properties),
    BuildEnv := fun _ _ => envQuad true }

/-- A component that grows fur on the mesh at address 7, without guide meshes. -/
def componentQuad : UGFurComponent :=
  { SkeletalGrowMesh := some 7, SkeletalGuideMeshes := [], Properties := [] }

/-- The registry after `CreateFurData(2, 0, componentQuad)` on the empty registry. -/
def cacheOneEntry : FurDataCache := (CreateFurData exampleCacheEnv 2 0 componentQuad emptyCache).1

/-- The object that this call registers: built with 2 layers on the quad mesh, held once. -/
def objectQuad : FurDataObject :=
  { Address := 0, RefCount := 1, Config := (2, 0, componentQuad), SkeletalMesh := some 7,
    GuideMeshes := [], Data := dataQuadPending, FurSplinesGenerated := none }

/-- The registry after the only holder of the object has released it and before the
cleanup task that the release started has run. -/
def cacheReleased : FurDataCache := DestroyFurData [0] cacheOneEntry


/-- A bone matrix: the identity with the translation (5, 6, 7). -/
def matrixTranslation : FMatrix := [1, 0, 0, 0, 0, 1, 0, 0, 0, 0, 1, 0, 5, 6, 7, 1]



/-- The shader data after the first update of one bone at feature level `SM5`, flag clear:
slot 1 of each buffer is created and written. -/
def stateOneUpdate : FShaderDataType :=
  { BoneBuffer := [none, some [1, 0, 0, 5, 0, 1, 0, 6, 0, 0, 1, 7]],
    BoneFurOffsetsBuffer := [none, some [(1, 1, 1), (2, 2, 2), (5, 6, 7)]],
    CurrentBuffer := 1, UniformBuffer := none, BoneCount := 0,
    FeatureLevel := ERHIFeatureLevel.SM5, Discontinuous := false }

/-- The shader data after a second update, with the flag set. -/
def stateDiscontinuous : FShaderDataType :=
  { BoneBuffer := [some [1, 0, 0, 5, 0, 1, 0, 6, 0, 0, 1, 7],
      some [1, 0, 0, 5, 0, 1, 0, 6, 0, 0, 1, 7]],
    BoneFurOffsetsBuffer := [some [(3, 3, 3), (4, 4, 4), (5, 6, 7)],
      some [(1, 1, 1), (2, 2, 2), (5, 6, 7)]],
    CurrentBuffer := 0, UniformBuffer := none, BoneCount := 0,
    FeatureLevel := ERHIFeatureLevel.SM5, Discontinuous := true }

/-- The shader data after a second update, with the flag clear. -/
def stateContinuous : FShaderDataType :=
  { stateDiscontinuous with Discontinuous := false }

/-- The shader data of one bone at feature level `SM5` after `InitDynamicRHI`: slot 0 of
each buffer is created, with the contents of a new buffer. -/
def stateInitialised : FShaderDataType :=
  { BoneBuffer := [some [0, 0, 0, 0, 0, 0, 0, 0, 0, 0, 0, 0], none],
    BoneFurOffsetsBuffer := [some [(0, 0, 0), (0, 0, 0), (0, 0, 0)], none],
    CurrentBuffer := 0, UniformBuffer := none, BoneCount := 1,
    FeatureLevel := ERHIFeatureLevel.SM5, Discontinuous := true }

/-- The shader data `stateInitialised` after a first update, with the flag clear. -/
def stateInitialisedUpdated : FShaderDataType :=
  { BoneBuffer := [some [0, 0, 0, 0, 0, 0, 0, 0, 0, 0, 0, 0],
      some [1, 0, 0, 5, 0, 1, 0, 6, 0, 0, 1, 7]],
    BoneFurOffsetsBuffer := [some [(0, 0, 0), (0, 0, 0), (0, 0, 0)],
      some [(1, 1, 1), (2, 2, 2), (5, 6, 7)]],
    CurrentBuffer := 1, UniformBuffer := none, BoneCount := 1,
    FeatureLevel := ERHIFeatureLevel.SM5, Discontinuous := false }


/-- The dataset after the first full build of `envQuadEdited` with 2 layers, before the
render thread has run: the skin weights have 8 influences. -/
def dataQuadPendingEdited : FFurSkinData :=
  match BuildFur envQuadEdited BuildType.Full (newFurSkinData 2 false false) with
  | Except.ok d => d
  | Except.error _ => newFurSkinData 2 false false


/-- The fur sections of the two-section mesh `envFirstSectionUncovered` built with 2 layers
and without face removal: 3 and 25 vertices per layer. -/
def sectionsTwoPlain : List FSection :=
  [{ MinVertexIndex := 0, MaxVertexIndex := 5, BaseIndex := 0, NumTriangles := 2,
     MaterialIndex := 0, NumBones := 1 },
   { MinVertexIndex := 6, MaxVertexIndex := 55, BaseIndex := 6, NumTriangles := 2,
     MaterialIndex := 1, NumBones := 1 }]


/-- The quad mesh of `envQuad` with a vertex generator that writes: it overwrites the
`(End - Begin) * FurLayerCount` vertices behind the pointer with the default vertex and
returns `End - Begin`. -/
def envQuadWriting : Env :=
  { envQuad true with
    GenerateFurVertices := fun d Begin End mem =>
      (List.replicate (min ((End - Begin) * d.FurLayerCount) mem.length) default
        ++ mem.drop ((End - Begin) * d.FurLayerCount), End - Begin) }

/-- The dataset after the first full build of `envQuadWriting` with 2 layers, before the
render thread has run. -/
def dataWritingPending : FFurSkinData :=
  match BuildFur envQuadWriting BuildType.Full (newFurSkinData 2 false false) with
  | Except.ok d => d
  | Except.error _ => newFurSkinData 2 false false

/-- The narrowing from `double` to `float` on the integers of absolute value up to
`2^24 + 1`: all of them are `float` values but `2^24 + 1` and its negative, which round
to `2^24` and its negative. -/
def narrowSingle (x : Int) : Int :=
  if x = 16777217 then 16777216 else if x = -16777217 then -16777216 else x

theorem u32_of_lt {n : Nat} (h : n < 4294967296) : u32 n = n := by
  unfold u32; omega

theorem u32_lt (n : Nat) : u32 n < 4294967296 := by
  unfold u32; omega

theorem u32sub_one {n : Nat} (h1 : 1 ≤ n) (h2 : n < 4294967296) : u32sub n 1 = n - 1 := by
  unfold u32sub; omega

theorem vertexPassSection_offset (env : Env) (Build : BuildType) (data : FFurSkinData)
    (k : Nat) (src : FSkelMeshRenderSection) (s : VertexPassState) :
    (vertexPassSection env Build data k src s).SectionVertexOffset =
      u32 (s.SectionVertexOffset + (env.GenerateFurVertices data src.BaseVertexIndex
        (u32 (src.BaseVertexIndex + src.NumVertices))
        (s.Vertices.drop s.SectionVertexOffset)).2 * data.FurLayerCount) := rfl

theorem vertexPassSection_sections (env : Env) (Build : BuildType) (data : FFurSkinData)
    (k : Nat) (src : FSkelMeshRenderSection) (s : VertexPassState)
    (hk : k < s.LocalSections.length) :
    (vertexPassSection env Build data k src s).LocalSections =
      s.LocalSections.set k
        { s.LocalSections.getD k default with
          MinVertexIndex := s.SectionVertexOffset
          MaxVertexIndex :=
            u32sub (vertexPassSection env Build data k src s).SectionVertexOffset 1 } := by
  simp only [vertexPassSection, List.set_set]
  congr 1
  simp [List.getD_eq_getElem?_getD, List.getElem?_set, hk]

/-- Invariant of the loop over the sections: when no `uint32` wraps, the loop started at
section `k` with offset `L * (c 0 + ... + c (k-1))` leaves the earlier sections alone and
gives section `k + i` the range that starts at `L * (c 0 + ... + c (k+i-1))`. -/
theorem vertexPassLoop_sections (env : Env) (Build : BuildType) (data : FFurSkinData)
    (c : Nat → Nat) :
    ∀ (secs : List FSkelMeshRenderSection) (k : Nat) (s : VertexPassState),
      (∀ (i : Nat) (h : i < secs.length) (tail : List FFurSkinVertex),
        (env.GenerateFurVertices data (secs.get ⟨i, h⟩).BaseVertexIndex
          (u32 ((secs.get ⟨i, h⟩).BaseVertexIndex + (secs.get ⟨i, h⟩).NumVertices)) tail).2
          = c (k + i)) →
      s.SectionVertexOffset = data.FurLayerCount * Finset.sum (Finset.range k) c →
      data.FurLayerCount * Finset.sum (Finset.range (k + secs.length)) c < 4294967296 →
      k + secs.length ≤ s.LocalSections.length →
      (vertexPassLoop env Build data secs k s).LocalSections.length = s.LocalSections.length ∧
      (vertexPassLoop env Build data secs k s).SectionVertexOffset =
        data.FurLayerCount * Finset.sum (Finset.range (k + secs.length)) c ∧
      (∀ i, i < k → (vertexPassLoop env Build data secs k s).LocalSections[i]? =
        s.LocalSections[i]?) ∧
      (∀ i, i < secs.length → ∃ f,
        (vertexPassLoop env Build data secs k s).LocalSections[k + i]? = some f ∧
        f.MinVertexIndex = data.FurLayerCount * Finset.sum (Finset.range (k + i)) c ∧
        f.MaxVertexIndex =
          u32sub (data.FurLayerCount * Finset.sum (Finset.range (k + i + 1)) c) 1) := by
  intro secs
  induction secs with
  | nil =>
    intro k s _ h0 _ _
    simp [vertexPassLoop, h0]
  | cons src rest ih =>
    intro k s hc h0 hsum hlen
    have hk : k < s.LocalSections.length := by
      simp only [List.length_cons] at hlen; omega
    have hck := hc 0 (by simp) (s.Vertices.drop s.SectionVertexOffset)
    simp only [List.get_eq_getElem, List.getElem_cons_zero, Nat.add_zero] at hck
    have hmono : data.FurLayerCount * Finset.sum (Finset.range (k + 1)) c ≤
        data.FurLayerCount * Finset.sum (Finset.range (k + (src :: rest).length)) c := by
      apply Nat.mul_le_mul_left
      apply Finset.sum_le_sum_of_subset
      intro x hx
      simp only [Finset.mem_range, List.length_cons] at hx ⊢
      omega
    have hoff : (vertexPassSection env Build data k src s).SectionVertexOffset =
        data.FurLayerCount * Finset.sum (Finset.range (k + 1)) c := by
      rw [vertexPassSection_offset, hck, h0, Finset.sum_range_succ, u32_of_lt]
      · ring
      · have : data.FurLayerCount * Finset.sum (Finset.range k) c + c k * data.FurLayerCount =
            data.FurLayerCount * Finset.sum (Finset.range (k + 1)) c := by
          rw [Finset.sum_range_succ]; ring
        omega
    have hsec := vertexPassSection_sections env Build data k src s hk
    have hlen1 : (vertexPassSection env Build data k src s).LocalSections.length =
        s.LocalSections.length := by
      rw [hsec]; simp
    have key := ih (k + 1) (vertexPassSection env Build data k src s)
      (by
        intro i h tail
        have := hc (i + 1) (by simp only [List.length_cons]; omega) tail
        simp only [List.get_eq_getElem, List.getElem_cons_succ] at this ⊢
        rw [this]; congr 1; omega)
      hoff
      (by
        have : k + 1 + rest.length = k + (src :: rest).length := by
          simp only [List.length_cons]; omega
        rw [this]; exact hsum)
      (by rw [hlen1]; simp only [List.length_cons] at hlen; omega)
    obtain ⟨k1, k2, k3, k4⟩ := key
    have hsplit : k + 1 + rest.length = k + (src :: rest).length := by
      simp only [List.length_cons]; omega
    refine ⟨?_, ?_, ?_, ?_⟩
    · simp only [vertexPassLoop]; rw [k1, hlen1]
    · simp only [vertexPassLoop]; rw [k2, hsplit]
    · intro i hi
      simp only [vertexPassLoop]
      rw [k3 i (by omega), hsec, List.getElem?_set]
      have : ¬ k = i := by omega
      simp [this]
    · intro i hi
      simp only [vertexPassLoop]
      cases i with
      | zero =>
        have hget : (vertexPassLoop env Build data rest (k + 1)
            (vertexPassSection env Build data k src s)).LocalSections[k]? =
            some { s.LocalSections.getD k default with
              MinVertexIndex := s.SectionVertexOffset
              MaxVertexIndex :=
                u32sub (vertexPassSection env Build data k src s).SectionVertexOffset 1 } := by
          rw [k3 k (by omega), hsec, List.getElem?_set]
          simp only [hk, if_true]
        refine ⟨_, hget, ?_, ?_⟩
        · simpa using h0
        · simp [hoff]
      | succ j =>
        simp only [List.length_cons] at hi
        obtain ⟨f, hf1, hf2, hf3⟩ := k4 j (by omega)
        refine ⟨f, ?_, ?_, ?_⟩
        · rw [← hf1]; congr 1; omega
        · rw [hf2]; congr 3; omega
        · rw [hf3]; congr 4; omega

theorem mul_sum_range_succ (L : Nat) (c : Nat → Nat) (i : Nat) :
    L * Finset.sum (Finset.range (i + 1)) c = L * Finset.sum (Finset.range i) c + L * c i := by
  rw [Finset.sum_range_succ, Nat.mul_add]

theorem sum_range_le_of_le (c : Nat → Nat) {i j : Nat} (h : i ≤ j) :
    Finset.sum (Finset.range i) c ≤ Finset.sum (Finset.range j) c := by
  apply Finset.sum_le_sum_of_subset
  intro x hx
  simp only [Finset.mem_range] at hx ⊢
  omega

/-- The ranges the vertex pass assigns when no `uint32` wraps and the first section is
not empty: section `i` starts at `L * (c 0 + ... + c (i-1))` and ends one before the start
of the next. -/
theorem vertexPass_ranges (env : Env) (Build : BuildType) (data : FFurSkinData)
    (Vertices : List FFurSkinVertex) (LocalSections : List FSection) (c : Nat → Nat)
    (hlen : LocalSections.length = env.RenderSections.length)
    (hc : ∀ (i : Nat) (h : i < env.RenderSections.length) (tail : List FFurSkinVertex),
      (env.GenerateFurVertices data (env.RenderSections.get ⟨i, h⟩).BaseVertexIndex
        (u32 ((env.RenderSections.get ⟨i, h⟩).BaseVertexIndex +
          (env.RenderSections.get ⟨i, h⟩).NumVertices)) tail).2 = c i)
    (hfirst : 0 < data.FurLayerCount * c 0)
    (hsum : data.FurLayerCount * Finset.sum (Finset.range env.RenderSections.length) c
      < 4294967296) :
    (vertexPass env Build data Vertices LocalSections).LocalSections.length =
      env.RenderSections.length ∧
    ∀ i f, (vertexPass env Build data Vertices LocalSections).LocalSections[i]? = some f →
      i < env.RenderSections.length ∧
      f.MinVertexIndex = data.FurLayerCount * Finset.sum (Finset.range i) c ∧
      f.MaxVertexIndex + 1 = data.FurLayerCount * Finset.sum (Finset.range (i + 1)) c := by
  have key := vertexPassLoop_sections env Build data c env.RenderSections 0
    { SectionVertexOffset := 0, MaxDistSq := 0, Vertices := Vertices,
      LocalSections := LocalSections }
    (by intro i h tail; rw [hc i h tail]; congr 1; omega)
    (by simp)
    (by rw [Nat.zero_add]; exact hsum)
    (by simp [hlen])
  obtain ⟨k1, _, _, k4⟩ := key
  have hl : (vertexPass env Build data Vertices LocalSections).LocalSections.length =
      env.RenderSections.length := by
    unfold vertexPass; rw [k1]; exact hlen
  refine ⟨hl, ?_⟩
  intro i f hf
  have hi : i < env.RenderSections.length := by
    rw [← hl]
    exact (List.getElem?_eq_some_iff.mp hf).1
  obtain ⟨g, hg1, hg2, hg3⟩ := k4 i hi
  rw [Nat.zero_add] at hg1 hg2 hg3
  have hfg : f = g := by
    unfold vertexPass at hf
    rw [hf] at hg1
    exact Option.some.inj hg1
  subst hfg
  refine ⟨hi, hg2, ?_⟩
  have h1 : data.FurLayerCount * c 0 ≤
      data.FurLayerCount * Finset.sum (Finset.range (i + 1)) c := by
    apply Nat.mul_le_mul_left
    have := sum_range_le_of_le c (show 1 ≤ i + 1 by omega)
    simpa using this
  have h2 : data.FurLayerCount * Finset.sum (Finset.range (i + 1)) c ≤
      data.FurLayerCount * Finset.sum (Finset.range env.RenderSections.length) c :=
    Nat.mul_le_mul_left _ (sum_range_le_of_le c (by omega))
  rw [hg3, u32sub_one (by omega) (by omega)]
  omega

/-! ## The index rebuild: loops as lists of writes -/

theorem putAll_nil (s : Nat × List Nat) : putAll [] s = s := rfl

theorem putAll_cons (v : Nat) (vs : List Nat) (s : Nat × List Nat) :
    putAll (v :: vs) s = putAll vs (putIndex v s) := rfl

theorem putAll_append (a b : List Nat) (s : Nat × List Nat) :
    putAll (a ++ b) s = putAll b (putAll a s) := by
  simp [putAll, List.foldl_append]

theorem putAll_fst (vs : List Nat) (s : Nat × List Nat) :
    (putAll vs s).1 = s.1 + vs.length := by
  induction vs generalizing s with
  | nil => simp [putAll_nil]
  | cons v vs ih =>
    rw [putAll_cons, ih]
    simp only [putIndex, List.length_cons]
    omega

theorem putAll_snd_length (vs : List Nat) (s : Nat × List Nat) :
    (putAll vs s).2.length = s.2.length := by
  induction vs generalizing s with
  | nil => simp [putAll_nil]
  | cons v vs ih =>
    rw [putAll_cons, ih]
    simp [putIndex]

/-- Writes that stay inside the array fill it in order: what lies before the final `Idx`
is what lay before the initial `Idx`, followed by the written values. -/
theorem putAll_take (vs : List Nat) (s : Nat × List Nat)
    (h : s.1 + vs.length ≤ s.2.length) :
    (putAll vs s).2.take (s.1 + vs.length) = s.2.take s.1 ++ vs := by
  induction vs generalizing s with
  | nil => simp [putAll_nil]
  | cons v vs ih =>
    simp only [List.length_cons] at h
    rw [putAll_cons]
    have h1 : (putIndex v s).1 + vs.length ≤ (putIndex v s).2.length := by
      simp only [putIndex, List.length_set]; omega
    have := ih (putIndex v s) h1
    have e : (putIndex v s).1 + vs.length = s.1 + (v :: vs).length := by
      simp only [putIndex, List.length_cons]; omega
    rw [e] at this
    rw [this]
    simp only [putIndex]
    have hlt : s.1 < s.2.length := by omega
    have hts : List.take s.1 (s.2.set s.1 v) = List.take s.1 s.2 := by
      rw [List.set_take]
      apply List.set_eq_of_length_le
      simp
    rw [List.take_succ, hts]
    simp [List.getElem?_set, hlt]

theorem emitPlain_eq (SourceIndices : List Nat) (BaseIndex off : Nat) (k i : Nat)
    (s : Nat × List Nat) :
    emitPlain SourceIndices BaseIndex off k i s =
      putAll ((List.range' i k).map
        (fun j => u32 (sourceIndexAt SourceIndices BaseIndex j + off))) s := by
  induction k generalizing i s with
  | zero => simp [emitPlain, putAll_nil]
  | succ k ih =>
    simp only [emitPlain, List.range'_succ, List.map_cons, putAll_cons]
    rw [ih]

theorem emitCulled_eq (SourceIndices : List Nat) (SplineMap : List Int) (VertexRemap : List Nat)
    (BaseIndex off : Nat) (k t : Nat) (s : Nat × List Nat) :
    emitCulled SourceIndices SplineMap VertexRemap BaseIndex off k t s =
      putAll (((List.range' t k).filter
          (fun t => triangleCovered SourceIndices SplineMap BaseIndex t)).flatMap
        (fun t =>
          [u32 (VertexRemap.getD (sourceIndexAt SourceIndices BaseIndex (t * 3)) 0 + off),
           u32 (VertexRemap.getD (sourceIndexAt SourceIndices BaseIndex (t * 3 + 1)) 0 + off),
           u32 (VertexRemap.getD (sourceIndexAt SourceIndices BaseIndex (t * 3 + 2)) 0 + off)]))
        s := by
  induction k generalizing t s with
  | zero => simp [emitCulled, putAll_nil]
  | succ k ih =>
    simp only [emitCulled, List.range'_succ]
    rw [ih]
    by_cases hc : triangleCovered SourceIndices SplineMap BaseIndex t = true
    · have hc2 := hc
      simp only [triangleCovered, Bool.and_eq_true, decide_eq_true_eq] at hc2
      rw [if_pos ⟨hc2.1.1, hc2.1.2, hc2.2⟩, List.filter_cons_of_pos hc]
      simp only [List.flatMap_cons, List.cons_append, List.nil_append, putAll_cons]
    · have hc2 := hc
      simp only [triangleCovered, Bool.and_eq_true, decide_eq_true_eq] at hc2
      rw [if_neg (fun h => hc2 ⟨⟨h.1, h.2.1⟩, h.2.2⟩), List.filter_cons_of_neg hc]

theorem rebuildLayer_eq (env : Env) (data : FFurSkinData) (src : FSkelMeshRenderSection)
    (f : FSection) (Layer : Nat) (s : Nat × List Nat)
    (h : layerVertexOffset data.FurLayerCount f Layer < 2147483648) :
    rebuildLayer env data src f Layer s = Except.ok (putAll (layerIndices env data src f Layer) s) := by
  unfold rebuildLayer layerIndices
  simp only
  rw [if_neg (by omega)]
  split
  · rw [emitCulled_eq, ← List.range_eq_range']; rfl
  · rw [emitPlain_eq, ← List.range_eq_range']; rfl

theorem rebuildLayers_eq (env : Env) (data : FFurSkinData) (src : FSkelMeshRenderSection)
    (f : FSection) (k Layer : Nat) (s : Nat × List Nat)
    (h : ∀ l, Layer ≤ l → l < Layer + k →
      layerVertexOffset data.FurLayerCount f l < 2147483648) :
    rebuildLayers env data src f k Layer s =
      Except.ok (putAll ((List.range' Layer k).flatMap (layerIndices env data src f)) s) := by
  induction k generalizing Layer s with
  | zero => simp [rebuildLayers, putAll_nil]
  | succ k ih =>
    simp only [rebuildLayers]
    rw [rebuildLayer_eq env data src f Layer s (h Layer (Nat.le_refl _) (by omega))]
    simp only
    rw [ih (Layer + 1) _ (fun l h1 h2 => h l (by omega) (by omega))]
    simp only [List.range'_succ, List.flatMap_cons, putAll_append]

theorem getD_set_eq {α : Type} (l : List α) (i : Nat) (a d : α) (h : i < l.length) :
    (l.set i a).getD i d = a := by
  simp [List.getD_eq_getElem?_getD, List.getElem?_set, h]

theorem getD_set_ne {α : Type} (l : List α) (i j : Nat) (a d : α) (h : i ≠ j) :
    (l.set i a).getD j d = l.getD j d := by
  simp [List.getD_eq_getElem?_getD, List.getElem?_set, h]

theorem layerIndices_congr (env : Env) (data : FFurSkinData) (src : FSkelMeshRenderSection)
    (f g : FSection) (h1 : f.MinVertexIndex = g.MinVertexIndex)
    (h2 : f.MaxVertexIndex = g.MaxVertexIndex) (Layer : Nat) :
    layerIndices env data src f Layer = layerIndices env data src g Layer := by
  simp only [layerIndices, culledLayerIndices, plainLayerIndices, layerVertexOffset, h1, h2]

theorem rebuildLayer_congr (env : Env) (data : FFurSkinData) (src : FSkelMeshRenderSection)
    (f g : FSection) (h1 : f.MinVertexIndex = g.MinVertexIndex)
    (h2 : f.MaxVertexIndex = g.MaxVertexIndex) (Layer : Nat) (s : Nat × List Nat) :
    rebuildLayer env data src f Layer s = rebuildLayer env data src g Layer s := by
  simp only [rebuildLayer, layerVertexOffset, h1, h2]

theorem rebuildLayers_congr (env : Env) (data : FFurSkinData) (src : FSkelMeshRenderSection)
    (f g : FSection) (h1 : f.MinVertexIndex = g.MinVertexIndex)
    (h2 : f.MaxVertexIndex = g.MaxVertexIndex) (k Layer : Nat) (s : Nat × List Nat) :
    rebuildLayers env data src f k Layer s = rebuildLayers env data src g k Layer s := by
  induction k generalizing Layer s with
  | zero => rfl
  | succ k ih =>
    simp only [rebuildLayers, rebuildLayer_congr env data src f g h1 h2]
    split
    · rfl
    · exact ih _ _

theorem rebuildLayers_update (env : Env) (data : FFurSkinData) (src : FSkelMeshRenderSection)
    (f : FSection) (m b : Nat) (k Layer : Nat) (s : Nat × List Nat) :
    rebuildLayers env data src { f with MaterialIndex := m, BaseIndex := b } k Layer s =
      rebuildLayers env data src f k Layer s :=
  rebuildLayers_congr env data src { f with MaterialIndex := m, BaseIndex := b } f rfl rfl
    k Layer s

theorem rebuildSection_eq (env : Env) (data : FFurSkinData) (i : Nat) (st : IndexPassState)
    (h : ∀ l, l < data.FurLayerCount →
      layerVertexOffset data.FurLayerCount (st.LocalSections.getD i default) l < 2147483648) :
    rebuildSection env data i st = Except.ok
      { Idx := st.Idx + (sectionIndices env data (env.RenderSections.getD i default)
          (st.LocalSections.getD i default)).length,
        Indices := (putAll (sectionIndices env data (env.RenderSections.getD i default)
          (st.LocalSections.getD i default)) (st.Idx, st.Indices)).2,
        LocalSections := st.LocalSections.set i
          (rebuiltSection env data i (st.LocalSections.getD i default) st.Idx) } := by
  unfold rebuildSection
  simp only
  rw [rebuildLayers_update,
    rebuildLayers_eq env data _ _ _ 0 _ (fun l _ h2 => h l (by omega))]
  simp only [← List.range_eq_range']
  rw [putAll_fst]
  rfl

/-- Invariant of the loop over the sections of the index rebuild: when every
`check(VertexIndexOffset >= 0)` holds, the loop returns, it has performed the writes of
`sectionIndices` for the sections `i, ..., i + k - 1` in order, and it has replaced
exactly these fur sections by `rebuiltSection`. -/
theorem rebuildSections_eq (env : Env) (data : FFurSkinData) (F : Nat → FSection) :
    ∀ (k i : Nat) (st : IndexPassState),
      (∀ j, i ≤ j → st.LocalSections.getD j default = F j) →
      (∀ j, i ≤ j → j < i + k → ∀ l, l < data.FurLayerCount →
        layerVertexOffset data.FurLayerCount (F j) l < 2147483648) →
      i + k ≤ st.LocalSections.length →
      ∃ st1, rebuildSections env data k i st = Except.ok st1 ∧
        (st1.Idx, st1.Indices) = putAll ((List.range' i k).flatMap
          (fun s => sectionIndices env data (env.RenderSections.getD s default) (F s)))
          (st.Idx, st.Indices) ∧
        st1.LocalSections.length = st.LocalSections.length ∧
        (∀ j, j < i ∨ i + k ≤ j →
          st1.LocalSections.getD j default = st.LocalSections.getD j default) ∧
        (∀ j, i ≤ j → j < i + k →
          st1.LocalSections.getD j default = rebuiltSection env data j (F j)
            (st.Idx + ((List.range' i (j - i)).flatMap
              (fun s => sectionIndices env data (env.RenderSections.getD s default)
                (F s))).length)) := by
  intro k
  induction k with
  | zero =>
    intro i st _ _ _
    refine ⟨st, rfl, ?_, rfl, fun _ _ => rfl, ?_⟩
    · simp [putAll_nil]
    · intro j h1 h2; omega
  | succ k ih =>
    intro i st hF hoff hlen
    have hi : i < st.LocalSections.length := by omega
    have hFi := hF i (Nat.le_refl _)
    have hsec := rebuildSection_eq env data i st
      (by rw [hFi]; exact hoff i (Nat.le_refl _) (by omega))
    rw [hFi] at hsec
    obtain ⟨st1, h1, h2, h3, h4, h5⟩ := ih (i + 1)
      { Idx := st.Idx + (sectionIndices env data (env.RenderSections.getD i default)
          (F i)).length,
        Indices := (putAll (sectionIndices env data (env.RenderSections.getD i default)
          (F i)) (st.Idx, st.Indices)).2,
        LocalSections := st.LocalSections.set i (rebuiltSection env data i (F i) st.Idx) }
      (by
        intro j hj
        simp only
        rw [getD_set_ne _ _ _ _ _ (by omega)]
        exact hF j (by omega))
      (fun j hj1 hj2 => hoff j (by omega) (by omega))
      (by simp only [List.length_set]; omega)
    refine ⟨st1, ?_, ?_, ?_, ?_, ?_⟩
    · simp only [rebuildSections]
      rw [hsec]
      exact h1
    · rw [h2, List.range'_succ, List.flatMap_cons, putAll_append]
      congr 1
      apply Prod.ext
      · simp [putAll_fst]
      · rfl
    · rw [h3]; simp
    · intro j hj
      rw [h4 j (by omega)]
      simp only
      rw [getD_set_ne _ _ _ _ _ (by omega)]
    · intro j hj1 hj2
      by_cases hji : j = i
      · subst hji
        rw [h4 j (by omega)]
        simp only
        rw [getD_set_eq _ _ _ _ hi]
        simp
      · rw [h5 j (by omega) (by omega)]
        simp only
        have e : j - i = (j - (i + 1)) + 1 := by omega
        rw [e, List.range'_succ, List.flatMap_cons, List.length_append]
        congr 1
        omega

/-! ## The index rebuild: the whole pass -/

theorem length_flatMap_const {α β : Type} (l : List α) (f : α → List β) (c : Nat)
    (h : ∀ a, a ∈ l → (f a).length = c) : (l.flatMap f).length = l.length * c := by
  induction l with
  | nil => simp
  | cons a l ih =>
    rw [List.flatMap_cons, List.length_append, h a (List.mem_cons_self a l),
      ih (fun b hb => h b (List.mem_cons_of_mem a hb)), List.length_cons]
    ring

theorem length_flatMap_eq_sum {α β : Type} (l : List α) (f : α → List β) :
    (l.flatMap f).length = (l.map (fun a => (f a).length)).sum := by
  induction l with
  | nil => simp
  | cons a l ih => rw [List.flatMap_cons, List.length_append, ih]; simp

theorem sum_map_le_sum_map {α : Type} (l : List α) (f g : α → Nat)
    (h : ∀ a, a ∈ l → f a ≤ g a) : (l.map f).sum ≤ (l.map g).sum := by
  induction l with
  | nil => simp
  | cons a l ih =>
    simp only [List.map_cons, List.sum_cons]
    have h1 := h a (List.mem_cons_self a l)
    have h2 := ih (fun b hb => h b (List.mem_cons_of_mem a hb))
    omega

theorem sum_map_mul_left_nat {α : Type} (l : List α) (c : Nat) (g : α → Nat) :
    (l.map (fun a => c * g a)).sum = c * (l.map g).sum := by
  induction l with
  | nil => simp
  | cons a l ih => simp only [List.map_cons, List.sum_cons, ih]; ring

theorem culledLayerIndices_length (env : Env) (data : FFurSkinData)
    (src : FSkelMeshRenderSection) (f : FSection) (Layer : Nat) :
    (culledLayerIndices env data src f Layer).length = coveredTriangles env data src * 3 := by
  unfold culledLayerIndices coveredTriangles
  exact length_flatMap_const _ _ 3 (fun _ _ => rfl)

theorem plainLayerIndices_length (env : Env) (data : FFurSkinData)
    (src : FSkelMeshRenderSection) (f : FSection) (Layer : Nat) :
    (plainLayerIndices env data src f Layer).length = u32 (src.NumTriangles * 3) := by
  simp [plainLayerIndices]

theorem coveredTriangles_le (env : Env) (data : FFurSkinData) (src : FSkelMeshRenderSection) :
    coveredTriangles env data src ≤ src.NumTriangles := by
  unfold coveredTriangles
  have := List.length_filter_le
    (fun t => triangleCovered env.SourceIndices data.SplineMap src.BaseIndex t)
    (List.range src.NumTriangles)
  simpa using this

/-- Number of indices one layer of a section emits. -/
theorem layerIndices_length (env : Env) (data : FFurSkinData) (src : FSkelMeshRenderSection)
    (f : FSection) (Layer : Nat) :
    (layerIndices env data src f Layer).length =
      if data.FurSplinesUsed && data.RemoveFacesWithoutSplines then
        coveredTriangles env data src * 3
      else u32 (src.NumTriangles * 3) := by
  unfold layerIndices
  split
  · exact culledLayerIndices_length env data src f Layer
  · exact plainLayerIndices_length env data src f Layer

theorem sectionIndices_length (env : Env) (data : FFurSkinData) (src : FSkelMeshRenderSection)
    (f : FSection) :
    (sectionIndices env data src f).length =
      data.FurLayerCount *
        (if data.FurSplinesUsed && data.RemoveFacesWithoutSplines then
          coveredTriangles env data src * 3
        else u32 (src.NumTriangles * 3)) := by
  unfold sectionIndices
  rw [length_flatMap_const _ _ _ (fun l _ => layerIndices_length env data src f l)]
  simp

theorem sectionIndices_length_le (env : Env) (data : FFurSkinData)
    (src : FSkelMeshRenderSection) (f : FSection) :
    (sectionIndices env data src f).length ≤ data.FurLayerCount * (src.NumTriangles * 3) := by
  rw [sectionIndices_length]
  apply Nat.mul_le_mul_left
  split
  · have := coveredTriangles_le env data src
    omega
  · unfold u32
    exact Nat.mod_le _ _

theorem allIndices_length_le (env : Env) (data : FFurSkinData) (LocalSections : List FSection)
    (h : ((List.range env.RenderSections.length).map
      (fun s => (env.RenderSections.getD s default).NumTriangles * 3)).sum
        ≤ env.SourceIndices.length) :
    (allIndices env data LocalSections).length ≤
      env.SourceIndices.length * data.FurLayerCount := by
  unfold allIndices
  rw [length_flatMap_eq_sum]
  calc ((List.range env.RenderSections.length).map (fun s =>
          (sectionIndices env data (env.RenderSections.getD s default)
            (LocalSections.getD s default)).length)).sum
      ≤ ((List.range env.RenderSections.length).map (fun s =>
          data.FurLayerCount * ((env.RenderSections.getD s default).NumTriangles * 3))).sum :=
        sum_map_le_sum_map _ _ _ (fun s _ => sectionIndices_length_le env data _ _)
    _ = data.FurLayerCount * ((List.range env.RenderSections.length).map
          (fun s => (env.RenderSections.getD s default).NumTriangles * 3)).sum :=
        sum_map_mul_left_nat _ _ _
    _ ≤ data.FurLayerCount * env.SourceIndices.length := Nat.mul_le_mul_left _ h
    _ = env.SourceIndices.length * data.FurLayerCount := Nat.mul_comm _ _

/-- The index rebuild as a whole: when every `check(VertexIndexOffset >= 0)` holds and
the emitted indices fit the preallocated array, the rebuild returns; the index array is
exactly the list of emitted indices and the fur sections of the source sections are
replaced by `rebuiltSection`. -/
theorem rebuildIndices_eq (env : Env) (data : FFurSkinData) (LocalSections : List FSection)
    (hlen : env.RenderSections.length ≤ LocalSections.length)
    (hoff : OffsetsInRange env data LocalSections)
    (hfit : (allIndices env data LocalSections).length ≤
      env.SourceIndices.length * data.FurLayerCount) :
    ∃ secs, rebuildIndices env data LocalSections =
        Except.ok (allIndices env data LocalSections, secs) ∧
      secs.length = LocalSections.length ∧
      (∀ j, env.RenderSections.length ≤ j →
        secs.getD j default = LocalSections.getD j default) ∧
      (∀ j, j < env.RenderSections.length →
        secs.getD j default = rebuiltSection env data j (LocalSections.getD j default)
          ((List.range j).flatMap
            (fun s => sectionIndices env data (env.RenderSections.getD s default)
              (LocalSections.getD s default))).length) := by
  obtain ⟨st1, h1, h2, h3, h4, h5⟩ := rebuildSections_eq env data
    (fun j => LocalSections.getD j default) env.RenderSections.length 0
    { Idx := 0, Indices := List.replicate (env.SourceIndices.length * data.FurLayerCount) 0,
      LocalSections := LocalSections }
    (fun _ _ => rfl)
    (fun j _ hj l hl => hoff j (by omega) l hl)
    (by simp only [Nat.zero_add]; exact hlen)
  rw [← List.range_eq_range'] at h2
  have hall : (st1.Idx, st1.Indices) = putAll (allIndices env data LocalSections)
      (0, List.replicate (env.SourceIndices.length * data.FurLayerCount) 0) := h2
  have hidx : st1.Idx = (allIndices env data LocalSections).length := by
    have := congrArg Prod.fst hall
    simp only [putAll_fst] at this
    omega
  have hind : st1.Indices = (putAll (allIndices env data LocalSections)
      (0, List.replicate (env.SourceIndices.length * data.FurLayerCount) 0)).2 :=
    congrArg Prod.snd hall
  have hindlen : st1.Indices.length = env.SourceIndices.length * data.FurLayerCount := by
    rw [hind, putAll_snd_length]; simp
  have htake : st1.Indices.take st1.Idx = allIndices env data LocalSections := by
    have := putAll_take (allIndices env data LocalSections)
      (0, List.replicate (env.SourceIndices.length * data.FurLayerCount) 0)
      (by simpa using hfit)
    simp only [Nat.zero_add, List.take_zero, List.nil_append] at this
    rw [hind, hidx]
    exact this
  refine ⟨st1.LocalSections, ?_, h3, ?_, ?_⟩
  · unfold rebuildIndices
    rw [h1]
    simp only
    rw [if_pos (by rw [hindlen, hidx]; exact hfit), htake]
  · intro j hj
    exact h4 j (Or.inr (by omega))
  · intro j hj
    have := h5 j (Nat.zero_le _) (by omega)
    simp only [Nat.sub_zero, Nat.zero_add, ← List.range_eq_range'] at this
    exact this

theorem flatMap_congr_mem {α β : Type} (l : List α) (f g : α → List β)
    (h : ∀ a, a ∈ l → f a = g a) : l.flatMap f = l.flatMap g := by
  induction l with
  | nil => rfl
  | cons a l ih =>
    rw [List.flatMap_cons, List.flatMap_cons, h a (List.mem_cons_self a l),
      ih (fun b hb => h b (List.mem_cons_of_mem a hb))]

/-! ## C1 -/

/-- C1, as stated, fails: when the first section generates no vertex (here all three of
its vertices lack a spline and faces without splines are removed), the `uint32`
expression `SectionVertexOffset - 1` wraps, the section gets the range
`[0, 4294967295]`, its `MaxVertexIndex` is not `MinVertexIndex + L * c - 1 = -1`, and its
range overlaps the range `[0, 99]` of the next section. -/
theorem C1_counterexample :
    (envFirstSectionUncovered.GenerateFurVertices (newFurSkinData 4 true true) 0 3 []).2 = 0 ∧
    ((vertexPass envFirstSectionUncovered BuildType.Full (newFurSkinData 4 true true)
        (List.replicate 100 default) (SetNum [] 2)).LocalSections.map
      (fun f => (f.MinVertexIndex, f.MaxVertexIndex))) = [(0, 4294967295), (0, 99)] ∧
    ¬ ((((vertexPass envFirstSectionUncovered BuildType.Full (newFurSkinData 4 true true)
        (List.replicate 100 default) (SetNum [] 2)).LocalSections.getD 0 default).MaxVertexIndex
          : Int) =
      ((vertexPass envFirstSectionUncovered BuildType.Full (newFurSkinData 4 true true)
        (List.replicate 100 default) (SetNum [] 2)).LocalSections.getD 0 default).MinVertexIndex
        + (newFurSkinData 4 true true).FurLayerCount *
          (envFirstSectionUncovered.GenerateFurVertices (newFurSkinData 4 true true) 0 3 []).2
        - 1) ∧
    ¬ (((vertexPass envFirstSectionUncovered BuildType.Full (newFurSkinData 4 true true)
        (List.replicate 100 default) (SetNum [] 2)).LocalSections.getD 0 default).MaxVertexIndex
      < ((vertexPass envFirstSectionUncovered BuildType.Full (newFurSkinData 4 true true)
        (List.replicate 100 default) (SetNum [] 2)).LocalSections.getD 1 default).MinVertexIndex) := by
  refine ⟨by decide, by decide, by decide, by decide⟩

/-- C1 (amended): in a build with layer count `L` in which section `i` generates `c i`
vertices per layer, the first section generates at least one vertex and
`L * (c 0 + ... + c (n-1)) < 2^32`, the vertex pass gives one range per section, section 0
has `MinVertexIndex = 0`, every section has `MaxVertexIndex = MinVertexIndex + L * c i - 1`,
every next section starts at `MaxVertexIndex + 1`, the ranges of two different sections
do not overlap, and together the ranges hold exactly `L * (c 0 + ... + c (n-1))`
vertices. -/
theorem C1_section_ranges (env : Env) (Build : BuildType) (data : FFurSkinData)
    (Vertices : List FFurSkinVertex) (LocalSections : List FSection) (c : Nat → Nat)
    (hlen : LocalSections.length = env.RenderSections.length)
    (hc : ∀ (i : Nat) (h : i < env.RenderSections.length) (tail : List FFurSkinVertex),
      (env.GenerateFurVertices data (env.RenderSections.get ⟨i, h⟩).BaseVertexIndex
        (u32 ((env.RenderSections.get ⟨i, h⟩).BaseVertexIndex +
          (env.RenderSections.get ⟨i, h⟩).NumVertices)) tail).2 = c i)
    (hfirst : 0 < data.FurLayerCount * c 0)
    (hsum : data.FurLayerCount * Finset.sum (Finset.range env.RenderSections.length) c
      < 4294967296) :
    (vertexPass env Build data Vertices LocalSections).LocalSections.length =
      env.RenderSections.length ∧
    (∀ f, (vertexPass env Build data Vertices LocalSections).LocalSections[0]? = some f →
      f.MinVertexIndex = 0) ∧
    (∀ (i : Nat) (f : FSection),
      (vertexPass env Build data Vertices LocalSections).LocalSections[i]? = some f →
      (f.MaxVertexIndex : Int) = f.MinVertexIndex + data.FurLayerCount * c i - 1) ∧
    (∀ (i : Nat) (f g : FSection),
      (vertexPass env Build data Vertices LocalSections).LocalSections[i]? = some f →
      (vertexPass env Build data Vertices LocalSections).LocalSections[i + 1]? = some g →
      g.MinVertexIndex = f.MaxVertexIndex + 1) ∧
    (∀ (i j : Nat) (f g : FSection), i < j →
      (vertexPass env Build data Vertices LocalSections).LocalSections[i]? = some f →
      (vertexPass env Build data Vertices LocalSections).LocalSections[j]? = some g →
      f.MaxVertexIndex < g.MinVertexIndex) ∧
    Finset.sum (Finset.range env.RenderSections.length) (fun i =>
      ((vertexPass env Build data Vertices LocalSections).LocalSections.getD i default).MaxVertexIndex
        + 1 -
      ((vertexPass env Build data Vertices LocalSections).LocalSections.getD i default).MinVertexIndex)
      = data.FurLayerCount * Finset.sum (Finset.range env.RenderSections.length) c := by
  obtain ⟨hl, hr⟩ := vertexPass_ranges env Build data Vertices LocalSections c hlen hc hfirst hsum
  refine ⟨hl, ?_, ?_, ?_, ?_, ?_⟩
  · intro f hf
    obtain ⟨_, h2, _⟩ := hr 0 f hf
    simpa using h2
  · intro i f hf
    obtain ⟨_, h2, h3⟩ := hr i f hf
    rw [mul_sum_range_succ] at h3
    omega
  · intro i f g hf hg
    obtain ⟨_, _, h3⟩ := hr i f hf
    obtain ⟨_, h2, _⟩ := hr (i + 1) g hg
    omega
  · intro i j f g hij hf hg
    obtain ⟨_, _, h3⟩ := hr i f hf
    obtain ⟨_, h2, _⟩ := hr j g hg
    have := Nat.mul_le_mul_left data.FurLayerCount (sum_range_le_of_le c (show i + 1 ≤ j by omega))
    omega
  · rw [Finset.mul_sum]
    apply Finset.sum_congr rfl
    intro i hi
    simp only [Finset.mem_range] at hi
    have hlt : i < (vertexPass env Build data Vertices LocalSections).LocalSections.length := by
      rw [hl]; exact hi
    have hget : (vertexPass env Build data Vertices LocalSections).LocalSections[i]? =
        some ((vertexPass env Build data Vertices LocalSections).LocalSections.getD i default) := by
      rw [List.getD_eq_getElem?_getD, List.getElem?_eq_getElem hlt]; rfl
    obtain ⟨_, h2, h3⟩ := hr i _ hget
    rw [mul_sum_range_succ] at h3
    omega

/-- C1, the scenario of the specification: 100 vertices, one section and 4 layers give
one section spanning `[0, 399]`, and the range holds `4 * 100` vertices. -/
theorem C1_section_ranges_witness :
    0 < (newFurSkinData 4 false false).FurLayerCount * 100 ∧
    (vertexPass envOneSection BuildType.Full (newFurSkinData 4 false false)
      (List.replicate 400 default) (SetNum [] 1)).LocalSections.map
      (fun f => (f.MinVertexIndex, f.MaxVertexIndex)) = [(0, 399)] ∧
    Finset.sum (Finset.range envOneSection.RenderSections.length) (fun i =>
      ((vertexPass envOneSection BuildType.Full (newFurSkinData 4 false false)
        (List.replicate 400 default) (SetNum [] 1)).LocalSections.getD i default).MaxVertexIndex
        + 1 -
      ((vertexPass envOneSection BuildType.Full (newFurSkinData 4 false false)
        (List.replicate 400 default) (SetNum [] 1)).LocalSections.getD i default).MinVertexIndex)
      = (newFurSkinData 4 false false).FurLayerCount *
        Finset.sum (Finset.range envOneSection.RenderSections.length) (fun _ => 100) :=
  ⟨by decide, by decide,
    (C1_section_ranges envOneSection BuildType.Full (newFurSkinData 4 false false)
      (List.replicate 400 default) (SetNum [] 1) (fun _ => 100) (by decide)
      (by
        intro i h tail
        have hi : i = 0 := by
          have : i < 1 := h
          omega
        subst hi
        rfl)
      (by decide) (by decide)).2.2.2.2.2⟩

/-! ## C2 -/

theorem map_range_triples (g : Nat → Nat) (n : Nat) :
    (List.range (n * 3)).map g =
      (List.range n).flatMap (fun t => [g (t * 3), g (t * 3 + 1), g (t * 3 + 2)]) := by
  induction n with
  | zero => simp
  | succ n ih =>
    have e : (n + 1) * 3 = n * 3 + 1 + 1 + 1 := by ring
    rw [e, List.range_succ, List.range_succ, List.range_succ, List.range_succ (n := n)]
    simp only [List.map_append, List.flatMap_append, ih, List.map_cons, List.map_nil,
      List.flatMap_cons, List.flatMap_nil, List.append_assoc, List.cons_append,
      List.nil_append, List.append_nil]

theorem numTriangles_lt_of_pre (env : Env) (data : FFurSkinData)
    (LocalSections : List FSection) (hpre : RebuildPre env data LocalSections)
    (s : Nat) (hs : s < env.RenderSections.length) :
    (env.RenderSections.getD s default).NumTriangles * 3 < 2147483648 := by
  obtain ⟨_, hL, hN, hfit, _⟩ := hpre
  have hmem : (env.RenderSections.getD s default).NumTriangles * 3 ∈
      (List.range env.RenderSections.length).map
        (fun s => (env.RenderSections.getD s default).NumTriangles * 3) :=
    List.mem_map.mpr ⟨s, List.mem_range.mpr hs, rfl⟩
  have h1 := List.single_le_sum (fun x _ => Nat.zero_le x) _ hmem
  have h2 : env.SourceIndices.length ≤ env.SourceIndices.length * data.FurLayerCount :=
    Nat.le_mul_of_pos_right _ hL
  omega

/-- C2: when faces without splines are removed, the index rebuild returns and the index
array consists, section by section and layer by layer, of the three corners of exactly
those source triangles `t` of the section for which `SplineMap[Idx0] >= 0`,
`SplineMap[Idx1] >= 0` and `SplineMap[Idx2] >= 0`, in source order: a triangle is emitted
into the range of a layer if and only if its three corners have a spline.  The test of
line 1293 is `FurSplinesUsed && RemoveFacesWithoutSplines`; for a dataset without
splines the specification makes `SplineMap` the identity, which is hypothesis `hid`. -/
theorem C2_culled_triangles (env : Env) (data : FFurSkinData) (LocalSections : List FSection)
    (hpre : RebuildPre env data LocalSections)
    (hr : data.RemoveFacesWithoutSplines = true)
    (hid : data.FurSplinesUsed = false → ∀ s, s < env.RenderSections.length →
      ∀ t, t < (env.RenderSections.getD s default).NumTriangles →
        0 ≤ data.SplineMap.getD (sourceIndexAt env.SourceIndices
            (env.RenderSections.getD s default).BaseIndex (t * 3)) 0 ∧
        0 ≤ data.SplineMap.getD (sourceIndexAt env.SourceIndices
            (env.RenderSections.getD s default).BaseIndex (t * 3 + 1)) 0 ∧
        0 ≤ data.SplineMap.getD (sourceIndexAt env.SourceIndices
            (env.RenderSections.getD s default).BaseIndex (t * 3 + 2)) 0) :
    ∃ secs, rebuildIndices env data LocalSections = Except.ok
      ((List.range env.RenderSections.length).flatMap (fun s =>
        (List.range data.FurLayerCount).flatMap (fun Layer =>
          ((List.range (env.RenderSections.getD s default).NumTriangles).filter (fun t =>
            decide (0 ≤ data.SplineMap.getD (sourceIndexAt env.SourceIndices
                (env.RenderSections.getD s default).BaseIndex (t * 3)) 0 ∧
              0 ≤ data.SplineMap.getD (sourceIndexAt env.SourceIndices
                (env.RenderSections.getD s default).BaseIndex (t * 3 + 1)) 0 ∧
              0 ≤ data.SplineMap.getD (sourceIndexAt env.SourceIndices
                (env.RenderSections.getD s default).BaseIndex (t * 3 + 2)) 0))).flatMap
          (fun t =>
            [emittedCorner env data (env.RenderSections.getD s default)
                (LocalSections.getD s default) Layer (t * 3),
             emittedCorner env data (env.RenderSections.getD s default)
                (LocalSections.getD s default) Layer (t * 3 + 1),
             emittedCorner env data (env.RenderSections.getD s default)
                (LocalSections.getD s default) Layer (t * 3 + 2)]))),
        secs) := by
  have hNT := numTriangles_lt_of_pre env data LocalSections hpre
  obtain ⟨hlen, _, _, hfit, hoff⟩ := hpre
  obtain ⟨secs, h1, _⟩ := rebuildIndices_eq env data LocalSections hlen hoff
    (allIndices_length_le env data LocalSections hfit)
  refine ⟨secs, ?_⟩
  rw [h1]
  congr 2
  unfold allIndices sectionIndices
  apply flatMap_congr_mem
  intro s hsmem
  have hs : s < env.RenderSections.length := List.mem_range.mp hsmem
  apply flatMap_congr_mem
  intro Layer _
  cases hsp : data.FurSplinesUsed with
  | true =>
    simp only [layerIndices, emittedCorner, hsp, hr, Bool.and_self, if_true,
      culledLayerIndices]
    congr 2
    funext t
    simp only [triangleCovered, Bool.decide_and, Bool.and_assoc]
  | false =>
    simp only [layerIndices, emittedCorner, hsp, hr, Bool.false_and, Bool.false_eq_true,
      if_false, plainLayerIndices]
    rw [u32_of_lt (by have := hNT s hs; omega), map_range_triples]
    congr 1
    symm
    rw [List.filter_eq_self]
    intro t ht
    have := hid hsp s hs t (List.mem_range.mp ht)
    simpa using this

/-- C2 on a concrete mesh: with two layers, the uncovered triangle `(0, 1, 2)` of
section 0 is emitted in no layer and the two covered triangles of section 1 are emitted
in both layers. -/
theorem C2_culled_triangles_witness :
    RebuildPre envCulling dataCulling sectionsCulling ∧
    dataCulling.FurSplinesUsed = true ∧ dataCulling.RemoveFacesWithoutSplines = true ∧
    ∃ secs, rebuildIndices envCulling dataCulling sectionsCulling = Except.ok
      ([4, 5, 6, 6, 5, 7, 8, 9, 10, 10, 9, 11], secs) := by
  have hpre : RebuildPre envCulling dataCulling sectionsCulling := by
    unfold RebuildPre OffsetsInRange
    decide
  obtain ⟨secs, h⟩ := C2_culled_triangles envCulling dataCulling sectionsCulling hpre rfl
    (fun h => absurd h (by decide))
  refine ⟨hpre, rfl, rfl, secs, ?_⟩
  rw [h]
  congr 2

/-! ## C3 -/

theorem sectionCount_exact (f : FSection) (h1 : f.MinVertexIndex ≤ f.MaxVertexIndex + 1)
    (h2 : f.MaxVertexIndex + 1 < 2147483648) :
    u32 (u32sub f.MaxVertexIndex f.MinVertexIndex + 1) =
      f.MaxVertexIndex + 1 - f.MinVertexIndex := by
  unfold u32 u32sub
  omega

theorem layerVertexOffset_exact (L : Nat) (f : FSection) (Layer : Nat)
    (hl : Layer < L) (h1 : f.MinVertexIndex ≤ f.MaxVertexIndex + 1)
    (h2 : f.MaxVertexIndex + 1 < 2147483648) :
    layerVertexOffset L f Layer =
      Layer * ((f.MaxVertexIndex + 1 - f.MinVertexIndex) / L) + f.MinVertexIndex ∧
    layerVertexOffset L f Layer ≤ f.MaxVertexIndex + 1 := by
  unfold layerVertexOffset
  rw [sectionCount_exact f h1 h2]
  have ha : Layer * ((f.MaxVertexIndex + 1 - f.MinVertexIndex) / L) ≤
      L * ((f.MaxVertexIndex + 1 - f.MinVertexIndex) / L) :=
    Nat.mul_le_mul_right _ (by omega)
  have hb : L * ((f.MaxVertexIndex + 1 - f.MinVertexIndex) / L) ≤
      f.MaxVertexIndex + 1 - f.MinVertexIndex := Nat.mul_div_le _ _
  rw [u32_of_lt (by omega)]
  omega

/-- C3: when no face is removed (`RemoveFacesWithoutSplines` false), the source indices
of every section lie in the index buffer, are at least `BaseVertexIndex` and below
`2^31`, and every fur section has `Min <= Max + 1 < 2^31`, the index rebuild returns,
the index array holds `L` times the `3 * NumTriangles` indices of all sections, and the
index of section `s`, layer `Layer` and position `i` is
`SourceIndices[BaseIndex + i] - BaseVertexIndex + MinVertexIndex
  + Layer * ((MaxVertexIndex - MinVertexIndex + 1) / L)`. -/
theorem C3_plain_indices (env : Env) (data : FFurSkinData) (LocalSections : List FSection)
    (hpre : RebuildPre env data LocalSections)
    (hr : data.RemoveFacesWithoutSplines = false)
    (hrange : ∀ s, s < env.RenderSections.length →
      (env.RenderSections.getD s default).BaseIndex +
        (env.RenderSections.getD s default).NumTriangles * 3 ≤ env.SourceIndices.length)
    (hsrc : ∀ s, s < env.RenderSections.length →
      ∀ i, i < (env.RenderSections.getD s default).NumTriangles * 3 →
        (env.RenderSections.getD s default).BaseVertexIndex ≤
          env.SourceIndices.getD ((env.RenderSections.getD s default).BaseIndex + i) 0 ∧
        env.SourceIndices.getD ((env.RenderSections.getD s default).BaseIndex + i) 0
          < 2147483648)
    (hsec : ∀ s, s < env.RenderSections.length →
      (LocalSections.getD s default).MinVertexIndex ≤
        (LocalSections.getD s default).MaxVertexIndex + 1 ∧
      (LocalSections.getD s default).MaxVertexIndex + 1 < 2147483648) :
    ∃ Indices secs, rebuildIndices env data LocalSections = Except.ok (Indices, secs) ∧
      Indices = (List.range env.RenderSections.length).flatMap (fun s =>
        (List.range data.FurLayerCount).flatMap (fun Layer =>
          (List.range ((env.RenderSections.getD s default).NumTriangles * 3)).map (fun i =>
            env.SourceIndices.getD ((env.RenderSections.getD s default).BaseIndex + i) 0
              - (env.RenderSections.getD s default).BaseVertexIndex
              + (LocalSections.getD s default).MinVertexIndex
              + Layer * (((LocalSections.getD s default).MaxVertexIndex + 1
                  - (LocalSections.getD s default).MinVertexIndex) / data.FurLayerCount)))) ∧
      Indices.length = data.FurLayerCount *
        ((List.range env.RenderSections.length).map
          (fun s => (env.RenderSections.getD s default).NumTriangles * 3)).sum := by
  have hNT := numTriangles_lt_of_pre env data LocalSections hpre
  obtain ⟨hlen, hL, hN, hfit, hoff⟩ := hpre
  obtain ⟨secs, h1, _⟩ := rebuildIndices_eq env data LocalSections hlen hoff
    (allIndices_length_le env data LocalSections hfit)
  have hbranch : (data.FurSplinesUsed && data.RemoveFacesWithoutSplines) = false := by
    rw [hr]; simp
  have hlenS : env.SourceIndices.length < 2147483648 := by
    have : env.SourceIndices.length ≤ env.SourceIndices.length * data.FurLayerCount :=
      Nat.le_mul_of_pos_right _ hL
    omega
  refine ⟨allIndices env data LocalSections, secs, h1, ?_, ?_⟩
  · unfold allIndices sectionIndices
    apply flatMap_congr_mem
    intro s hsmem
    have hs : s < env.RenderSections.length := List.mem_range.mp hsmem
    apply flatMap_congr_mem
    intro Layer hLayer
    have hl : Layer < data.FurLayerCount := List.mem_range.mp hLayer
    simp only [layerIndices, hbranch, Bool.false_eq_true, if_false, plainLayerIndices]
    rw [u32_of_lt (by have := hNT s hs; omega)]
    apply List.map_congr_left
    intro i himem
    have hi : i < (env.RenderSections.getD s default).NumTriangles * 3 :=
      List.mem_range.mp himem
    obtain ⟨e1, e2⟩ := layerVertexOffset_exact data.FurLayerCount
      (LocalSections.getD s default) Layer hl (hsec s hs).1 (hsec s hs).2
    have hr1 := hrange s hs
    obtain ⟨g1, g2⟩ := hsrc s hs i hi
    have e3 : sourceIndexAt env.SourceIndices (env.RenderSections.getD s default).BaseIndex i
        = env.SourceIndices.getD ((env.RenderSections.getD s default).BaseIndex + i) 0 := by
      unfold sourceIndexAt
      rw [u32_of_lt (by omega)]
    rw [e3]
    rw [e1] at e2
    rw [e1]
    have h2 := (hsec s hs).2
    generalize env.SourceIndices.getD ((env.RenderSections.getD s default).BaseIndex + i) 0
      = x at g1 g2 ⊢
    generalize Layer * (((LocalSections.getD s default).MaxVertexIndex + 1
      - (LocalSections.getD s default).MinVertexIndex) / data.FurLayerCount) = y at e2 ⊢
    unfold u32 u32sub
    omega
  · unfold allIndices
    rw [length_flatMap_eq_sum, ← sum_map_mul_left_nat]
    congr 1
    apply List.map_congr_left
    intro s hsmem
    have hs : s < env.RenderSections.length := List.mem_range.mp hsmem
    rw [sectionIndices_length, hbranch]
    simp only [Bool.false_eq_true, if_false]
    rw [u32_of_lt (by have := hNT s hs; omega)]

/-- C3, the scenario of the specification: 100 vertices, one section of 2 triangles and
4 layers give an index array of `4 * 6` indices, the source indices shifted by
`0, 100, 200, 300`. -/
theorem C3_plain_indices_witness :
    RebuildPre envOneSection dataOneSection sectionsOneSection ∧
    ∃ Indices secs, rebuildIndices envOneSection dataOneSection sectionsOneSection =
        Except.ok (Indices, secs) ∧
      Indices = [0, 1, 2, 2, 1, 3, 100, 101, 102, 102, 101, 103,
        200, 201, 202, 202, 201, 203, 300, 301, 302, 302, 301, 303] ∧
      Indices.length = 4 * 6 := by
  have hpre : RebuildPre envOneSection dataOneSection sectionsOneSection := by
    unfold RebuildPre OffsetsInRange
    decide
  obtain ⟨Indices, secs, h1, h2, h3⟩ := C3_plain_indices envOneSection dataOneSection
    sectionsOneSection hpre rfl (by decide) (by decide) (by decide)
  refine ⟨hpre, Indices, secs, h1, ?_, ?_⟩
  · rw [h2]; decide
  · rw [h3]; decide

/-! ## C4 -/

theorem u32sub_add_left (B n : Nat) (h : n < 4294967296) : u32sub (B + n) B = n := by
  unfold u32sub
  omega

/-- Under the preconditions the number of indices a section emits is three times the
`NumTriangles` that the rebuild stores for it. -/
theorem rebuiltSection_numTriangles (env : Env) (data : FFurSkinData)
    (LocalSections : List FSection) (hpre : RebuildPre env data LocalSections)
    (s : Nat) (hs : s < env.RenderSections.length) (f : FSection) (B : Nat) :
    3 * (rebuiltSection env data s f B).NumTriangles =
      (sectionIndices env data (env.RenderSections.getD s default) f).length := by
  have hNT := numTriangles_lt_of_pre env data LocalSections hpre s hs
  obtain ⟨_, hL, hN, hfit, _⟩ := hpre
  have hmem : (env.RenderSections.getD s default).NumTriangles * 3 ∈
      (List.range env.RenderSections.length).map
        (fun s => (env.RenderSections.getD s default).NumTriangles * 3) :=
    List.mem_map.mpr ⟨s, List.mem_range.mpr hs, rfl⟩
  have h1 := List.single_le_sum (fun x _ => Nat.zero_le x) _ hmem
  have hle := sectionIndices_length_le env data (env.RenderSections.getD s default) f
  have h2 : data.FurLayerCount * ((env.RenderSections.getD s default).NumTriangles * 3) ≤
      data.FurLayerCount * env.SourceIndices.length :=
    Nat.mul_le_mul_left _ (Nat.le_trans h1 hfit)
  have h3 : data.FurLayerCount * env.SourceIndices.length =
      env.SourceIndices.length * data.FurLayerCount := Nat.mul_comm _ _
  have hdvd : 3 ∣ (sectionIndices env data (env.RenderSections.getD s default) f).length := by
    rw [sectionIndices_length]
    apply Dvd.dvd.mul_left
    split
    · exact Dvd.intro_left _ rfl
    · rw [u32_of_lt (by omega)]
      exact Dvd.intro_left _ rfl
  simp only [rebuiltSection]
  rw [u32sub_add_left _ _ (by omega)]
  exact Nat.mul_div_cancel' hdvd

/-- C4: under the preconditions the index rebuild returns; the length of the index array
is the number of indices emitted, `3 *` the sum of the `NumTriangles` of the fur sections,
and is at most the preallocated `SourceIndices.Num() * FurLayerCount`; every fur section
keeps the `MinVertexIndex` and `MaxVertexIndex` of the vertex pass; and a section none of
whose triangles survives the removal of faces without splines gets `NumTriangles = 0`. -/
theorem C4_index_count (env : Env) (data : FFurSkinData) (LocalSections : List FSection)
    (hpre : RebuildPre env data LocalSections) :
    ∃ Indices secs, rebuildIndices env data LocalSections = Except.ok (Indices, secs) ∧
      Indices.length = 3 * ((List.range env.RenderSections.length).map
        (fun s => (secs.getD s default).NumTriangles)).sum ∧
      Indices.length ≤ env.SourceIndices.length * data.FurLayerCount ∧
      secs.length = LocalSections.length ∧
      (∀ s, (secs.getD s default).MinVertexIndex = (LocalSections.getD s default).MinVertexIndex ∧
        (secs.getD s default).MaxVertexIndex = (LocalSections.getD s default).MaxVertexIndex) ∧
      (∀ s, s < env.RenderSections.length →
        data.FurSplinesUsed = true → data.RemoveFacesWithoutSplines = true →
        (∀ t, t < (env.RenderSections.getD s default).NumTriangles →
          triangleCovered env.SourceIndices data.SplineMap
            (env.RenderSections.getD s default).BaseIndex t = false) →
        (secs.getD s default).NumTriangles = 0) := by
  have hnum := rebuiltSection_numTriangles env data LocalSections hpre
  have hpre2 := hpre
  obtain ⟨hlen, hL, hN, hfit, hoff⟩ := hpre2
  have hall := allIndices_length_le env data LocalSections hfit
  obtain ⟨secs, h1, h2, h3, h4⟩ := rebuildIndices_eq env data LocalSections hlen hoff hall
  refine ⟨allIndices env data LocalSections, secs, h1, ?_, hall, h2, ?_, ?_⟩
  · unfold allIndices
    rw [length_flatMap_eq_sum, ← sum_map_mul_left_nat]
    congr 1
    apply List.map_congr_left
    intro s hsmem
    have hs : s < env.RenderSections.length := List.mem_range.mp hsmem
    rw [h4 s hs, hnum s hs]
  · intro s
    by_cases hs : s < env.RenderSections.length
    · rw [h4 s hs]
      exact ⟨rfl, rfl⟩
    · rw [h3 s (by omega)]
      exact ⟨rfl, rfl⟩
  · intro s hs hsp hr hnone
    have h5 := hnum s hs (LocalSections.getD s default)
      ((List.range s).flatMap (fun s => sectionIndices env data
        (env.RenderSections.getD s default) (LocalSections.getD s default))).length
    rw [sectionIndices_length] at h5
    have hcov : coveredTriangles env data (env.RenderSections.getD s default) = 0 := by
      unfold coveredTriangles
      rw [List.length_eq_zero, List.filter_eq_nil_iff]
      intro t ht
      rw [hnone t (List.mem_range.mp ht)]
      simp
    rw [hsp, hr, hcov] at h5
    simp only [Bool.and_self, if_true, Nat.zero_mul, Nat.mul_zero] at h5
    rw [h4 s hs]
    omega

/-- C4 on a concrete mesh: of the preallocated `9 * 2` entries the index array keeps the
`12` emitted ones; section 0, whose only triangle has an uncovered corner, gets
`NumTriangles = 0` and keeps its vertex range `[0, 3]`. -/
theorem C4_index_count_witness :
    RebuildPre envCulling dataCulling sectionsCulling ∧
    envCulling.SourceIndices.length * dataCulling.FurLayerCount = 18 ∧
    rebuildIndices envCulling dataCulling sectionsCulling =
      Except.ok ([4, 5, 6, 6, 5, 7, 8, 9, 10, 10, 9, 11],
        [{ MinVertexIndex := 0, MaxVertexIndex := 3, BaseIndex := 0, NumTriangles := 0,
           MaterialIndex := 0, NumBones := 1 },
         { MinVertexIndex := 4, MaxVertexIndex := 11, BaseIndex := 0, NumTriangles := 4,
           MaterialIndex := 1, NumBones := 2 }]) ∧
    ∃ Indices secs, rebuildIndices envCulling dataCulling sectionsCulling =
        Except.ok (Indices, secs) ∧
      Indices.length = 3 * ((List.range envCulling.RenderSections.length).map
        (fun s => (secs.getD s default).NumTriangles)).sum ∧
      Indices.length ≤ envCulling.SourceIndices.length * dataCulling.FurLayerCount := by
  have hpre : RebuildPre envCulling dataCulling sectionsCulling := by
    unfold RebuildPre OffsetsInRange
    decide
  obtain ⟨Indices, secs, h1, h2, h3, _⟩ :=
    C4_index_count envCulling dataCulling sectionsCulling hpre
  exact ⟨hpre, by decide, rfl, Indices, secs, h1, h2, h3⟩

/-! ## The spin-wait -/

theorem spinWaitLoop_clear (q : List RenderCommand) (d d1 : FFurSkinData)
    (h : spinWaitLoop q d = Except.ok d1) : d1.RenderThreadDataSubmissionPending = false := by
  induction q generalizing d with
  | nil =>
    simp only [spinWaitLoop] at h
    split at h
    · cases h
    · next hp =>
      cases h
      simpa using hp
  | cons c q ih =>
    simp only [spinWaitLoop] at h
    split at h
    · exact ih _ h
    · next hp =>
      cases h
      simpa using hp

theorem spinWaitLoop_spins (q : List RenderCommand) (d : FFurSkinData)
    (hp : d.RenderThreadDataSubmissionPending = true)
    (hq : ∀ c, c ∈ q → c ≠ RenderCommand.ClearPending) :
    spinWaitLoop q d = Except.error Fault.spins := by
  induction q generalizing d with
  | nil => simp [spinWaitLoop, hp]
  | cons c q ih =>
    simp only [spinWaitLoop, hp, if_true]
    apply ih
    · cases c with
      | UpdateData n => simp [renderThreadExecute, hp]
      | ClearPending => exact absurd rfl (hq _ (List.mem_cons_self _ _))
    · intro c1 hc1
      exact hq c1 (List.mem_cons_of_mem _ hc1)

theorem spinWait_of_not_pending (d : FFurSkinData)
    (h : d.RenderThreadDataSubmissionPending = false) : spinWait d = Except.ok d := by
  unfold spinWait
  cases hq : d.RenderQueue with
  | nil => simp [spinWaitLoop, h]
  | cons c q => simp [spinWaitLoop, h]

/-! ## C5 -/

/-- C5, the code at the failing input: the first full build of a dataset (no sections
yet, no submission pending) on a mesh with one section, when `VertexBuffer.Lock` returns
the null pointer.  The build returns, but `LocalSections.SetNum` (line 1183) ran before
the lock on the live `Sections` array, whose length is now 1 instead of 0; `VertexCount`,
the index buffer and the flag are as before. -/
theorem C5_lock_failure_first_build :
    (newFurSkinData 2 false false).Sections.length = 0 ∧
    (newFurSkinData 2 false false).RenderThreadDataSubmissionPending = false ∧
    (envQuad false).Lock 8 [] = none ∧
    ∃ d, BuildFur (envQuad false) BuildType.Full (newFurSkinData 2 false false) = Except.ok d ∧
      d.Sections.length = 1 ∧
      d.VertexCount = (newFurSkinData 2 false false).VertexCount ∧
      d.IndexBuffer = (newFurSkinData 2 false false).IndexBuffer ∧
      d.RenderThreadDataSubmissionPending = false :=
  ⟨rfl, rfl, rfl, _, rfl, rfl, rfl, rfl, rfl⟩

/-- What a full or spline-only build leaves when the lock gives the null pointer and no
submission is pending: it returns; `VertexCount`, the index buffer, the vertex buffer and
the flag are as before; the live `Sections` array is as before when it was not empty and
is resized by `SetNum` when it was empty. -/
theorem BuildFur_lock_failure (env : Env) (Build : BuildType) (d : FFurSkinData)
    (hc : sourceCountsOk env = true)
    (hp : d.RenderThreadDataSubmissionPending = false)
    (hlock : env.Lock (u32 ((BuildFur_beforeWait env Build d).VertexCountPerLayer
      * (BuildFur_beforeWait env Build d).FurLayerCount)) d.VertexBuffer = none) :
    ∃ d1, BuildFur env Build d = Except.ok d1 ∧
      d1.VertexCount = d.VertexCount ∧ d1.IndexBuffer = d.IndexBuffer ∧
      d1.VertexBuffer = d.VertexBuffer ∧
      d1.RenderThreadDataSubmissionPending = false ∧
      d1.Sections =
        if d.Sections.length = 0 then SetNum d.Sections env.RenderSections.length
        else d.Sections := by
  have hframe : (BuildFur_beforeWait env Build d).Sections = d.Sections ∧
      (BuildFur_beforeWait env Build d).VertexBuffer = d.VertexBuffer ∧
      (BuildFur_beforeWait env Build d).IndexBuffer = d.IndexBuffer ∧
      (BuildFur_beforeWait env Build d).VertexCount = d.VertexCount ∧
      (BuildFur_beforeWait env Build d).RenderThreadDataSubmissionPending =
        d.RenderThreadDataSubmissionPending := by
    unfold BuildFur_beforeWait
    simp only
    split <;> split <;> exact ⟨rfl, rfl, rfl, rfl, rfl⟩
  obtain ⟨f1, f2, f3, f4, f5⟩ := hframe
  have hwait := spinWait_of_not_pending (BuildFur_beforeWait env Build d) (by rw [f5]; exact hp)
  have hlock1 : env.Lock (u32 ((BuildFur_beforeWait env Build d).VertexCountPerLayer
      * (BuildFur_beforeWait env Build d).FurLayerCount))
      (setLocalSections (decide ((BuildFur_beforeWait env Build d).Sections.length ≠ 0))
        (BuildFur_beforeWait env Build d)
        (SetNum (getLocalSections
          (decide ((BuildFur_beforeWait env Build d).Sections.length ≠ 0))
          (BuildFur_beforeWait env Build d)) env.RenderSections.length)).VertexBuffer = none := by
    have e : (setLocalSections (decide ((BuildFur_beforeWait env Build d).Sections.length ≠ 0))
        (BuildFur_beforeWait env Build d)
        (SetNum (getLocalSections
          (decide ((BuildFur_beforeWait env Build d).Sections.length ≠ 0))
          (BuildFur_beforeWait env Build d)) env.RenderSections.length)).VertexBuffer
        = d.VertexBuffer := by
      unfold setLocalSections
      split <;> exact f2
    rw [e]
    exact hlock
  refine ⟨setLocalSections (decide ((BuildFur_beforeWait env Build d).Sections.length ≠ 0))
    (BuildFur_beforeWait env Build d)
    (SetNum (getLocalSections
      (decide ((BuildFur_beforeWait env Build d).Sections.length ≠ 0))
      (BuildFur_beforeWait env Build d)) env.RenderSections.length), ?_, ?_, ?_, ?_, ?_, ?_⟩
  · unfold BuildFur
    rw [if_pos hc, hwait]
    simp only [BuildFur_afterWait]
    rw [hlock1]
  · unfold setLocalSections
    split <;> exact f4
  · unfold setLocalSections
    split <;> exact f3
  · unfold setLocalSections
    split <;> exact f2
  · unfold setLocalSections
    split <;> (rw [← hp]; exact f5)
  · by_cases h0 : d.Sections.length = 0
    · have hd : decide ((BuildFur_beforeWait env Build d).Sections.length ≠ 0) = false := by
        rw [f1]; simp [h0]
      rw [if_pos h0, hd]
      simp only [setLocalSections, getLocalSections, Bool.false_eq_true, if_false, f1]
    · have hd : decide ((BuildFur_beforeWait env Build d).Sections.length ≠ 0) = true := by
        rw [f1]; simp [h0]
      rw [if_neg h0, hd]
      simp only [setLocalSections, if_true, f1]

/-! ## C6 -/

/-- C6, the code at the failing input: the sparse build of vertex 1 on a built dataset
when `VertexBuffer.Lock` returns the null pointer.  The pointer is not tested (line
1409) and the first vertex is written through it (line 1428). -/
theorem C6_sparse_lock_failure :
    dataQuadBuilt.RenderThreadDataSubmissionPending = false ∧
    dataQuadBuilt.Sections.length = 1 ∧
    (envQuad false).Lock 8 dataQuadBuilt.VertexBuffer = none ∧
    BuildFurSparse (envQuad false) [1] dataQuadBuilt = Except.error Fault.nullPointer ∧
    ∃ d, BuildFurSparse (envQuad true) [1] dataQuadBuilt = Except.ok d :=
  ⟨rfl, rfl, rfl, rfl, _, rfl⟩

/-! ## C7 -/

/-- C7, as stated, fails for the full build: while the submission of the first build is
still pending (the command that clears the flag is queued, not run), a full build of the
edited mesh has changed `HasExtraBoneInfluences` and `Normals` when it reaches the
spin-wait, and the flag is still set there. -/
theorem C7_counterexample :
    dataQuadPending.RenderThreadDataSubmissionPending = true ∧
    dataQuadPending.RenderQueue = [RenderCommand.ClearPending] ∧
    (BuildFur_beforeWait envQuadEdited BuildType.Full
      dataQuadPending).RenderThreadDataSubmissionPending = true ∧
    (BuildFur_beforeWait envQuadEdited BuildType.Full dataQuadPending).HasExtraBoneInfluences
      ≠ dataQuadPending.HasExtraBoneInfluences ∧
    (BuildFur_beforeWait envQuadEdited BuildType.Full dataQuadPending).Normals
      ≠ dataQuadPending.Normals := by
  refine ⟨rfl, rfl, rfl, by decide, by decide⟩

/-- C7 (amended): every build passes the spin-wait before it touches the data shared
with the render thread.  (a) What a full or spline-only build does before the wait
leaves the sections, the staged sections, the vertex buffer, the index buffer,
`VertexCount`, `MaxVertexBoneDistance`, the flag and the command queue as they are.
(b), (c) A full, spline-only or sparse build that returns has left the wait with the flag
clear and has done everything else after that; the sparse build does nothing before the
wait.  (d) While the flag is set and no queued command clears it, no build gets past the
wait. -/
theorem C7_wait_before_shared_data (env : Env) (Build : BuildType) (InVertexSet : List Nat)
    (d : FFurSkinData) :
    ((BuildFur_beforeWait env Build d).Sections = d.Sections ∧
      (BuildFur_beforeWait env Build d).TempSections = d.TempSections ∧
      (BuildFur_beforeWait env Build d).VertexBuffer = d.VertexBuffer ∧
      (BuildFur_beforeWait env Build d).IndexBuffer = d.IndexBuffer ∧
      (BuildFur_beforeWait env Build d).VertexCount = d.VertexCount ∧
      (BuildFur_beforeWait env Build d).MaxVertexBoneDistance = d.MaxVertexBoneDistance ∧
      (BuildFur_beforeWait env Build d).RenderThreadDataSubmissionPending =
        d.RenderThreadDataSubmissionPending ∧
      (BuildFur_beforeWait env Build d).RenderQueue = d.RenderQueue) ∧
    (∀ d1, BuildFur env Build d = Except.ok d1 →
      ∃ dw, spinWait (BuildFur_beforeWait env Build d) = Except.ok dw ∧
        dw.RenderThreadDataSubmissionPending = false ∧
        BuildFur_afterWait env Build dw = Except.ok d1) ∧
    (∀ d1, BuildFurSparse env InVertexSet d = Except.ok d1 →
      ∃ dw, spinWait d = Except.ok dw ∧
        dw.RenderThreadDataSubmissionPending = false ∧
        BuildFurSparse_afterWait env InVertexSet dw = Except.ok d1) ∧
    (d.RenderThreadDataSubmissionPending = true →
      (∀ c, c ∈ d.RenderQueue → c ≠ RenderCommand.ClearPending) →
      BuildFurSparse env InVertexSet d = Except.error Fault.spins ∧
      ∀ d1, BuildFur env Build d ≠ Except.ok d1) := by
  have hframe : (BuildFur_beforeWait env Build d).Sections = d.Sections ∧
      (BuildFur_beforeWait env Build d).TempSections = d.TempSections ∧
      (BuildFur_beforeWait env Build d).VertexBuffer = d.VertexBuffer ∧
      (BuildFur_beforeWait env Build d).IndexBuffer = d.IndexBuffer ∧
      (BuildFur_beforeWait env Build d).VertexCount = d.VertexCount ∧
      (BuildFur_beforeWait env Build d).MaxVertexBoneDistance = d.MaxVertexBoneDistance ∧
      (BuildFur_beforeWait env Build d).RenderThreadDataSubmissionPending =
        d.RenderThreadDataSubmissionPending ∧
      (BuildFur_beforeWait env Build d).RenderQueue = d.RenderQueue := by
    unfold BuildFur_beforeWait
    simp only
    split <;> split <;> exact ⟨rfl, rfl, rfl, rfl, rfl, rfl, rfl, rfl⟩
  have hfull : ∀ d1, BuildFur env Build d = Except.ok d1 →
      ∃ dw, spinWait (BuildFur_beforeWait env Build d) = Except.ok dw ∧
        dw.RenderThreadDataSubmissionPending = false ∧
        BuildFur_afterWait env Build dw = Except.ok d1 := by
    intro d1 h
    unfold BuildFur at h
    split at h
    · cases hw : spinWait (BuildFur_beforeWait env Build d) with
      | error e => rw [hw] at h; cases h
      | ok dw =>
        rw [hw] at h
        exact ⟨dw, rfl, spinWaitLoop_clear _ _ _ hw, h⟩
    · cases h
  refine ⟨hframe, hfull, ?_, ?_⟩
  · intro d1 h
    unfold BuildFurSparse at h
    cases hw : spinWait d with
    | error e => rw [hw] at h; cases h
    | ok dw =>
      rw [hw] at h
      exact ⟨dw, rfl, spinWaitLoop_clear _ _ _ hw, h⟩
  · intro hp hq
    constructor
    · unfold BuildFurSparse spinWait
      rw [spinWaitLoop_spins _ _ hp hq]
    · intro d1 h
      obtain ⟨dw, hw, _, _⟩ := hfull d1 h
      unfold spinWait at hw
      rw [spinWaitLoop_spins _ _ (by rw [hframe.2.2.2.2.2.2.1]; exact hp)
        (by rw [hframe.2.2.2.2.2.2.2]; exact hq)] at hw
      cases hw

/-- C7 on a concrete run: the sparse build of vertex 1 started while the submission of
the first build is pending returns only after the queued command has cleared the flag;
with the flag set and an empty queue it never gets past the wait. -/
theorem C7_wait_before_shared_data_witness :
    dataQuadPending.RenderThreadDataSubmissionPending = true ∧
    (∃ d1 dw, BuildFurSparse (envQuad true) [1] dataQuadPending = Except.ok d1 ∧
      spinWait dataQuadPending = Except.ok dw ∧
      dw.RenderThreadDataSubmissionPending = false ∧
      BuildFurSparse_afterWait (envQuad true) [1] dw = Except.ok d1) ∧
    BuildFurSparse (envQuad true) [1] { dataQuadPending with RenderQueue := [] } =
      Except.error Fault.spins := by
  have h := C7_wait_before_shared_data (envQuad true) BuildType.Full [1] dataQuadPending
  have h2 := C7_wait_before_shared_data (envQuad true) BuildType.Full [1]
    { dataQuadPending with RenderQueue := [] }
  obtain ⟨dw, h3, h4, h5⟩ := h.2.2.1 _ rfl
  exact ⟨rfl, ⟨_, dw, rfl, h3, h4, h5⟩, (h2.2.2.2 rfl (by intro c hc; cases hc)).1⟩

/-! ## C8 -/

theorem rebuildLayer_data (env : Env) (d d1 : FFurSkinData) (src : FSkelMeshRenderSection)
    (f : FSection) (Layer : Nat) (s : Nat × List Nat)
    (h1 : d.FurLayerCount = d1.FurLayerCount) (h2 : d.FurSplinesUsed = d1.FurSplinesUsed)
    (h3 : d.RemoveFacesWithoutSplines = d1.RemoveFacesWithoutSplines)
    (h4 : d.SplineMap = d1.SplineMap) (h5 : d.VertexRemap = d1.VertexRemap) :
    rebuildLayer env d src f Layer s = rebuildLayer env d1 src f Layer s := by
  simp only [rebuildLayer, h1, h2, h3, h4, h5]

theorem rebuildLayers_data (env : Env) (d d1 : FFurSkinData) (src : FSkelMeshRenderSection)
    (f : FSection) (k Layer : Nat) (s : Nat × List Nat)
    (h1 : d.FurLayerCount = d1.FurLayerCount) (h2 : d.FurSplinesUsed = d1.FurSplinesUsed)
    (h3 : d.RemoveFacesWithoutSplines = d1.RemoveFacesWithoutSplines)
    (h4 : d.SplineMap = d1.SplineMap) (h5 : d.VertexRemap = d1.VertexRemap) :
    rebuildLayers env d src f k Layer s = rebuildLayers env d1 src f k Layer s := by
  induction k generalizing Layer s with
  | zero => rfl
  | succ k ih =>
    simp only [rebuildLayers, rebuildLayer_data env d d1 src f Layer s h1 h2 h3 h4 h5]
    split
    · rfl
    · exact ih _ _

theorem rebuildSections_data (env : Env) (d d1 : FFurSkinData) (k i : Nat)
    (st : IndexPassState)
    (h1 : d.FurLayerCount = d1.FurLayerCount) (h2 : d.FurSplinesUsed = d1.FurSplinesUsed)
    (h3 : d.RemoveFacesWithoutSplines = d1.RemoveFacesWithoutSplines)
    (h4 : d.SplineMap = d1.SplineMap) (h5 : d.VertexRemap = d1.VertexRemap) :
    rebuildSections env d k i st = rebuildSections env d1 k i st := by
  induction k generalizing i st with
  | zero => rfl
  | succ k ih =>
    simp only [rebuildSections, rebuildSection,
      rebuildLayers_data env d d1 _ _ _ _ _ h1 h2 h3 h4 h5, h1]
    split
    · rfl
    · exact ih _ _

/-- The index rebuild reads the dataset only through the layer count, the two culling
switches, `SplineMap` and `VertexRemap`. -/
theorem rebuildIndices_data (env : Env) (d d1 : FFurSkinData) (LocalSections : List FSection)
    (h1 : d.FurLayerCount = d1.FurLayerCount) (h2 : d.FurSplinesUsed = d1.FurSplinesUsed)
    (h3 : d.RemoveFacesWithoutSplines = d1.RemoveFacesWithoutSplines)
    (h4 : d.SplineMap = d1.SplineMap) (h5 : d.VertexRemap = d1.VertexRemap) :
    rebuildIndices env d LocalSections = rebuildIndices env d1 LocalSections := by
  simp only [rebuildIndices, rebuildSections_data env d d1 _ _ _ h1 h2 h3 h4 h5, h1]

/-- The vertex pass depends on the kind of build only through `MaxDistSq`. -/
theorem vertexPassLoop_build (env : Env) (data : FFurSkinData) (B1 B2 : BuildType) :
    ∀ (secs : List FSkelMeshRenderSection) (k : Nat) (s1 s2 : VertexPassState),
      s1.SectionVertexOffset = s2.SectionVertexOffset → s1.Vertices = s2.Vertices →
      s1.LocalSections = s2.LocalSections →
      (vertexPassLoop env B1 data secs k s1).SectionVertexOffset =
        (vertexPassLoop env B2 data secs k s2).SectionVertexOffset ∧
      (vertexPassLoop env B1 data secs k s1).Vertices =
        (vertexPassLoop env B2 data secs k s2).Vertices ∧
      (vertexPassLoop env B1 data secs k s1).LocalSections =
        (vertexPassLoop env B2 data secs k s2).LocalSections := by
  intro secs
  induction secs with
  | nil => intro k s1 s2 h1 h2 h3; exact ⟨h1, h2, h3⟩
  | cons src rest ih =>
    intro k s1 s2 h1 h2 h3
    simp only [vertexPassLoop]
    apply ih
    · simp only [vertexPassSection, h1, h2]
    · simp only [vertexPassSection, h1, h2]
    · simp only [vertexPassSection, h1, h2, h3]

theorem withoutBoneDistance_finish (env : Env) (d : FFurSkinData) :
    withoutBoneDistance (BuildFur_finish env d) = BuildFur_finish env (withoutBoneDistance d) := by
  unfold BuildFur_finish withoutBoneDistance
  simp only
  split <;> rfl

/-- With `Build >= Splines` the index rebuild and the publication do not depend on the
kind of build and do not read `MaxVertexBoneDistance`. -/
theorem indexAndPublish_boneDistance (env : Env) (B1 B2 : BuildType) (useTemp : Bool)
    (n : Nat) (d : FFurSkinData) (m : Int)
    (hB1 : BuildType.Splines.toNat ≤ B1.toNat) (hB2 : BuildType.Splines.toNat ≤ B2.toNat) :
    (BuildFur_indexAndPublish env B1 useTemp n { d with MaxVertexBoneDistance := m }).map
        withoutBoneDistance =
      (BuildFur_indexAndPublish env B2 useTemp n d).map withoutBoneDistance := by
  unfold BuildFur_indexAndPublish
  simp only [hB1, hB2, true_or, if_true]
  rw [rebuildIndices_data env
    { d with MaxVertexBoneDistance := m, OldFurLayerCount := d.FurLayerCount,
             OldRemoveFacesWithoutSplines := d.RemoveFacesWithoutSplines }
    { d with OldFurLayerCount := d.FurLayerCount,
             OldRemoveFacesWithoutSplines := d.RemoveFacesWithoutSplines }
    _ rfl rfl rfl rfl rfl]
  cases useTemp <;>
  · simp only [getLocalSections, setLocalSections, Bool.false_eq_true, if_false, if_true]
    split
    · rfl
    · split <;> rfl

theorem vertexPass_build (env : Env) (d : FFurSkinData) (B1 B2 : BuildType)
    (Vertices : List FFurSkinVertex) (LocalSections : List FSection) :
    (vertexPass env B1 d Vertices LocalSections).Vertices =
      (vertexPass env B2 d Vertices LocalSections).Vertices ∧
    (vertexPass env B1 d Vertices LocalSections).LocalSections =
      (vertexPass env B2 d Vertices LocalSections).LocalSections := by
  obtain ⟨_, h2, h3⟩ := vertexPassLoop_build env d B1 B2 env.RenderSections 0
    { SectionVertexOffset := 0, MaxDistSq := 0, Vertices := Vertices,
      LocalSections := LocalSections }
    { SectionVertexOffset := 0, MaxDistSq := 0, Vertices := Vertices,
      LocalSections := LocalSections } rfl rfl rfl
  exact ⟨h2, h3⟩

theorem map_finish_withoutBoneDistance (env : Env) (r1 r2 : Except Fault FFurSkinData)
    (h : r1.map withoutBoneDistance = r2.map withoutBoneDistance) :
    (r1.map (BuildFur_finish env)).map withoutBoneDistance =
      (r2.map (BuildFur_finish env)).map withoutBoneDistance := by
  cases r1 with
  | error e1 =>
    cases r2 with
    | error e2 => simpa [Except.map] using h
    | ok d2 => simp [Except.map] at h
  | ok d1 =>
    cases r2 with
    | error e2 => simp [Except.map] at h
    | ok d2 =>
      simp only [Except.map, Except.ok.injEq] at h ⊢
      rw [withoutBoneDistance_finish, withoutBoneDistance_finish, h]

/-- After a successful lock a spline-only build and a full build do the same, up to
`MaxVertexBoneDistance`. -/
theorem afterLock_splines_full (env : Env) (useTemp : Bool) (n : Nat) (d : FFurSkinData)
    (Vertices : List FFurSkinVertex) :
    (BuildFur_afterLock env BuildType.Splines useTemp n d Vertices).map withoutBoneDistance =
      (BuildFur_afterLock env BuildType.Full useTemp n d Vertices).map withoutBoneDistance := by
  unfold BuildFur_afterLock
  simp only [reduceCtorEq, if_false, if_true]
  rw [(vertexPass_build env d BuildType.Splines BuildType.Full Vertices _).1,
    (vertexPass_build env d BuildType.Splines BuildType.Full Vertices _).2]
  apply map_finish_withoutBoneDistance
  symm
  exact indexAndPublish_boneDistance env BuildType.Full BuildType.Splines _ _ _ _
    (by decide) (by decide)

/-- C8, as stated, fails: after the splines were edited so that vertex 3 lost its spline,
the spline-only build of the built dataset rewrites the index buffer (6 indices instead
of 12) and the section (`MaxVertexIndex` 5 instead of 7, `NumTriangles` 2 instead of 4). -/
theorem C8_counterexample :
    dataSplinesBuilt.RenderThreadDataSubmissionPending = false ∧
    dataSplinesBuilt.IndexBuffer = [0, 1, 2, 2, 1, 3, 4, 5, 6, 6, 5, 7] ∧
    dataSplinesBuilt.Sections.map
      (fun f => (f.MinVertexIndex, f.MaxVertexIndex, f.BaseIndex, f.NumTriangles)) =
      [(0, 7, 0, 4)] ∧
    ∃ d, BuildFur envSplinesEdited BuildType.Splines dataSplinesBuilt = Except.ok d ∧
      d.IndexBuffer = [0, 1, 2, 3, 4, 5] ∧
      d.IndexBuffer ≠ dataSplinesBuilt.IndexBuffer ∧
      (renderThreadDrain d).Sections.map
        (fun f => (f.MinVertexIndex, f.MaxVertexIndex, f.BaseIndex, f.NumTriangles)) =
        [(0, 5, 0, 2)] ∧
      (renderThreadDrain d).Sections ≠ dataSplinesBuilt.Sections :=
  ⟨rfl, rfl, rfl, _, rfl, rfl, by decide, rfl, by decide⟩

/-- C8 (amended): a spline-only build does not reuse the section layout and the index
buffer, it recomputes them as a full build does.  Started on the same dataset with
up-to-date normals, the spline-only build and the full build end in the same fault or
return the same dataset up to `MaxVertexBoneDistance`: same sections, staged sections,
index buffer, vertex buffer, `VertexCount` and render commands. -/
theorem C8_partial_rebuilds_like_full (env : Env) (d : FFurSkinData)
    (hN : env.UnpackNormals
      { d with
        bUseHighPrecisionTangentBasis := env.UseHighPrecisionTangentBasis
        bUseFullPrecisionUVs := env.UseFullPrecisionUVs
        HasExtraBoneInfluences := decide (4 < env.MaxBoneInfluences) } = d.Normals) :
    (BuildFur env BuildType.Splines d).map withoutBoneDistance =
      (BuildFur env BuildType.Full d).map withoutBoneDistance := by
  have hbefore : BuildFur_beforeWait env BuildType.Full d =
      BuildFur_beforeWait env BuildType.Splines d := by
    unfold BuildFur_beforeWait
    simp only [if_true, reduceCtorEq, if_false, hN]
    rfl
  unfold BuildFur
  rw [hbefore]
  split
  · cases spinWait (BuildFur_beforeWait env BuildType.Splines d) with
    | error e => rfl
    | ok dw =>
      simp only
      unfold BuildFur_afterWait
      simp only
      split
      · rfl
      · exact afterLock_splines_full env _ _ _ _
  · rfl

/-- C8 on a concrete run: on the built dataset of the quad mesh, whose normals are up to
date, the spline-only build and the full build return the same sections and the same
index buffer, which both builds have rewritten into the staged section array. -/
theorem C8_partial_rebuilds_like_full_witness :
    (envQuad true).UnpackNormals
      { dataQuadBuilt with
        bUseHighPrecisionTangentBasis := (envQuad true).UseHighPrecisionTangentBasis
        bUseFullPrecisionUVs := (envQuad true).UseFullPrecisionUVs
        HasExtraBoneInfluences := decide (4 < (envQuad true).MaxBoneInfluences) }
      = dataQuadBuilt.Normals ∧
    (BuildFur (envQuad true) BuildType.Splines dataQuadBuilt).map withoutBoneDistance =
      (BuildFur (envQuad true) BuildType.Full dataQuadBuilt).map withoutBoneDistance ∧
    ∃ d1, BuildFur (envQuad true) BuildType.Splines dataQuadBuilt = Except.ok d1 ∧
      d1.TempSections.map
        (fun f => (f.MinVertexIndex, f.MaxVertexIndex, f.BaseIndex, f.NumTriangles)) =
        [(0, 7, 0, 4)] :=
  ⟨rfl, C8_partial_rebuilds_like_full (envQuad true) dataQuadBuilt rfl, _, rfl, rfl⟩

/-! ## C9 -/

/-- The section scan only stops on a section whose source range holds the vertex. -/
theorem sectionScan_spec (env : Env) (L : Nat) (LocalSections : List FSection) (v : Nat) :
    ∀ (fuel checkCounter : Nat) (sc sc1 : ScanState),
      (∃ s0, s0 < env.RenderSections.length ∧ sc = scanAt env L LocalSections s0) →
      sectionScan env L LocalSections v fuel checkCounter sc = Except.ok sc1 →
      ∃ s1, s1 < env.RenderSections.length ∧ sc1 = scanAt env L LocalSections s1 ∧
        sc1.SectionVertexIndexBegin ≤ v ∧ v < sc1.SectionVertexIndexEnd := by
  intro fuel
  induction fuel with
  | zero =>
    intro cc sc sc1 _ h
    simp [sectionScan] at h
  | succ fuel ih =>
    intro cc sc sc1 hsc h
    obtain ⟨s0, hs0, hsc0⟩ := hsc
    simp only [sectionScan] at h
    split at h
    · split at h
      · exact ih _ _ _ ⟨_, Nat.mod_lt _ (by omega), rfl⟩ h
      · cases h
    · next hcond =>
      cases h
      exact ⟨s0, hs0, hsc0, by omega, by omega⟩

theorem sameFrame_refl (a : FFurSkinVertex) : sameFrame a a :=
  ⟨rfl, rfl, rfl, rfl, rfl, rfl, rfl⟩

theorem sameFrame_trans {a b c : FFurSkinVertex} (h1 : sameFrame a b) (h2 : sameFrame b c) :
    sameFrame a c := by
  obtain ⟨a1, a2, a3, a4, a5, a6, a7⟩ := h1
  obtain ⟨b1, b2, b3, b4, b5, b6, b7⟩ := h2
  exact ⟨a1.trans b1, a2.trans b2, a3.trans b3, a4.trans b4, a5.trans b5, a6.trans b6,
    a7.trans b7⟩

theorem sameFrame_regenerate (env : Env) (d : FFurSkinData) (FurLengths : List Int)
    (GenLayerData : Int) (v : Nat) (x : FFurSkinVertex) :
    sameFrame (regenerateVertex env d FurLengths GenLayerData v x) x :=
  ⟨rfl, rfl, rfl, rfl, rfl, rfl, rfl⟩

theorem sparseVertex_frame (env : Env) (d : FFurSkinData) (LocalSections : List FSection)
    (FurLengths : List Int) (Layer : Nat) (GenLayerData : Int) (InVertexSet : List Nat)
    (v : Nat) (sc : ScanState) (mem0 mem : List FFurSkinVertex)
    (r : ScanState × Option (List FFurSkinVertex))
    (hv : v ∈ InVertexSet) (hL : Layer < d.FurLayerCount)
    (hsc : ∃ s0, s0 < env.RenderSections.length ∧
      sc = scanAt env d.FurLayerCount LocalSections s0)
    (hinv : SparseFrame env d LocalSections InVertexSet mem0 mem)
    (h : sparseVertex env d LocalSections FurLengths Layer GenLayerData v (sc, some mem)
      = Except.ok r) :
    (∃ s1, s1 < env.RenderSections.length ∧
      r.1 = scanAt env d.FurLayerCount LocalSections s1) ∧
    ∃ mem1, r.2 = some mem1 ∧ SparseFrame env d LocalSections InVertexSet mem0 mem1 := by
  unfold sparseVertex at h
  simp only at h
  cases hscan : sectionScan env d.FurLayerCount LocalSections v
      (env.RenderSections.length + 1) 0 sc with
  | error e => rw [hscan] at h; cases h
  | ok sc1 =>
    rw [hscan] at h
    simp only at h
    obtain ⟨s1, hs1, hsc1, hb, he⟩ := sectionScan_spec env d.FurLayerCount LocalSections v
      _ _ _ _ hsc hscan
    split at h
    · next hlt =>
      cases h
      refine ⟨⟨s1, hs1, hsc1⟩, _, rfl, ?_⟩
      obtain ⟨i1, i2, i3⟩ := hinv
      refine ⟨by simp [i1], ?_, ?_⟩
      · intro j
        by_cases hj : dstVertexIndex d sc1 Layer v = j
        · subst hj
          rw [getD_set_eq _ _ _ _ hlt]
          exact sameFrame_trans (sameFrame_regenerate env d FurLengths GenLayerData v _) (i2 _)
        · rw [getD_set_ne _ _ _ _ _ hj]
          exact i2 j
      · intro j hj
        have hne : dstVertexIndex d sc1 Layer v ≠ j := by
          intro heq
          apply hj
          refine ⟨v, hv, Layer, hL, s1, hs1, ?_, ?_, ?_⟩
          · rw [← hsc1]; exact hb
          · rw [← hsc1]; exact he
          · rw [← hsc1]; exact heq.symm
        rw [List.getElem?_set_ne hne]
        exact i3 j hj
    · cases h

theorem sparseVertices_frame (env : Env) (d : FFurSkinData) (LocalSections : List FSection)
    (FurLengths : List Int) (Layer : Nat) (GenLayerData : Int) (InVertexSet : List Nat)
    (mem0 : List FFurSkinVertex) (hL : Layer < d.FurLayerCount) :
    ∀ (vs : List Nat) (sc : ScanState) (mem : List FFurSkinVertex)
      (r : ScanState × Option (List FFurSkinVertex)),
      (∀ v, v ∈ vs → v ∈ InVertexSet) →
      (∃ s0, s0 < env.RenderSections.length ∧
        sc = scanAt env d.FurLayerCount LocalSections s0) →
      SparseFrame env d LocalSections InVertexSet mem0 mem →
      sparseVertices env d LocalSections FurLengths Layer GenLayerData vs (sc, some mem)
        = Except.ok r →
      (∃ s1, s1 < env.RenderSections.length ∧
        r.1 = scanAt env d.FurLayerCount LocalSections s1) ∧
      ∃ mem1, r.2 = some mem1 ∧ SparseFrame env d LocalSections InVertexSet mem0 mem1 := by
  intro vs
  induction vs with
  | nil =>
    intro sc mem r _ hsc hinv h
    simp only [sparseVertices] at h
    cases h
    exact ⟨hsc, mem, rfl, hinv⟩
  | cons v rest ih =>
    intro sc mem r hsub hsc hinv h
    simp only [sparseVertices] at h
    cases hstep : sparseVertex env d LocalSections FurLengths Layer GenLayerData v
        (sc, some mem) with
    | error e => rw [hstep] at h; cases h
    | ok r1 =>
      rw [hstep] at h
      simp only at h
      obtain ⟨hsc1, mem1, hm1, hinv1⟩ := sparseVertex_frame env d LocalSections FurLengths
        Layer GenLayerData InVertexSet v sc mem0 mem r1 (hsub v (List.mem_cons_self _ _)) hL
        hsc hinv hstep
      have hr1 : r1 = (r1.1, some mem1) := by
        rw [← hm1]
      rw [hr1] at h
      exact ih r1.1 mem1 r (fun w hw => hsub w (List.mem_cons_of_mem _ hw)) hsc1 hinv1 h

theorem sparseLayers_frame (env : Env) (d : FFurSkinData) (LocalSections : List FSection)
    (FurLengths : List Int) (InVertexSet : List Nat) (mem0 : List FFurSkinVertex) :
    ∀ (k Layer : Nat) (sc : ScanState) (mem : List FFurSkinVertex)
      (r : ScanState × Option (List FFurSkinVertex)),
      Layer + k ≤ d.FurLayerCount →
      (∃ s0, s0 < env.RenderSections.length ∧
        sc = scanAt env d.FurLayerCount LocalSections s0) →
      SparseFrame env d LocalSections InVertexSet mem0 mem →
      sparseLayers env d LocalSections FurLengths InVertexSet k Layer (sc, some mem)
        = Except.ok r →
      ∃ mem1, r.2 = some mem1 ∧ SparseFrame env d LocalSections InVertexSet mem0 mem1 := by
  intro k
  induction k with
  | zero =>
    intro Layer sc mem r _ _ hinv h
    simp only [sparseLayers] at h
    cases h
    exact ⟨mem, rfl, hinv⟩
  | succ k ih =>
    intro Layer sc mem r hLk hsc hinv h
    simp only [sparseLayers] at h
    cases hstep : sparseVertices env d LocalSections FurLengths Layer
        (env.CalcFurGenLayerData d (d.FurLayerCount - Layer)) InVertexSet (sc, some mem) with
    | error e => rw [hstep] at h; cases h
    | ok r1 =>
      rw [hstep] at h
      simp only at h
      obtain ⟨hsc1, mem1, hm1, hinv1⟩ := sparseVertices_frame env d LocalSections FurLengths
        Layer _ InVertexSet mem0 (by omega) InVertexSet sc mem r1 (fun _ hv => hv) hsc hinv
        hstep
      have hr1 : r1 = (r1.1, some mem1) := by
        rw [← hm1]
      rw [hr1] at h
      exact ih (Layer + 1) r1.1 mem1 r (by omega) hsc1 hinv1 h

/-- C9: a sparse build that starts with no submission pending, gets from
`VertexBuffer.Lock` the memory of the current vertex buffer and returns has kept the
length of the vertex buffer, has left every vertex that is not a destination of a listed
vertex and a layer as it was, has changed no vertex outside `FurOffset`, `UV1`, `UV2` and
`UV3` (position, tangents, `UV0`, colour and bone influences are as before), and has left
the index buffer, the sections and the staged sections as they were. -/
theorem C9_sparse_frame (env : Env) (InVertexSet : List Nat) (d d1 : FFurSkinData)
    (hp : d.RenderThreadDataSubmissionPending = false)
    (hlock : env.Lock (u32 (d.VertexCountPerLayer * d.FurLayerCount)) d.VertexBuffer
      = some d.VertexBuffer)
    (h : BuildFurSparse env InVertexSet d = Except.ok d1) :
    d1.VertexBuffer.length = d.VertexBuffer.length ∧
    (∀ j, ¬ isDestination env d
        (if d.TempSections.length ≠ 0 then d.TempSections else d.Sections) InVertexSet j →
      d1.VertexBuffer[j]? = d.VertexBuffer[j]?) ∧
    (∀ j, sameFrame (d1.VertexBuffer.getD j default) (d.VertexBuffer.getD j default)) ∧
    d1.IndexBuffer = d.IndexBuffer ∧ d1.Sections = d.Sections ∧
    d1.TempSections = d.TempSections := by
  unfold BuildFurSparse at h
  rw [spinWait_of_not_pending d hp] at h
  simp only [BuildFurSparse_afterWait] at h
  split at h
  · cases h
  · next hn =>
    rw [hlock] at h
    cases hl : sparseLayers env d
        (if d.TempSections.length ≠ 0 then d.TempSections else d.Sections)
        (env.GenerateFurLengths d) InVertexSet d.FurLayerCount 0
        (scanAt env d.FurLayerCount
          (if d.TempSections.length ≠ 0 then d.TempSections else d.Sections) 0,
          some d.VertexBuffer) with
    | error e => rw [hl] at h; cases h
    | ok r =>
      rw [hl] at h
      simp only at h
      cases h
      obtain ⟨mem1, hm1, i1, i2, i3⟩ := sparseLayers_frame env d _ _ InVertexSet
        d.VertexBuffer d.FurLayerCount 0 _ d.VertexBuffer r (by omega)
        ⟨0, by omega, rfl⟩
        ⟨rfl, fun _ => sameFrame_refl _, fun _ _ => rfl⟩ hl
      refine ⟨?_, ?_, ?_, rfl, rfl, rfl⟩
      · simp only [hm1, Option.getD_some]; exact i1
      · simp only [hm1, Option.getD_some]; exact i3
      · simp only [hm1, Option.getD_some]; exact i2

/-- C9 on a concrete run: the sparse build of vertex 1 on the built quad (2 layers, 8
vertices) rewrites `FurOffset` of the vertices 1 and 5 only. -/
theorem C9_sparse_frame_witness :
    dataQuadBuilt.RenderThreadDataSubmissionPending = false ∧
    (envQuad true).Lock (u32 (dataQuadBuilt.VertexCountPerLayer * dataQuadBuilt.FurLayerCount))
      dataQuadBuilt.VertexBuffer = some dataQuadBuilt.VertexBuffer ∧
    ∃ d1, BuildFurSparse (envQuad true) [1] dataQuadBuilt = Except.ok d1 ∧
      d1.VertexBuffer.map (fun x => x.FurOffset) =
        [(0, 0, 0), (0, 0, 2), (0, 0, 0), (0, 0, 0), (0, 0, 0), (0, 0, 1), (0, 0, 0), (0, 0, 0)] ∧
      d1.VertexBuffer.length = dataQuadBuilt.VertexBuffer.length ∧
      d1.IndexBuffer = dataQuadBuilt.IndexBuffer ∧ d1.Sections = dataQuadBuilt.Sections :=
  ⟨rfl, rfl, _, rfl, rfl,
    (C9_sparse_frame (envQuad true) [1] dataQuadBuilt _ rfl rfl rfl).1,
    (C9_sparse_frame (envQuad true) [1] dataQuadBuilt _ rfl rfl rfl).2.2.2.1,
    (C9_sparse_frame (envQuad true) [1] dataQuadBuilt _ rfl rfl rfl).2.2.2.2.1⟩

/-! ## C10 -/

theorem ite_gt_eq_max (m x : Int) : (if x > m then x else m) = max m x := by
  rcases lt_or_le m x with h | h
  · rw [if_pos h, max_eq_right (le_of_lt h)]
  · rw [if_neg (not_lt.mpr h), max_eq_left h]

theorem boneDistanceLoop_eq (RefPose : List FVector) (BoneMap : List Nat) (v : FFurSkinVertex)
    (k b : Nat) (m : Int) :
    boneDistanceLoop RefPose BoneMap v k b m =
      (((List.range' b k).takeWhile
          (fun b => decide (v.InfluenceWeights.getD b 0 ≠ 0))).map
        (fun b => DistSquared v.Position
          (RefPose.getD (BoneMap.getD (v.InfluenceBones.getD b 0) 0) default))).foldl max m := by
  induction k generalizing b m with
  | zero => simp [boneDistanceLoop]
  | succ k ih =>
    simp only [boneDistanceLoop, List.range'_succ]
    by_cases hw : v.InfluenceWeights.getD b 0 = 0
    · rw [if_pos hw, List.takeWhile_cons_of_neg (by simp only [hw]; decide)]
      rfl
    · rw [if_neg hw, List.takeWhile_cons_of_pos (by simpa only [decide_eq_true_eq] using hw),
        ih, ite_gt_eq_max]
      rfl

theorem vertexDistanceLoop_eq (RefPose : List FVector) (BoneMap : List Nat)
    (numInfluences : Nat) (Vertices : List FFurSkinVertex) (off : Nat) (k i : Nat) (m : Int) :
    vertexDistanceLoop RefPose BoneMap numInfluences Vertices off k i m =
      ((List.range' i k).flatMap (fun i =>
        vertexBoneDistances RefPose BoneMap numInfluences
          (Vertices.getD (u32 (off + i)) default))).foldl max m := by
  induction k generalizing i m with
  | zero => simp [vertexDistanceLoop]
  | succ k ih =>
    simp only [vertexDistanceLoop, List.range'_succ, List.flatMap_cons, List.foldl_append]
    rw [ih, boneDistanceLoop_eq, ← List.range_eq_range']
    rfl

theorem vertexPassSection_vertices (env : Env) (Build : BuildType) (data : FFurSkinData)
    (k : Nat) (src : FSkelMeshRenderSection) (s : VertexPassState) :
    (vertexPassSection env Build data k src s).Vertices =
      s.Vertices.take s.SectionVertexOffset ++
        (env.GenerateFurVertices data src.BaseVertexIndex
          (u32 (src.BaseVertexIndex + src.NumVertices))
          (s.Vertices.drop s.SectionVertexOffset)).1 := rfl

theorem vertexPassSection_maxDistSq (env : Env) (data : FFurSkinData)
    (k : Nat) (src : FSkelMeshRenderSection) (s : VertexPassState) :
    (vertexPassSection env BuildType.Full data k src s).MaxDistSq =
      vertexDistanceLoop env.RefPose src.BoneMap (NumInfluences data.HasExtraBoneInfluences)
        (vertexPassSection env BuildType.Full data k src s).Vertices s.SectionVertexOffset
        (env.GenerateFurVertices data src.BaseVertexIndex
          (u32 (src.BaseVertexIndex + src.NumVertices))
          (s.Vertices.drop s.SectionVertexOffset)).2 0 s.MaxDistSq := rfl

/-- Invariant of the loop over the sections of a full build for `MaxDistSq`: when no
`uint32` wraps, the vertex generator keeps the size of the memory it is given and the
memory holds the generated vertices, the loop keeps what lies before its offset and
`MaxDistSq` becomes the maximum of its old value and of the distances of the first
layer of every section, read in the memory the loop leaves. -/
theorem vertexPassLoop_distances (env : Env) (data : FFurSkinData) (c : Nat → Nat)
    (srcOf : Nat → FSkelMeshRenderSection)
    (hgen : ∀ (b e : Nat) (mem : List FFurSkinVertex),
      (env.GenerateFurVertices data b e mem).1.length = mem.length)
    (hL : 1 ≤ data.FurLayerCount) :
    ∀ (secs : List FSkelMeshRenderSection) (k : Nat) (s : VertexPassState),
      (∀ (i : Nat) (h : i < secs.length), secs.get ⟨i, h⟩ = srcOf (k + i)) →
      (∀ (i : Nat), i < secs.length → ∀ (tail : List FFurSkinVertex),
        (env.GenerateFurVertices data (srcOf (k + i)).BaseVertexIndex
          (u32 ((srcOf (k + i)).BaseVertexIndex + (srcOf (k + i)).NumVertices)) tail).2
          = c (k + i)) →
      s.SectionVertexOffset = data.FurLayerCount * Finset.sum (Finset.range k) c →
      data.FurLayerCount * Finset.sum (Finset.range (k + secs.length)) c < 4294967296 →
      data.FurLayerCount * Finset.sum (Finset.range (k + secs.length)) c ≤ s.Vertices.length →
      (vertexPassLoop env BuildType.Full data secs k s).Vertices.length = s.Vertices.length ∧
      (∀ j, j < s.SectionVertexOffset →
        (vertexPassLoop env BuildType.Full data secs k s).Vertices[j]? = s.Vertices[j]?) ∧
      (vertexPassLoop env BuildType.Full data secs k s).MaxDistSq =
        ((List.range' k secs.length).flatMap (fun t =>
          (List.range (c t)).flatMap (fun i =>
            vertexBoneDistances env.RefPose (srcOf t).BoneMap
              (NumInfluences data.HasExtraBoneInfluences)
              ((vertexPassLoop env BuildType.Full data secs k s).Vertices.getD
                (data.FurLayerCount * Finset.sum (Finset.range t) c + i) default)))).foldl
          max s.MaxDistSq := by
  intro secs
  induction secs with
  | nil =>
    intro k s _ _ _ _ _
    simp [vertexPassLoop]
  | cons src rest ih =>
    intro k s hsrc hc h0 hsum hmem
    have hsrc0 : src = srcOf k := by
      have := hsrc 0 (by simp)
      simpa using this
    have hck := hc 0 (by simp) (s.Vertices.drop s.SectionVertexOffset)
    rw [Nat.add_zero, ← hsrc0] at hck
    have hsplit : k + 1 + rest.length = k + (src :: rest).length := by
      simp only [List.length_cons]; omega
    have hmono : data.FurLayerCount * Finset.sum (Finset.range (k + 1)) c ≤
        data.FurLayerCount * Finset.sum (Finset.range (k + (src :: rest).length)) c :=
      Nat.mul_le_mul_left _ (sum_range_le_of_le c (by simp only [List.length_cons]; omega))
    have hstep := mul_sum_range_succ data.FurLayerCount c k
    have hoff : (vertexPassSection env BuildType.Full data k src s).SectionVertexOffset =
        data.FurLayerCount * Finset.sum (Finset.range (k + 1)) c := by
      rw [vertexPassSection_offset, hck, h0, u32_of_lt]
      · rw [hstep]; ring
      · have : data.FurLayerCount * Finset.sum (Finset.range k) c + c k * data.FurLayerCount =
            data.FurLayerCount * Finset.sum (Finset.range (k + 1)) c := by
          rw [hstep]; ring
        omega
    have hoffle : s.SectionVertexOffset ≤ s.Vertices.length := by
      rw [h0]; omega
    have hlen1 : (vertexPassSection env BuildType.Full data k src s).Vertices.length =
        s.Vertices.length := by
      rw [vertexPassSection_vertices, List.length_append, hgen, List.length_take,
        List.length_drop]
      omega
    obtain ⟨k1, k2, k3⟩ := ih (k + 1) (vertexPassSection env BuildType.Full data k src s)
      (by
        intro i h
        have := hsrc (i + 1) (by simp only [List.length_cons]; omega)
        simp only [List.get_eq_getElem, List.getElem_cons_succ] at this ⊢
        rw [this]; congr 1; omega)
      (by
        intro i h tail
        have := hc (i + 1) (by simp only [List.length_cons]; omega) tail
        have e : k + (i + 1) = k + 1 + i := by omega
        rw [e] at this
        exact this)
      hoff
      (by rw [hsplit]; exact hsum)
      (by rw [hsplit, hlen1]; exact hmem)
    have hpre : ∀ j, j < s.SectionVertexOffset →
        (vertexPassSection env BuildType.Full data k src s).Vertices[j]? = s.Vertices[j]? := by
      intro j hj
      rw [vertexPassSection_vertices, List.getElem?_append_left
        (by rw [List.length_take]; omega), List.getElem?_take_of_lt hj]
    refine ⟨?_, ?_, ?_⟩
    · simp only [vertexPassLoop]; rw [k1, hlen1]
    · intro j hj
      simp only [vertexPassLoop]
      rw [k2 j (by rw [hoff, hstep, ← h0]; omega), hpre j hj]
    · simp only [vertexPassLoop]
      rw [k3, vertexPassSection_maxDistSq, vertexDistanceLoop_eq, hck]
      simp only [List.length_cons, List.range'_succ, List.flatMap_cons, List.foldl_append,
        ← List.range_eq_range', ← hsrc0]
      congr 2
      apply flatMap_congr_mem
      intro i himem
      have hi : i < c k := List.mem_range.mp himem
      have hci : c k ≤ data.FurLayerCount * c k := Nat.le_mul_of_pos_left _ hL
      rw [h0, u32_of_lt (by omega)]
      congr 1
      rw [List.getD_eq_getElem?_getD, List.getD_eq_getElem?_getD,
        k2 _ (by rw [hoff, hstep]; omega)]

theorem foldl_max_ge_init (l : List Int) (m : Int) : m ≤ l.foldl max m := by
  induction l generalizing m with
  | nil => exact le_refl m
  | cons x l ih => exact le_trans (le_max_left m x) (ih (max m x))

/-- `foldl max m l` is the maximum of `m` and the elements of `l`. -/
theorem foldl_max_spec (l : List Int) (m : Int) :
    (∀ x, x ∈ l → x ≤ l.foldl max m) ∧ (l.foldl max m = m ∨ l.foldl max m ∈ l) := by
  induction l generalizing m with
  | nil => exact ⟨fun x hx => absurd hx (List.not_mem_nil x), Or.inl rfl⟩
  | cons y l ih =>
    obtain ⟨h1, h2⟩ := ih (max m y)
    refine ⟨?_, ?_⟩
    · intro x hx
      rcases List.mem_cons.mp hx with hxy | hxl
      · subst hxy
        exact le_trans (le_max_right m x) (foldl_max_ge_init l (max m x))
      · exact h1 x hxl
    · rcases h2 with h2 | h2
      · rcases max_cases m y with ⟨hm, _⟩ | ⟨hm, _⟩
        · left
          rw [List.foldl_cons, h2, hm]
        · right
          rw [List.foldl_cons, h2, hm]
          exact List.mem_cons_self y l
      · right
        exact List.mem_cons_of_mem y h2

theorem indexAndPublish_preserves (env : Env) (Build : BuildType) (useTemp : Bool) (n : Nat)
    (d r : FFurSkinData) (h : BuildFur_indexAndPublish env Build useTemp n d = Except.ok r) :
    r.MaxVertexBoneDistance = d.MaxVertexBoneDistance ∧ r.VertexBuffer = d.VertexBuffer := by
  unfold BuildFur_indexAndPublish at h
  split at h
  · simp only at h
    split at h
    · cases h
    · cases useTemp <;>
      · simp only [setLocalSections, Bool.false_eq_true, if_false, if_true] at h
        split at h <;>
        · cases h
          exact ⟨rfl, rfl⟩
  · cases h
    exact ⟨rfl, rfl⟩

theorem finish_preserves (env : Env) (d : FFurSkinData) :
    (BuildFur_finish env d).MaxVertexBoneDistance = d.MaxVertexBoneDistance ∧
    (BuildFur_finish env d).VertexBuffer = d.VertexBuffer := by
  unfold BuildFur_finish
  simp only
  split <;> exact ⟨rfl, rfl⟩

/-- A full build that returns after a successful lock has stored the square root of the
`MaxDistSq` of its vertex pass and the vertices of its vertex pass. -/
theorem afterLock_full_result (env : Env) (useTemp : Bool) (n : Nat) (d d1 : FFurSkinData)
    (Vertices : List FFurSkinVertex)
    (h : BuildFur_afterLock env BuildType.Full useTemp n d Vertices = Except.ok d1) :
    d1.MaxVertexBoneDistance = env.sqrtf
      (vertexPass env BuildType.Full d Vertices (getLocalSections useTemp d)).MaxDistSq ∧
    d1.VertexBuffer =
      (vertexPass env BuildType.Full d Vertices (getLocalSections useTemp d)).Vertices := by
  unfold BuildFur_afterLock at h
  simp only [if_true] at h
  cases hr : BuildFur_indexAndPublish env BuildType.Full useTemp n
      { setLocalSections useTemp
          { d with VertexBuffer :=
              (vertexPass env BuildType.Full d Vertices (getLocalSections useTemp d)).Vertices }
          (vertexPass env BuildType.Full d Vertices
            (getLocalSections useTemp d)).LocalSections with
        MaxVertexBoneDistance := env.sqrtf
          (vertexPass env BuildType.Full d Vertices (getLocalSections useTemp d)).MaxDistSq } with
  | error e => rw [hr] at h; cases h
  | ok r =>
    rw [hr] at h
    simp only [Except.map, Except.ok.injEq] at h
    subst h
    obtain ⟨p1, p2⟩ := indexAndPublish_preserves _ _ _ _ _ _ hr
    obtain ⟨q1, q2⟩ := finish_preserves env r
    rw [q1, q2, p1, p2]
    cases useTemp <;> exact ⟨rfl, rfl⟩

/-- C10, as stated, fails: for a vertex with two bone influences the build compares the
distances to both bones, not only to the dominant one.  The vertex is at distance 1 from
its dominant bone (weight 200) and at distance 10 from its second bone (weight 55); the
full build stores `MaxVertexBoneDistance = 10`, the claim gives 1. -/
theorem C10_counterexample :
    dominantSlot 4 vertexTwoBones = 0 ∧
    ∃ d, BuildFur envTwoBones BuildType.Full (newFurSkinData 1 false false) = Except.ok d ∧
      d.VertexBuffer = [vertexTwoBones] ∧
      d.MaxVertexBoneDistance = 10 ∧
      envTwoBones.sqrtf
        ((dominantBoneDistances envTwoBones.RefPose [0, 1] 4 d.VertexBuffer).foldl max 0) = 1 ∧
      d.MaxVertexBoneDistance ≠ envTwoBones.sqrtf
        ((dominantBoneDistances envTwoBones.RefPose [0, 1] 4 d.VertexBuffer).foldl max 0) :=
  ⟨by decide, _, rfl, rfl, rfl, rfl,
    fun h => absurd (show (10 : Int) = 1 from h) (by decide)⟩

/-- C10 (amended): in a full build with at least one layer in which section `s`
generates `c s` vertices per layer, nothing wraps, the vertex generator keeps the size of
the locked memory and the locked memory holds the `L * (c 0 + ... + c (n-1))` vertices,
`MaxVertexBoneDistance` is the square root of the maximum `M` of 0 and the squared
distances from the position of every first-layer vertex of every section to the
reference translation of every bone (mapped through the bone map of the section) in an
influence slot before the first slot of weight zero; a vertex whose first weight is zero
contributes nothing. -/
theorem C10_max_bone_distance (env : Env) (d : FFurSkinData) (useTemp : Bool) (n : Nat)
    (Vertices : List FFurSkinVertex) (c : Nat → Nat)
    (hc : ∀ (i : Nat), i < env.RenderSections.length → ∀ (tail : List FFurSkinVertex),
      (env.GenerateFurVertices d (env.RenderSections.getD i default).BaseVertexIndex
        (u32 ((env.RenderSections.getD i default).BaseVertexIndex +
          (env.RenderSections.getD i default).NumVertices)) tail).2 = c i)
    (hgen : ∀ (b e : Nat) (mem : List FFurSkinVertex),
      (env.GenerateFurVertices d b e mem).1.length = mem.length)
    (hL : 1 ≤ d.FurLayerCount)
    (hsum : d.FurLayerCount * Finset.sum (Finset.range env.RenderSections.length) c
      < 4294967296)
    (hmem : d.FurLayerCount * Finset.sum (Finset.range env.RenderSections.length) c
      ≤ Vertices.length) :
    (∀ d1, BuildFur_afterLock env BuildType.Full useTemp n d Vertices = Except.ok d1 →
      d1.MaxVertexBoneDistance = env.sqrtf
        ((firstLayerDistances env (NumInfluences d.HasExtraBoneInfluences) d.FurLayerCount c
          d1.VertexBuffer).foldl max 0) ∧
      (∀ x, x ∈ firstLayerDistances env (NumInfluences d.HasExtraBoneInfluences)
          d.FurLayerCount c d1.VertexBuffer →
        x ≤ (firstLayerDistances env (NumInfluences d.HasExtraBoneInfluences)
          d.FurLayerCount c d1.VertexBuffer).foldl max 0) ∧
      ((firstLayerDistances env (NumInfluences d.HasExtraBoneInfluences) d.FurLayerCount c
          d1.VertexBuffer).foldl max 0 = 0 ∨
        (firstLayerDistances env (NumInfluences d.HasExtraBoneInfluences) d.FurLayerCount c
          d1.VertexBuffer).foldl max 0 ∈
          firstLayerDistances env (NumInfluences d.HasExtraBoneInfluences) d.FurLayerCount c
            d1.VertexBuffer)) ∧
    (∀ (BoneMap : List Nat) (v : FFurSkinVertex), v.InfluenceWeights.getD 0 0 = 0 →
      vertexBoneDistances env.RefPose BoneMap (NumInfluences d.HasExtraBoneInfluences) v = []) := by
  refine ⟨?_, ?_⟩
  · intro d1 h
    obtain ⟨r1, r2⟩ := afterLock_full_result env useTemp n d d1 Vertices h
    obtain ⟨_, _, k3⟩ := vertexPassLoop_distances env d c
      (fun t => env.RenderSections.getD t default) hgen hL env.RenderSections 0
      { SectionVertexOffset := 0, MaxDistSq := 0, Vertices := Vertices,
        LocalSections := getLocalSections useTemp d }
      (by
        intro i h
        simp only [Nat.zero_add, List.get_eq_getElem, List.getD_eq_getElem?_getD,
          List.getElem?_eq_getElem h, Option.getD_some])
      (by intro i h tail; simp only [Nat.zero_add]; exact hc i h tail)
      (by simp)
      (by rw [Nat.zero_add]; exact hsum)
      (by rw [Nat.zero_add]; exact hmem)
    have hM : (vertexPass env BuildType.Full d Vertices (getLocalSections useTemp d)).MaxDistSq
        = (firstLayerDistances env (NumInfluences d.HasExtraBoneInfluences) d.FurLayerCount c
          d1.VertexBuffer).foldl max 0 := by
      rw [r2]
      unfold firstLayerDistances vertexPass
      rw [k3, ← List.range_eq_range']
    rw [r1, hM]
    exact ⟨rfl, (foldl_max_spec _ 0).1, (foldl_max_spec _ 0).2⟩
  · intro BoneMap v hv
    unfold vertexBoneDistances NumInfluences
    split
    · rw [show List.range 8 = 0 :: (List.range 7).map Nat.succ from by decide,
        List.takeWhile_cons_of_neg (by simp only [hv]; decide)]
      rfl
    · rw [show List.range 4 = 0 :: (List.range 3).map Nat.succ from by decide,
        List.takeWhile_cons_of_neg (by simp only [hv]; decide)]
      rfl

/-- C10 on the concrete mesh: the full build of the one-vertex mesh returns with
`MaxVertexBoneDistance = sqrt (max 0 1 100) = 10`. -/
theorem C10_max_bone_distance_witness :
    1 ≤ (newFurSkinData 1 false false).FurLayerCount ∧
    ∃ d1, BuildFur_afterLock envTwoBones BuildType.Full false 1
        { newFurSkinData 1 false false with Sections := [default], VertexCountPerLayer := 1 }
        [default] = Except.ok d1 ∧
      d1.MaxVertexBoneDistance = 10 ∧
      firstLayerDistances envTwoBones 4 1 (fun _ => 1) d1.VertexBuffer = [1, 100] ∧
      d1.MaxVertexBoneDistance = envTwoBones.sqrtf
        ((firstLayerDistances envTwoBones
          (NumInfluences (newFurSkinData 1 false false).HasExtraBoneInfluences)
          (newFurSkinData 1 false false).FurLayerCount (fun _ => 1)
          d1.VertexBuffer).foldl max 0) :=
  ⟨by decide, _, rfl, rfl, rfl,
    ((C10_max_bone_distance envTwoBones
      { newFurSkinData 1 false false with Sections := [default], VertexCountPerLayer := 1 }
      false 1 [default] (fun _ => 1)
      (by
        intro i hi tail
        have hi0 : i = 0 := by
          have : i < 1 := hi
          omega
        subst hi0
        rfl)
      (by
        intro b e mem
        show ((mem.take (e - b)).map (fun _ => vertexTwoBones) ++ mem.drop (e - b)).length
          = mem.length
        simp only [List.length_append, List.length_map, List.length_take, List.length_drop]
        omega)
      (by decide) (by decide) (by decide)).1 _ rfl).1⟩

/-! ## Spline generation: loops as column writes -/

/-- The body of the loop over the guide meshes returns when the guide mesh is null or has
the LOD, with the two loops run on the positions of the guide mesh. -/
theorem splinesGuideMesh_ok (N C Lod k : Nat) (g : Option USkeletalMesh) (V : List FVector)
    (hlod : ∀ mesh, g = some mesh → Lod < mesh.length) :
    splinesGuideMesh N C Lod k g V
      = Except.ok (splinesCopyLoop C k (N - min (meshPositions g Lod).length N)
          (min (meshPositions g Lod).length N)
          (splinesGuideLoop (meshPositions g Lod) C k
            (min (meshPositions g Lod).length N) 0 V)) := by
  cases g with
  | none =>
    simp only [splinesGuideMesh, meshPositions, List.length_nil, Nat.zero_min, Nat.sub_zero]
    rfl
  | some mesh =>
    simp only [splinesGuideMesh, meshPositions]
    rw [if_pos (hlod mesh rfl)]

/-- The body of the loop over the guide meshes ends in the failed range check when the
guide mesh is not null and lacks the LOD. -/
theorem splinesGuideMesh_fault (N C Lod k : Nat) (mesh : USkeletalMesh) (V : List FVector)
    (hlod : ¬ Lod < mesh.length) :
    splinesGuideMesh N C Lod k (some mesh) V = Except.error Fault.checkFailed := by
  simp only [splinesGuideMesh]
  rw [if_neg hlod]

/-- The loop over the guide meshes ends in the failed range check when one of the guide
meshes is not null and lacks the LOD. -/
theorem splinesGuideMeshes_fault (N C Lod : Nat) (rest : List (Option USkeletalMesh))
    (k : Nat) (V : List FVector)
    (h : ∃ mesh, some mesh ∈ rest ∧ ¬ Lod < mesh.length) :
    splinesGuideMeshes N C Lod rest k V = Except.error Fault.checkFailed := by
  induction rest generalizing k V with
  | nil =>
    obtain ⟨mesh, hm, _⟩ := h
    exact absurd hm (List.not_mem_nil _)
  | cons g rest ih =>
    simp only [splinesGuideMeshes]
    by_cases hg : ∀ mesh, g = some mesh → Lod < mesh.length
    · rw [splinesGuideMesh_ok N C Lod k g V hg]
      apply ih
      obtain ⟨mesh, hm, hl⟩ := h
      rcases List.mem_cons.1 hm with he | hr
      · exact absurd (hg mesh he.symm) hl
      · exact ⟨mesh, hr, hl⟩
    · have hg2 : ∃ mesh, g = some mesh ∧ ¬ Lod < mesh.length := by
        by_contra hc
        exact hg (fun mesh hm => by
          by_contra hl
          exact hc ⟨mesh, hm, hl⟩)
      obtain ⟨mesh, hm, hl⟩ := hg2
      rw [hm, splinesGuideMesh_fault N C Lod k mesh V hl]

/-- The LOD that `GenerateSplines` indexes the base mesh with is not negative and is
`splinesLod`, for an `InLod` that is not negative and a base mesh with a LOD. -/
theorem splinesLod_clamp (InSkeletalMesh : USkeletalMesh) (InLod : Int)
    (hlod : 0 ≤ InLod) (hbase : InSkeletalMesh ≠ []) :
    ¬ ((if InLod ≥ InSkeletalMesh.length then (InSkeletalMesh.length : Int) - 1 else InLod) < 0) ∧
    (if InLod ≥ InSkeletalMesh.length then (InSkeletalMesh.length : Int) - 1 else InLod).toNat
      = splinesLod InSkeletalMesh InLod := by
  have hpos : 0 < InSkeletalMesh.length := List.length_pos.2 hbase
  unfold splinesLod
  by_cases h : InLod ≥ InSkeletalMesh.length
  · rw [if_pos h, if_pos h]
    exact ⟨by omega, by omega⟩
  · rw [if_neg h, if_neg h]
    exact ⟨by omega, rfl⟩

/-- When a guide mesh that is not null lacks the LOD that is read, `GenerateSplines` ends
in the failed range check of line 1494. -/
theorem GenerateSplines_fault (Splines : UFurSplines) (InSkeletalMesh : USkeletalMesh)
    (InLod : Int) (InGuideMeshes : List (Option USkeletalMesh))
    (hlod : 0 ≤ InLod) (hbase : InSkeletalMesh ≠ [])
    (h : ¬ guidesHaveLod InGuideMeshes (splinesLod InSkeletalMesh InLod)) :
    GenerateSplines Splines InSkeletalMesh InLod InGuideMeshes
      = Except.error Fault.checkFailed := by
  obtain ⟨hc1, hc2⟩ := splinesLod_clamp InSkeletalMesh InLod hlod hbase
  have h2 : ∃ mesh, some mesh ∈ InGuideMeshes
      ∧ ¬ splinesLod InSkeletalMesh InLod < mesh.length := by
    by_contra hc
    exact h (fun mesh hm => by
      by_contra hl
      exact hc ⟨mesh, hm, hl⟩)
  unfold GenerateSplines
  simp only []
  rw [if_neg hc1, hc2, splinesGuideMeshes_fault _ _ _ _ _ _ h2]

theorem scanRegistry_miss (ce : CacheEnv) (L Lod : Int) (C : UGFurComponent)
    (reg : List FurDataObject)
    (h : ∀ o ∈ reg, FFurSkinData.Compare ce o L Lod C = false) :
    scanRegistry ce L Lod C reg = none := by
  induction reg with
  | nil => rfl
  | cons o rest ih =>
    simp only [scanRegistry, h o (List.mem_cons_self _ _), Bool.false_eq_true, if_false,
      ih (fun p hp => h p (List.mem_cons_of_mem _ hp))]

theorem scanRegistry_hit (ce : CacheEnv) (L Lod : Int) (C : UGFurComponent)
    (pre : List FurDataObject) (o : FurDataObject) (suf : List FurDataObject)
    (hpre : ∀ p ∈ pre, FFurSkinData.Compare ce p L Lod C = false)
    (ho : FFurSkinData.Compare ce o L Lod C = true) :
    scanRegistry ce L Lod C (pre ++ o :: suf)
      = some (pre ++ { o with RefCount := o.RefCount + 1 } :: suf, o.Address) := by
  induction pre with
  | nil => simp only [List.nil_append, scanRegistry, ho, if_true]
  | cons p rest ih =>
    have h1 := ih (fun q hq => hpre q (List.mem_cons_of_mem _ hq))
    show scanRegistry ce L Lod C (p :: (rest ++ o :: suf)) = _
    simp only [scanRegistry, hpre p (List.mem_cons_self _ _), Bool.false_eq_true, if_false, h1]
    rfl

theorem first_match (ce : CacheEnv) (L Lod : Int) (C : UGFurComponent)
    (reg : List FurDataObject) :
    (∀ o ∈ reg, FFurSkinData.Compare ce o L Lod C = false) ∨
    ∃ pre o suf, reg = pre ++ o :: suf ∧
      (∀ p ∈ pre, FFurSkinData.Compare ce p L Lod C = false) ∧
      FFurSkinData.Compare ce o L Lod C = true := by
  induction reg with
  | nil => exact Or.inl (fun o ho => absurd ho (List.not_mem_nil _))
  | cons a rest ih =>
    by_cases ha : FFurSkinData.Compare ce a L Lod C = true
    · exact Or.inr ⟨[], a, rest, rfl, fun p hp => absurd hp (List.not_mem_nil _), ha⟩
    · have ha2 : FFurSkinData.Compare ce a L Lod C = false := by simpa using ha
      rcases ih with h | ⟨pre, o, suf, h1, h2, h3⟩
      · refine Or.inl (fun o ho => ?_)
        rcases List.mem_cons.1 ho with rfl | ho
        · exact ha2
        · exact h o ho
      · refine Or.inr ⟨a :: pre, o, suf, by rw [h1]; rfl, fun p hp => ?_, h3⟩
        rcases List.mem_cons.1 hp with rfl | hp
        · exact ha2
        · exact h2 p hp

theorem releaseLoop_eq (hs : List Nat) (reg : List FurDataObject) :
    releaseLoop hs reg
      = reg.map (fun o => { o with RefCount := o.RefCount - (hs.count o.Address : Nat) }) := by
  induction hs generalizing reg with
  | nil =>
    simp only [releaseLoop, List.count_nil, Nat.cast_zero, sub_zero]
    exact (List.map_id _).symm
  | cons a rest ih =>
    simp only [releaseLoop]
    rw [ih, List.map_map]
    apply List.map_congr_left
    intro o _
    simp only [Function.comp, List.count_cons]
    by_cases h : o.Address = a
    · simp [h]
      omega
    · have h2 : ¬ (a = o.Address) := fun e => h e.symm
      simp [h, h2]

theorem cleanupLoop_eq (i : Nat) (pre suf : List FurDataObject) (cmds : List Nat)
    (hi : pre.length = i) :
    cleanupLoop i (pre ++ suf) cmds
      = (pre.filter (fun o => decide (o.RefCount ≠ 0)) ++ suf,
         cmds ++ ((pre.filter (fun o => decide (o.RefCount = 0))).reverse.map
           (fun o => o.Address))) := by
  induction i generalizing pre suf cmds with
  | zero =>
    obtain rfl : pre = [] := List.length_eq_zero.1 hi
    simp [cleanupLoop]
  | succ i ih =>
    obtain ⟨pre1, o, rfl⟩ : ∃ pre1 o, pre = pre1 ++ [o] := by
      rcases List.eq_nil_or_concat pre with h | ⟨l, b, h⟩
      · rw [h] at hi; simp at hi
      · exact ⟨l, b, by rw [h]; simp⟩
    have hl : pre1.length = i := by simpa using hi
    have hget : (pre1 ++ [o] ++ suf)[i]? = some o := by
      rw [List.append_assoc, List.getElem?_append_right (by omega)]
      simp [hl]
    simp only [cleanupLoop, hget]
    by_cases h0 : o.RefCount = 0
    · rw [if_pos h0]
      have herase : (pre1 ++ [o] ++ suf).eraseIdx i = pre1 ++ suf := by
        rw [List.append_assoc, List.eraseIdx_append_of_length_le (by omega)]
        simp [hl]
      rw [herase, ih pre1 suf _ hl]
      simp [List.filter_append, h0]
    · rw [if_neg h0]
      rw [List.append_assoc, ih pre1 ([o] ++ suf) _ hl]
      simp [List.filter_append, h0]

theorem FurDataCleanupTask_registry (c : FurDataCache) :
    (FurDataCleanupTask c).FurSkinData = c.FurSkinData.filter (fun o => decide (o.RefCount ≠ 0)) ∧
    (FurDataCleanupTask c).ReleaseCommands = c.ReleaseCommands ++
      ((c.FurSkinData.filter (fun o => decide (o.RefCount = 0))).reverse.map
        (fun o => o.Address)) := by
  have h := cleanupLoop_eq c.FurSkinData.length c.FurSkinData [] c.ReleaseCommands rfl
  rw [List.append_nil] at h
  simp only [FurDataCleanupTask, h, List.append_nil, and_self]

/-! ## The registry: the three ways through `CreateFurData` -/

theorem CreateFurData_check (ce : CacheEnv) (L Lod : Int) (C : UGFurComponent) (c : FurDataCache)
    (h : ¬ (L ≥ ce.MinimalFurLayerCount ∧ L ≤ ce.MaximalFurLayerCount)) :
    CreateFurData ce L Lod C c = (c, Except.error Fault.checkFailed) := by
  unfold CreateFurData
  rw [if_neg h]

theorem CreateFurData_hit (ce : CacheEnv) (L Lod : Int) (C : UGFurComponent) (c : FurDataCache)
    (pre : List FurDataObject) (o : FurDataObject) (suf : List FurDataObject)
    (hbounds : L ≥ ce.MinimalFurLayerCount ∧ L ≤ ce.MaximalFurLayerCount)
    (hreg : c.FurSkinData = pre ++ o :: suf)
    (hpre : ∀ p ∈ pre, FFurSkinData.Compare ce p L Lod C = false)
    (ho : FFurSkinData.Compare ce o L Lod C = true) :
    CreateFurData ce L Lod C c
      = ({ c with
            FurSkinData := pre ++ { o with RefCount := o.RefCount + 1 } :: suf
            Events := c.Events ++ [CacheEvent.Lock, CacheEvent.Unlock] },
          Except.ok o.Address) := by
  unfold CreateFurData
  rw [if_pos hbounds]
  simp only [hreg, scanRegistry_hit ce L Lod C pre o suf hpre ho, List.append_assoc,
    List.singleton_append]

/-- What `Set` keeps and what it stores, when it returns. -/
theorem Set_fields (ce : CacheEnv) (L Lod : Int) (C : UGFurComponent)
    (Data D : FurDataObject) (h : FFurSkinData.Set ce L Lod C Data = Except.ok D) :
    D.Address = Data.Address ∧ D.RefCount = Data.RefCount ∧ D.Config = (L, Lod, C) ∧
    D.SkeletalMesh = C.SkeletalGrowMesh ∧ D.GuideMeshes = C.SkeletalGuideMeshes := by
  unfold FFurSkinData.Set at h
  simp only [] at h
  split at h
  · exact absurd h (by simp)
  · split at h
    · exact absurd h (by simp)
    · split at h
      · exact absurd h (by simp)
      · split at h
        · split at h
          · exact absurd h (by simp)
          · injection h with h
            rw [← h]
            exact ⟨rfl, rfl, rfl, rfl, rfl⟩
        · injection h with h
          rw [← h]
          exact ⟨rfl, rfl, rfl, rfl, rfl⟩

theorem CreateFurData_miss (ce : CacheEnv) (L Lod : Int) (C : UGFurComponent) (c : FurDataCache)
    (hbounds : L ≥ ce.MinimalFurLayerCount ∧ L ≤ ce.MaximalFurLayerCount)
    (hmiss : ∀ o ∈ c.FurSkinData, FFurSkinData.Compare ce o L Lod C = false)
    (D : FurDataObject)
    (hset : FFurSkinData.Set ce L Lod C (FFurSkinData.new ce c.NextAddress) = Except.ok D)
    (d : FFurSkinData)
    (hbuild : BuildFur (ce.BuildEnv C.SkeletalGrowMesh Lod) BuildType.Full D.Data
      = Except.ok d) :
    CreateFurData ce L Lod C c
      = ({ c with
            FurSkinData := c.FurSkinData ++
              [{ Address := c.NextAddress, RefCount := ce.NewRefCount, Config := (L, Lod, C),
                 SkeletalMesh := C.SkeletalGrowMesh, GuideMeshes := C.SkeletalGuideMeshes,
                 Data := d, FurSplinesGenerated := D.FurSplinesGenerated }]
            NextAddress := c.NextAddress + 1
            Events := c.Events ++
              [CacheEvent.Lock, CacheEvent.Build c.NextAddress, CacheEvent.Unlock] },
          Except.ok c.NextAddress) := by
  obtain ⟨f1, f2, f3, f4, f5⟩ := Set_fields ce L Lod C _ D hset
  have f1b : D.Address = c.NextAddress := f1
  have f2b : D.RefCount = ce.NewRefCount := f2
  rw [← f4] at hbuild
  unfold CreateFurData
  rw [if_pos hbounds]
  simp only [scanRegistry_miss ce L Lod C _ hmiss, hset, hbuild]
  simp only [f1b, f2b, f3, f4, f5, List.append_assoc, List.singleton_append, List.cons_append,
    List.nil_append]

/-- The registry and the observations that any call of `CreateFurData` leaves. -/
theorem CreateFurData_cases (ce : CacheEnv) (L Lod : Int) (C : UGFurComponent) (c : FurDataCache) :
    (∃ e, CreateFurData ce L Lod C c = (c, Except.error e)) ∨
    (∃ pre o suf, c.FurSkinData = pre ++ o :: suf ∧
      (∀ p ∈ pre, FFurSkinData.Compare ce p L Lod C = false) ∧
      FFurSkinData.Compare ce o L Lod C = true ∧
      CreateFurData ce L Lod C c
        = ({ c with
              FurSkinData := pre ++ { o with RefCount := o.RefCount + 1 } :: suf
              Events := c.Events ++ [CacheEvent.Lock, CacheEvent.Unlock] },
            Except.ok o.Address)) ∨
    ((∀ o ∈ c.FurSkinData, FFurSkinData.Compare ce o L Lod C = false) ∧
      ((∃ e, CreateFurData ce L Lod C c
          = ({ c with NextAddress := c.NextAddress + 1
                      Events := c.Events ++ [CacheEvent.Lock] }, Except.error e)) ∨
       (∃ e, CreateFurData ce L Lod C c
          = ({ c with NextAddress := c.NextAddress + 1
                      Events := c.Events ++ [CacheEvent.Lock, CacheEvent.Build c.NextAddress] },
              Except.error e)) ∨
       (∃ d g, CreateFurData ce L Lod C c
          = ({ c with
                FurSkinData := c.FurSkinData ++
                  [{ Address := c.NextAddress, RefCount := ce.NewRefCount, Config := (L, Lod, C),
                     SkeletalMesh := C.SkeletalGrowMesh, GuideMeshes := C.SkeletalGuideMeshes,
                     Data := d, FurSplinesGenerated := g }]
                NextAddress := c.NextAddress + 1
                Events := c.Events ++
                  [CacheEvent.Lock, CacheEvent.Build c.NextAddress, CacheEvent.Unlock] },
              Except.ok c.NextAddress)))) := by
  by_cases hbounds : L ≥ ce.MinimalFurLayerCount ∧ L ≤ ce.MaximalFurLayerCount
  · rcases first_match ce L Lod C c.FurSkinData with hmiss | ⟨pre, o, suf, h1, h2, h3⟩
    · refine Or.inr (Or.inr ⟨hmiss, ?_⟩)
      cases hset : FFurSkinData.Set ce L Lod C (FFurSkinData.new ce c.NextAddress) with
      | error e =>
        refine Or.inl ⟨e, ?_⟩
        unfold CreateFurData
        rw [if_pos hbounds]
        simp only [scanRegistry_miss ce L Lod C _ hmiss, hset]
      | ok D =>
        obtain ⟨f1, _, _, f4, _⟩ := Set_fields ce L Lod C _ D hset
        have f1b : D.Address = c.NextAddress := f1
        cases hb : BuildFur (ce.BuildEnv C.SkeletalGrowMesh Lod) BuildType.Full D.Data with
        | error e =>
          refine Or.inr (Or.inl ⟨e, ?_⟩)
          rw [← f4] at hb
          unfold CreateFurData
          rw [if_pos hbounds]
          simp only [scanRegistry_miss ce L Lod C _ hmiss, hset, hb]
          simp only [f1b, List.append_assoc, List.singleton_append, List.cons_append,
            List.nil_append]
        | ok d =>
          exact Or.inr (Or.inr ⟨d, _,
            CreateFurData_miss ce L Lod C c hbounds hmiss D hset d hb⟩)
    · exact Or.inr (Or.inl ⟨pre, o, suf, h1, h2, h3,
        CreateFurData_hit ce L Lod C c pre o suf hbounds h1 h2 h3⟩)
  · exact Or.inl ⟨_, CreateFurData_check ce L Lod C c hbounds⟩

theorem find_fresh (reg : List FurDataObject) (n : FurDataObject) (suf : List FurDataObject)
    (a : Nat) (hn : n.Address = a) (h : ∀ o ∈ reg, o.Address ≠ a) :
    (reg ++ n :: suf).find? (fun o => decide (o.Address = a)) = some n := by
  induction reg with
  | nil => simp [hn]
  | cons b rest ih =>
    have hb : b.Address ≠ a := h b (List.mem_cons_self _ _)
    simp only [List.cons_append, List.find?_cons, hb, decide_False]
    exact ih (fun o ho => h o (List.mem_cons_of_mem _ ho))

theorem nodup_prefix_ne (pre : List FurDataObject) (o : FurDataObject) (suf : List FurDataObject)
    (h : ((pre ++ o :: suf).map (fun x => x.Address)).Nodup) :
    (∀ p ∈ pre, p.Address ≠ o.Address) ∧ (∀ p ∈ suf, p.Address ≠ o.Address) := by
  rw [List.map_append, List.map_cons, List.nodup_append] at h
  obtain ⟨_, h2, h3⟩ := h
  constructor
  · intro p hp heq
    exact h3 (List.mem_map_of_mem _ hp) (by rw [heq]; exact List.mem_cons_self _ _)
  · intro p hp heq
    exact (List.nodup_cons.1 h2).1 (by rw [← heq]; exact List.mem_map_of_mem _ hp)

theorem cacheRun_cleanup (ce : CacheEnv) (ops : List CacheOp) (c : FurDataCache)
    (h : c.CleanupTasks ≠ 0) :
    cacheRun ce (CacheOp.Cleanup :: ops) c = cacheRun ce ops (FurDataCleanupTask c) := by
  simp only [cacheRun, if_neg h]

theorem CreateFurData_refcounts (ce : CacheEnv) (hnew : 0 ≤ ce.NewRefCount) (L Lod : Int)
    (C : UGFurComponent) (c : FurDataCache) (hinv : ∀ o ∈ c.FurSkinData, 0 ≤ o.RefCount) :
    ∀ o ∈ (CreateFurData ce L Lod C c).1.FurSkinData, 0 ≤ o.RefCount := by
  rcases CreateFurData_cases ce L Lod C c with ⟨e, he⟩ | ⟨pre, o, suf, hreg, _, _, he⟩ |
      ⟨_, ⟨e, he⟩ | ⟨e, he⟩ | ⟨d, g, he⟩⟩
  · rw [he]; exact hinv
  · rw [he]
    intro p hp
    rw [hreg] at hinv
    rcases List.mem_append.1 hp with hp | hp
    · exact hinv p (List.mem_append_left _ hp)
    · rcases List.mem_cons.1 hp with rfl | hp
      · have := hinv o (List.mem_append_right _ (List.mem_cons_self _ _))
        show 0 ≤ o.RefCount + 1
        omega
      · exact hinv p (List.mem_append_right _ (List.mem_cons_of_mem _ hp))
  · rw [he]; exact hinv
  · rw [he]; exact hinv
  · rw [he]
    intro p hp
    rcases List.mem_append.1 hp with hp | hp
    · exact hinv p hp
    · rw [List.mem_singleton.1 hp]; exact hnew

theorem DestroyFurData_refcounts (hs : List Nat) (c : FurDataCache)
    (h : releasesHeld hs c = true) :
    ∀ o ∈ (DestroyFurData hs c).FurSkinData, 0 ≤ o.RefCount := by
  intro o ho
  have ho2 : o ∈ releaseLoop hs c.FurSkinData := ho
  rw [releaseLoop_eq] at ho2
  obtain ⟨p, hp, rfl⟩ := List.mem_map.1 ho2
  unfold releasesHeld at h
  have := List.all_eq_true.1 h p hp
  have h2 : (↑(List.count p.Address hs) : Int) ≤ p.RefCount := by simpa using this
  show 0 ≤ p.RefCount - ↑(List.count p.Address hs)
  omega

theorem FurDataCleanupTask_refcounts (c : FurDataCache)
    (hinv : ∀ o ∈ c.FurSkinData, 0 ≤ o.RefCount) :
    ∀ o ∈ (FurDataCleanupTask c).FurSkinData, 0 ≤ o.RefCount := by
  intro o ho
  rw [(FurDataCleanupTask_registry c).1] at ho
  exact hinv o (List.mem_of_mem_filter ho)

theorem Compare_of_key {κ : Type} (ce : CacheEnv) (K : Int × Int × UGFurComponent → κ)
    (hcmp : ∀ s L Lod C, ce.FFurData_Compare s L Lod C = true ↔ K s = K (L, Lod, C))
    (o : FurDataObject) (L Lod : Int) (C : UGFurComponent) :
    FFurSkinData.Compare ce o L Lod C = true ↔
      (K o.Config = K (L, Lod, C) ∧ o.SkeletalMesh = C.SkeletalGrowMesh
        ∧ o.GuideMeshes = C.SkeletalGuideMeshes) := by
  simp only [FFurSkinData.Compare, Bool.and_eq_true, decide_eq_true_eq, hcmp, and_assoc]

theorem CreateFurData_matchCount {κ : Type} (ce : CacheEnv) (K : Int × Int × UGFurComponent → κ)
    (hcmp : ∀ s L Lod C, ce.FFurData_Compare s L Lod C = true ↔ K s = K (L, Lod, C))
    (L Lod : Int) (C : UGFurComponent) (c : FurDataCache)
    (hinv : ∀ L2 Lod2 C2, matchCount ce L2 Lod2 C2 c.FurSkinData ≤ 1) :
    ∀ L2 Lod2 C2, matchCount ce L2 Lod2 C2 (CreateFurData ce L Lod C c).1.FurSkinData ≤ 1 := by
  intro L2 Lod2 C2
  rcases CreateFurData_cases ce L Lod C c with ⟨e, he⟩ | ⟨pre, o, suf, hreg, _, _, he⟩ |
      ⟨hmiss, ⟨e, he⟩ | ⟨e, he⟩ | ⟨d, g, he⟩⟩
  · rw [he]; exact hinv L2 Lod2 C2
  · rw [he]
    have h := hinv L2 Lod2 C2
    rw [hreg] at h
    unfold matchCount at h ⊢
    simp only [List.countP_append, List.countP_cons] at h ⊢
    exact h
  · rw [he]; exact hinv L2 Lod2 C2
  · rw [he]; exact hinv L2 Lod2 C2
  · rw [he]
    have h := hinv L2 Lod2 C2
    unfold matchCount at h ⊢
    simp only [List.countP_append, List.countP_cons, List.countP_nil, Nat.zero_add]
    split
    · next hn =>
      obtain ⟨k1, k2, k3⟩ := (Compare_of_key ce K hcmp _ L2 Lod2 C2).1 hn
      have hz : List.countP (fun o => FFurSkinData.Compare ce o L2 Lod2 C2) c.FurSkinData = 0 := by
        rw [List.countP_eq_zero]
        intro o ho hc
        obtain ⟨j1, j2, j3⟩ := (Compare_of_key ce K hcmp o L2 Lod2 C2).1 hc
        have : FFurSkinData.Compare ce o L Lod C = true :=
          (Compare_of_key ce K hcmp o L Lod C).2
            ⟨j1.trans k1.symm, j2.trans k2.symm, j3.trans k3.symm⟩
        rw [hmiss o ho] at this
        exact Bool.false_ne_true this
      rw [hz]
    · omega

theorem DestroyFurData_matchCount (ce : CacheEnv) (hs : List Nat) (c : FurDataCache)
    (L Lod : Int) (C : UGFurComponent) :
    matchCount ce L Lod C (DestroyFurData hs c).FurSkinData
      = matchCount ce L Lod C c.FurSkinData := by
  show matchCount ce L Lod C (releaseLoop hs c.FurSkinData) = _
  rw [releaseLoop_eq]
  unfold matchCount
  rw [List.countP_map]
  rfl

theorem FurDataCleanupTask_matchCount (ce : CacheEnv) (c : FurDataCache)
    (L Lod : Int) (C : UGFurComponent) :
    matchCount ce L Lod C (FurDataCleanupTask c).FurSkinData
      ≤ matchCount ce L Lod C c.FurSkinData := by
  rw [(FurDataCleanupTask_registry c).1]
  exact List.Sublist.countP_le _ (List.filter_sublist _)

/-! ## C13 -/

/-- C13: when the layer count passes the check and `o` is the first object of the
registry that compares equal to the configuration, `CreateFurData` returns the address of
`o` and leaves the registry as it was except that `RefCount` of `o` is greater by exactly
1; the observations it adds are the lock and the unlock, no build; the length of the
registry and all other objects are unchanged. -/
theorem C13_hit_shares_entry (ce : CacheEnv) (L Lod : Int) (C : UGFurComponent)
    (c : FurDataCache) (pre : List FurDataObject) (o : FurDataObject) (suf : List FurDataObject)
    (hbounds : L ≥ ce.MinimalFurLayerCount ∧ L ≤ ce.MaximalFurLayerCount)
    (hreg : c.FurSkinData = pre ++ o :: suf)
    (hpre : ∀ p ∈ pre, FFurSkinData.Compare ce p L Lod C = false)
    (ho : FFurSkinData.Compare ce o L Lod C = true) :
    CreateFurData ce L Lod C c
      = ({ c with
            FurSkinData := pre ++ { o with RefCount := o.RefCount + 1 } :: suf
            Events := c.Events ++ [CacheEvent.Lock, CacheEvent.Unlock] },
          Except.ok o.Address) ∧
    (CreateFurData ce L Lod C c).1.FurSkinData.length = c.FurSkinData.length ∧
    (CreateFurData ce L Lod C c).1.NextAddress = c.NextAddress := by
  have h := CreateFurData_hit ce L Lod C c pre o suf hbounds hreg hpre ho
  refine ⟨h, ?_, ?_⟩
  · rw [h, hreg]; simp
  · rw [h]

/-- C13 on a concrete registry: a second `CreateFurData(2, 0, componentQuad)` returns the
registered object at address 0 with `RefCount` 2 and adds no build. -/
theorem C13_hit_shares_entry_witness :
    cacheOneEntry.FurSkinData = [] ++ objectQuad :: [] ∧
    FFurSkinData.Compare exampleCacheEnv objectQuad 2 0 componentQuad = true ∧
    CreateFurData exampleCacheEnv 2 0 componentQuad cacheOneEntry
      = ({ cacheOneEntry with
            FurSkinData := [{ objectQuad with RefCount := 2 }]
            Events := cacheOneEntry.Events ++ [CacheEvent.Lock, CacheEvent.Unlock] },
          Except.ok 0) :=
  ⟨rfl, rfl,
    (C13_hit_shares_entry exampleCacheEnv 2 0 componentQuad cacheOneEntry [] objectQuad []
      (by decide) rfl (fun p hp => absurd hp (List.not_mem_nil _)) rfl).1⟩

/-! ## C14 -/

/-- C15, counterexample: the object is created (held once) and released twice; after the
second `DestroyFurData` its `RefCount` is -1, and the two cleanup tasks leave it
registered. -/
theorem C15_counterexample :
    refCountOf (cacheRun exampleCacheEnv
      [CacheOp.Create 2 0 componentQuad, CacheOp.Destroy [0], CacheOp.Destroy [0]]
      emptyCache) 0 = some (-1) ∧
    refCountOf (cacheRun exampleCacheEnv
      [CacheOp.Create 2 0 componentQuad, CacheOp.Destroy [0], CacheOp.Destroy [0],
        CacheOp.Cleanup, CacheOp.Cleanup]
      emptyCache) 0 = some (-1) := by
  decide

theorem refcounts_of_balanced (ce : CacheEnv) (hnew : 0 ≤ ce.NewRefCount)
    (ops : List CacheOp) (c : FurDataCache)
    (hinv : ∀ o ∈ c.FurSkinData, 0 ≤ o.RefCount)
    (hbal : balancedRun ce ops c = true) :
    ∀ o ∈ (cacheRun ce ops c).FurSkinData, 0 ≤ o.RefCount := by
  induction ops generalizing c with
  | nil => exact hinv
  | cons op ops ih =>
    cases op with
    | Create L Lod C =>
      have h1 := CreateFurData_refcounts ce hnew L Lod C c hinv
      simp only [cacheRun, balancedRun] at hbal ⊢
      cases hr : CreateFurData ce L Lod C c with
      | mk c1 r =>
        rw [hr] at hbal h1
        cases r with
        | error e => exact h1
        | ok a => exact ih c1 h1 hbal
    | Destroy hs =>
      simp only [cacheRun, balancedRun, Bool.and_eq_true] at hbal ⊢
      exact ih _ (DestroyFurData_refcounts hs c hbal.1) hbal.2
    | Cleanup =>
      simp only [cacheRun, balancedRun] at hbal ⊢
      by_cases h0 : c.CleanupTasks = 0
      · rw [if_pos h0] at hbal ⊢
        exact ih c hinv hbal
      · rw [if_neg h0] at hbal ⊢
        exact ih _ (FurDataCleanupTask_refcounts c hinv) hbal

theorem balancedRun_take (ce : CacheEnv) (ops : List CacheOp) (n : Nat) (c : FurDataCache)
    (hbal : balancedRun ce ops c = true) : balancedRun ce (ops.take n) c = true := by
  induction ops generalizing n c with
  | nil => rw [List.take_nil]; rfl
  | cons op ops ih =>
    cases n with
    | zero => rfl
    | succ n =>
      rw [List.take_succ_cons]
      cases op with
      | Create L Lod C =>
        simp only [balancedRun] at hbal ⊢
        cases hr : CreateFurData ce L Lod C c with
        | mk c1 r =>
          rw [hr] at hbal
          cases r with
          | error e => rfl
          | ok a => exact ih n c1 hbal
      | Destroy hs =>
        simp only [balancedRun, Bool.and_eq_true] at hbal ⊢
        exact ⟨hbal.1, ih n _ hbal.2⟩
      | Cleanup =>
        simp only [balancedRun] at hbal ⊢
        by_cases h0 : c.CleanupTasks = 0
        · rw [if_pos h0] at hbal ⊢
          exact ih n c hbal
        · rw [if_neg h0] at hbal ⊢
          exact ih n _ hbal

/-- C15, amended: when a new object starts with a `RefCount` that is not negative, and
every `DestroyFurData` of the run is passed each registered object at most as many times
as its current `RefCount`, then from a registry without a negative `RefCount` no
`RefCount` is negative after any number `n` of the operations of a run of
`CreateFurData`, `DestroyFurData` and cleanup tasks. -/
theorem C15_refcount_not_negative (ce : CacheEnv) (hnew : 0 ≤ ce.NewRefCount)
    (ops : List CacheOp) (c : FurDataCache)
    (hinv : ∀ o ∈ c.FurSkinData, 0 ≤ o.RefCount)
    (hbal : balancedRun ce ops c = true) :
    ∀ n, ∀ o ∈ (cacheRun ce (ops.take n) c).FurSkinData, 0 ≤ o.RefCount :=
  fun n => refcounts_of_balanced ce hnew (ops.take n) c hinv (balancedRun_take ce ops n c hbal)

/-- C15 on a concrete run: create, create again, release twice with a cleanup in between:
the run is balanced and no `RefCount` is negative at its end. -/
theorem C15_refcount_not_negative_witness :
    balancedRun exampleCacheEnv
      [CacheOp.Create 2 0 componentQuad, CacheOp.Create 2 0 componentQuad, CacheOp.Destroy [0],
        CacheOp.Cleanup, CacheOp.Destroy [0]] emptyCache = true ∧
    refCountOf (cacheRun exampleCacheEnv
      [CacheOp.Create 2 0 componentQuad, CacheOp.Create 2 0 componentQuad, CacheOp.Destroy [0],
        CacheOp.Cleanup, CacheOp.Destroy [0]] emptyCache) 0 = some 0 ∧
    ∀ o ∈ (cacheRun exampleCacheEnv
      [CacheOp.Create 2 0 componentQuad, CacheOp.Create 2 0 componentQuad, CacheOp.Destroy [0],
        CacheOp.Cleanup, CacheOp.Destroy [0]] emptyCache).FurSkinData, 0 ≤ o.RefCount :=
  ⟨by decide, by decide,
    C15_refcount_not_negative exampleCacheEnv (by decide)
      [CacheOp.Create 2 0 componentQuad, CacheOp.Create 2 0 componentQuad, CacheOp.Destroy [0],
        CacheOp.Cleanup, CacheOp.Destroy [0]] emptyCache
      (fun o ho => absurd ho (List.not_mem_nil _)) (by decide) 5⟩

/-! ## C16 -/

/-- C16: when `o`, with `RefCount` 0, is the first registered object that compares equal
to the configuration (and registered objects have distinct addresses), `CreateFurData`
returns its address with `RefCount` 1 and adds no build, and the cleanup task that runs
afterwards keeps the object registered and enqueues no command that deletes it. -/
theorem C16_revival_before_cleanup (ce : CacheEnv) (L Lod : Int) (C : UGFurComponent)
    (c : FurDataCache) (pre : List FurDataObject) (o : FurDataObject) (suf : List FurDataObject)
    (hbounds : L ≥ ce.MinimalFurLayerCount ∧ L ≤ ce.MaximalFurLayerCount)
    (hreg : c.FurSkinData = pre ++ o :: suf)
    (hpre : ∀ p ∈ pre, FFurSkinData.Compare ce p L Lod C = false)
    (ho : FFurSkinData.Compare ce o L Lod C = true)
    (h0 : o.RefCount = 0)
    (hnodup : (c.FurSkinData.map (fun x => x.Address)).Nodup) :
    ∃ c1, CreateFurData ce L Lod C c = (c1, Except.ok o.Address) ∧
      refCountOf c1 o.Address = some 1 ∧
      c1.Events = c.Events ++ [CacheEvent.Lock, CacheEvent.Unlock] ∧
      { o with RefCount := 1 } ∈ (FurDataCleanupTask c1).FurSkinData ∧
      refCountOf (FurDataCleanupTask c1) o.Address = some 1 ∧
      (FurDataCleanupTask c1).ReleaseCommands.count o.Address
        = c.ReleaseCommands.count o.Address := by
  have h := CreateFurData_hit ce L Lod C c pre o suf hbounds hreg hpre ho
  rw [hreg] at hnodup
  obtain ⟨hne1, hne2⟩ := nodup_prefix_ne pre o suf hnodup
  have hrc : ({ o with RefCount := o.RefCount + 1 } : FurDataObject) = { o with RefCount := 1 } := by
    rw [h0]; rfl
  rw [hrc] at h
  refine ⟨_, h, ?_, rfl, ?_, ?_, ?_⟩
  · unfold refCountOf
    exact congrArg _ (find_fresh pre { o with RefCount := 1 } suf o.Address rfl hne1)
  · rw [(FurDataCleanupTask_registry _).1]
    simp
  · unfold refCountOf
    rw [(FurDataCleanupTask_registry _).1]
    simp only [List.filter_append, List.filter_cons]
    rw [if_pos (by simp)]
    exact congrArg _ (find_fresh _ { o with RefCount := 1 } _ o.Address rfl
      (fun p hp => hne1 p (List.mem_of_mem_filter hp)))
  · rw [(FurDataCleanupTask_registry _).2]
    simp only [List.filter_append, List.filter_cons, List.count_append]
    rw [if_neg (by simp)]
    rw [← List.filter_append]
    have hc : List.count o.Address (List.map (fun x => x.Address)
        (List.filter (fun x => decide (x.RefCount = 0)) (pre ++ suf)).reverse) = 0 := by
      rw [List.count_eq_zero]
      intro hmem
      obtain ⟨p, hp, hpa⟩ := List.mem_map.1 hmem
      rcases List.mem_append.1 (List.mem_of_mem_filter (List.mem_reverse.1 hp)) with hp | hp
      · exact hne1 p hp hpa
      · exact hne2 p hp hpa
    rw [hc]
    rfl

/-- C16 on a concrete run: the object at address 0 was created, then released to
`RefCount` 0; a `CreateFurData` with its configuration before the cleanup revives it, and the
cleanup task leaves it registered. -/
theorem C16_revival_before_cleanup_witness :
    cacheReleased.FurSkinData = [] ++ { objectQuad with RefCount := 0 } :: [] ∧
    cacheReleased.CleanupTasks = 1 ∧
    ∃ c1, CreateFurData exampleCacheEnv 2 0 componentQuad cacheReleased = (c1, Except.ok 0) ∧
      refCountOf c1 0 = some 1 ∧
      c1.Events = cacheReleased.Events ++ [CacheEvent.Lock, CacheEvent.Unlock] ∧
      { objectQuad with RefCount := 1 } ∈ (FurDataCleanupTask c1).FurSkinData ∧
      refCountOf (FurDataCleanupTask c1) 0 = some 1 ∧
      (FurDataCleanupTask c1).ReleaseCommands.count 0 = cacheReleased.ReleaseCommands.count 0 :=
  ⟨rfl, rfl,
    C16_revival_before_cleanup exampleCacheEnv 2 0 componentQuad cacheReleased []
      { objectQuad with RefCount := 0 } [] (by decide) rfl
      (fun p hp => absurd hp (List.not_mem_nil _)) rfl rfl (by decide)⟩

/-! ## C17 -/

/-- C17, counterexample: the first `CreateFurData(2, 0, componentQuad)` takes the lock,
runs the full build of the new object and releases the lock only then: the build runs
while the lock is held. -/
theorem C17_counterexample :
    (CreateFurData exampleCacheEnv 2 0 componentQuad emptyCache).1.Events
      = [CacheEvent.Lock, CacheEvent.Build 0, CacheEvent.Unlock] ∧
    buildsOutsideLock false
      (CreateFurData exampleCacheEnv 2 0 componentQuad emptyCache).1.Events = false := by
  decide

/-- C17, amended: the scope lock of `CreateFurData` is held from after the check of the
layer count to the end of the function.  A call that returns has observed either the lock
and the unlock only (a hit) or the lock, the full build of the new object and then the
unlock (a miss); a call that ends in a fault has observed nothing, the lock, or the lock
and the build.  In every case each build runs while the lock is held. -/
theorem C17_build_under_lock (ce : CacheEnv) (L Lod : Int) (C : UGFurComponent)
    (c : FurDataCache) :
    ∃ tail, (CreateFurData ce L Lod C c).1.Events = c.Events ++ tail ∧
      buildsUnderLock false tail = true ∧
      ((∃ a, (CreateFurData ce L Lod C c).2 = Except.ok a ∧
          (tail = [CacheEvent.Lock, CacheEvent.Unlock] ∨
           (a = c.NextAddress ∧
             tail = [CacheEvent.Lock, CacheEvent.Build a, CacheEvent.Unlock]))) ∨
       (∃ e, (CreateFurData ce L Lod C c).2 = Except.error e ∧
          (tail = [] ∨ tail = [CacheEvent.Lock] ∨
           tail = [CacheEvent.Lock, CacheEvent.Build c.NextAddress]))) := by
  rcases CreateFurData_cases ce L Lod C c with ⟨e, he⟩ | ⟨pre, o, suf, _, _, _, he⟩ |
      ⟨_, ⟨e, he⟩ | ⟨e, he⟩ | ⟨d, g, he⟩⟩
  · exact ⟨[], by rw [he, List.append_nil], rfl, Or.inr ⟨e, by rw [he], Or.inl rfl⟩⟩
  · exact ⟨[CacheEvent.Lock, CacheEvent.Unlock], by rw [he], rfl,
      Or.inl ⟨_, by rw [he], Or.inl rfl⟩⟩
  · exact ⟨[CacheEvent.Lock], by rw [he], rfl, Or.inr ⟨e, by rw [he], Or.inr (Or.inl rfl)⟩⟩
  · exact ⟨[CacheEvent.Lock, CacheEvent.Build c.NextAddress], by rw [he], rfl,
      Or.inr ⟨e, by rw [he], Or.inr (Or.inr rfl)⟩⟩
  · exact ⟨[CacheEvent.Lock, CacheEvent.Build c.NextAddress, CacheEvent.Unlock], by rw [he], rfl,
      Or.inl ⟨_, by rw [he], Or.inr ⟨rfl, rfl⟩⟩⟩

/-! ## C18 -/

/-- C18: when `FFurData::Compare` holds exactly between what `FFurData::Set` stored and the
arguments with the same key `K` (an object compares equal exactly to the configuration
it was set with), then from a registry in which no configuration is matched by two
objects, every run of `CreateFurData`, `DestroyFurData` and cleanup tasks ends in such a
registry; and a `CreateFurData` for a configuration that a registered object matches
performs no build. -/
theorem C18_one_entry_per_configuration {κ : Type} (ce : CacheEnv)
    (K : Int × Int × UGFurComponent → κ)
    (hcmp : ∀ s L Lod C, ce.FFurData_Compare s L Lod C = true ↔ K s = K (L, Lod, C))
    (ops : List CacheOp) (c : FurDataCache)
    (hinv : ∀ L Lod C, matchCount ce L Lod C c.FurSkinData ≤ 1) :
    (∀ L Lod C, matchCount ce L Lod C (cacheRun ce ops c).FurSkinData ≤ 1) ∧
    (∀ L Lod C, L ≥ ce.MinimalFurLayerCount ∧ L ≤ ce.MaximalFurLayerCount →
      1 ≤ matchCount ce L Lod C (cacheRun ce ops c).FurSkinData →
      (CreateFurData ce L Lod C (cacheRun ce ops c)).1.Events
        = (cacheRun ce ops c).Events ++ [CacheEvent.Lock, CacheEvent.Unlock]) := by
  constructor
  · induction ops generalizing c with
    | nil => exact hinv
    | cons op ops ih =>
      cases op with
      | Create L Lod C =>
        have h1 := CreateFurData_matchCount ce K hcmp L Lod C c hinv
        simp only [cacheRun]
        cases hr : CreateFurData ce L Lod C c with
        | mk c1 r =>
          rw [hr] at h1
          cases r with
          | error e => exact h1
          | ok a => exact ih c1 h1
      | Destroy hs =>
        simp only [cacheRun]
        exact ih _ (fun L Lod C => by rw [DestroyFurData_matchCount]; exact hinv L Lod C)
      | Cleanup =>
        simp only [cacheRun]
        by_cases h0 : c.CleanupTasks = 0
        · rw [if_pos h0]
          exact ih c hinv
        · rw [if_neg h0]
          exact ih _ (fun L Lod C =>
            Nat.le_trans (FurDataCleanupTask_matchCount ce c L Lod C) (hinv L Lod C))
  · intro L Lod C hbounds hcount
    rcases first_match ce L Lod C (cacheRun ce ops c).FurSkinData with
      hmiss | ⟨pre, o, suf, h1, h2, h3⟩
    · exfalso
      have hz : matchCount ce L Lod C (cacheRun ce ops c).FurSkinData = 0 := by
        unfold matchCount
        rw [List.countP_eq_zero]
        intro o ho hc
        rw [hmiss o ho] at hc
        exact Bool.false_ne_true hc
      omega
    · rw [CreateFurData_hit ce L Lod C _ pre o suf hbounds h1 h2 h3]

/-- C18 on a concrete run: after three calls for two configurations, one release and a
cleanup, the two registered objects match one configuration each, and the comparison of
`exampleCacheEnv` is the equality of layer count, LOD and properties. -/
theorem C18_one_entry_per_configuration_witness :
    ((cacheRun exampleCacheEnv
        [CacheOp.Create 2 0 componentQuad, CacheOp.Create 3 0 componentQuad,
          CacheOp.Create 2 0 componentQuad, CacheOp.Destroy [0], CacheOp.Cleanup]
        emptyCache).FurSkinData.map (fun o => (o.Address, o.RefCount))) = [(0, 1), (1, 1)] ∧
    (∀ L Lod C, matchCount exampleCacheEnv L Lod C (cacheRun exampleCacheEnv
        [CacheOp.Create 2 0 componentQuad, CacheOp.Create 3 0 componentQuad,
          CacheOp.Create 2 0 componentQuad, CacheOp.Destroy [0], CacheOp.Cleanup]
        emptyCache).FurSkinData ≤ 1) :=
  ⟨by decide,
    (C18_one_entry_per_configuration exampleCacheEnv
      (fun s => (s.1, s.2.1, s.2.2.Properties))
      (fun s L Lod C => by
        simp only [exampleCacheEnv, Bool.and_eq_true, decide_eq_true_eq, Prod.mk.injEq, and_assoc])
      _ emptyCache (fun _ _ _ => Nat.zero_le _)).1⟩

/-! ## C19 -/

/-- C19: with a layer count below `MinimalFurLayerCount` or above `MaximalFurLayerCount`,
`CreateFurData` ends in the fault of a failed check and leaves the whole registry state,
every `RefCount` and the observations included, as it was: the lock is not taken and the
registry is not scanned.  With a layer count within the bounds the call passes the check:
it takes the lock. -/
theorem C19_layer_count_check (ce : CacheEnv) (L Lod : Int) (C : UGFurComponent)
    (c : FurDataCache) :
    ((L < ce.MinimalFurLayerCount ∨ ce.MaximalFurLayerCount < L) →
      CreateFurData ce L Lod C c = (c, Except.error Fault.checkFailed)) ∧
    ((ce.MinimalFurLayerCount ≤ L ∧ L ≤ ce.MaximalFurLayerCount) →
      ∃ tail, (CreateFurData ce L Lod C c).1.Events = c.Events ++ CacheEvent.Lock :: tail) := by
  constructor
  · intro h
    exact CreateFurData_check ce L Lod C c (by omega)
  · intro h
    have hb : L ≥ ce.MinimalFurLayerCount ∧ L ≤ ce.MaximalFurLayerCount := ⟨h.1, h.2⟩
    rcases CreateFurData_cases ce L Lod C c with ⟨e, he⟩ | ⟨pre, o, suf, _, _, _, he⟩ |
        ⟨_, ⟨e, he⟩ | ⟨e, he⟩ | ⟨d, g, he⟩⟩
    · exfalso
      unfold CreateFurData at he
      rw [if_pos hb] at he
      have h1 := congrArg (fun r => r.1.Events.length) he
      revert h1
      simp only []
      split
      · simp
      · split
        · simp
        · split <;> simp
    · exact ⟨[CacheEvent.Unlock], by rw [he]⟩
    · exact ⟨[], by rw [he]⟩
    · exact ⟨[CacheEvent.Build c.NextAddress], by rw [he]⟩
    · exact ⟨[CacheEvent.Build c.NextAddress, CacheEvent.Unlock], by rw [he]⟩

/-- C19 on concrete calls: layer counts 0 and 200 fail the check of the bounds 1 and 128 and
leave the registry untouched; layer count 3 takes the lock. -/
theorem C19_layer_count_check_witness :
    CreateFurData exampleCacheEnv 0 0 componentQuad cacheOneEntry
      = (cacheOneEntry, Except.error Fault.checkFailed) ∧
    CreateFurData exampleCacheEnv 200 0 componentQuad cacheOneEntry
      = (cacheOneEntry, Except.error Fault.checkFailed) ∧
    ∃ tail, (CreateFurData exampleCacheEnv 3 0 componentQuad cacheOneEntry).1.Events
      = cacheOneEntry.Events ++ CacheEvent.Lock :: tail :=
  ⟨(C19_layer_count_check exampleCacheEnv 0 0 componentQuad cacheOneEntry).1
      (Or.inl (by decide)),
    (C19_layer_count_check exampleCacheEnv 200 0 componentQuad cacheOneEntry).1
      (Or.inr (by decide)),
    (C19_layer_count_check exampleCacheEnv 3 0 componentQuad cacheOneEntry).2
      ⟨by decide, by decide⟩⟩


/-! ## C20 -/

theorem u32sub_one_of_le_one (n : Nat) (h : n ≤ 1) : u32sub 1 n = 1 - n := by
  have h2 : n = 0 ∨ n = 1 := by omega
  rcases h2 with rfl | rfl <;> rfl

theorem createIfInvalid_getD {α : Type} [Inhabited α] (Slots : List (Option (List α)))
    (i size : Nat) (hi : i < Slots.length) :
    ∃ b, (createIfInvalid Slots i size).getD i none = some b ∧
      (Slots.getD i none = some b ∨ b = List.replicate size default) := by
  unfold createIfInvalid
  cases hs : Slots.getD i none with
  | some b =>
    refine ⟨b, ?_, Or.inl rfl⟩
    simp only [Option.isSome_some, if_true, hs]
  | none =>
    refine ⟨List.replicate size default, ?_, Or.inr rfl⟩
    simp only [Option.isSome_none, Bool.false_eq_true, if_false]
    exact getD_set_eq _ _ _ _ hi

theorem UpdateBoneData_returns (toFloat : Int → Int) (ReferenceToLocalMatrices : List FMatrix)
    (LinearOffsets AngularOffsets : List FVector) (LastTransformations : List FMatrix)
    (BoneMap : List Nat) (InDiscontinuous : Bool) (InFeatureLevel : ERHIFeatureLevel)
    (sd : FShaderDataType) (G : List Int) (hcur : sd.CurrentBuffer ≤ 1)
    (hlev : InFeatureLevel.toNat ≥ ERHIFeatureLevel.ES3_1.toNat)
    (hN : BoneMap.length ≤ MaxGPUSkinBones)
    (hB : sd.BoneBuffer.length = 2) (hO : sd.BoneFurOffsetsBuffer.length = 2)
    (hb : ∀ b, sd.BoneBuffer.getD (1 - sd.CurrentBuffer) none = some b →
      BoneMap.length * 12 ≤ b.length)
    (ho : ∀ o, sd.BoneFurOffsetsBuffer.getD (1 - sd.CurrentBuffer) none = some o →
      BoneMap.length * 3 ≤ o.length) :
    ∃ sd1 G1, UpdateBoneData toFloat ReferenceToLocalMatrices LinearOffsets AngularOffsets
      LastTransformations BoneMap InDiscontinuous InFeatureLevel sd G = Except.ok (sd1, G1) := by
  have hN2 : BoneMap.length ≤ 256 := hN
  have hu : u32 (BoneMap.length * 3) = BoneMap.length * 3 := u32_of_lt (by omega)
  have hidx : ∀ d, GetBoneBufferInternal (GoToNextFrame d sd) false = 1 - sd.CurrentBuffer := by
    intro d
    simp [GetBoneBufferInternal, GoToNextFrame, u32sub_one_of_le_one _ hcur]
  have hidx2 : ∀ (d : Bool) (B : List (Option (List Int))),
      GetBoneFurOffsetsBufferInternal { GoToNextFrame d sd with BoneBuffer := B } false
        = 1 - sd.CurrentBuffer := by
    intro d B
    simp [GetBoneFurOffsetsBufferInternal, GoToNextFrame, u32sub_one_of_le_one _ hcur]
  obtain ⟨b, hb1, hb2⟩ := createIfInvalid_getD sd.BoneBuffer (1 - sd.CurrentBuffer)
    (BoneMap.length * 3 * 4) (by omega)
  obtain ⟨o, ho1, ho2⟩ := createIfInvalid_getD sd.BoneFurOffsetsBuffer (1 - sd.CurrentBuffer)
    (BoneMap.length * 3) (by omega)
  have hbl : BoneMap.length * 12 ≤ b.length := by
    rcases hb2 with h | h
    · exact hb b h
    · rw [h, List.length_replicate]; omega
  have hol : BoneMap.length * 3 ≤ o.length := by
    rcases ho2 with h | h
    · exact ho o h
    · rw [h, List.length_replicate]
  unfold UpdateBoneData
  simp only [if_pos hN, if_pos hlev, GetBoneBufferForWriting, GetBoneFurOffsetsBufferForWriting,
    hidx, hidx2, hu]
  rw [if_pos (by unfold MaxGPUSkinBones; omega)]
  by_cases h0 : BoneMap.length = 0
  · rw [if_pos h0]
    exact ⟨_, _, rfl⟩
  · rw [if_neg h0]
    have e1 : (GoToNextFrame InDiscontinuous sd).BoneBuffer = sd.BoneBuffer := rfl
    have e2 : (GoToNextFrame InDiscontinuous sd).BoneFurOffsetsBuffer
        = sd.BoneFurOffsetsBuffer := rfl
    simp only [e1, e2, hb1, ho1]
    rw [if_pos ⟨hbl, hol⟩]
    exact ⟨_, _, rfl⟩

/-- C20, counterexample: an update of one bone at feature level `ES2_REMOVED`, the only
level below `ES3_1`, returns and leaves `CurrentBuffer` at 0; `1 - CurrentBuffer` is 1. -/
theorem C20_counterexample :
    (FShaderDataType.new ERHIFeatureLevel.ES2_REMOVED).CurrentBuffer = 0 ∧
    ∃ sd1 G1, UpdateBoneData id [matrixTranslation] [(1, 1, 1)] [(2, 2, 2)] [matrixTranslation] [0]
        false ERHIFeatureLevel.ES2_REMOVED (FShaderDataType.new ERHIFeatureLevel.ES2_REMOVED)
        (List.replicate 12 0) = Except.ok (sd1, G1) ∧
      sd1.CurrentBuffer = 0 ∧
      sd1.CurrentBuffer ≠ 1 - (FShaderDataType.new ERHIFeatureLevel.ES2_REMOVED).CurrentBuffer :=
  ⟨rfl, _, _, rfl, rfl, by decide⟩

/-- C20, amended: `UpdateBoneData` toggles the swap index only at feature level `ES3_1`
and above.  From a state with `CurrentBuffer` 0 or 1, a call that returns leaves
`CurrentBuffer = 1 - CurrentBuffer` at such a level and leaves `CurrentBuffer` unchanged
below it, for either value of the discontinuity flag; in both cases `CurrentBuffer` is
0 or 1 afterwards.  At `ES3_1` and above the call returns when the bone map has at most
`MaxGPUSkinBones` entries and the two slots it is about to write are invalid or large
enough.  The constructor starts `CurrentBuffer` at 0 and `InitDynamicRHI` leaves it as it
is. -/
theorem C20_swap_index_toggles (toFloat : Int → Int) (ReferenceToLocalMatrices : List FMatrix)
    (LinearOffsets AngularOffsets : List FVector) (LastTransformations : List FMatrix)
    (BoneMap : List Nat) (InDiscontinuous : Bool) (InFeatureLevel : ERHIFeatureLevel)
    (sd : FShaderDataType) (G : List Int) (hcur : sd.CurrentBuffer ≤ 1) :
    (∀ sd1 G1, UpdateBoneData toFloat ReferenceToLocalMatrices LinearOffsets AngularOffsets
        LastTransformations BoneMap InDiscontinuous InFeatureLevel sd G = Except.ok (sd1, G1) →
      (InFeatureLevel.toNat ≥ ERHIFeatureLevel.ES3_1.toNat →
        sd1.CurrentBuffer = 1 - sd.CurrentBuffer) ∧
      (InFeatureLevel.toNat < ERHIFeatureLevel.ES3_1.toNat →
        sd1.CurrentBuffer = sd.CurrentBuffer) ∧
      sd1.CurrentBuffer ≤ 1) ∧
    (InFeatureLevel.toNat ≥ ERHIFeatureLevel.ES3_1.toNat →
      BoneMap.length ≤ MaxGPUSkinBones →
      sd.BoneBuffer.length = 2 → sd.BoneFurOffsetsBuffer.length = 2 →
      (∀ b, sd.BoneBuffer.getD (1 - sd.CurrentBuffer) none = some b →
        BoneMap.length * 12 ≤ b.length) →
      (∀ o, sd.BoneFurOffsetsBuffer.getD (1 - sd.CurrentBuffer) none = some o →
        BoneMap.length * 3 ≤ o.length) →
      ∃ sd1 G1, UpdateBoneData toFloat ReferenceToLocalMatrices LinearOffsets AngularOffsets
        LastTransformations BoneMap InDiscontinuous InFeatureLevel sd G = Except.ok (sd1, G1)) ∧
    (FShaderDataType.new InFeatureLevel).CurrentBuffer = 0 ∧
    (∀ sd2, InitDynamicRHI sd G = Except.ok sd2 → sd2.CurrentBuffer = sd.CurrentBuffer) := by
  refine ⟨?_, ?_, rfl, ?_⟩
  · intro sd1 G1 h
    unfold UpdateBoneData at h
    simp only [] at h
    split at h
    · split at h
      · next hlev =>
        have hc : ∀ sd1 : FShaderDataType, sd1.CurrentBuffer = u32sub 1 sd.CurrentBuffer →
            (InFeatureLevel.toNat ≥ ERHIFeatureLevel.ES3_1.toNat →
              sd1.CurrentBuffer = 1 - sd.CurrentBuffer) ∧
            (InFeatureLevel.toNat < ERHIFeatureLevel.ES3_1.toNat →
              sd1.CurrentBuffer = sd.CurrentBuffer) ∧ sd1.CurrentBuffer ≤ 1 := by
          intro s hs
          rw [u32sub_one_of_le_one _ hcur] at hs
          exact ⟨fun _ => hs, fun h2 => absurd hlev (by omega), by omega⟩
        split at h
        · split at h
          · injection h with h
            injection h with h1 _
            exact hc sd1 (by rw [← h1]; rfl)
          · split at h
            · split at h
              · injection h with h
                injection h with h1 _
                exact hc sd1 (by rw [← h1]; rfl)
              · exact absurd h (by simp)
            · exact absurd h (by simp)
        · exact absurd h (by simp)
      · next hlev =>
        split at h
        · exact absurd h (by simp)
        · injection h with h
          injection h with h1 _
          rw [← h1]
          exact ⟨fun h2 => absurd h2 hlev, fun _ => rfl, hcur⟩
    · exact absurd h (by simp)
  · exact UpdateBoneData_returns toFloat ReferenceToLocalMatrices LinearOffsets AngularOffsets
      LastTransformations BoneMap InDiscontinuous InFeatureLevel sd G hcur
  · intro sd2 h
    unfold InitDynamicRHI at h
    simp only [] at h
    split at h
    · split at h
      · split at h
        · injection h with h
          rw [← h]
        · exact absurd h (by simp)
      · split at h
        · exact absurd h (by simp)
        · injection h with h
          rw [← h]
    · exact absurd h (by simp)

/-- C20 on a concrete call: the first update of one bone at feature level `SM5` returns
and moves `CurrentBuffer` from 0 to 1. -/
theorem C20_swap_index_toggles_witness :
    (FShaderDataType.new ERHIFeatureLevel.SM5).CurrentBuffer ≤ 1 ∧
    ∃ sd1 G1, UpdateBoneData id [matrixTranslation] [(1, 1, 1)] [(2, 2, 2)] [matrixTranslation] [0]
        false ERHIFeatureLevel.SM5 (FShaderDataType.new ERHIFeatureLevel.SM5) []
        = Except.ok (sd1, G1) ∧
      sd1.CurrentBuffer = 1 - (FShaderDataType.new ERHIFeatureLevel.SM5).CurrentBuffer ∧
      sd1.CurrentBuffer = 1 :=
  ⟨by decide, _, _, rfl,
    ((C20_swap_index_toggles id [matrixTranslation] [(1, 1, 1)] [(2, 2, 2)] [matrixTranslation] [0]
      false ERHIFeatureLevel.SM5 (FShaderDataType.new ERHIFeatureLevel.SM5) [] (by decide)).1
      _ _ rfl).1 (by decide),
    rfl⟩


/-! ## A returning update on the buffered path -/

theorem set_getD_self {α : Type} (l : List α) (i : Nat) (a d : α) (hi : i < l.length)
    (h : l.getD i d = a) : l.set i a = l := by
  induction l generalizing i with
  | nil => simp at hi
  | cons x xs ih =>
    cases i with
    | zero =>
      simp only [List.getD_cons_zero] at h
      simp [h]
    | succ i =>
      simp only [List.getD_cons_succ] at h
      simp only [List.length_cons, Nat.add_lt_add_iff_right] at hi
      simp [ih i hi h]

theorem createIfInvalid_eq {α : Type} [Inhabited α] (Slots : List (Option (List α)))
    (i size : Nat) (hi : i < Slots.length) :
    ∃ b, createIfInvalid Slots i size = Slots.set i (some b) ∧
      (Slots.getD i none = some b ∨
        (Slots.getD i none = none ∧ b = List.replicate size default)) := by
  unfold createIfInvalid
  cases hs : Slots.getD i none with
  | some b =>
    refine ⟨b, ?_, Or.inl rfl⟩
    simp only [Option.isSome_some, if_true]
    exact (set_getD_self _ _ _ _ hi hs).symm
  | none =>
    refine ⟨List.replicate size default, ?_, Or.inr ⟨rfl, rfl⟩⟩
    simp only [Option.isSome_none, Bool.false_eq_true, if_false]

theorem UpdateBoneData_buffered (toFloat : Int → Int) (ReferenceToLocalMatrices : List FMatrix)
    (LinearOffsets AngularOffsets : List FVector) (LastTransformations : List FMatrix)
    (BoneMap : List Nat) (InDiscontinuous : Bool) (InFeatureLevel : ERHIFeatureLevel)
    (sd : FShaderDataType) (G : List Int) (sd1 : FShaderDataType) (G1 : List Int)
    (hcur : sd.CurrentBuffer ≤ 1)
    (hlev : InFeatureLevel.toNat ≥ ERHIFeatureLevel.ES3_1.toNat)
    (hB : sd.BoneBuffer.length = 2) (hO : sd.BoneFurOffsetsBuffer.length = 2)
    (h : UpdateBoneData toFloat ReferenceToLocalMatrices LinearOffsets AngularOffsets
      LastTransformations BoneMap InDiscontinuous InFeatureLevel sd G = Except.ok (sd1, G1)) :
    ∃ b o,
      (sd.BoneBuffer.getD (1 - sd.CurrentBuffer) none = some b ∨
        (sd.BoneBuffer.getD (1 - sd.CurrentBuffer) none = none ∧
          b = List.replicate (BoneMap.length * 3 * 4) default)) ∧
      (sd.BoneFurOffsetsBuffer.getD (1 - sd.CurrentBuffer) none = some o ∨
        (sd.BoneFurOffsetsBuffer.getD (1 - sd.CurrentBuffer) none = none ∧
          o = List.replicate (BoneMap.length * 3) default)) ∧
      BoneMap.length * 12 ≤ b.length ∧ BoneMap.length * 3 ≤ o.length ∧
      sd1 = { sd with
        CurrentBuffer := 1 - sd.CurrentBuffer
        Discontinuous := InDiscontinuous
        BoneBuffer := sd.BoneBuffer.set (1 - sd.CurrentBuffer)
          (some (updateBoneLoop toFloat ReferenceToLocalMatrices LinearOffsets AngularOffsets
            LastTransformations BoneMap BoneMap.length 0 (b, o)).1)
        BoneFurOffsetsBuffer := sd.BoneFurOffsetsBuffer.set (1 - sd.CurrentBuffer)
          (some (updateBoneLoop toFloat ReferenceToLocalMatrices LinearOffsets AngularOffsets
            LastTransformations BoneMap BoneMap.length 0 (b, o)).2) } ∧
      G1 = G := by
  have hN : BoneMap.length ≤ MaxGPUSkinBones := by
    by_contra hc
    unfold UpdateBoneData at h
    simp only [if_neg hc] at h
    exact absurd h (by simp)
  have hN2 : BoneMap.length ≤ 256 := hN
  have hu : u32 (BoneMap.length * 3) = BoneMap.length * 3 := u32_of_lt (by omega)
  have hidx : ∀ d, GetBoneBufferInternal (GoToNextFrame d sd) false = 1 - sd.CurrentBuffer := by
    intro d
    simp [GetBoneBufferInternal, GoToNextFrame, u32sub_one_of_le_one _ hcur]
  have hidx2 : ∀ (d : Bool) (B : List (Option (List Int))),
      GetBoneFurOffsetsBufferInternal { GoToNextFrame d sd with BoneBuffer := B } false
        = 1 - sd.CurrentBuffer := by
    intro d B
    simp [GetBoneFurOffsetsBufferInternal, GoToNextFrame, u32sub_one_of_le_one _ hcur]
  obtain ⟨b, hb1, hb2⟩ := createIfInvalid_eq sd.BoneBuffer (1 - sd.CurrentBuffer)
    (BoneMap.length * 3 * 4) (by omega)
  obtain ⟨o, ho1, ho2⟩ := createIfInvalid_eq sd.BoneFurOffsetsBuffer (1 - sd.CurrentBuffer)
    (BoneMap.length * 3) (by omega)
  have e1 : (GoToNextFrame InDiscontinuous sd).BoneBuffer = sd.BoneBuffer := rfl
  have e2 : (GoToNextFrame InDiscontinuous sd).BoneFurOffsetsBuffer
      = sd.BoneFurOffsetsBuffer := rfl
  have e3 : (GoToNextFrame InDiscontinuous sd) = { sd with
      CurrentBuffer := 1 - sd.CurrentBuffer, Discontinuous := InDiscontinuous } := by
    simp [GoToNextFrame, u32sub_one_of_le_one _ hcur]
  unfold UpdateBoneData at h
  simp only [if_pos hN, if_pos hlev, GetBoneBufferForWriting, GetBoneFurOffsetsBufferForWriting,
    hidx, hidx2, hu] at h
  rw [if_pos (by unfold MaxGPUSkinBones; omega)] at h
  simp only [e1, e2, hb1, ho1, getD_set_eq _ _ _ _ (show 1 - sd.CurrentBuffer < sd.BoneBuffer.length by omega),
    getD_set_eq _ _ _ _ (show 1 - sd.CurrentBuffer < sd.BoneFurOffsetsBuffer.length by omega),
    List.set_set] at h
  by_cases h0 : BoneMap.length = 0
  · rw [if_pos h0] at h
    injection h with h
    injection h with h1 h2
    refine ⟨b, o, hb2, ho2, by omega, by omega, ?_, h2.symm⟩
    rw [← h1, h0, e3]
    rfl
  · rw [if_neg h0] at h
    by_cases hl : BoneMap.length * 12 ≤ b.length ∧ BoneMap.length * 3 ≤ o.length
    · rw [if_pos hl] at h
      injection h with h
      injection h with h1 h2
      refine ⟨b, o, hb2, ho2, hl.1, hl.2, ?_, h2.symm⟩
      rw [← h1, e3]
    · rw [if_neg hl] at h
      exact absurd h (by simp)

theorem GetBoneBufferInternal_eq (sd : FShaderDataType) (bPrevious : Bool)
    (hcur : sd.CurrentBuffer ≤ 1) :
    GetBoneBufferInternal sd bPrevious
      = if sd.Discontinuous = false ∧ bPrevious = true then 1 - sd.CurrentBuffer
        else sd.CurrentBuffer := by
  have h2 : sd.CurrentBuffer = 0 ∨ sd.CurrentBuffer = 1 := by omega
  unfold GetBoneBufferInternal
  rcases h2 with h | h <;> rw [h] <;> cases sd.Discontinuous <;> cases bPrevious <;> rfl

theorem GetBoneFurOffsetsBufferInternal_eq (sd : FShaderDataType) (bPrevious : Bool)
    (hcur : sd.CurrentBuffer ≤ 1) :
    GetBoneFurOffsetsBufferInternal sd bPrevious
      = if sd.Discontinuous = false ∧ bPrevious = true then 1 - sd.CurrentBuffer
        else sd.CurrentBuffer := by
  have h2 : sd.CurrentBuffer = 0 ∨ sd.CurrentBuffer = 1 := by omega
  unfold GetBoneFurOffsetsBufferInternal
  rcases h2 with h | h <;> rw [h] <;> cases sd.Discontinuous <;> cases bPrevious <;> rfl

theorem GetBoneBufferForReading_valid (sd : FShaderDataType) (bPrevious : Bool) (b : List Int)
    (h : sd.BoneBuffer.getD (GetBoneBufferInternal sd bPrevious) none = some b) :
    GetBoneBufferForReading sd bPrevious = Except.ok (GetBoneBufferInternal sd bPrevious) := by
  unfold GetBoneBufferForReading
  rw [if_pos (by rw [h]; rfl)]

theorem GetBoneFurOffsetsBufferForReading_valid (sd : FShaderDataType) (bPrevious : Bool)
    (o : List FVector)
    (h : sd.BoneFurOffsetsBuffer.getD (GetBoneFurOffsetsBufferInternal sd bPrevious) none
      = some o) :
    GetBoneFurOffsetsBufferForReading sd bPrevious
      = Except.ok (GetBoneFurOffsetsBufferInternal sd bPrevious) := by
  unfold GetBoneFurOffsetsBufferForReading
  rw [if_pos (by rw [h]; rfl)]

/-- What a returning update on the buffered path leaves behind, slot by slot: the swap
index and the flag, the two written slots, and the two slots it does not touch. -/
theorem UpdateBoneData_slots (toFloat : Int → Int) (ReferenceToLocalMatrices : List FMatrix)
    (LinearOffsets AngularOffsets : List FVector) (LastTransformations : List FMatrix)
    (BoneMap : List Nat) (InDiscontinuous : Bool) (InFeatureLevel : ERHIFeatureLevel)
    (sd : FShaderDataType) (G : List Int) (sd1 : FShaderDataType) (G1 : List Int)
    (hcur : sd.CurrentBuffer ≤ 1)
    (hlev : InFeatureLevel.toNat ≥ ERHIFeatureLevel.ES3_1.toNat)
    (hB : sd.BoneBuffer.length = 2) (hO : sd.BoneFurOffsetsBuffer.length = 2)
    (h : UpdateBoneData toFloat ReferenceToLocalMatrices LinearOffsets AngularOffsets
      LastTransformations BoneMap InDiscontinuous InFeatureLevel sd G = Except.ok (sd1, G1)) :
    sd1.CurrentBuffer = 1 - sd.CurrentBuffer ∧ sd1.Discontinuous = InDiscontinuous ∧
    sd1.BoneBuffer.length = 2 ∧ sd1.BoneFurOffsetsBuffer.length = 2 ∧
    sd1.BoneBuffer.getD sd.CurrentBuffer none = sd.BoneBuffer.getD sd.CurrentBuffer none ∧
    sd1.BoneFurOffsetsBuffer.getD sd.CurrentBuffer none
      = sd.BoneFurOffsetsBuffer.getD sd.CurrentBuffer none ∧
    ∃ b o,
      (sd.BoneBuffer.getD (1 - sd.CurrentBuffer) none = some b ∨
        (sd.BoneBuffer.getD (1 - sd.CurrentBuffer) none = none ∧
          b = List.replicate (BoneMap.length * 3 * 4) default)) ∧
      (sd.BoneFurOffsetsBuffer.getD (1 - sd.CurrentBuffer) none = some o ∨
        (sd.BoneFurOffsetsBuffer.getD (1 - sd.CurrentBuffer) none = none ∧
          o = List.replicate (BoneMap.length * 3) default)) ∧
      BoneMap.length * 12 ≤ b.length ∧ BoneMap.length * 3 ≤ o.length ∧
      sd1.BoneBuffer.getD (1 - sd.CurrentBuffer) none
        = some (updateBoneLoop toFloat ReferenceToLocalMatrices LinearOffsets AngularOffsets
            LastTransformations BoneMap BoneMap.length 0 (b, o)).1 ∧
      sd1.BoneFurOffsetsBuffer.getD (1 - sd.CurrentBuffer) none
        = some (updateBoneLoop toFloat ReferenceToLocalMatrices LinearOffsets AngularOffsets
            LastTransformations BoneMap BoneMap.length 0 (b, o)).2 := by
  obtain ⟨b, o, hb, ho, hbl, hol, hsd, _⟩ := UpdateBoneData_buffered toFloat ReferenceToLocalMatrices
    LinearOffsets AngularOffsets LastTransformations BoneMap InDiscontinuous InFeatureLevel
    sd G sd1 G1 hcur hlev hB hO h
  have hne : 1 - sd.CurrentBuffer ≠ sd.CurrentBuffer := by omega
  subst hsd
  refine ⟨rfl, rfl, ?_, ?_, ?_, ?_, b, o, hb, ho, hbl, hol, ?_, ?_⟩
  · simp only [List.length_set]; exact hB
  · simp only [List.length_set]; exact hO
  · exact getD_set_ne _ _ _ _ _ hne
  · exact getD_set_ne _ _ _ _ _ hne
  · exact getD_set_eq _ _ _ _ (by omega)
  · exact getD_set_eq _ _ _ _ (by omega)

/-! ## What the bone loop writes -/

theorem writeFloats_length (vals : List Int) (mem : List Int) (pos : Nat) :
    (writeFloats mem pos vals).length = mem.length := by
  induction vals generalizing mem pos with
  | nil => rfl
  | cons v vs ih =>
    show (writeFloats (mem.set pos v) (pos + 1) vs).length = mem.length
    rw [ih, List.length_set]

theorem writeFloats_getD (vals : List Int) (mem : List Int) (pos p : Nat)
    (h : pos + vals.length ≤ mem.length) :
    (writeFloats mem pos vals).getD p 0
      = if pos ≤ p ∧ p < pos + vals.length then vals.getD (p - pos) 0 else mem.getD p 0 := by
  induction vals generalizing mem pos with
  | nil =>
    rw [if_neg (by simp)]
    rfl
  | cons v vs ih =>
    show (writeFloats (mem.set pos v) (pos + 1) vs).getD p 0 = _
    simp only [List.length_cons] at h ⊢
    rw [ih (mem.set pos v) (pos + 1) (by rw [List.length_set]; omega)]
    by_cases h1 : p = pos
    · subst h1
      rw [if_neg (by omega), if_pos (by omega), getD_set_eq _ _ _ _ (by omega), Nat.sub_self]
      rfl
    · rw [getD_set_ne _ _ _ _ _ (fun e => h1 e.symm)]
      by_cases h2 : pos + 1 ≤ p ∧ p < pos + 1 + vs.length
      · rw [if_pos h2, if_pos (by omega)]
        have e : p - pos = (p - (pos + 1)) + 1 := by omega
        rw [e, List.getD_cons_succ]
      · rw [if_neg h2, if_neg (by omega)]

theorem updateBoneLoop_matrices (toFloat : Int → Int) (ReferenceToLocalMatrices : List FMatrix)
    (LinearOffsets AngularOffsets : List FVector) (LastTransformations : List FMatrix)
    (BoneMap : List Nat) (k i : Nat) (cm : List Int) (off : List FVector) (p : Nat)
    (h : (i + k) * 12 ≤ cm.length) :
    (updateBoneLoop toFloat ReferenceToLocalMatrices LinearOffsets AngularOffsets LastTransformations
        BoneMap k i (cm, off)).1.getD p 0
      = if i * 12 ≤ p ∧ p < (i + k) * 12 then
          (To3x4MatrixTranspose (FMatrix44f toFloat
            (ReferenceToLocalMatrices.getD (BoneMap.getD (p / 12) 0) []))).getD (p % 12) 0
        else cm.getD p 0 := by
  induction k generalizing i cm off with
  | zero =>
    rw [if_neg (by omega)]
    rfl
  | succ k ih =>
    show (updateBoneLoop toFloat ReferenceToLocalMatrices LinearOffsets AngularOffsets
      LastTransformations BoneMap k (i + 1) (_, _)).1.getD p 0 = _
    rw [ih (i + 1) _ _ (by rw [writeFloats_length]; omega)]
    have hT : ∀ M, (To3x4MatrixTranspose M).length = 12 := fun _ => rfl
    rw [writeFloats_getD _ _ _ _ (by rw [hT]; omega), hT]
    by_cases h1 : (i + 1) * 12 ≤ p ∧ p < (i + 1 + k) * 12
    · rw [if_pos h1, if_pos (by omega)]
    · rw [if_neg h1]
      by_cases h2 : i * 12 ≤ p ∧ p < i * 12 + 12
      · rw [if_pos h2, if_pos (by omega)]
        have e1 : p / 12 = i := by omega
        have e2 : p - i * 12 = p % 12 := by omega
        rw [e1, e2]
      · rw [if_neg h2, if_neg (by omega)]

theorem updateBoneLoop_offsets (toFloat : Int → Int) (ReferenceToLocalMatrices : List FMatrix)
    (LinearOffsets AngularOffsets : List FVector) (LastTransformations : List FMatrix)
    (BoneMap : List Nat) (k i : Nat) (cm : List Int) (off : List FVector) (p : Nat)
    (h : (i + k) * 3 ≤ off.length) :
    (updateBoneLoop toFloat ReferenceToLocalMatrices LinearOffsets AngularOffsets LastTransformations
        BoneMap k i (cm, off)).2.getD p default
      = if i * 3 ≤ p ∧ p < (i + k) * 3 then
          furOffsetEntry toFloat LinearOffsets AngularOffsets LastTransformations BoneMap p
        else off.getD p default := by
  induction k generalizing i cm off with
  | zero =>
    rw [if_neg (by omega)]
    rfl
  | succ k ih =>
    show (updateBoneLoop toFloat ReferenceToLocalMatrices LinearOffsets AngularOffsets
      LastTransformations BoneMap k (i + 1) (_, _)).2.getD p default = _
    rw [ih (i + 1) _ _ (by simp only [List.length_set]; omega)]
    by_cases h1 : (i + 1) * 3 ≤ p ∧ p < (i + 1 + k) * 3
    · rw [if_pos h1, if_pos (by omega)]
    · rw [if_neg h1]
      by_cases h2 : i * 3 ≤ p ∧ p < i * 3 + 3
      · rw [if_pos (by omega)]
        have hc : p = i * 3 ∨ p = i * 3 + 1 ∨ p = i * 3 + 2 := by omega
        unfold furOffsetEntry
        rcases hc with e | e | e
        · subst e
          rw [getD_set_ne _ _ _ _ _ (by omega), getD_set_ne _ _ _ _ _ (by omega),
            getD_set_eq _ _ _ _ (by omega), if_pos (by omega)]
          rw [show i * 3 / 3 = i from by omega]
        · subst e
          rw [getD_set_ne _ _ _ _ _ (by omega),
            getD_set_eq _ _ _ _ (by simp only [List.length_set]; omega),
            if_neg (by omega), if_pos (by omega)]
          rw [show (i * 3 + 1) / 3 = i from by omega]
        · subst e
          rw [getD_set_eq _ _ _ _ (by simp only [List.length_set]; omega),
            if_neg (by omega), if_neg (by omega)]
          rw [show (i * 3 + 2) / 3 = i from by omega]
      · rw [if_neg (by omega), getD_set_ne _ _ _ _ _ (by omega),
          getD_set_ne _ _ _ _ _ (by omega), getD_set_ne _ _ _ _ _ (by omega)]

theorem take_drop_eq_of_getD (l t : List Int) (s : Nat) (h : s + t.length ≤ l.length)
    (hg : ∀ j, j < t.length → l.getD (s + j) 0 = t.getD j 0) :
    (l.drop s).take t.length = t := by
  apply List.ext_getElem?
  intro n
  by_cases hn : n < t.length
  · have h1 := hg n hn
    rw [List.getD_eq_getElem?_getD, List.getD_eq_getElem?_getD] at h1
    rw [List.getElem?_take_of_lt hn, List.getElem?_drop,
      List.getElem?_eq_getElem (show s + n < l.length by omega),
      List.getElem?_eq_getElem hn]
    rw [List.getElem?_eq_getElem (show s + n < l.length by omega),
      List.getElem?_eq_getElem hn] at h1
    simpa using h1
  · rw [List.getElem?_eq_none (by rw [List.length_take, List.length_drop]; omega),
      List.getElem?_eq_none (by omega)]

theorem updateBoneLoop_fst_length (toFloat : Int → Int) (ReferenceToLocalMatrices : List FMatrix)
    (LinearOffsets AngularOffsets : List FVector) (LastTransformations : List FMatrix)
    (BoneMap : List Nat) (k i : Nat) (cm : List Int) (off : List FVector) :
    (updateBoneLoop toFloat ReferenceToLocalMatrices LinearOffsets AngularOffsets LastTransformations
        BoneMap k i (cm, off)).1.length = cm.length := by
  induction k generalizing i cm off with
  | zero => rfl
  | succ k ih =>
    show (updateBoneLoop toFloat ReferenceToLocalMatrices LinearOffsets AngularOffsets
      LastTransformations BoneMap k (i + 1) (_, _)).1.length = _
    rw [ih, writeFloats_length]

theorem updateBoneLoop_snd_length (toFloat : Int → Int) (ReferenceToLocalMatrices : List FMatrix)
    (LinearOffsets AngularOffsets : List FVector) (LastTransformations : List FMatrix)
    (BoneMap : List Nat) (k i : Nat) (cm : List Int) (off : List FVector) :
    (updateBoneLoop toFloat ReferenceToLocalMatrices LinearOffsets AngularOffsets LastTransformations
        BoneMap k i (cm, off)).2.length = off.length := by
  induction k generalizing i cm off with
  | zero => rfl
  | succ k ih =>
    show (updateBoneLoop toFloat ReferenceToLocalMatrices LinearOffsets AngularOffsets
      LastTransformations BoneMap k (i + 1) (_, _)).2.length = _
    rw [ih]
    simp only [List.length_set]

/-! ## What a returning update leaves in the buffers -/

/-- A returning update on the buffered path (feature level `ES3_1` and above) leaves the
bone data, in bone-map order, in the two slots it took for writing. -/
theorem UpdateBoneData_contents (toFloat : Int → Int) (ReferenceToLocalMatrices : List FMatrix)
    (LinearOffsets AngularOffsets : List FVector) (LastTransformations : List FMatrix)
    (BoneMap : List Nat) (InDiscontinuous : Bool) (InFeatureLevel : ERHIFeatureLevel)
    (sd : FShaderDataType) (G : List Int) (sd1 : FShaderDataType) (G1 : List Int)
    (hcur : sd.CurrentBuffer ≤ 1)
    (hlev : InFeatureLevel.toNat ≥ ERHIFeatureLevel.ES3_1.toNat)
    (hB : sd.BoneBuffer.length = 2) (hO : sd.BoneFurOffsetsBuffer.length = 2)
    (h : UpdateBoneData toFloat ReferenceToLocalMatrices LinearOffsets AngularOffsets
      LastTransformations BoneMap InDiscontinuous InFeatureLevel sd G = Except.ok (sd1, G1)) :
    ∃ ChunkMatrices Offsets,
      sd1.BoneBuffer.getD (1 - sd.CurrentBuffer) none = some ChunkMatrices ∧
      sd1.BoneFurOffsetsBuffer.getD (1 - sd.CurrentBuffer) none = some Offsets ∧
      boneDataWritten toFloat ReferenceToLocalMatrices LinearOffsets AngularOffsets
        LastTransformations BoneMap ChunkMatrices Offsets := by
  obtain ⟨_, _, _, _, _, _, b, o, _, _, hbl, hol, hb1, ho1⟩ := UpdateBoneData_slots toFloat
    ReferenceToLocalMatrices LinearOffsets AngularOffsets LastTransformations BoneMap
    InDiscontinuous InFeatureLevel sd G sd1 G1 hcur hlev hB hO h
  refine ⟨_, _, hb1, ho1, ?_⟩
  intro i hi
  have hm := fun p => updateBoneLoop_matrices toFloat ReferenceToLocalMatrices LinearOffsets
    AngularOffsets LastTransformations BoneMap BoneMap.length 0 b o p (by omega)
  have hf := fun p => updateBoneLoop_offsets toFloat ReferenceToLocalMatrices LinearOffsets
    AngularOffsets LastTransformations BoneMap BoneMap.length 0 b o p (by omega)
  have hlen1 : (updateBoneLoop toFloat ReferenceToLocalMatrices LinearOffsets AngularOffsets
      LastTransformations BoneMap BoneMap.length 0 (b, o)).1.length = b.length :=
    updateBoneLoop_fst_length _ _ _ _ _ _ _ _ _ _
  have hlen2 : (updateBoneLoop toFloat ReferenceToLocalMatrices LinearOffsets AngularOffsets
      LastTransformations BoneMap BoneMap.length 0 (b, o)).2.length = o.length :=
    updateBoneLoop_snd_length _ _ _ _ _ _ _ _ _ _
  have e0 : 3 * i / 3 = i := by omega
  have e1 : (3 * i + 1) / 3 = i := by omega
  have e2 : (3 * i + 2) / 3 = i := by omega
  refine ⟨?_, by omega, ?_, ?_, ?_⟩
  · have hT : (To3x4MatrixTranspose (FMatrix44f toFloat
        (ReferenceToLocalMatrices.getD (BoneMap.getD i 0) []))).length = 12 := rfl
    have ht := take_drop_eq_of_getD
      (updateBoneLoop toFloat ReferenceToLocalMatrices LinearOffsets AngularOffsets
        LastTransformations BoneMap BoneMap.length 0 (b, o)).1
      (To3x4MatrixTranspose (FMatrix44f toFloat
        (ReferenceToLocalMatrices.getD (BoneMap.getD i 0) [])))
      (12 * i) (by rw [hT, hlen1]; omega) (by
        intro j hj
        rw [hT] at hj
        rw [hm, if_pos (by omega)]
        have e3 : (12 * i + j) / 12 = i := by omega
        have e4 : (12 * i + j) % 12 = j := by omega
        rw [e3, e4])
    rw [hT] at ht
    exact ht
  · rw [hf, if_pos (by omega)]
    unfold furOffsetEntry
    rw [if_pos (by omega), e0]
  · rw [hf, if_pos (by omega)]
    unfold furOffsetEntry
    rw [if_neg (by omega), if_pos (by omega), e1]
  · rw [hf, if_pos (by omega)]
    unfold furOffsetEntry
    rw [if_neg (by omega), if_neg (by omega), e2]

/-- A returning update below feature level `ES3_1` writes the uniform struct and leaves
everything else of the shader data as it was. -/
theorem UpdateBoneData_uniform (toFloat : Int → Int) (ReferenceToLocalMatrices : List FMatrix)
    (LinearOffsets AngularOffsets : List FVector) (LastTransformations : List FMatrix)
    (BoneMap : List Nat) (InDiscontinuous : Bool) (InFeatureLevel : ERHIFeatureLevel)
    (sd : FShaderDataType) (G : List Int) (sd1 : FShaderDataType) (G1 : List Int)
    (hlev : InFeatureLevel.toNat < ERHIFeatureLevel.ES3_1.toNat)
    (h : UpdateBoneData toFloat ReferenceToLocalMatrices LinearOffsets AngularOffsets
      LastTransformations BoneMap InDiscontinuous InFeatureLevel sd G = Except.ok (sd1, G1)) :
    sd1 = { sd with UniformBuffer := some G1 } ∧
    G1 = uniformBoneLoop toFloat ReferenceToLocalMatrices BoneMap BoneMap.length 0 G := by
  unfold UpdateBoneData at h
  simp only [] at h
  split at h
  · rw [if_neg (by omega)] at h
    split at h
    · exact absurd h (by simp)
    · injection h with h
      injection h with h1 h2
      rw [← h1, ← h2]
      exact ⟨rfl, rfl⟩
  · exact absurd h (by simp)

theorem reads_of_same_buffers (sd sd1 : FShaderDataType)
    (h : sd1 = { sd with UniformBuffer := sd1.UniformBuffer }) (p : Bool) :
    GetBoneBufferForReading sd1 p = GetBoneBufferForReading sd p ∧
    GetBoneFurOffsetsBufferForReading sd1 p = GetBoneFurOffsetsBufferForReading sd p := by
  rw [h]
  exact ⟨rfl, rfl⟩

/-! ## C21 -/

/-- C21, counterexample: below feature level `ES3_1` an update writes no buffer.  On
shader data of one bone at feature level `ES2_REMOVED`, after `InitDynamicRHI`, an update
with the discontinuity flag set returns and leaves both slots of both buffers invalid:
each of the four reads fails its check, so no read returns a buffer written by the
update. -/
theorem C21_counterexample :
    ∃ sd0 sd1 G1,
      InitDynamicRHI (FShaderDataType.Init 1 (FShaderDataType.new ERHIFeatureLevel.ES2_REMOVED))
        (List.replicate 12 0) = Except.ok sd0 ∧
      UpdateBoneData id [matrixTranslation] [(1, 1, 1)] [(2, 2, 2)] [matrixTranslation] [0]
        true ERHIFeatureLevel.ES2_REMOVED sd0 (List.replicate 12 0) = Except.ok (sd1, G1) ∧
      sd1.BoneBuffer = [none, none] ∧ sd1.BoneFurOffsetsBuffer = [none, none] ∧
      GetBoneBufferForReading sd1 true = Except.error Fault.checkFailed ∧
      GetBoneBufferForReading sd1 false = Except.error Fault.checkFailed ∧
      GetBoneFurOffsetsBufferForReading sd1 true = Except.error Fault.checkFailed ∧
      GetBoneFurOffsetsBufferForReading sd1 false = Except.error Fault.checkFailed :=
  ⟨_, _, _, rfl, rfl, rfl, rfl, rfl, rfl, rfl, rfl⟩

/-- C21, amended: after a call of `UpdateBoneData` with the discontinuity flag set that
returns, at feature level `ES3_1` and above `GetBoneBufferForReading(true)` and
`GetBoneBufferForReading(false)` return the same slot, the one the update took for
writing, which holds the bone data the update wrote, in bone-map order; likewise for
`GetBoneFurOffsetsBufferForReading`.  Below `ES3_1` the call leaves both buffers, the swap
index and the discontinuity flag as they were, and every read returns what it returned
before the call. -/
theorem C21_discontinuous_reads_agree (toFloat : Int → Int)
    (ReferenceToLocalMatrices : List FMatrix)
    (LinearOffsets AngularOffsets : List FVector) (LastTransformations : List FMatrix)
    (BoneMap : List Nat) (InFeatureLevel : ERHIFeatureLevel)
    (sd : FShaderDataType) (G : List Int) (sd1 : FShaderDataType) (G1 : List Int)
    (hcur : sd.CurrentBuffer ≤ 1)
    (hB : sd.BoneBuffer.length = 2) (hO : sd.BoneFurOffsetsBuffer.length = 2)
    (h : UpdateBoneData toFloat ReferenceToLocalMatrices LinearOffsets AngularOffsets
      LastTransformations BoneMap true InFeatureLevel sd G = Except.ok (sd1, G1)) :
    (InFeatureLevel.toNat ≥ ERHIFeatureLevel.ES3_1.toNat →
      GetBoneBufferForReading sd1 true
        = Except.ok (GetBoneBufferForWriting (GoToNextFrame true sd) false) ∧
      GetBoneBufferForReading sd1 false
        = Except.ok (GetBoneBufferForWriting (GoToNextFrame true sd) false) ∧
      GetBoneFurOffsetsBufferForReading sd1 true
        = Except.ok (GetBoneFurOffsetsBufferForWriting (GoToNextFrame true sd) false) ∧
      GetBoneFurOffsetsBufferForReading sd1 false
        = Except.ok (GetBoneFurOffsetsBufferForWriting (GoToNextFrame true sd) false) ∧
      ∃ ChunkMatrices Offsets,
        sd1.BoneBuffer.getD (GetBoneBufferForWriting (GoToNextFrame true sd) false) none
          = some ChunkMatrices ∧
        sd1.BoneFurOffsetsBuffer.getD
            (GetBoneFurOffsetsBufferForWriting (GoToNextFrame true sd) false) none
          = some Offsets ∧
        boneDataWritten toFloat ReferenceToLocalMatrices LinearOffsets AngularOffsets
          LastTransformations BoneMap ChunkMatrices Offsets) ∧
    (InFeatureLevel.toNat < ERHIFeatureLevel.ES3_1.toNat →
      sd1.BoneBuffer = sd.BoneBuffer ∧ sd1.BoneFurOffsetsBuffer = sd.BoneFurOffsetsBuffer ∧
      sd1.CurrentBuffer = sd.CurrentBuffer ∧ sd1.Discontinuous = sd.Discontinuous ∧
      ∀ bPrevious,
        GetBoneBufferForReading sd1 bPrevious = GetBoneBufferForReading sd bPrevious ∧
        GetBoneFurOffsetsBufferForReading sd1 bPrevious
          = GetBoneFurOffsetsBufferForReading sd bPrevious) := by
  constructor
  · intro hlev
    obtain ⟨hc1, hd1, _, _, _, _, _⟩ := UpdateBoneData_slots toFloat
      ReferenceToLocalMatrices LinearOffsets AngularOffsets LastTransformations BoneMap true
      InFeatureLevel sd G sd1 G1 hcur hlev hB hO h
    obtain ⟨cm, off, hb1, ho1, hw⟩ := UpdateBoneData_contents toFloat
      ReferenceToLocalMatrices LinearOffsets AngularOffsets LastTransformations BoneMap true
      InFeatureLevel sd G sd1 G1 hcur hlev hB hO h
    have hcur1 : sd1.CurrentBuffer ≤ 1 := by omega
    have hw1 : GetBoneBufferForWriting (GoToNextFrame true sd) false = 1 - sd.CurrentBuffer := by
      simp [GetBoneBufferForWriting, GetBoneBufferInternal, GoToNextFrame,
        u32sub_one_of_le_one _ hcur]
    have hw2 : GetBoneFurOffsetsBufferForWriting (GoToNextFrame true sd) false
        = 1 - sd.CurrentBuffer := by
      simp [GetBoneFurOffsetsBufferForWriting, GetBoneFurOffsetsBufferInternal, GoToNextFrame,
        u32sub_one_of_le_one _ hcur]
    have hi : ∀ p, GetBoneBufferInternal sd1 p = 1 - sd.CurrentBuffer := by
      intro p
      rw [GetBoneBufferInternal_eq sd1 p hcur1, hd1, hc1]
      simp
    have hi2 : ∀ p, GetBoneFurOffsetsBufferInternal sd1 p = 1 - sd.CurrentBuffer := by
      intro p
      rw [GetBoneFurOffsetsBufferInternal_eq sd1 p hcur1, hd1, hc1]
      simp
    rw [hw1, hw2]
    refine ⟨?_, ?_, ?_, ?_, cm, off, hb1, ho1, hw⟩
    · rw [GetBoneBufferForReading_valid sd1 true _ (by rw [hi]; exact hb1), hi]
    · rw [GetBoneBufferForReading_valid sd1 false _ (by rw [hi]; exact hb1), hi]
    · rw [GetBoneFurOffsetsBufferForReading_valid sd1 true _ (by rw [hi2]; exact ho1), hi2]
    · rw [GetBoneFurOffsetsBufferForReading_valid sd1 false _ (by rw [hi2]; exact ho1), hi2]
  · intro hlev
    obtain ⟨hs, _⟩ := UpdateBoneData_uniform toFloat ReferenceToLocalMatrices LinearOffsets
      AngularOffsets LastTransformations BoneMap true InFeatureLevel sd G sd1 G1 hlev h
    refine ⟨by rw [hs], by rw [hs], by rw [hs], by rw [hs], fun p => ?_⟩
    exact reads_of_same_buffers sd sd1 (by rw [hs]) p

/-- C21 on a concrete call: after two updates of one bone at feature level `SM5`, the
second with the discontinuity flag set, both reads of both buffers return slot 0, the slot
the second update wrote, and its first fur-offset entry is the linear offset of the second
update. -/
theorem C21_discontinuous_reads_agree_witness :
    UpdateBoneData id [matrixTranslation] [(3, 3, 3)] [(4, 4, 4)] [matrixTranslation] [0] true
      ERHIFeatureLevel.SM5 stateOneUpdate [] = Except.ok (stateDiscontinuous, []) ∧
    GetBoneBufferForReading stateDiscontinuous true = Except.ok 0 ∧
    GetBoneBufferForReading stateDiscontinuous false = Except.ok 0 ∧
    GetBoneFurOffsetsBufferForReading stateDiscontinuous true = Except.ok 0 ∧
    GetBoneFurOffsetsBufferForReading stateDiscontinuous false = Except.ok 0 ∧
    stateDiscontinuous.BoneFurOffsetsBuffer.getD 0 none
      = some [(3, 3, 3), (4, 4, 4), (5, 6, 7)] :=
  have h := (C21_discontinuous_reads_agree id [matrixTranslation] [(3, 3, 3)] [(4, 4, 4)]
    [matrixTranslation] [0] ERHIFeatureLevel.SM5 stateOneUpdate [] stateDiscontinuous []
    (by decide) rfl rfl rfl).1 (by decide)
  ⟨rfl, h.1, h.2.1, h.2.2.1, h.2.2.2.1, rfl⟩

/-! ## C22 -/

/-- C22, counterexample: below feature level `ES3_1` no buffer is swapped or written.  On
shader data of one bone at feature level `ES2_REMOVED`, after `InitDynamicRHI` and two
updates, a third update with the discontinuity flag clear returns and leaves both slots
invalid: the read of the previous and the read of the current buffer both fail their
check, so they do not return different buffers. -/
theorem C22_counterexample :
    ∃ sd0 sd1 G1 sd2 G2 sd3 G3,
      InitDynamicRHI (FShaderDataType.Init 1 (FShaderDataType.new ERHIFeatureLevel.ES2_REMOVED))
        (List.replicate 12 0) = Except.ok sd0 ∧
      UpdateBoneData id [matrixTranslation] [(1, 1, 1)] [(2, 2, 2)] [matrixTranslation] [0]
        false ERHIFeatureLevel.ES2_REMOVED sd0 (List.replicate 12 0) = Except.ok (sd1, G1) ∧
      UpdateBoneData id [matrixTranslation] [(3, 3, 3)] [(4, 4, 4)] [matrixTranslation] [0]
        false ERHIFeatureLevel.ES2_REMOVED sd1 G1 = Except.ok (sd2, G2) ∧
      UpdateBoneData id [matrixTranslation] [(5, 5, 5)] [(6, 6, 6)] [matrixTranslation] [0]
        false ERHIFeatureLevel.ES2_REMOVED sd2 G2 = Except.ok (sd3, G3) ∧
      sd3.BoneBuffer = [none, none] ∧ sd3.BoneFurOffsetsBuffer = [none, none] ∧
      GetBoneBufferForReading sd3 true = Except.error Fault.checkFailed ∧
      GetBoneBufferForReading sd3 false = Except.error Fault.checkFailed ∧
      GetBoneFurOffsetsBufferForReading sd3 true = Except.error Fault.checkFailed ∧
      GetBoneFurOffsetsBufferForReading sd3 false = Except.error Fault.checkFailed :=
  ⟨_, _, _, _, _, _, _, rfl, rfl, rfl, rfl, rfl, rfl, rfl, rfl, rfl, rfl⟩

/-- C22, amended: after an update that returned, a further update with the discontinuity
flag clear that returns, both at feature level `ES3_1` and above, makes
`GetBoneBufferForReading(true)` and `GetBoneBufferForReading(false)` return different
slots.  The slot read as previous is the slot that was read as current before the call;
the call leaves its contents as they were, and they are the bone data that the preceding
update wrote, in bone-map order.  Likewise for `GetBoneFurOffsetsBufferForReading`.  One
preceding update is enough; the state before it is any state with the swap index 0 or 1.
Below `ES3_1` the further update leaves both buffers as they were and every read returns
what it returned before the call. -/
theorem C22_continuous_reads_differ (toFloat : Int → Int)
    (R1 : List FMatrix) (Lin1 Ang1 : List FVector)
    (Last1 : List FMatrix) (BoneMap1 : List Nat) (d1 : Bool) (lvl1 : ERHIFeatureLevel)
    (R2 : List FMatrix) (Lin2 Ang2 : List FVector)
    (Last2 : List FMatrix) (BoneMap2 : List Nat) (lvl2 : ERHIFeatureLevel)
    (sd0 : FShaderDataType) (G0 : List Int) (sd1 : FShaderDataType) (G1 : List Int)
    (sd2 : FShaderDataType) (G2 : List Int)
    (hcur : sd0.CurrentBuffer ≤ 1)
    (hB : sd0.BoneBuffer.length = 2) (hO : sd0.BoneFurOffsetsBuffer.length = 2)
    (h1 : UpdateBoneData toFloat R1 Lin1 Ang1 Last1 BoneMap1 d1 lvl1 sd0 G0
      = Except.ok (sd1, G1))
    (h2 : UpdateBoneData toFloat R2 Lin2 Ang2 Last2 BoneMap2 false lvl2 sd1 G1
      = Except.ok (sd2, G2)) :
    (lvl1.toNat ≥ ERHIFeatureLevel.ES3_1.toNat → lvl2.toNat ≥ ERHIFeatureLevel.ES3_1.toNat →
      ∃ prev cur, prev ≠ cur ∧
        GetBoneBufferForReading sd2 true = Except.ok prev ∧
        GetBoneBufferForReading sd2 false = Except.ok cur ∧
        GetBoneFurOffsetsBufferForReading sd2 true = Except.ok prev ∧
        GetBoneFurOffsetsBufferForReading sd2 false = Except.ok cur ∧
        GetBoneBufferForReading sd1 false = Except.ok prev ∧
        GetBoneFurOffsetsBufferForReading sd1 false = Except.ok prev ∧
        sd2.BoneBuffer.getD prev none = sd1.BoneBuffer.getD prev none ∧
        sd2.BoneFurOffsetsBuffer.getD prev none = sd1.BoneFurOffsetsBuffer.getD prev none ∧
        ∃ ChunkMatrices Offsets,
          sd2.BoneBuffer.getD prev none = some ChunkMatrices ∧
          sd2.BoneFurOffsetsBuffer.getD prev none = some Offsets ∧
          boneDataWritten toFloat R1 Lin1 Ang1 Last1 BoneMap1 ChunkMatrices Offsets) ∧
    (lvl2.toNat < ERHIFeatureLevel.ES3_1.toNat →
      sd2.BoneBuffer = sd1.BoneBuffer ∧ sd2.BoneFurOffsetsBuffer = sd1.BoneFurOffsetsBuffer ∧
      ∀ bPrevious,
        GetBoneBufferForReading sd2 bPrevious = GetBoneBufferForReading sd1 bPrevious ∧
        GetBoneFurOffsetsBufferForReading sd2 bPrevious
          = GetBoneFurOffsetsBufferForReading sd1 bPrevious) := by
  constructor
  · intro hlev1 hlev2
    obtain ⟨hc1, hd1, hB1, hO1, _, _, _⟩ := UpdateBoneData_slots toFloat
      R1 Lin1 Ang1 Last1 BoneMap1 d1 lvl1 sd0 G0 sd1 G1 hcur hlev1 hB hO h1
    obtain ⟨cm, off, hb1, ho1, hw⟩ := UpdateBoneData_contents toFloat
      R1 Lin1 Ang1 Last1 BoneMap1 d1 lvl1 sd0 G0 sd1 G1 hcur hlev1 hB hO h1
    have hcur1 : sd1.CurrentBuffer ≤ 1 := by omega
    obtain ⟨hc2, hd2, _, _, hk, hk2, b2, o2, _, _, _, _, hb2, ho2⟩ := UpdateBoneData_slots
      toFloat R2 Lin2 Ang2 Last2 BoneMap2 false lvl2 sd1 G1 sd2 G2 hcur1 hlev2 hB1 hO1 h2
    have hcur2 : sd2.CurrentBuffer ≤ 1 := by omega
    rw [← hc1] at hb1 ho1
    have hp : GetBoneBufferInternal sd2 true = sd1.CurrentBuffer := by
      rw [GetBoneBufferInternal_eq sd2 true hcur2, hd2, hc2]
      simp
      omega
    have hq : GetBoneBufferInternal sd2 false = 1 - sd1.CurrentBuffer := by
      rw [GetBoneBufferInternal_eq sd2 false hcur2, hd2, hc2]
      simp
    have hp2 : GetBoneFurOffsetsBufferInternal sd2 true = sd1.CurrentBuffer := by
      rw [GetBoneFurOffsetsBufferInternal_eq sd2 true hcur2, hd2, hc2]
      simp
      omega
    have hq2 : GetBoneFurOffsetsBufferInternal sd2 false = 1 - sd1.CurrentBuffer := by
      rw [GetBoneFurOffsetsBufferInternal_eq sd2 false hcur2, hd2, hc2]
      simp
    have hr : GetBoneBufferInternal sd1 false = sd1.CurrentBuffer := by
      rw [GetBoneBufferInternal_eq sd1 false hcur1]
      simp
    have hr2 : GetBoneFurOffsetsBufferInternal sd1 false = sd1.CurrentBuffer := by
      rw [GetBoneFurOffsetsBufferInternal_eq sd1 false hcur1]
      simp
    refine ⟨sd1.CurrentBuffer, 1 - sd1.CurrentBuffer, by omega, ?_, ?_, ?_, ?_, ?_, ?_, hk, hk2,
      cm, off, by rw [hk]; exact hb1, by rw [hk2]; exact ho1, hw⟩
    · rw [GetBoneBufferForReading_valid sd2 true _ (by rw [hp, hk]; exact hb1), hp]
    · rw [GetBoneBufferForReading_valid sd2 false _ (by rw [hq]; exact hb2), hq]
    · rw [GetBoneFurOffsetsBufferForReading_valid sd2 true _ (by rw [hp2, hk2]; exact ho1), hp2]
    · rw [GetBoneFurOffsetsBufferForReading_valid sd2 false _ (by rw [hq2]; exact ho2), hq2]
    · rw [GetBoneBufferForReading_valid sd1 false _ (by rw [hr]; exact hb1), hr]
    · rw [GetBoneFurOffsetsBufferForReading_valid sd1 false _ (by rw [hr2]; exact ho1), hr2]
  · intro hlev2
    obtain ⟨hs, _⟩ := UpdateBoneData_uniform toFloat R2 Lin2 Ang2 Last2 BoneMap2 false lvl2
      sd1 G1 sd2 G2 hlev2 h2
    refine ⟨by rw [hs], by rw [hs], fun p => ?_⟩
    exact reads_of_same_buffers sd1 sd2 (by rw [hs]) p

/-- C22 on concrete calls: after a first update at feature level `SM5`, a second update
with the flag clear makes the read of the previous buffer return slot 1, which the first
update wrote and the second left alone, and the read of the current buffer return slot 0. -/
theorem C22_continuous_reads_differ_witness :
    UpdateBoneData id [matrixTranslation] [(1, 1, 1)] [(2, 2, 2)] [matrixTranslation] [0] false
      ERHIFeatureLevel.SM5 (FShaderDataType.new ERHIFeatureLevel.SM5) []
      = Except.ok (stateOneUpdate, []) ∧
    UpdateBoneData id [matrixTranslation] [(3, 3, 3)] [(4, 4, 4)] [matrixTranslation] [0] false
      ERHIFeatureLevel.SM5 stateOneUpdate [] = Except.ok (stateContinuous, []) ∧
    ∃ prev cur, prev ≠ cur ∧
      GetBoneBufferForReading stateContinuous true = Except.ok prev ∧
      GetBoneBufferForReading stateContinuous false = Except.ok cur ∧
      GetBoneBufferForReading stateOneUpdate false = Except.ok prev ∧
      stateContinuous.BoneBuffer.getD prev none = stateOneUpdate.BoneBuffer.getD prev none ∧
      prev = 1 :=
  have h := (C22_continuous_reads_differ id [matrixTranslation] [(1, 1, 1)] [(2, 2, 2)]
    [matrixTranslation] [0] false ERHIFeatureLevel.SM5
    [matrixTranslation] [(3, 3, 3)] [(4, 4, 4)] [matrixTranslation] [0] ERHIFeatureLevel.SM5
    (FShaderDataType.new ERHIFeatureLevel.SM5) [] stateOneUpdate [] stateContinuous []
    (by decide) rfl rfl rfl rfl).1 (by decide) (by decide)
  ⟨rfl, rfl, h.elim fun prev hp => hp.elim fun cur hc =>
    ⟨prev, cur, hc.1, hc.2.1, hc.2.2.1, hc.2.2.2.2.2.1, hc.2.2.2.2.2.2.2.1,
      Except.ok.inj (hc.2.2.2.2.2.1.symm.trans (show GetBoneBufferForReading stateOneUpdate false
        = Except.ok 1 from rfl))⟩⟩

/-! ## C23 -/

/-- What the reads return after an update that returned on the buffered path (feature
level `ES3_1` and above): a read, of the previous or of the current buffer, returns a
valid slot; the read of the previous buffer returns what the read of the current buffer
returns when the previous slot is not valid, and the previous slot itself whenever that
slot is valid.  The update leaves the slot it does not write as it was. -/
theorem GetBoneBufferForReading_after_update (toFloat : Int → Int)
    (ReferenceToLocalMatrices : List FMatrix)
    (LinearOffsets AngularOffsets : List FVector) (LastTransformations : List FMatrix)
    (BoneMap : List Nat) (InDiscontinuous : Bool) (InFeatureLevel : ERHIFeatureLevel)
    (sd : FShaderDataType) (G : List Int) (sd1 : FShaderDataType) (G1 : List Int)
    (hcur : sd.CurrentBuffer ≤ 1)
    (hlev : InFeatureLevel.toNat ≥ ERHIFeatureLevel.ES3_1.toNat)
    (hB : sd.BoneBuffer.length = 2) (hO : sd.BoneFurOffsetsBuffer.length = 2)
    (h : UpdateBoneData toFloat ReferenceToLocalMatrices LinearOffsets AngularOffsets
      LastTransformations BoneMap InDiscontinuous InFeatureLevel sd G = Except.ok (sd1, G1)) :
    (∀ bPrevious, ∃ i b, GetBoneBufferForReading sd1 bPrevious = Except.ok i ∧
      sd1.BoneBuffer.getD i none = some b) ∧
    (sd1.BoneBuffer.getD (GetBoneBufferInternal sd1 true) none = none →
      GetBoneBufferForReading sd1 true = GetBoneBufferForReading sd1 false) ∧
    (∀ b, sd1.BoneBuffer.getD (GetBoneBufferInternal sd1 true) none = some b →
      GetBoneBufferForReading sd1 true = Except.ok (GetBoneBufferInternal sd1 true)) ∧
    sd1.BoneBuffer.getD sd.CurrentBuffer none = sd.BoneBuffer.getD sd.CurrentBuffer none := by
  obtain ⟨hc1, hd1, _, _, hk, _, b, o, _, _, _, _, hb1, _⟩ := UpdateBoneData_slots toFloat
    ReferenceToLocalMatrices LinearOffsets AngularOffsets LastTransformations BoneMap
    InDiscontinuous InFeatureLevel sd G sd1 G1 hcur hlev hB hO h
  have hcur1 : sd1.CurrentBuffer ≤ 1 := by omega
  have hr : GetBoneBufferInternal sd1 false = 1 - sd.CurrentBuffer := by
    rw [GetBoneBufferInternal_eq sd1 false hcur1, hc1]
    simp
  have hcurrent : GetBoneBufferForReading sd1 false = Except.ok (1 - sd.CurrentBuffer) := by
    rw [GetBoneBufferForReading_valid sd1 false _ (by rw [hr]; exact hb1), hr]
  have hfall : sd1.BoneBuffer.getD (GetBoneBufferInternal sd1 true) none = none →
      GetBoneBufferForReading sd1 true = GetBoneBufferForReading sd1 false := by
    intro hn
    rw [hcurrent]
    unfold GetBoneBufferForReading
    rw [hn, hr, hb1]
    rfl
  refine ⟨?_, hfall, ?_, hk⟩
  · intro bPrevious
    cases bPrevious with
    | false => exact ⟨_, _, hcurrent, hb1⟩
    | true =>
      cases hv : sd1.BoneBuffer.getD (GetBoneBufferInternal sd1 true) none with
      | none => exact ⟨_, _, (hfall hv).trans hcurrent, hb1⟩
      | some b2 => exact ⟨_, b2, GetBoneBufferForReading_valid sd1 true b2 hv, hv⟩
  · intro b2 hv
    exact GetBoneBufferForReading_valid sd1 true b2 hv

/-- C23: the example of the claim, on which the code does not fall back.
`InitDynamicRHI` on new shader data of one bone at feature level `SM5` creates slot 0 of
each buffer, with the contents of a new buffer; the first update, with the flag clear,
takes slot 1 for writing and leaves slot 0 as `InitDynamicRHI` created it.  The read of
the previous buffer then finds slot 0 valid and returns it, a buffer that no update has
written, and not slot 1, which the read of the current buffer returns and which holds the
data of the update; the same for the fur-offset buffer.  The comments of lines 169-176 say
that the current buffer is used when there is no old data. -/
theorem C23_unwritten_previous_read :
    InitDynamicRHI (FShaderDataType.Init 1 (FShaderDataType.new ERHIFeatureLevel.SM5)) []
      = Except.ok stateInitialised ∧
    UpdateBoneData id [matrixTranslation] [(1, 1, 1)] [(2, 2, 2)] [matrixTranslation] [0]
      false ERHIFeatureLevel.SM5 stateInitialised [] = Except.ok (stateInitialisedUpdated, []) ∧
    GetBoneBufferForWriting (GoToNextFrame false stateInitialised) false = 1 ∧
    stateInitialisedUpdated.BoneBuffer.getD 0 none = stateInitialised.BoneBuffer.getD 0 none ∧
    stateInitialisedUpdated.BoneBuffer.getD 0 none = some (List.replicate 12 default) ∧
    stateInitialisedUpdated.BoneBuffer.getD 1 none
      = some (To3x4MatrixTranspose matrixTranslation) ∧
    GetBoneBufferForReading stateInitialisedUpdated false = Except.ok 1 ∧
    GetBoneBufferForReading stateInitialisedUpdated true = Except.ok 0 ∧
    GetBoneBufferForReading stateInitialisedUpdated true
      ≠ GetBoneBufferForReading stateInitialisedUpdated false ∧
    GetBoneFurOffsetsBufferForReading stateInitialisedUpdated false = Except.ok 1 ∧
    GetBoneFurOffsetsBufferForReading stateInitialisedUpdated true = Except.ok 0 ∧
    stateInitialisedUpdated.BoneFurOffsetsBuffer.getD 0 none
      = some (List.replicate 3 default) :=
  ⟨rfl, rfl, rfl, rfl, rfl, rfl, rfl, rfl, fun h => absurd (Except.ok.inj h) (by decide),
    rfl, rfl, rfl⟩

/-! ## C24 -/

/-- C24, counterexample.  Below feature level `ES3_1` an update writes no bone buffer: on
new shader data at feature level `ES2_REMOVED`, an update of one bone returns with both
slots of both buffers invalid; the matrix is in the uniform struct and the offsets are
written nowhere.  At `ES3_1` and above the values are stored as `float`: an update at
feature level `SM5` with the linear offset `(2^24 + 1, 0, 0)`, which is no `float` value,
leaves `(2^24, 0, 0)` in entry 0 of the current fur-offset buffer. -/
theorem C24_counterexample :
    (∃ sd1 G1,
      UpdateBoneData id [matrixTranslation] [(1, 1, 1)] [(2, 2, 2)] [matrixTranslation] [0]
        false ERHIFeatureLevel.ES2_REMOVED (FShaderDataType.new ERHIFeatureLevel.ES2_REMOVED)
        (List.replicate 12 0) = Except.ok (sd1, G1) ∧
      sd1.BoneBuffer = [none, none] ∧ sd1.BoneFurOffsetsBuffer = [none, none] ∧
      G1 = To3x4MatrixTranspose matrixTranslation) ∧
    (∃ sd1 G1 Offsets,
      UpdateBoneData narrowSingle [matrixTranslation] [(16777217, 0, 0)] [(2, 2, 2)]
        [matrixTranslation] [0] false ERHIFeatureLevel.SM5
        (FShaderDataType.new ERHIFeatureLevel.SM5) [] = Except.ok (sd1, G1) ∧
      sd1.BoneFurOffsetsBuffer.getD (GetBoneFurOffsetsBufferInternal sd1 false) none
        = some Offsets ∧
      Offsets.getD (3 * 0) default = (16777216, 0, 0) ∧
      Offsets.getD (3 * 0) default ≠ [((16777217, 0, 0) : FVector)].getD ([0].getD 0 0) default) :=
  ⟨⟨_, _, rfl, rfl, rfl, rfl⟩, ⟨_, _, _, rfl, rfl, rfl, by decide⟩⟩

/-- C24, amended: an update that returns at feature level `ES3_1` and above leaves, for
every `i` below the length of the bone map, the transposed 3x4 form of
`ReferenceToLocalMatrices[BoneMap[i]]` in the 12 scalars from position `12 * i` of the
current bone buffer, and `LinearOffsets[BoneMap[i]]`, `AngularOffsets[BoneMap[i]]` and the
origin of `LastTransformations[BoneMap[i]]` in the entries `3 * i`, `3 * i + 1` and
`3 * i + 2` of the current fur-offset buffer, every scalar narrowed from `double` to
`float`.  An update that returns below `ES3_1` leaves both buffers as they were; the
uniform struct is what its loop over the bone map leaves. -/
theorem C24_bone_map_order (toFloat : Int → Int) (ReferenceToLocalMatrices : List FMatrix)
    (LinearOffsets AngularOffsets : List FVector) (LastTransformations : List FMatrix)
    (BoneMap : List Nat) (InDiscontinuous : Bool) (InFeatureLevel : ERHIFeatureLevel)
    (sd : FShaderDataType) (G : List Int) (sd1 : FShaderDataType) (G1 : List Int)
    (hcur : sd.CurrentBuffer ≤ 1)
    (hB : sd.BoneBuffer.length = 2) (hO : sd.BoneFurOffsetsBuffer.length = 2)
    (h : UpdateBoneData toFloat ReferenceToLocalMatrices LinearOffsets AngularOffsets
      LastTransformations BoneMap InDiscontinuous InFeatureLevel sd G = Except.ok (sd1, G1)) :
    (InFeatureLevel.toNat ≥ ERHIFeatureLevel.ES3_1.toNat →
      ∃ ChunkMatrices Offsets,
        sd1.BoneBuffer.getD (GetBoneBufferInternal sd1 false) none = some ChunkMatrices ∧
        sd1.BoneFurOffsetsBuffer.getD (GetBoneFurOffsetsBufferInternal sd1 false) none
          = some Offsets ∧
        ∀ i, i < BoneMap.length →
          (ChunkMatrices.drop (12 * i)).take 12
            = To3x4MatrixTranspose
                (FMatrix44f toFloat (ReferenceToLocalMatrices.getD (BoneMap.getD i 0) [])) ∧
          3 * i + 2 < Offsets.length ∧
          Offsets.getD (3 * i) default
            = FVector3f toFloat (LinearOffsets.getD (BoneMap.getD i 0) default) ∧
          Offsets.getD (3 * i + 1) default
            = FVector3f toFloat (AngularOffsets.getD (BoneMap.getD i 0) default) ∧
          Offsets.getD (3 * i + 2) default
            = FVector3f toFloat
                (GetOrigin (LastTransformations.getD (BoneMap.getD i 0) []))) ∧
    (InFeatureLevel.toNat < ERHIFeatureLevel.ES3_1.toNat →
      sd1.BoneBuffer = sd.BoneBuffer ∧ sd1.BoneFurOffsetsBuffer = sd.BoneFurOffsetsBuffer ∧
      G1 = uniformBoneLoop toFloat ReferenceToLocalMatrices BoneMap BoneMap.length 0 G) := by
  constructor
  · intro hlev
    obtain ⟨hc1, _, _, _, _, _, _⟩ := UpdateBoneData_slots toFloat
      ReferenceToLocalMatrices LinearOffsets AngularOffsets LastTransformations BoneMap
      InDiscontinuous InFeatureLevel sd G sd1 G1 hcur hlev hB hO h
    obtain ⟨cm, off, hb1, ho1, hw⟩ := UpdateBoneData_contents toFloat
      ReferenceToLocalMatrices LinearOffsets AngularOffsets LastTransformations BoneMap
      InDiscontinuous InFeatureLevel sd G sd1 G1 hcur hlev hB hO h
    have hcur1 : sd1.CurrentBuffer ≤ 1 := by omega
    have hr : GetBoneBufferInternal sd1 false = 1 - sd.CurrentBuffer := by
      rw [GetBoneBufferInternal_eq sd1 false hcur1, hc1]
      simp
    have hr2 : GetBoneFurOffsetsBufferInternal sd1 false = 1 - sd.CurrentBuffer := by
      rw [GetBoneFurOffsetsBufferInternal_eq sd1 false hcur1, hc1]
      simp
    exact ⟨cm, off, by rw [hr]; exact hb1, by rw [hr2]; exact ho1, hw⟩
  · intro hlev
    obtain ⟨hs, hg⟩ := UpdateBoneData_uniform toFloat ReferenceToLocalMatrices LinearOffsets
      AngularOffsets LastTransformations BoneMap InDiscontinuous InFeatureLevel sd G sd1 G1
      hlev h
    exact ⟨by rw [hs], by rw [hs], hg⟩

/-- C24 on a concrete call: the first update of one bone at feature level `SM5` leaves
the transposed translation matrix in the first 12 scalars of slot 1 and the three offset
vectors in its first three fur-offset entries. -/
theorem C24_bone_map_order_witness :
    UpdateBoneData id [matrixTranslation] [(1, 1, 1)] [(2, 2, 2)] [matrixTranslation] [0] false
      ERHIFeatureLevel.SM5 (FShaderDataType.new ERHIFeatureLevel.SM5) []
      = Except.ok (stateOneUpdate, []) ∧
    ∃ ChunkMatrices Offsets,
      stateOneUpdate.BoneBuffer.getD 1 none = some ChunkMatrices ∧
      stateOneUpdate.BoneFurOffsetsBuffer.getD 1 none = some Offsets ∧
      (ChunkMatrices.drop 0).take 12 = [1, 0, 0, 5, 0, 1, 0, 6, 0, 0, 1, 7] ∧
      Offsets.getD 0 default = (1, 1, 1) ∧ Offsets.getD 1 default = (2, 2, 2) ∧
      Offsets.getD 2 default = (5, 6, 7) :=
  ⟨rfl, ((C24_bone_map_order id [matrixTranslation] [(1, 1, 1)] [(2, 2, 2)]
      [matrixTranslation] [0] false ERHIFeatureLevel.SM5
      (FShaderDataType.new ERHIFeatureLevel.SM5) [] stateOneUpdate []
      (by decide) rfl rfl rfl).1 (by decide)).elim fun cm hc => hc.elim fun off ho =>
    ⟨cm, off, ho.1, ho.2.1, (ho.2.2 0 (by decide)).1, (ho.2.2 0 (by decide)).2.2.1,
      (ho.2.2 0 (by decide)).2.2.2.1, (ho.2.2 0 (by decide)).2.2.2.2⟩⟩


/-! ## C25 -/

theorem renderThreadExecute_flags (c : RenderCommand) (d : FFurSkinData) :
    (renderThreadExecute c d).HasExtraBoneInfluences = d.HasExtraBoneInfluences := by
  cases c <;> rfl

theorem spinWaitLoop_flags (q : List RenderCommand) (d d1 : FFurSkinData)
    (h : spinWaitLoop q d = Except.ok d1) :
    d1.HasExtraBoneInfluences = d.HasExtraBoneInfluences := by
  induction q generalizing d with
  | nil =>
    unfold spinWaitLoop at h
    split at h
    · exact absurd h (by simp)
    · injection h with h
      rw [h]
  | cons c q ih =>
    unfold spinWaitLoop at h
    split at h
    · rw [ih _ h, renderThreadExecute_flags]
    · injection h with h
      rw [h]

theorem setLocalSections_flags (useTemp : Bool) (d : FFurSkinData) (secs : List FSection) :
    (setLocalSections useTemp d secs).HasExtraBoneInfluences = d.HasExtraBoneInfluences := by
  cases useTemp <;> rfl

theorem indexAndPublish_flags (env : Env) (Build : BuildType) (useTemp : Bool) (n : Nat)
    (d r : FFurSkinData) (h : BuildFur_indexAndPublish env Build useTemp n d = Except.ok r) :
    r.HasExtraBoneInfluences = d.HasExtraBoneInfluences := by
  unfold BuildFur_indexAndPublish at h
  split at h
  · simp only [] at h
    split at h
    · exact absurd h (by simp)
    · split at h
      · injection h with h
        rw [← h]
        exact setLocalSections_flags _ _ _
      · injection h with h
        rw [← h]
        exact setLocalSections_flags _ _ _
  · injection h with h
    rw [h]

theorem finish_flags (env : Env) (d : FFurSkinData) :
    (BuildFur_finish env d).HasExtraBoneInfluences = d.HasExtraBoneInfluences := by
  unfold BuildFur_finish
  simp only []
  split <;> rfl

theorem afterLock_flags (env : Env) (Build : BuildType) (useTemp : Bool) (n : Nat)
    (d d1 : FFurSkinData) (Vertices : List FFurSkinVertex)
    (h : BuildFur_afterLock env Build useTemp n d Vertices = Except.ok d1) :
    d1.HasExtraBoneInfluences = d.HasExtraBoneInfluences := by
  unfold BuildFur_afterLock at h
  simp only [] at h
  cases hr : BuildFur_indexAndPublish env Build useTemp n
      (if Build = BuildType.Full then
        { setLocalSections useTemp
            { d with VertexBuffer := (vertexPass env Build d Vertices
              (getLocalSections useTemp d)).Vertices }
            (vertexPass env Build d Vertices (getLocalSections useTemp d)).LocalSections with
          MaxVertexBoneDistance := env.sqrtf (vertexPass env Build d Vertices
            (getLocalSections useTemp d)).MaxDistSq }
      else
        setLocalSections useTemp
          { d with VertexBuffer := (vertexPass env Build d Vertices
            (getLocalSections useTemp d)).Vertices }
          (vertexPass env Build d Vertices (getLocalSections useTemp d)).LocalSections) with
  | error e =>
    rw [hr] at h
    exact absurd h (by simp [Except.map])
  | ok r =>
    rw [hr] at h
    simp only [Except.map] at h
    injection h with h
    rw [← h, finish_flags, indexAndPublish_flags _ _ _ _ _ _ hr]
    split
    · exact setLocalSections_flags _ _ _
    · exact setLocalSections_flags _ _ _

theorem BuildFur_flags (env : Env) (Build : BuildType) (d d1 : FFurSkinData)
    (h : BuildFur env Build d = Except.ok d1) :
    d1.HasExtraBoneInfluences = decide (4 < env.MaxBoneInfluences) := by
  have hb : (BuildFur_beforeWait env Build d).HasExtraBoneInfluences
      = decide (4 < env.MaxBoneInfluences) := by
    unfold BuildFur_beforeWait
    simp only []
    split <;> split <;> rfl
  unfold BuildFur at h
  split at h
  · split at h
    · exact absurd h (by simp)
    · next d2 hw =>
      have h2 : d2.HasExtraBoneInfluences = decide (4 < env.MaxBoneInfluences) := by
        rw [spinWaitLoop_flags _ _ _ hw, hb]
      unfold BuildFur_afterWait at h
      simp only [] at h
      split at h
      · injection h with h
        rw [← h, setLocalSections_flags, h2]
      · rw [afterLock_flags _ _ _ _ _ _ _ h, setLocalSections_flags, h2]
  · exact absurd h (by simp)

theorem createSectionFactory_eq (d : FFurSkinData) (InMorphVertexBuffer : Option Nat)
    (InPhysics : Bool) (InFeatureLevel : ERHIFeatureLevel)
    (VertexFactories : List FFurVertexFactory) (s : FSection) :
    ∃ c, variantFlags c = (InMorphVertexBuffer.isSome,
        InPhysics && decide (InFeatureLevel.toNat ≥ ERHIFeatureLevel.ES3_1.toNat),
        d.HasExtraBoneInfluences) ∧
      createSectionFactory d InMorphVertexBuffer InPhysics InFeatureLevel VertexFactories s
        = VertexFactories ++
          [(FFurVertexFactory.new c InFeatureLevel).Init d.bUseHighPrecisionTangentBasis
            d.bUseFullPrecisionUVs InMorphVertexBuffer s.NumBones] := by
  have hcv : ∀ vf, CreateVertexFactory d InMorphVertexBuffer VertexFactories s vf
      = VertexFactories ++ [vf.Init d.bUseHighPrecisionTangentBasis d.bUseFullPrecisionUVs
          InMorphVertexBuffer s.NumBones] := by
    intro vf
    unfold CreateVertexFactory
    cases d.bUseHighPrecisionTangentBasis <;> cases d.bUseFullPrecisionUVs <;> rfl
  unfold createSectionFactory
  simp only [hcv]
  by_cases hp : InPhysics = true ∧ InFeatureLevel.toNat ≥ ERHIFeatureLevel.ES3_1.toNat
  · have hp2 : (InPhysics && decide (InFeatureLevel.toNat ≥ ERHIFeatureLevel.ES3_1.toNat))
        = true := by simp [hp.1, hp.2]
    rw [if_pos hp, hp2]
    cases InMorphVertexBuffer.isSome <;> cases d.HasExtraBoneInfluences <;>
      exact ⟨_, by rfl, rfl⟩
  · have hp2 : (InPhysics && decide (InFeatureLevel.toNat ≥ ERHIFeatureLevel.ES3_1.toNat))
        = false := by
      cases InPhysics
      · rfl
      · simp at hp ⊢
        exact hp
    rw [if_neg hp, hp2]
    cases InMorphVertexBuffer.isSome <;> cases d.HasExtraBoneInfluences <;>
      exact ⟨_, by rfl, rfl⟩

theorem variantFlags_injective (c1 c2 : FurSkinVertexFactoryClass)
    (h : variantFlags c1 = variantFlags c2) : c1 = c2 := by
  cases c1 <;> cases c2 <;> first | rfl | exact absurd h (by decide)

theorem CreateVertexFactories_eq (d : FFurSkinData) (InMorphVertexBuffer : Option Nat)
    (InPhysics : Bool) (InFeatureLevel : ERHIFeatureLevel) (c : FurSkinVertexFactoryClass)
    (hc : variantFlags c = (InMorphVertexBuffer.isSome,
        InPhysics && decide (InFeatureLevel.toNat ≥ ERHIFeatureLevel.ES3_1.toNat),
        d.HasExtraBoneInfluences))
    (secs : List FSection) (VertexFactories : List FFurVertexFactory) :
    secs.foldl (createSectionFactory d InMorphVertexBuffer InPhysics InFeatureLevel)
        VertexFactories
      = VertexFactories ++ secs.map (fun s =>
          (FFurVertexFactory.new c InFeatureLevel).Init d.bUseHighPrecisionTangentBasis
            d.bUseFullPrecisionUVs InMorphVertexBuffer s.NumBones) := by
  induction secs generalizing VertexFactories with
  | nil => simp
  | cons s rest ih =>
    obtain ⟨c2, hc2, he⟩ := createSectionFactory_eq d InMorphVertexBuffer InPhysics
      InFeatureLevel VertexFactories s
    have hcc : c2 = c := variantFlags_injective _ _ (hc2.trans hc.symm)
    rw [List.foldl_cons, he, ih, hcc]
    simp

/-- C25, counterexample: for a dataset with one section, with `InPhysics` set and no morph
vertex buffer at feature level `ES2_REMOVED`, below `ES3_1`, the created factory is of
class `FFurSkinVertexFactory`, whose `Physics` argument is false and not `InPhysics`. -/
theorem C25_counterexample :
    dataQuadBuilt.Sections.length = 1 ∧
    (CreateVertexFactories dataQuadBuilt [] none true ERHIFeatureLevel.ES2_REMOVED).map
      (fun vf => vf.Class) = [FurSkinVertexFactoryClass.FFurSkinVertexFactory] ∧
    (CreateVertexFactories dataQuadBuilt [] none true ERHIFeatureLevel.ES2_REMOVED).map
      (fun vf => variantFlags vf.Class) ≠
      [((none : Option Nat).isSome, true, dataQuadBuilt.HasExtraBoneInfluences)] :=
  ⟨rfl, rfl, by decide⟩

/-- C25, amended: `CreateVertexFactories` selects the class from the three booleans and
the feature level.  On a dataset that a build has returned, the call adds to the array one
factory per section, in the order of the sections, all of the one class whose template
arguments `(MorphTargets, Physics, ExtraInfluences)` equal (a morph vertex buffer is
supplied, `InPhysics` and the feature level is `ES3_1` or above,
`HasExtraBoneInfluences`); each is initialised with the precision flags of the dataset,
the morph vertex buffer and the `NumBones` of its section.  The eight classes have
pairwise different template arguments, so the 8 combinations map to 8 distinct classes.
`HasExtraBoneInfluences` is true exactly when the source skin weights have more than 4
bone influences. -/
theorem C25_factory_selection (env : Env) (Build : BuildType) (d0 d : FFurSkinData)
    (VertexFactories : List FFurVertexFactory) (InMorphVertexBuffer : Option Nat)
    (InPhysics : Bool) (InFeatureLevel : ERHIFeatureLevel)
    (h : BuildFur env Build d0 = Except.ok d) :
    (∃ c, variantFlags c = (InMorphVertexBuffer.isSome,
        InPhysics && decide (InFeatureLevel.toNat ≥ ERHIFeatureLevel.ES3_1.toNat),
        d.HasExtraBoneInfluences) ∧
      CreateVertexFactories d VertexFactories InMorphVertexBuffer InPhysics InFeatureLevel
        = VertexFactories ++ d.Sections.map (fun s =>
          (FFurVertexFactory.new c InFeatureLevel).Init d.bUseHighPrecisionTangentBasis
            d.bUseFullPrecisionUVs InMorphVertexBuffer s.NumBones)) ∧
    (∀ c1 c2, variantFlags c1 = variantFlags c2 → c1 = c2) ∧
    (∀ m p e, ∃ c, variantFlags c = (m, p, e)) ∧
    (d.HasExtraBoneInfluences = true ↔ 4 < env.MaxBoneInfluences) := by
  have hall : ∀ m p e, ∃ c, variantFlags c = (m, p, e) := by
    intro m p e
    cases m <;> cases p <;> cases e
    · exact ⟨.FFurSkinVertexFactory, rfl⟩
    · exact ⟨.FExtraInfluencesFurSkinVertexFactory, rfl⟩
    · exact ⟨.FPhysicsFurSkinVertexFactory, rfl⟩
    · exact ⟨.FPhysicsExtraInfluencesFurSkinVertexFactory, rfl⟩
    · exact ⟨.FMorphFurSkinVertexFactory, rfl⟩
    · exact ⟨.FMorphExtraInfluencesFurSkinVertexFactory, rfl⟩
    · exact ⟨.FMorphPhysicsFurSkinVertexFactory, rfl⟩
    · exact ⟨.FMorphPhysicsExtraInfluencesFurSkinVertexFactory, rfl⟩
  refine ⟨?_, variantFlags_injective, hall, ?_⟩
  · obtain ⟨c, hc⟩ := hall InMorphVertexBuffer.isSome
      (InPhysics && decide (InFeatureLevel.toNat ≥ ERHIFeatureLevel.ES3_1.toNat))
      d.HasExtraBoneInfluences
    exact ⟨c, hc, CreateVertexFactories_eq d InMorphVertexBuffer InPhysics InFeatureLevel c hc
      d.Sections VertexFactories⟩
  · rw [BuildFur_flags env Build d0 d h]
    simp

/-- C25 on a concrete call: after a build of a mesh whose skin weights have 8 influences,
with `InPhysics` set and a morph vertex buffer at feature level `SM5`, the one section
gets a factory of class `FMorphPhysicsExtraInfluencesFurSkinVertexFactory`. -/
theorem C25_factory_selection_witness :
    (∃ c, variantFlags c = (true, true, true) ∧
      (CreateVertexFactories dataQuadPendingEdited [] (some 7) true ERHIFeatureLevel.SM5).map
        (fun vf => vf.Class) = [c]) ∧
    dataQuadPendingEdited.HasExtraBoneInfluences = true :=
  have h := C25_factory_selection envQuadEdited BuildType.Full (newFurSkinData 2 false false)
    dataQuadPendingEdited [] (some 7) true ERHIFeatureLevel.SM5 rfl
  ⟨h.1.elim fun c hc => ⟨c, hc.1, by rw [hc.2]; rfl⟩, h.2.2.2.2 (by decide)⟩


/-! ## C28 -/

theorem scheduled_nodup (reg : List FurDataObject)
    (hnd : (reg.map (fun o => o.Address)).Nodup) :
    ((reg.filter (fun o => decide (o.RefCount = 0))).reverse.map (fun o => o.Address)).Nodup := by
  rw [List.map_reverse, List.nodup_reverse]
  exact List.Nodup.sublist (List.Sublist.map _ (List.filter_sublist _)) hnd

theorem scheduled_mem (reg : List FurDataObject) (a : Nat) :
    a ∈ (reg.filter (fun o => decide (o.RefCount = 0))).reverse.map (fun o => o.Address)
      ↔ ∃ o, o ∈ reg ∧ o.RefCount = 0 ∧ o.Address = a := by
  simp only [List.mem_map, List.mem_reverse, List.mem_filter, decide_eq_true_eq]
  constructor
  · rintro ⟨o, ⟨h1, h2⟩, h3⟩
    exact ⟨o, h1, h2, h3⟩
  · rintro ⟨o, h1, h2, h3⟩
    exact ⟨o, ⟨h1, h2⟩, h3⟩

/-- C28: a cleanup pass leaves in the registry exactly the entries whose `RefCount` is
not 0, in their original order, and enqueues one deletion command per removed entry, from
the last removed entry to the first; when the registered objects have pairwise different
addresses, the commands it adds name every entry with `RefCount` 0 exactly once and no
entry with another `RefCount`.  `DestroyFurData` itself lowers the `RefCount` of every
entry by the number of times the array lists it and changes nothing else: the entries and
their order stay, entries that are not listed stay as they are, and no deletion command is
enqueued. -/
theorem C28_cleanup_removes_released (c : FurDataCache) (InFurDataArray : List Nat) :
    (FurDataCleanupTask c).FurSkinData
      = c.FurSkinData.filter (fun o => decide (o.RefCount ≠ 0)) ∧
    (∀ o, o ∈ (FurDataCleanupTask c).FurSkinData ↔ o ∈ c.FurSkinData ∧ o.RefCount ≠ 0) ∧
    (FurDataCleanupTask c).FurSkinData.Sublist c.FurSkinData ∧
    (∃ added, (FurDataCleanupTask c).ReleaseCommands = c.ReleaseCommands ++ added ∧
      added = (c.FurSkinData.filter (fun o => decide (o.RefCount = 0))).reverse.map
        (fun o => o.Address) ∧
      added.length + (FurDataCleanupTask c).FurSkinData.length = c.FurSkinData.length ∧
      ((c.FurSkinData.map (fun o => o.Address)).Nodup →
        ∀ o, o ∈ c.FurSkinData →
          (o.RefCount = 0 → added.count o.Address = 1) ∧
          (o.RefCount ≠ 0 → added.count o.Address = 0))) ∧
    (DestroyFurData InFurDataArray c).FurSkinData
      = c.FurSkinData.map
        (fun o => { o with RefCount := o.RefCount - (InFurDataArray.count o.Address : Nat) }) ∧
    (DestroyFurData InFurDataArray c).FurSkinData.map (fun o => o.Address)
      = c.FurSkinData.map (fun o => o.Address) ∧
    (∀ o, o ∈ c.FurSkinData → o.Address ∉ InFurDataArray →
      o ∈ (DestroyFurData InFurDataArray c).FurSkinData) ∧
    (DestroyFurData InFurDataArray c).ReleaseCommands = c.ReleaseCommands := by
  obtain ⟨h1, h2⟩ := FurDataCleanupTask_registry c
  have hd : (DestroyFurData InFurDataArray c).FurSkinData
      = c.FurSkinData.map
        (fun o => { o with RefCount := o.RefCount - (InFurDataArray.count o.Address : Nat) }) :=
    releaseLoop_eq InFurDataArray c.FurSkinData
  refine ⟨h1, ?_, ?_, ⟨_, h2, rfl, ?_, ?_⟩, hd, ?_, ?_, rfl⟩
  · intro o
    rw [h1, List.mem_filter]
    simp
  · rw [h1]
    exact List.filter_sublist _
  · rw [h1, List.length_map, List.length_reverse]
    have := @List.length_eq_length_filter_add _ c.FurSkinData
      (fun o : FurDataObject => decide (o.RefCount = 0))
    simp only [decide_not] at this ⊢
    omega
  · intro hnd o ho
    constructor
    · intro h0
      exact List.count_eq_one_of_mem (scheduled_nodup _ hnd)
        ((scheduled_mem _ _).2 ⟨o, ho, h0, rfl⟩)
    · intro h0
      apply List.count_eq_zero.2
      intro hm
      obtain ⟨o2, ho2, h2z, ha⟩ := (scheduled_mem _ _).1 hm
      have : o2 = o := List.inj_on_of_nodup_map hnd ho2 ho ha
      rw [this] at h2z
      exact h0 h2z
  · rw [hd, List.map_map]
    rfl
  · intro o ho hn
    rw [hd, List.mem_map]
    refine ⟨o, ho, ?_⟩
    rw [List.count_eq_zero.2 hn]
    simp

/-- C28 on a concrete registry: after the only holder of the one object has released it,
the cleanup pass empties the registry and enqueues the deletion of the object at address 0
exactly once. -/
theorem C28_cleanup_removes_released_witness :
    (FurDataCleanupTask cacheReleased).FurSkinData = [] ∧
    (FurDataCleanupTask cacheReleased).ReleaseCommands = [0] ∧
    cacheReleased.FurSkinData.map (fun o => o.Address)
      = cacheOneEntry.FurSkinData.map (fun o => o.Address) ∧
    ∃ added, (FurDataCleanupTask cacheReleased).ReleaseCommands
        = cacheReleased.ReleaseCommands ++ added ∧ added.count 0 = 1 :=
  have h := C28_cleanup_removes_released cacheReleased [0]
  ⟨rfl, rfl, rfl, h.2.2.2.1.elim fun added ha =>
    ⟨added, ha.1, (ha.2.2.2 (by decide) { objectQuad with RefCount := 0 }
      (by decide)).1 rfl⟩⟩


/-! ## The section scan ends -/

theorem sectionScan_stop (env : Env) (L : Nat) (LocalSections : List FSection) (v : Nat)
    (fuel cc s0 : Nat) (hin : inSectionRange env s0 v) :
    sectionScan env L LocalSections v (fuel + 1) cc (scanAt env L LocalSections s0)
      = Except.ok (scanAt env L LocalSections s0) := by
  unfold sectionScan
  rw [if_neg]
  intro h
  have h1 : (scanAt env L LocalSections s0).SectionVertexIndexBegin
      = (env.RenderSections.getD s0 default).BaseVertexIndex := rfl
  have h2 : (scanAt env L LocalSections s0).SectionVertexIndexEnd
      = u32 ((env.RenderSections.getD s0 default).BaseVertexIndex
        + (env.RenderSections.getD s0 default).NumVertices) := rfl
  rw [h1, h2] at h
  obtain ⟨h3, h4⟩ := hin
  omega

theorem sectionScan_advance (env : Env) (L : Nat) (LocalSections : List FSection) (v : Nat)
    (fuel cc s0 : Nat) (hout : ¬ inSectionRange env s0 v) :
    sectionScan env L LocalSections v (fuel + 1) cc (scanAt env L LocalSections s0)
      = if cc < env.RenderSections.length then
          sectionScan env L LocalSections v fuel (cc + 1)
            (scanAt env L LocalSections ((s0 + 1) % env.RenderSections.length))
        else Except.error Fault.checkFailed := by
  have h1 : (scanAt env L LocalSections s0).SectionVertexIndexBegin
      = (env.RenderSections.getD s0 default).BaseVertexIndex := rfl
  have h2 : (scanAt env L LocalSections s0).SectionVertexIndexEnd
      = u32 ((env.RenderSections.getD s0 default).BaseVertexIndex
        + (env.RenderSections.getD s0 default).NumVertices) := rfl
  have h3 : (scanAt env L LocalSections s0).SectionIndex = s0 := rfl
  conv => lhs; unfold sectionScan
  rw [if_pos, h3]
  rw [h1, h2]
  unfold inSectionRange at hout
  by_contra hc
  apply hout
  omega

theorem sectionScan_found (env : Env) (L : Nat) (LocalSections : List FSection) (v : Nat) :
    ∀ (k fuel cc s0 : Nat), s0 < env.RenderSections.length → k < fuel →
      cc + k ≤ env.RenderSections.length →
      inSectionRange env ((s0 + k) % env.RenderSections.length) v →
      ∃ s1, s1 < env.RenderSections.length ∧ inSectionRange env s1 v ∧
        sectionScan env L LocalSections v fuel cc (scanAt env L LocalSections s0)
          = Except.ok (scanAt env L LocalSections s1) := by
  intro k
  induction k with
  | zero =>
    intro fuel cc s0 hs0 hf _ hin
    rw [Nat.add_zero, Nat.mod_eq_of_lt hs0] at hin
    obtain ⟨f, rfl⟩ : ∃ f, fuel = f + 1 := ⟨fuel - 1, by omega⟩
    exact ⟨s0, hs0, hin, sectionScan_stop env L LocalSections v f cc s0 hin⟩
  | succ k ih =>
    intro fuel cc s0 hs0 hf hc hin
    obtain ⟨f, rfl⟩ : ∃ f, fuel = f + 1 := ⟨fuel - 1, by omega⟩
    by_cases hin0 : inSectionRange env s0 v
    · exact ⟨s0, hs0, hin0, sectionScan_stop env L LocalSections v f cc s0 hin0⟩
    · rw [sectionScan_advance env L LocalSections v f cc s0 hin0, if_pos (by omega)]
      apply ih f (cc + 1) ((s0 + 1) % env.RenderSections.length)
        (Nat.mod_lt _ (by omega)) (by omega) (by omega)
      rw [Nat.mod_add_mod]
      have e : s0 + 1 + k = s0 + (k + 1) := by omega
      rw [e]
      exact hin

theorem sectionScan_none (env : Env) (L : Nat) (LocalSections : List FSection) (v : Nat)
    (hnone : ∀ s, s < env.RenderSections.length → ¬ inSectionRange env s v) :
    ∀ (m fuel cc s0 : Nat), s0 < env.RenderSections.length → m < fuel →
      cc + m = env.RenderSections.length →
      sectionScan env L LocalSections v fuel cc (scanAt env L LocalSections s0)
        = Except.error Fault.checkFailed := by
  intro m
  induction m with
  | zero =>
    intro fuel cc s0 hs0 hf hc
    obtain ⟨f, rfl⟩ : ∃ f, fuel = f + 1 := ⟨fuel - 1, by omega⟩
    rw [sectionScan_advance env L LocalSections v f cc s0 (hnone s0 hs0), if_neg (by omega)]
  | succ m ih =>
    intro fuel cc s0 hs0 hf hc
    obtain ⟨f, rfl⟩ : ∃ f, fuel = f + 1 := ⟨fuel - 1, by omega⟩
    rw [sectionScan_advance env L LocalSections v f cc s0 (hnone s0 hs0), if_pos (by omega)]
    exact ih f (cc + 1) ((s0 + 1) % env.RenderSections.length)
      (Nat.mod_lt _ (by omega)) (by omega) (by omega)

theorem cyclic_distance (n s0 s : Nat) (hs0 : s0 < n) (hs : s < n) :
    ∃ k, k < n ∧ (s0 + k) % n = s := by
  by_cases h : s0 ≤ s
  · refine ⟨s - s0, by omega, ?_⟩
    have e : s0 + (s - s0) = s := by omega
    rw [e, Nat.mod_eq_of_lt hs]
  · refine ⟨s + n - s0, by omega, ?_⟩
    have e : s0 + (s + n - s0) = s + n := by omega
    rw [e, Nat.add_mod_right, Nat.mod_eq_of_lt hs]

theorem sectionScan_returns (env : Env) (L : Nat) (LocalSections : List FSection)
    (v s0 s fuel : Nat) (hs0 : s0 < env.RenderSections.length)
    (hfuel : env.RenderSections.length + 1 ≤ fuel)
    (hs : s < env.RenderSections.length) (hin : inSectionRange env s v) :
    ∃ s1, s1 < env.RenderSections.length ∧ inSectionRange env s1 v ∧
      sectionScan env L LocalSections v fuel 0 (scanAt env L LocalSections s0)
        = Except.ok (scanAt env L LocalSections s1) := by
  obtain ⟨k, hk, hks⟩ := cyclic_distance _ s0 s hs0 hs
  exact sectionScan_found env L LocalSections v k fuel 0 s0 hs0 (by omega) (by omega)
    (by rw [hks]; exact hin)

/-! ## C29 -/

/-- C29: in the sparse build of a mesh with at least one section, the section scan for a
vertex, started on any section, returns whenever the vertex lies in the source range of
some section: its bound check `checkCounter++ < SectionCount` does not fail and it stops
on a section whose range holds the vertex.  The scan ends in the failed check exactly when
the vertex lies in the range of no section.  This holds for every bound of at least
`SectionCount + 1` on the number of evaluations of the loop condition, so the loop ends
by itself; the scan of the next vertex of the set starts on the section this scan stopped
on, whatever the order of the set. -/
theorem C29_section_scan_terminates (env : Env) (L : Nat) (LocalSections : List FSection)
    (v s0 fuel : Nat) (hs0 : s0 < env.RenderSections.length)
    (hfuel : env.RenderSections.length + 1 ≤ fuel) :
    ((∃ s, s < env.RenderSections.length ∧ inSectionRange env s v) →
      ∃ s1, s1 < env.RenderSections.length ∧ inSectionRange env s1 v ∧
        sectionScan env L LocalSections v fuel 0 (scanAt env L LocalSections s0)
          = Except.ok (scanAt env L LocalSections s1)) ∧
    (sectionScan env L LocalSections v fuel 0 (scanAt env L LocalSections s0)
        = Except.error Fault.checkFailed ↔
      ∀ s, s < env.RenderSections.length → ¬ inSectionRange env s v) := by
  constructor
  · rintro ⟨s, hs, hin⟩
    exact sectionScan_returns env L LocalSections v s0 s fuel hs0 hfuel hs hin
  · constructor
    · intro hfail s hs hin
      obtain ⟨s1, _, _, hok⟩ :=
        sectionScan_returns env L LocalSections v s0 s fuel hs0 hfuel hs hin
      rw [hok] at hfail
      exact absurd hfail (by simp)
    · intro hnone
      exact sectionScan_none env L LocalSections v hnone env.RenderSections.length fuel 0 s0
        hs0 (by omega) (by omega)

/-- C29 on a concrete mesh of two sections with the source ranges `[0, 3)` and `[3, 28)`:
started on section 1, the scan for vertex 2 wraps around and stops on section 0; the scan
for vertex 30, which no section holds, ends in the failed check. -/
theorem C29_section_scan_terminates_witness :
    (∃ s1, s1 < envFirstSectionUncovered.RenderSections.length ∧
      inSectionRange envFirstSectionUncovered s1 2 ∧
      sectionScan envFirstSectionUncovered 2 [] 2 3 0 (scanAt envFirstSectionUncovered 2 [] 1)
        = Except.ok (scanAt envFirstSectionUncovered 2 [] s1)) ∧
    sectionScan envFirstSectionUncovered 2 [] 30 3 0 (scanAt envFirstSectionUncovered 2 [] 1)
      = Except.error Fault.checkFailed :=
  ⟨(C29_section_scan_terminates envFirstSectionUncovered 2 [] 2 1 3 (by decide) (by decide)).1
      ⟨0, by decide, by decide⟩,
    (C29_section_scan_terminates envFirstSectionUncovered 2 [] 30 1 3 (by decide)
      (by decide)).2.2 (by decide)⟩


/-! ## C27 -/

theorem specSparseVertices_length (env : Env) (d : FFurSkinData) (LocalSections : List FSection)
    (sectionOf : Nat → Nat) (FurLengths : List Int) (Layer : Nat) (GenLayerData : Int)
    (vs : List Nat) (Vertices : List FFurSkinVertex) :
    (specSparseVertices env d LocalSections sectionOf FurLengths Layer GenLayerData vs
      Vertices).length = Vertices.length := by
  induction vs generalizing Vertices with
  | nil => rfl
  | cons v rest ih =>
    simp only [specSparseVertices]
    rw [ih, List.length_set]

theorem specSparseLayers_length (env : Env) (d : FFurSkinData) (LocalSections : List FSection)
    (sectionOf : Nat → Nat) (FurLengths : List Int) (InVertexSet : List Nat)
    (k Layer : Nat) (Vertices : List FFurSkinVertex) :
    (specSparseLayers env d LocalSections sectionOf FurLengths InVertexSet k Layer
      Vertices).length = Vertices.length := by
  induction k generalizing Layer Vertices with
  | zero => rfl
  | succ k ih =>
    simp only [specSparseLayers]
    rw [ih, specSparseVertices_length]

theorem list_sum_range_eq (n : Nat) (f : Nat → Nat) :
    ((List.range n).map f).sum = Finset.sum (Finset.range n) f := by
  induction n with
  | zero => rfl
  | succ n ih =>
    rw [List.range_succ, List.map_append, List.sum_append, ih, Finset.sum_range_succ]
    simp

theorem sum_le_of_disjoint (n N : Nat) (a len : Nat → Nat)
    (hwithin : ∀ s, s < n → a s + len s ≤ N)
    (hdisj : ∀ s t, s < t → t < n → ∀ p,
      ¬ (a s ≤ p ∧ p < a s + len s ∧ a t ≤ p ∧ p < a t + len t)) :
    ((List.range n).map len).sum ≤ N := by
  rw [list_sum_range_eq]
  have hd : ∀ s ∈ Finset.range n, ∀ t ∈ Finset.range n, s ≠ t →
      Disjoint (Finset.Ico (a s) (a s + len s)) (Finset.Ico (a t) (a t + len t)) := by
    intro s hs t ht hne
    rw [Finset.mem_range] at hs ht
    rw [Finset.disjoint_left]
    intro p hp1 hp2
    rw [Finset.mem_Ico] at hp1 hp2
    rcases Nat.lt_or_gt_of_ne hne with h | h
    · exact hdisj s t h ht p ⟨hp1.1, hp1.2, hp2.1, hp2.2⟩
    · exact hdisj t s h hs p ⟨hp2.1, hp2.2, hp1.1, hp1.2⟩
  have hcard := Finset.card_biUnion hd
  have hsub : (Finset.range n).biUnion (fun s => Finset.Ico (a s) (a s + len s))
      ⊆ Finset.range N := by
    intro p hp
    rw [Finset.mem_biUnion] at hp
    obtain ⟨s, hs, hp⟩ := hp
    rw [Finset.mem_range] at hs
    rw [Finset.mem_Ico] at hp
    rw [Finset.mem_range]
    have := hwithin s hs
    omega
  have hle := Finset.card_le_card hsub
  rw [hcard, Finset.card_range] at hle
  simp only [Nat.card_Ico, Nat.add_sub_cancel_left] at hle
  exact hle

theorem layer_subrange (L Layer cnt Min Max : Nat) (hl : Layer < L)
    (hcnt : cnt = (Max + 1 - Min) / L) (hmin : Min ≤ Max + 1) :
    (Layer + 1) * cnt = Layer * cnt + cnt ∧ Min + (Layer + 1) * cnt ≤ Max + 1 := by
  have h1 : (Layer + 1) * cnt = Layer * cnt + cnt := Nat.succ_mul _ _
  have h2 : (Layer + 1) * cnt ≤ L * cnt := Nat.mul_le_mul_right _ hl
  have h3 : L * cnt ≤ Max + 1 - Min := by
    rw [hcnt]
    exact Nat.mul_div_le _ _
  exact ⟨h1, by omega⟩

theorem plainLayerIndices_mem (env : Env) (data : FFurSkinData) (src : FSkelMeshRenderSection)
    (f : FSection) (Layer x : Nat) (h : x ∈ plainLayerIndices env data src f Layer) :
    ∃ i, i < u32 (src.NumTriangles * 3) ∧
      x = u32 (sourceIndexAt env.SourceIndices src.BaseIndex i
        + u32sub (layerVertexOffset data.FurLayerCount f Layer) src.BaseVertexIndex) := by
  unfold plainLayerIndices at h
  rw [List.mem_map] at h
  obtain ⟨i, hi, hx⟩ := h
  exact ⟨i, List.mem_range.1 hi, hx.symm⟩

theorem culledLayerIndices_mem (env : Env) (data : FFurSkinData)
    (src : FSkelMeshRenderSection) (f : FSection) (Layer x : Nat)
    (h : x ∈ culledLayerIndices env data src f Layer) :
    ∃ t c, t < src.NumTriangles ∧ c < 3 ∧
      triangleCovered env.SourceIndices data.SplineMap src.BaseIndex t = true ∧
      x = u32 (data.VertexRemap.getD
          (sourceIndexAt env.SourceIndices src.BaseIndex (t * 3 + c)) 0
        + layerVertexOffset data.FurLayerCount f Layer) := by
  unfold culledLayerIndices at h
  rw [List.mem_flatMap] at h
  obtain ⟨t, ht, hx⟩ := h
  rw [List.mem_filter, List.mem_range] at ht
  simp only [List.mem_cons, List.mem_singleton, List.not_mem_nil, or_false] at hx
  rcases hx with hx | hx | hx
  · exact ⟨t, 0, ht.1, by omega, ht.2, hx⟩
  · exact ⟨t, 1, ht.1, by omega, ht.2, hx⟩
  · exact ⟨t, 2, ht.1, by omega, ht.2, hx⟩

/-- C30: the index rebuild returns, with every write inside the preallocated
`SourceIndices.Num() * FurLayerCount` entries, and every index it emits for a layer of a
section lies inside the sub-range of that layer,
`[MinVertexIndex + Layer * count, MinVertexIndex + (Layer + 1) * count)` with `count` the
per-layer vertex count `(MaxVertexIndex + 1 - MinVertexIndex) / FurLayerCount`, and so
inside the vertex range `[MinVertexIndex, MaxVertexIndex]` of the section.  This is
provided that the triangle lists of the sections lie inside `SourceIndices` and are
pairwise disjoint, and that, when no face is removed, every source index of a section lies
in `[BaseVertexIndex, BaseVertexIndex + NumVertices)` and the per-layer count of the
section is `NumVertices`, or, when faces without splines are removed, `VertexRemap` maps
every corner of a covered triangle below the per-layer count.  Sizes are those of the
engine's arrays: an entry of the section array for every source section, at least one
layer, the preallocated count below `2^31`, source indices below `2^32`, vertex ranges
below `2^31`. -/
theorem C30_indices_in_range (env : Env) (data : FFurSkinData) (LocalSections : List FSection)
    (hlen : env.RenderSections.length ≤ LocalSections.length)
    (hL : 0 < data.FurLayerCount)
    (hsize : env.SourceIndices.length * data.FurLayerCount < 2147483648)
    (hsec : ∀ s, s < env.RenderSections.length →
      (LocalSections.getD s default).MinVertexIndex
        ≤ (LocalSections.getD s default).MaxVertexIndex + 1 ∧
      (LocalSections.getD s default).MaxVertexIndex + 1 < 2147483648)
    (hwithin : ∀ s, s < env.RenderSections.length →
      (env.RenderSections.getD s default).BaseIndex
        + (env.RenderSections.getD s default).NumTriangles * 3 ≤ env.SourceIndices.length)
    (hdisj : ∀ s t, s < t → t < env.RenderSections.length → ∀ p,
      ¬ ((env.RenderSections.getD s default).BaseIndex ≤ p ∧
        p < (env.RenderSections.getD s default).BaseIndex
          + (env.RenderSections.getD s default).NumTriangles * 3 ∧
        (env.RenderSections.getD t default).BaseIndex ≤ p ∧
        p < (env.RenderSections.getD t default).BaseIndex
          + (env.RenderSections.getD t default).NumTriangles * 3))
    (hplain : (data.FurSplinesUsed && data.RemoveFacesWithoutSplines) = false →
      ∀ s, s < env.RenderSections.length →
        ((LocalSections.getD s default).MaxVertexIndex + 1
            - (LocalSections.getD s default).MinVertexIndex) / data.FurLayerCount
          = (env.RenderSections.getD s default).NumVertices ∧
        ∀ i, i < (env.RenderSections.getD s default).NumTriangles * 3 →
          (env.RenderSections.getD s default).BaseVertexIndex
            ≤ sourceIndexAt env.SourceIndices (env.RenderSections.getD s default).BaseIndex i ∧
          sourceIndexAt env.SourceIndices (env.RenderSections.getD s default).BaseIndex i
            < (env.RenderSections.getD s default).BaseVertexIndex
              + (env.RenderSections.getD s default).NumVertices ∧
          sourceIndexAt env.SourceIndices (env.RenderSections.getD s default).BaseIndex i
            < 4294967296)
    (hculled : (data.FurSplinesUsed && data.RemoveFacesWithoutSplines) = true →
      ∀ s, s < env.RenderSections.length →
        ∀ t, t < (env.RenderSections.getD s default).NumTriangles →
          triangleCovered env.SourceIndices data.SplineMap
            (env.RenderSections.getD s default).BaseIndex t = true →
          ∀ c, c < 3 →
            data.VertexRemap.getD (sourceIndexAt env.SourceIndices
                (env.RenderSections.getD s default).BaseIndex (t * 3 + c)) 0
              < ((LocalSections.getD s default).MaxVertexIndex + 1
                - (LocalSections.getD s default).MinVertexIndex) / data.FurLayerCount) :
    ∃ secs, rebuildIndices env data LocalSections
        = Except.ok (allIndices env data LocalSections, secs) ∧
      (allIndices env data LocalSections).length
        ≤ env.SourceIndices.length * data.FurLayerCount ∧
      ∀ s, s < env.RenderSections.length → ∀ Layer, Layer < data.FurLayerCount →
        ∀ x, x ∈ layerIndices env data (env.RenderSections.getD s default)
            (LocalSections.getD s default) Layer →
          (LocalSections.getD s default).MinVertexIndex
              + Layer * (((LocalSections.getD s default).MaxVertexIndex + 1
                - (LocalSections.getD s default).MinVertexIndex) / data.FurLayerCount) ≤ x ∧
          x < (LocalSections.getD s default).MinVertexIndex
              + (Layer + 1) * (((LocalSections.getD s default).MaxVertexIndex + 1
                - (LocalSections.getD s default).MinVertexIndex) / data.FurLayerCount) ∧
          (LocalSections.getD s default).MinVertexIndex ≤ x ∧
          x ≤ (LocalSections.getD s default).MaxVertexIndex := by
  have hsum : ((List.range env.RenderSections.length).map
      (fun s => (env.RenderSections.getD s default).NumTriangles * 3)).sum
        ≤ env.SourceIndices.length :=
    sum_le_of_disjoint env.RenderSections.length env.SourceIndices.length
      (fun s => (env.RenderSections.getD s default).BaseIndex)
      (fun s => (env.RenderSections.getD s default).NumTriangles * 3) hwithin hdisj
  have hfit := allIndices_length_le env data LocalSections hsum
  have hoff : OffsetsInRange env data LocalSections := by
    intro s hs Layer hl
    have := (layerVertexOffset_exact data.FurLayerCount (LocalSections.getD s default) Layer hl
      (hsec s hs).1 (hsec s hs).2).2
    have := (hsec s hs).2
    omega
  obtain ⟨secs, hre, _⟩ := rebuildIndices_eq env data LocalSections hlen hoff hfit
  refine ⟨secs, hre, hfit, ?_⟩
  intro s hs Layer hl x hx
  obtain ⟨hmin, hmax⟩ := hsec s hs
  obtain ⟨hoffe, _⟩ := layerVertexOffset_exact data.FurLayerCount
    (LocalSections.getD s default) Layer hl hmin hmax
  obtain ⟨hsucc, htop⟩ := layer_subrange data.FurLayerCount Layer _
    (LocalSections.getD s default).MinVertexIndex (LocalSections.getD s default).MaxVertexIndex
    hl rfl hmin
  have hSI : env.SourceIndices.length < 2147483648 :=
    lt_of_le_of_lt (Nat.le_mul_of_pos_right _ hL) hsize
  unfold layerIndices at hx
  cases hc : (data.FurSplinesUsed && data.RemoveFacesWithoutSplines) with
  | false =>
    rw [hc] at hx
    simp only [Bool.false_eq_true, if_false] at hx
    obtain ⟨i, hi, hxe⟩ := plainLayerIndices_mem env data _ _ Layer x hx
    have hw := hwithin s hs
    rw [u32_of_lt (by omega)] at hi
    obtain ⟨hcnt, hsrc⟩ := hplain hc s hs
    obtain ⟨h1, h2, h3⟩ := hsrc i hi
    rw [hoffe] at hxe
    rw [hcnt] at hxe hsucc htop ⊢
    generalize sourceIndexAt env.SourceIndices (env.RenderSections.getD s default).BaseIndex i
      = v at hxe h1 h2 h3
    generalize Layer * (env.RenderSections.getD s default).NumVertices = m at hxe hsucc htop ⊢
    generalize (Layer + 1) * (env.RenderSections.getD s default).NumVertices = m1
      at hsucc htop ⊢
    unfold u32 u32sub at hxe
    omega
  | true =>
    rw [hc] at hx
    simp only [if_true] at hx
    obtain ⟨t, c, ht, hc3, hcov, hxe⟩ := culledLayerIndices_mem env data _ _ Layer x hx
    have hr := hculled hc s hs t ht hcov c hc3
    rw [hoffe] at hxe
    generalize data.VertexRemap.getD (sourceIndexAt env.SourceIndices
      (env.RenderSections.getD s default).BaseIndex (t * 3 + c)) 0 = r at hxe hr
    generalize ((LocalSections.getD s default).MaxVertexIndex + 1
      - (LocalSections.getD s default).MinVertexIndex) / data.FurLayerCount = cnt
      at hxe hr hsucc htop ⊢
    generalize Layer * cnt = m at hxe hsucc htop ⊢
    generalize (Layer + 1) * cnt = m1 at hsucc htop ⊢
    unfold u32 at hxe
    omega

/-- C30 on a concrete mesh of two sections, 3 and 25 vertices, one triangle each, built
with 2 layers without face removal: the rebuild returns, its 12 indices fit the 12
preallocated entries, and the indices of layer 1 of section 1 lie in `[31, 56)`. -/
theorem C30_indices_in_range_witness :
    (∃ secs, rebuildIndices envFirstSectionUncovered (newFurSkinData 2 false false)
        sectionsTwoPlain
      = Except.ok (allIndices envFirstSectionUncovered (newFurSkinData 2 false false)
          sectionsTwoPlain, secs)) ∧
    (allIndices envFirstSectionUncovered (newFurSkinData 2 false false)
      sectionsTwoPlain).length ≤ 6 * 2 ∧
    ∀ x, x ∈ layerIndices envFirstSectionUncovered (newFurSkinData 2 false false)
        (envFirstSectionUncovered.RenderSections.getD 1 default)
        (sectionsTwoPlain.getD 1 default) 1 → 6 + 1 * 25 ≤ x ∧ x < 6 + 2 * 25 :=
  (C30_indices_in_range envFirstSectionUncovered (newFurSkinData 2 false false)
      sectionsTwoPlain (by decide) (by decide) (by decide) (by decide) (by decide)
      (by
        intro s t hst ht p hp
        have h1 : t = 1 := by
          have : envFirstSectionUncovered.RenderSections.length = 2 := rfl
          omega
        have h0 : s = 0 := by omega
        subst h0 h1
        have e1 : (envFirstSectionUncovered.RenderSections.getD 0 default).BaseIndex = 0 := rfl
        have e2 : (envFirstSectionUncovered.RenderSections.getD 0 default).NumTriangles = 1 := rfl
        have e3 : (envFirstSectionUncovered.RenderSections.getD 1 default).BaseIndex = 3 := rfl
        rw [e1, e2, e3] at hp
        omega)
      (by decide) (by intro h; exact absurd h (by decide))).elim fun secs h =>
    ⟨⟨secs, h.1⟩, h.2.1, fun x hx =>
      ⟨(h.2.2 1 (by decide) 1 (by decide) x hx).1, (h.2.2 1 (by decide) 1 (by decide) x hx).2.1⟩⟩


/-! ## Two runs of the vertex pass -/

theorem getD_of_take_eq {α : Type} (l1 l2 : List α) (e j : Nat) (d : α)
    (h : l1.take e = l2.take e) (hj : j < e) : l1.getD j d = l2.getD j d := by
  have h1 : (l1.take e)[j]? = (l2.take e)[j]? := by rw [h]
  rw [List.getElem?_take_of_lt hj, List.getElem?_take_of_lt hj] at h1
  rw [List.getD_eq_getElem?_getD, List.getD_eq_getElem?_getD, h1]

theorem vertexDistanceLoop_congr (RefPose : List FVector) (BoneMap : List Nat)
    (numInfluences : Nat) (V1 V2 : List FFurSkinVertex) (off : Nat) :
    ∀ (k i : Nat) (m : Int),
      (∀ j, i ≤ j → j < i + k →
        V1.getD (u32 (off + j)) default = V2.getD (u32 (off + j)) default) →
      vertexDistanceLoop RefPose BoneMap numInfluences V1 off k i m
        = vertexDistanceLoop RefPose BoneMap numInfluences V2 off k i m := by
  intro k
  induction k with
  | zero => intro i m _; rfl
  | succ k ih =>
    intro i m h
    unfold vertexDistanceLoop
    simp only []
    rw [h i (Nat.le_refl _) (by omega)]
    exact ih (i + 1) _ (fun j h1 h2 => h j (by omega) (by omega))

theorem generationInputs_fields (a b : FFurSkinData)
    (h : generationInputs a = generationInputs b) :
    a.FurLayerCount = b.FurLayerCount ∧
    a.RemoveFacesWithoutSplines = b.RemoveFacesWithoutSplines ∧
    a.FurSplinesUsed = b.FurSplinesUsed ∧
    a.HasExtraBoneInfluences = b.HasExtraBoneInfluences ∧
    a.SplineMap = b.SplineMap ∧ a.VertexRemap = b.VertexRemap ∧
    a.VertexCountPerLayer = b.VertexCountPerLayer := by
  unfold generationInputs configuration at h
  simp only [Prod.mk.injEq] at h
  obtain ⟨⟨h1, h2, h3, _, _, _, h7⟩, _, h9, h10, h11⟩ := h
  exact ⟨h1, h2, h3, h7, h9, h10, h11⟩

theorem take_append_agree {α : Type} (V1 V2 g1 g2 : List α) (off c : Nat)
    (hlen : V1.length = V2.length) (hpre : V1.take off = V2.take off)
    (hg1 : g1.length = (V1.drop off).length) (hg2 : g2.length = (V2.drop off).length)
    (hg : g1.take c = g2.take c) :
    (V1.take off ++ g1).length = (V2.take off ++ g2).length ∧
    (V1.take off ++ g1).take (off + c) = (V2.take off ++ g2).take (off + c) := by
  constructor
  · rw [List.length_append, List.length_append, hg1, hg2, List.length_take, List.length_take,
      List.length_drop, List.length_drop, hlen]
  · by_cases ho : off ≤ V1.length
    · have h1 : (V1.take off).length = off := by rw [List.length_take]; omega
      have h2 : (V2.take off).length = off := by rw [List.length_take]; omega
      have e1 : (V1.take off ++ g1).take (off + c) = V1.take off ++ g1.take c := by
        nth_rewrite 1 [← h1]
        exact List.take_append _
      have e2 : (V2.take off ++ g2).take (off + c) = V2.take off ++ g2.take c := by
        nth_rewrite 1 [← h2]
        exact List.take_append _
      rw [e1, e2, hpre, hg]
    · have z1 : g1 = [] := by
        apply List.eq_nil_of_length_eq_zero
        rw [hg1, List.length_drop]; omega
      have z2 : g2 = [] := by
        apply List.eq_nil_of_length_eq_zero
        rw [hg2, List.length_drop]; omega
      rw [z1, z2, hpre]

/-- One section of the vertex pass on two datasets with the same generation inputs and
two memories that agree before the section offset. -/
theorem vertexPassSection_agree (env : Env) (a b : FFurSkinData) (hdet : DeterministicRoutines env)
    (hab : generationInputs a = generationInputs b) (hL : 0 < a.FurLayerCount)
    (k : Nat) (src : FSkelMeshRenderSection) (s t : VertexPassState)
    (hoff : s.SectionVertexOffset = t.SectionVertexOffset)
    (hm : s.MaxDistSq = t.MaxDistSq)
    (hvl : s.Vertices.length = t.Vertices.length)
    (hv : s.Vertices.take s.SectionVertexOffset = t.Vertices.take s.SectionVertexOffset)
    (hsl : s.LocalSections.length = t.LocalSections.length)
    (hs : ∀ j, j < k →
      (s.LocalSections.getD j default).MinVertexIndex
        = (t.LocalSections.getD j default).MinVertexIndex ∧
      (s.LocalSections.getD j default).MaxVertexIndex
        = (t.LocalSections.getD j default).MaxVertexIndex) :
    (vertexPassSection env BuildType.Full a k src s).SectionVertexOffset
      = (vertexPassSection env BuildType.Full b k src t).SectionVertexOffset ∧
    (vertexPassSection env BuildType.Full a k src s).MaxDistSq
      = (vertexPassSection env BuildType.Full b k src t).MaxDistSq ∧
    (vertexPassSection env BuildType.Full a k src s).Vertices.length
      = (vertexPassSection env BuildType.Full b k src t).Vertices.length ∧
    (vertexPassSection env BuildType.Full a k src s).Vertices.take
        (vertexPassSection env BuildType.Full a k src s).SectionVertexOffset
      = (vertexPassSection env BuildType.Full b k src t).Vertices.take
        (vertexPassSection env BuildType.Full a k src s).SectionVertexOffset ∧
    (vertexPassSection env BuildType.Full a k src s).LocalSections.length
      = (vertexPassSection env BuildType.Full b k src t).LocalSections.length ∧
    ∀ j, j < k + 1 →
      ((vertexPassSection env BuildType.Full a k src s).LocalSections.getD j
          default).MinVertexIndex
        = ((vertexPassSection env BuildType.Full b k src t).LocalSections.getD j
          default).MinVertexIndex ∧
      ((vertexPassSection env BuildType.Full a k src s).LocalSections.getD j
          default).MaxVertexIndex
        = ((vertexPassSection env BuildType.Full b k src t).LocalSections.getD j
          default).MaxVertexIndex := by
  obtain ⟨hLab, _, _, hex, _, _, _⟩ := generationInputs_fields a b hab
  have hdl : (s.Vertices.drop s.SectionVertexOffset).length
      = (t.Vertices.drop t.SectionVertexOffset).length := by
    rw [List.length_drop, List.length_drop, hvl, hoff]
  obtain ⟨hc, hgl, hgt⟩ := hdet.2.2.1 a b src.BaseVertexIndex
    (u32 (src.BaseVertexIndex + src.NumVertices)) (s.Vertices.drop s.SectionVertexOffset)
    (t.Vertices.drop t.SectionVertexOffset) hab hdl
  obtain ⟨_, hgl2, _⟩ := hdet.2.2.1 b a src.BaseVertexIndex
    (u32 (src.BaseVertexIndex + src.NumVertices)) (t.Vertices.drop t.SectionVertexOffset)
    (s.Vertices.drop s.SectionVertexOffset) hab.symm hdl.symm
  have ho : (vertexPassSection env BuildType.Full a k src s).SectionVertexOffset
      = (vertexPassSection env BuildType.Full b k src t).SectionVertexOffset := by
    rw [vertexPassSection_offset, vertexPassSection_offset, hc, hoff, hLab]
  have hagree := take_append_agree s.Vertices t.Vertices
    (env.GenerateFurVertices a src.BaseVertexIndex (u32 (src.BaseVertexIndex + src.NumVertices))
      (s.Vertices.drop s.SectionVertexOffset)).1
    (env.GenerateFurVertices b src.BaseVertexIndex (u32 (src.BaseVertexIndex + src.NumVertices))
      (t.Vertices.drop t.SectionVertexOffset)).1
    s.SectionVertexOffset
    ((env.GenerateFurVertices a src.BaseVertexIndex
      (u32 (src.BaseVertexIndex + src.NumVertices))
      (s.Vertices.drop s.SectionVertexOffset)).2 * a.FurLayerCount)
    hvl hv hgl (by rw [hgl2, hoff]) hgt
  have hvs : (vertexPassSection env BuildType.Full a k src s).Vertices
      = s.Vertices.take s.SectionVertexOffset ++
        (env.GenerateFurVertices a src.BaseVertexIndex
          (u32 (src.BaseVertexIndex + src.NumVertices))
          (s.Vertices.drop s.SectionVertexOffset)).1 := rfl
  have hvt : (vertexPassSection env BuildType.Full b k src t).Vertices
      = t.Vertices.take s.SectionVertexOffset ++
        (env.GenerateFurVertices b src.BaseVertexIndex
          (u32 (src.BaseVertexIndex + src.NumVertices))
          (t.Vertices.drop t.SectionVertexOffset)).1 := by
    rw [vertexPassSection_vertices, hoff]
  refine ⟨ho, ?_, ?_, ?_, ?_, ?_⟩
  · rw [vertexPassSection_maxDistSq, vertexPassSection_maxDistSq, ← hc, ← hoff, ← hm, ← hex]
    apply vertexDistanceLoop_congr
    intro j _ hj
    rw [hvs, hvt]
    apply getD_of_take_eq _ _ _ _ _ hagree.2
    have h1 : u32 (s.SectionVertexOffset + j) ≤ s.SectionVertexOffset + j := by
      unfold u32; exact Nat.mod_le _ _
    have h2 := Nat.le_mul_of_pos_right
      (env.GenerateFurVertices a src.BaseVertexIndex
        (u32 (src.BaseVertexIndex + src.NumVertices))
        (s.Vertices.drop s.SectionVertexOffset)).2 hL
    omega
  · rw [hvs, hvt]
    exact hagree.1
  · rw [hvs, hvt, vertexPassSection_offset]
    have h1 : u32 (s.SectionVertexOffset + (env.GenerateFurVertices a src.BaseVertexIndex
        (u32 (src.BaseVertexIndex + src.NumVertices))
        (s.Vertices.drop s.SectionVertexOffset)).2 * a.FurLayerCount)
        ≤ s.SectionVertexOffset + (env.GenerateFurVertices a src.BaseVertexIndex
        (u32 (src.BaseVertexIndex + src.NumVertices))
        (s.Vertices.drop s.SectionVertexOffset)).2 * a.FurLayerCount := by
      unfold u32; exact Nat.mod_le _ _
    have h2 := congrArg (List.take (u32 (s.SectionVertexOffset
      + (env.GenerateFurVertices a src.BaseVertexIndex
        (u32 (src.BaseVertexIndex + src.NumVertices))
        (s.Vertices.drop s.SectionVertexOffset)).2 * a.FurLayerCount))) hagree.2
    rw [List.take_take, List.take_take, Nat.min_eq_left h1] at h2
    exact h2
  · simp only [vertexPassSection, List.length_set]
    exact hsl
  · intro j hj
    by_cases hk : k < s.LocalSections.length
    · rw [vertexPassSection_sections _ _ _ _ _ _ hk,
        vertexPassSection_sections _ _ _ _ _ _ (by omega : k < t.LocalSections.length)]
      by_cases hjk : j = k
      · subst hjk
        rw [getD_set_eq _ _ _ _ hk, getD_set_eq _ _ _ _ (by omega)]
        exact ⟨hoff, by rw [ho]⟩
      · rw [getD_set_ne _ _ _ _ _ (fun e => hjk e.symm),
          getD_set_ne _ _ _ _ _ (fun e => hjk e.symm)]
        exact hs j (by omega)
    · have e1 : (vertexPassSection env BuildType.Full a k src s).LocalSections
          = s.LocalSections := by
        simp only [vertexPassSection]
        rw [List.set_eq_of_length_le (by rw [List.length_set]; omega),
          List.set_eq_of_length_le (by omega)]
      have e2 : (vertexPassSection env BuildType.Full b k src t).LocalSections
          = t.LocalSections := by
        simp only [vertexPassSection]
        rw [List.set_eq_of_length_le (by rw [List.length_set]; omega),
          List.set_eq_of_length_le (by omega)]
      rw [e1, e2]
      by_cases hjk : j < k
      · exact hs j hjk
      · rw [List.getD_eq_default _ _ (by omega), List.getD_eq_default _ _ (by omega)]
        exact ⟨rfl, rfl⟩

theorem vertexPassLoop_agree (env : Env) (a b : FFurSkinData) (hdet : DeterministicRoutines env)
    (hab : generationInputs a = generationInputs b) (hL : 0 < a.FurLayerCount) :
    ∀ (secs : List FSkelMeshRenderSection) (k : Nat) (s t : VertexPassState),
      s.SectionVertexOffset = t.SectionVertexOffset → s.MaxDistSq = t.MaxDistSq →
      s.Vertices.length = t.Vertices.length →
      s.Vertices.take s.SectionVertexOffset = t.Vertices.take s.SectionVertexOffset →
      s.LocalSections.length = t.LocalSections.length →
      (∀ j, j < k →
        (s.LocalSections.getD j default).MinVertexIndex
          = (t.LocalSections.getD j default).MinVertexIndex ∧
        (s.LocalSections.getD j default).MaxVertexIndex
          = (t.LocalSections.getD j default).MaxVertexIndex) →
      (vertexPassLoop env BuildType.Full a secs k s).MaxDistSq
        = (vertexPassLoop env BuildType.Full b secs k t).MaxDistSq ∧
      (vertexPassLoop env BuildType.Full a secs k s).LocalSections.length
        = s.LocalSections.length ∧
      (vertexPassLoop env BuildType.Full b secs k t).LocalSections.length
        = t.LocalSections.length ∧
      ∀ j, j < k + secs.length →
        ((vertexPassLoop env BuildType.Full a secs k s).LocalSections.getD j
            default).MinVertexIndex
          = ((vertexPassLoop env BuildType.Full b secs k t).LocalSections.getD j
            default).MinVertexIndex ∧
        ((vertexPassLoop env BuildType.Full a secs k s).LocalSections.getD j
            default).MaxVertexIndex
          = ((vertexPassLoop env BuildType.Full b secs k t).LocalSections.getD j
            default).MaxVertexIndex := by
  intro secs
  induction secs with
  | nil =>
    intro k s t _ hm _ _ _ hs
    exact ⟨hm, rfl, rfl, fun j hj => hs j (by simpa using hj)⟩
  | cons src rest ih =>
    intro k s t hoff hm hvl hv hsl hs
    obtain ⟨g1, g2, g3, g4, g5, g6⟩ := vertexPassSection_agree env a b hdet hab hL k src s t
      hoff hm hvl hv hsl hs
    obtain ⟨r1, r2, r3, r4⟩ := ih (k + 1) _ _ g1 g2 g3 g4 g5 g6
    have l1 : (vertexPassSection env BuildType.Full a k src s).LocalSections.length
        = s.LocalSections.length := by
      simp only [vertexPassSection, List.length_set]
    have l2 : (vertexPassSection env BuildType.Full b k src t).LocalSections.length
        = t.LocalSections.length := by
      simp only [vertexPassSection, List.length_set]
    refine ⟨r1, r2.trans l1, r3.trans l2, ?_⟩
    intro j hj
    exact r4 j (by rw [List.length_cons] at hj; omega)

theorem SetNum_length {α : Type} [Inhabited α] (xs : List α) (n : Nat) :
    (SetNum xs n).length = n := by
  unfold SetNum
  rw [List.length_append, List.length_take, List.length_replicate]
  omega

/-- The vertex pass of two builds with the same generation inputs, on memories of the same
size and section arrays of the same size: the same `MaxDistSq` and the same vertex range
for every section. -/
theorem vertexPass_agree (env : Env) (a b : FFurSkinData) (hdet : DeterministicRoutines env)
    (hab : generationInputs a = generationInputs b) (hL : 0 < a.FurLayerCount)
    (V1 V2 : List FFurSkinVertex) (S1 S2 : List FSection)
    (hV : V1.length = V2.length) (hS : S1.length = S2.length) :
    (vertexPass env BuildType.Full a V1 S1).MaxDistSq
      = (vertexPass env BuildType.Full b V2 S2).MaxDistSq ∧
    (vertexPass env BuildType.Full a V1 S1).LocalSections.length = S1.length ∧
    (vertexPass env BuildType.Full b V2 S2).LocalSections.length = S2.length ∧
    ∀ j, j < env.RenderSections.length →
      ((vertexPass env BuildType.Full a V1 S1).LocalSections.getD j default).MinVertexIndex
        = ((vertexPass env BuildType.Full b V2 S2).LocalSections.getD j
          default).MinVertexIndex ∧
      ((vertexPass env BuildType.Full a V1 S1).LocalSections.getD j default).MaxVertexIndex
        = ((vertexPass env BuildType.Full b V2 S2).LocalSections.getD j
          default).MaxVertexIndex := by
  obtain ⟨r1, r2, r3, r4⟩ := vertexPassLoop_agree env a b hdet hab hL env.RenderSections 0
    { SectionVertexOffset := 0, MaxDistSq := 0, Vertices := V1, LocalSections := S1 }
    { SectionVertexOffset := 0, MaxDistSq := 0, Vertices := V2, LocalSections := S2 }
    rfl rfl hV rfl hS (fun j hj => absurd hj (by omega))
  exact ⟨r1, r2, r3, fun j hj => r4 j (by omega)⟩

/-! ## Two runs of the index rebuild -/

theorem rebuildSection_agree (env : Env) (data : FFurSkinData) (k : Nat)
    (st1 st2 r1 : IndexPassState)
    (hI : st1.Idx = st2.Idx) (hX : st1.Indices = st2.Indices)
    (hl : st1.LocalSections.length = st2.LocalSections.length)
    (hdone : ∀ j, j < k → st1.LocalSections.getD j default = st2.LocalSections.getD j default)
    (hmm : ∀ j,
      (st1.LocalSections.getD j default).MinVertexIndex
        = (st2.LocalSections.getD j default).MinVertexIndex ∧
      (st1.LocalSections.getD j default).MaxVertexIndex
        = (st2.LocalSections.getD j default).MaxVertexIndex)
    (h : rebuildSection env data k st1 = Except.ok r1) :
    ∃ r2, rebuildSection env data k st2 = Except.ok r2 ∧
      r1.Idx = r2.Idx ∧ r1.Indices = r2.Indices ∧
      r1.LocalSections.length = r2.LocalSections.length ∧
      (∀ j, j < k + 1 → r1.LocalSections.getD j default = r2.LocalSections.getD j default) ∧
      (∀ j,
        (r1.LocalSections.getD j default).MinVertexIndex
          = (r2.LocalSections.getD j default).MinVertexIndex ∧
        (r1.LocalSections.getD j default).MaxVertexIndex
          = (r2.LocalSections.getD j default).MaxVertexIndex) := by
  have hc := rebuildLayers_congr env data (env.RenderSections.getD k default)
    { st1.LocalSections.getD k default with
      MaterialIndex := (env.RenderSections.getD k default).MaterialIndex
      BaseIndex := st1.Idx }
    { st2.LocalSections.getD k default with
      MaterialIndex := (env.RenderSections.getD k default).MaterialIndex
      BaseIndex := st2.Idx }
    (hmm k).1 (hmm k).2 data.FurLayerCount 0 (st1.Idx, st1.Indices)
  have hc2 : rebuildLayers env data (env.RenderSections.getD k default)
      { st1.LocalSections.getD k default with
        MaterialIndex := (env.RenderSections.getD k default).MaterialIndex
        BaseIndex := st1.Idx } data.FurLayerCount 0 (st1.Idx, st1.Indices)
      = rebuildLayers env data (env.RenderSections.getD k default)
      { st2.LocalSections.getD k default with
        MaterialIndex := (env.RenderSections.getD k default).MaterialIndex
        BaseIndex := st2.Idx } data.FurLayerCount 0 (st2.Idx, st2.Indices) := by
    rw [hc, hI, hX]
  unfold rebuildSection at h ⊢
  simp only [] at h ⊢
  rw [hc2] at h
  split at h
  · exact absurd h (by simp)
  · next s1 hs1 =>
    rw [hs1]
    injection h with h
    subst h
    refine ⟨_, rfl, rfl, rfl, ?_, ?_, ?_⟩
    · simp only [List.length_set]
      exact hl
    · intro j hj
      dsimp only
      by_cases hjk : j = k
      · subst hjk
        by_cases hlt : j < st1.LocalSections.length
        · rw [getD_set_eq _ _ _ _ hlt, getD_set_eq _ _ _ _ (by omega)]
          simp only [(hmm j).1, (hmm j).2, hI]
        · rw [List.set_eq_of_length_le (by omega), List.set_eq_of_length_le (by omega),
            List.getD_eq_default _ _ (by omega), List.getD_eq_default _ _ (by omega)]
      · rw [getD_set_ne _ _ _ _ _ (fun e => hjk e.symm),
          getD_set_ne _ _ _ _ _ (fun e => hjk e.symm)]
        exact hdone j (by omega)
    · intro j
      dsimp only
      by_cases hjk : j = k
      · subst hjk
        by_cases hlt : j < st1.LocalSections.length
        · rw [getD_set_eq _ _ _ _ hlt, getD_set_eq _ _ _ _ (by omega)]
          exact hmm j
        · rw [List.set_eq_of_length_le (by omega), List.set_eq_of_length_le (by omega)]
          exact hmm j
      · rw [getD_set_ne _ _ _ _ _ (fun e => hjk e.symm),
          getD_set_ne _ _ _ _ _ (fun e => hjk e.symm)]
        exact hmm j

theorem rebuildSections_agree (env : Env) (data : FFurSkinData) :
    ∀ (n k : Nat) (st1 st2 r1 : IndexPassState),
      st1.Idx = st2.Idx → st1.Indices = st2.Indices →
      st1.LocalSections.length = st2.LocalSections.length →
      (∀ j, j < k → st1.LocalSections.getD j default = st2.LocalSections.getD j default) →
      (∀ j,
        (st1.LocalSections.getD j default).MinVertexIndex
          = (st2.LocalSections.getD j default).MinVertexIndex ∧
        (st1.LocalSections.getD j default).MaxVertexIndex
          = (st2.LocalSections.getD j default).MaxVertexIndex) →
      rebuildSections env data n k st1 = Except.ok r1 →
      ∃ r2, rebuildSections env data n k st2 = Except.ok r2 ∧
        r1.Idx = r2.Idx ∧ r1.Indices = r2.Indices ∧
        r1.LocalSections.length = r2.LocalSections.length ∧
        (∀ j, j < k + n → r1.LocalSections.getD j default = r2.LocalSections.getD j default) := by
  intro n
  induction n with
  | zero =>
    intro k st1 st2 r1 hI hX hl hdone _ h
    unfold rebuildSections at h
    injection h with h
    subst h
    exact ⟨st2, rfl, hI, hX, hl, fun j hj => hdone j (by omega)⟩
  | succ n ih =>
    intro k st1 st2 r1 hI hX hl hdone hmm h
    unfold rebuildSections at h ⊢
    split at h
    · exact absurd h (by simp)
    · next m1 hm1 =>
      obtain ⟨m2, hm2, a1, a2, a3, a4, a5⟩ := rebuildSection_agree env data k st1 st2 m1
        hI hX hl hdone hmm hm1
      rw [hm2]
      obtain ⟨r2, hr2, b1, b2, b3, b4⟩ := ih (k + 1) m1 m2 r1 a1 a2 a3 a4 a5 h
      exact ⟨r2, hr2, b1, b2, b3, fun j hj => b4 j (by omega)⟩

theorem rebuildSections_length (env : Env) (data : FFurSkinData) :
    ∀ (n k : Nat) (st r : IndexPassState), rebuildSections env data n k st = Except.ok r →
      r.LocalSections.length = st.LocalSections.length := by
  intro n
  induction n with
  | zero =>
    intro k st r h
    unfold rebuildSections at h
    injection h with h
    rw [h]
  | succ n ih =>
    intro k st r h
    unfold rebuildSections at h
    split at h
    · exact absurd h (by simp)
    · next m hm =>
      rw [ih _ _ _ h]
      unfold rebuildSection at hm
      simp only [] at hm
      split at hm
      · exact absurd hm (by simp)
      · injection hm with hm
        rw [← hm]
        simp only [List.length_set]

theorem list_eq_of_getD {α : Type} (l1 l2 : List α) (d : α) (hl : l1.length = l2.length)
    (h : ∀ j, j < l1.length → l1.getD j d = l2.getD j d) : l1 = l2 := by
  apply List.ext_getElem hl
  intro j h1 h2
  have := h j h1
  rw [List.getD_eq_getElem _ _ h1, List.getD_eq_getElem _ _ h2] at this
  exact this

/-- The index rebuild on two section arrays of the size of the mesh that give every
section the same vertex range: the same index buffer and the same section array. -/
theorem rebuildIndices_agree (env : Env) (data : FFurSkinData) (S1 S2 : List FSection)
    (hl1 : S1.length = env.RenderSections.length) (hl2 : S2.length = env.RenderSections.length)
    (hmm : ∀ j, j < env.RenderSections.length →
      (S1.getD j default).MinVertexIndex = (S2.getD j default).MinVertexIndex ∧
      (S1.getD j default).MaxVertexIndex = (S2.getD j default).MaxVertexIndex)
    (r : List Nat × List FSection) (h : rebuildIndices env data S1 = Except.ok r) :
    rebuildIndices env data S2 = Except.ok r := by
  have hmm2 : ∀ j,
      (S1.getD j default).MinVertexIndex = (S2.getD j default).MinVertexIndex ∧
      (S1.getD j default).MaxVertexIndex = (S2.getD j default).MaxVertexIndex := by
    intro j
    by_cases hj : j < env.RenderSections.length
    · exact hmm j hj
    · rw [List.getD_eq_default _ _ (by omega), List.getD_eq_default _ _ (by omega)]
      exact ⟨rfl, rfl⟩
  unfold rebuildIndices at h ⊢
  split at h
  · exact absurd h (by simp)
  · next st1 hst1 =>
    obtain ⟨st2, hst2, a1, a2, a3, a4⟩ := rebuildSections_agree env data
      env.RenderSections.length 0
      { Idx := 0, Indices := List.replicate (env.SourceIndices.length * data.FurLayerCount) 0,
        LocalSections := S1 }
      { Idx := 0, Indices := List.replicate (env.SourceIndices.length * data.FurLayerCount) 0,
        LocalSections := S2 } st1 rfl rfl (by rw [hl1, hl2])
      (fun j hj => absurd hj (by omega)) hmm2 hst1
    rw [hst2]
    simp only []
    have hlen1 : st1.LocalSections.length = env.RenderSections.length := by
      rw [rebuildSections_length env data _ _ _ _ hst1]
      exact hl1
    have hs : st1.LocalSections = st2.LocalSections :=
      list_eq_of_getD _ _ default a3 (fun j hj => a4 j (by omega))
    rw [← a1, ← a2, ← hs]
    exact h

/-! ## One run of the full build after the spin-wait -/

theorem finish_fields (env : Env) (d : FFurSkinData) :
    (BuildFur_finish env d).IndexBuffer = d.IndexBuffer ∧
    (BuildFur_finish env d).MaxVertexBoneDistance = d.MaxVertexBoneDistance ∧
    (BuildFur_finish env d).Sections = d.Sections ∧
    (BuildFur_finish env d).TempSections = d.TempSections ∧
    (BuildFur_finish env d).VertexCount = d.VertexCount ∧
    (BuildFur_finish env d).RenderQueue = d.RenderQueue ++ [RenderCommand.ClearPending] ∧
    (BuildFur_finish env d).RenderThreadDataSubmissionPending = true ∧
    configuration (BuildFur_finish env d) = configuration d := by
  unfold BuildFur_finish
  simp only []
  split <;> exact ⟨rfl, rfl, rfl, rfl, rfl, rfl, rfl, rfl⟩

/-- What a full build leaves when the lock succeeds and the index rebuild returns `r`:
the index buffer and the section array of `r` in the array the build writes to, the other
section array untouched, the square root of the `MaxDistSq` of the vertex pass, the flag
set, and the commands of the publication at the end of the queue. -/
theorem afterWait_full (env : Env) (Z : FFurSkinData) (u : Bool)
    (hu : decide (Z.Sections.length ≠ 0) = u) (mem : List FFurSkinVertex)
    (hlock : env.Lock (u32 (Z.VertexCountPerLayer * Z.FurLayerCount)) Z.VertexBuffer = some mem)
    (r : Except Fault (List Nat × List FSection))
    (hr : rebuildIndices env Z
      (vertexPass env BuildType.Full
        (setLocalSections u Z (SetNum (getLocalSections u Z) env.RenderSections.length)) mem
        (SetNum (getLocalSections u Z) env.RenderSections.length)).LocalSections = r) :
    (∀ e, r = Except.error e → BuildFur_afterWait env BuildType.Full Z = Except.error e) ∧
    (∀ x, r = Except.ok x → ∃ R, BuildFur_afterWait env BuildType.Full Z = Except.ok R ∧
      R.IndexBuffer = x.1 ∧
      R.MaxVertexBoneDistance = env.sqrtf (vertexPass env BuildType.Full
        (setLocalSections u Z (SetNum (getLocalSections u Z) env.RenderSections.length)) mem
        (SetNum (getLocalSections u Z) env.RenderSections.length)).MaxDistSq ∧
      getLocalSections u R = x.2 ∧
      getLocalSections (!u) R = getLocalSections (!u) Z ∧
      R.RenderQueue = Z.RenderQueue ++
        (if R.TempSections.length ≠ 0 then
          [RenderCommand.UpdateData (u32 (Z.VertexCountPerLayer * Z.FurLayerCount)),
            RenderCommand.ClearPending]
        else [RenderCommand.ClearPending]) ∧
      (R.TempSections.length = 0 →
        R.VertexCount = u32 (Z.VertexCountPerLayer * Z.FurLayerCount)) ∧
      R.RenderThreadDataSubmissionPending = true ∧
      configuration R = configuration Z) := by
  have hvb : ∀ S, (setLocalSections u Z S).VertexBuffer = Z.VertexBuffer := by
    intro S; cases u <;> rfl
  have hgl : ∀ S, getLocalSections u (setLocalSections u Z S) = S := by
    intro S; cases u <;> rfl
  obtain ⟨f1, f2, f3, f4, f5, f6, f7, f8⟩ :
      (∀ d, (BuildFur_finish env d).IndexBuffer = d.IndexBuffer) ∧
      (∀ d, (BuildFur_finish env d).MaxVertexBoneDistance = d.MaxVertexBoneDistance) ∧
      (∀ d, (BuildFur_finish env d).Sections = d.Sections) ∧
      (∀ d, (BuildFur_finish env d).TempSections = d.TempSections) ∧
      (∀ d, (BuildFur_finish env d).VertexCount = d.VertexCount) ∧
      (∀ d, (BuildFur_finish env d).RenderQueue
        = d.RenderQueue ++ [RenderCommand.ClearPending]) ∧
      (∀ d, (BuildFur_finish env d).RenderThreadDataSubmissionPending = true) ∧
      (∀ d, configuration (BuildFur_finish env d) = configuration d) :=
    ⟨fun d => (finish_fields env d).1, fun d => (finish_fields env d).2.1,
      fun d => (finish_fields env d).2.2.1, fun d => (finish_fields env d).2.2.2.1,
      fun d => (finish_fields env d).2.2.2.2.1, fun d => (finish_fields env d).2.2.2.2.2.1,
      fun d => (finish_fields env d).2.2.2.2.2.2.1, fun d => (finish_fields env d).2.2.2.2.2.2.2⟩
  unfold BuildFur_afterWait
  simp only [hu, hvb, hlock]
  unfold BuildFur_afterLock
  simp only [hgl, if_true]
  unfold BuildFur_indexAndPublish
  rw [if_pos (Or.inl (by decide))]
  simp only []
  rw [rebuildIndices_data env _ Z _ (by cases u <;> rfl) (by cases u <;> rfl)
    (by cases u <;> rfl) (by cases u <;> rfl) (by cases u <;> rfl)]
  have hgl2 : ∀ (S : List FSection) (V : List FFurSkinVertex) (m : Int) (a : Nat) (b : Bool),
      getLocalSections u
        { setLocalSections u { setLocalSections u Z (SetNum (getLocalSections u Z)
            env.RenderSections.length) with VertexBuffer := V } S with
          MaxVertexBoneDistance := m, OldFurLayerCount := a,
          OldRemoveFacesWithoutSplines := b } = S := by
    intro S V m a b; cases u <;> rfl
  simp only [hgl2, hr]
  constructor
  · intro e he
    rw [he]
    rfl
  · intro x hx
    rw [hx]
    simp only []
    cases u with
    | false =>
      simp only [setLocalSections, getLocalSections, Bool.false_eq_true, if_false, Bool.not_false,
        if_true]
      split
      · next hT =>
        refine ⟨_, rfl, ?_⟩
        simp only [f1, f2, f3, f4, f5, f6, f7, f8]
        refine ⟨trivial, trivial, trivial, trivial, ?_, ?_, trivial, rfl⟩
        · rw [if_pos hT, List.append_assoc]
          rfl
        · intro h0
          exact absurd h0 hT
      · next hT =>
        refine ⟨_, rfl, ?_⟩
        simp only [f1, f2, f3, f4, f5, f6, f7, f8]
        refine ⟨trivial, trivial, trivial, trivial, ?_, ?_, trivial, rfl⟩
        · rw [if_neg hT]
        · intro _
          trivial
    | true =>
      simp only [setLocalSections, getLocalSections, if_true, Bool.not_true, Bool.false_eq_true,
        if_false]
      split
      · next hT =>
        refine ⟨_, rfl, ?_⟩
        simp only [f1, f2, f3, f4, f5, f6, f7, f8]
        refine ⟨trivial, trivial, trivial, trivial, ?_, ?_, trivial, rfl⟩
        · rw [if_pos hT, List.append_assoc]
          rfl
        · intro h0
          exact absurd h0 hT
      · next hT =>
        refine ⟨_, rfl, ?_⟩
        simp only [f1, f2, f3, f4, f5, f6, f7, f8]
        refine ⟨trivial, trivial, trivial, trivial, ?_, ?_, trivial, rfl⟩
        · rw [if_neg hT]
        · intro _
          trivial

/-! ## The publication of a build -/

theorem beforeWait_full_fields (env : Env) (d : FFurSkinData) :
    (BuildFur_beforeWait env BuildType.Full d).RenderThreadDataSubmissionPending
      = d.RenderThreadDataSubmissionPending ∧
    (BuildFur_beforeWait env BuildType.Full d).RenderQueue = d.RenderQueue ∧
    (BuildFur_beforeWait env BuildType.Full d).Sections = d.Sections ∧
    (BuildFur_beforeWait env BuildType.Full d).TempSections = d.TempSections ∧
    (BuildFur_beforeWait env BuildType.Full d).FurLayerCount = d.FurLayerCount ∧
    (BuildFur_beforeWait env BuildType.Full d).RemoveFacesWithoutSplines
      = d.RemoveFacesWithoutSplines ∧
    (BuildFur_beforeWait env BuildType.Full d).FurSplinesUsed = d.FurSplinesUsed ∧
    (BuildFur_beforeWait env BuildType.Full d).FurLength = d.FurLength :=
  ⟨rfl, rfl, rfl, rfl, rfl, rfl, rfl, rfl⟩

theorem beforeWait_inputs (env : Env) (a b : FFurSkinData) (hdet : DeterministicRoutines env)
    (h1 : a.FurLayerCount = b.FurLayerCount)
    (h2 : a.RemoveFacesWithoutSplines = b.RemoveFacesWithoutSplines)
    (h3 : a.FurSplinesUsed = b.FurSplinesUsed) (h4 : a.FurLength = b.FurLength) :
    generationInputs (BuildFur_beforeWait env BuildType.Full a)
      = generationInputs (BuildFur_beforeWait env BuildType.Full b) := by
  have hn : env.UnpackNormals
      { a with
        bUseHighPrecisionTangentBasis := env.UseHighPrecisionTangentBasis
        bUseFullPrecisionUVs := env.UseFullPrecisionUVs
        HasExtraBoneInfluences := decide (4 < env.MaxBoneInfluences) }
      = env.UnpackNormals
      { b with
        bUseHighPrecisionTangentBasis := env.UseHighPrecisionTangentBasis
        bUseFullPrecisionUVs := env.UseFullPrecisionUVs
        HasExtraBoneInfluences := decide (4 < env.MaxBoneInfluences) } :=
    hdet.1 _ _ (by simp only [configuration, h1, h2, h3, h4])
  have hs := hdet.2.1
    { a with
      bUseHighPrecisionTangentBasis := env.UseHighPrecisionTangentBasis
      bUseFullPrecisionUVs := env.UseFullPrecisionUVs
      HasExtraBoneInfluences := decide (4 < env.MaxBoneInfluences)
      Normals := env.UnpackNormals
        { a with
          bUseHighPrecisionTangentBasis := env.UseHighPrecisionTangentBasis
          bUseFullPrecisionUVs := env.UseFullPrecisionUVs
          HasExtraBoneInfluences := decide (4 < env.MaxBoneInfluences) } }
    { b with
      bUseHighPrecisionTangentBasis := env.UseHighPrecisionTangentBasis
      bUseFullPrecisionUVs := env.UseFullPrecisionUVs
      HasExtraBoneInfluences := decide (4 < env.MaxBoneInfluences)
      Normals := env.UnpackNormals
        { b with
          bUseHighPrecisionTangentBasis := env.UseHighPrecisionTangentBasis
          bUseFullPrecisionUVs := env.UseFullPrecisionUVs
          HasExtraBoneInfluences := decide (4 < env.MaxBoneInfluences) } }
    (by simp only [configuration, h1, h2, h3, h4]) hn
  have e : ∀ d, generationInputs (BuildFur_beforeWait env BuildType.Full d)
      = ((d.FurLayerCount, d.RemoveFacesWithoutSplines, d.FurSplinesUsed, d.FurLength,
          env.UseHighPrecisionTangentBasis, env.UseFullPrecisionUVs,
          decide (4 < env.MaxBoneInfluences)),
        env.UnpackNormals
          { d with
            bUseHighPrecisionTangentBasis := env.UseHighPrecisionTangentBasis
            bUseFullPrecisionUVs := env.UseFullPrecisionUVs
            HasExtraBoneInfluences := decide (4 < env.MaxBoneInfluences) },
        env.GenerateSplineMap
          { d with
            bUseHighPrecisionTangentBasis := env.UseHighPrecisionTangentBasis
            bUseFullPrecisionUVs := env.UseFullPrecisionUVs
            HasExtraBoneInfluences := decide (4 < env.MaxBoneInfluences)
            Normals := env.UnpackNormals
              { d with
                bUseHighPrecisionTangentBasis := env.UseHighPrecisionTangentBasis
                bUseFullPrecisionUVs := env.UseFullPrecisionUVs
                HasExtraBoneInfluences := decide (4 < env.MaxBoneInfluences) } }) := by
    intro d
    rfl
  rw [e a, e b, hs, hn, h1, h2, h3, h4]

/-- What the render thread publishes when it runs the commands of a build. -/
theorem drain_published (R : FFurSkinData) (N : Nat)
    (hq : R.RenderQueue =
      if R.TempSections.length ≠ 0 then [RenderCommand.UpdateData N, RenderCommand.ClearPending]
      else [RenderCommand.ClearPending])
    (hvc : R.TempSections.length = 0 → R.VertexCount = N) :
    (renderThreadDrain R).Sections
      = (if R.TempSections.length ≠ 0 then R.TempSections else R.Sections) ∧
    (renderThreadDrain R).IndexBuffer = R.IndexBuffer ∧
    (renderThreadDrain R).VertexCount = N ∧
    (renderThreadDrain R).MaxVertexBoneDistance = R.MaxVertexBoneDistance := by
  unfold renderThreadDrain
  rw [hq]
  by_cases hT : R.TempSections.length ≠ 0
  · simp only [if_pos hT]
    exact ⟨rfl, rfl, rfl, rfl⟩
  · simp only [if_neg hT]
    exact ⟨rfl, rfl, hvc (by omega), rfl⟩

/-- The spin-wait of the next build runs the commands of the build before it. -/
theorem spinWait_published (W : FFurSkinData) (N : Nat)
    (hp : W.RenderThreadDataSubmissionPending = true)
    (hq : W.RenderQueue =
      if W.TempSections.length ≠ 0 then [RenderCommand.UpdateData N, RenderCommand.ClearPending]
      else [RenderCommand.ClearPending]) :
    ∃ Y, spinWait W = Except.ok Y ∧
      Y.Sections = (if W.TempSections.length ≠ 0 then W.TempSections else W.Sections) ∧
      Y.TempSections = W.TempSections ∧ Y.RenderQueue = [] ∧
      generationInputs Y = generationInputs W := by
  unfold spinWait
  rw [hq]
  by_cases hT : W.TempSections.length ≠ 0
  · simp only [if_pos hT]
    refine ⟨renderThreadExecute RenderCommand.ClearPending
      { renderThreadExecute (RenderCommand.UpdateData N)
          { W with RenderQueue := [RenderCommand.ClearPending] } with RenderQueue := [] },
      ?_, rfl, rfl, rfl, rfl⟩
    unfold spinWaitLoop
    rw [if_pos hp]
    unfold spinWaitLoop
    rw [if_pos (show (renderThreadExecute (RenderCommand.UpdateData N)
      { W with RenderQueue := [RenderCommand.ClearPending] }).RenderThreadDataSubmissionPending
      = true from hp)]
    unfold spinWaitLoop
    rw [if_neg (by simp [renderThreadExecute])]
  · simp only [if_neg hT]
    refine ⟨renderThreadExecute RenderCommand.ClearPending { W with RenderQueue := [] },
      ?_, rfl, rfl, rfl, rfl⟩
    unfold spinWaitLoop
    rw [if_pos hp]
    unfold spinWaitLoop
    rw [if_neg (by simp [renderThreadExecute])]

theorem generationInputs_setLocalSections (u : Bool) (Z : FFurSkinData) (S : List FSection) :
    generationInputs (setLocalSections u Z S) = generationInputs Z := by
  cases u <;> rfl

/-! ## C26 -/

/-- C26: a full build run twice on the same dataset publishes the same results.  From a
dataset at rest (no submission pending, no queued command, and no staged sections while
none are published) with at least one layer, when the first full build returns, the second
full build returns too, and once the render thread has run the commands of each build,
the published section array (`MinVertexIndex`, `MaxVertexIndex`, `BaseIndex`,
`NumTriangles`, `MaterialIndex`, `NumBones` of every section), the index buffer,
`VertexCount` and `MaxVertexBoneDistance` of the second build equal those of the first,
whatever the first build found and left in `TempSections`, `OldFurLayerCount`,
`OldRemoveFacesWithoutSplines` and the vertex buffer.  Identical inputs are the
hypothesis `DeterministicRoutines`: the routines of `FFurData` and of the vertex buffer,
which this file calls and does not define, are functions of what they read. -/
theorem C26_full_build_repeatable (env : Env) (d0 d1 : FFurSkinData)
    (hdet : DeterministicRoutines env) (hL : 0 < d0.FurLayerCount)
    (hidle : d0.RenderThreadDataSubmissionPending = false) (hq : d0.RenderQueue = [])
    (hstaged : d0.Sections.length = 0 → d0.TempSections.length = 0)
    (h1 : BuildFur env BuildType.Full d0 = Except.ok d1) :
    ∃ d2, BuildFur env BuildType.Full d1 = Except.ok d2 ∧
      (renderThreadDrain d2).Sections = (renderThreadDrain d1).Sections ∧
      (renderThreadDrain d2).IndexBuffer = (renderThreadDrain d1).IndexBuffer ∧
      (renderThreadDrain d2).VertexCount = (renderThreadDrain d1).VertexCount ∧
      (renderThreadDrain d2).MaxVertexBoneDistance
        = (renderThreadDrain d1).MaxVertexBoneDistance := by
  have hsc : sourceCountsOk env = true := by
    by_contra hc
    unfold BuildFur at h1
    rw [if_neg hc] at h1
    exact absurd h1 (by simp)
  obtain ⟨bp, bq, bs, bt, b1, b2, b3, b4⟩ := beforeWait_full_fields env d0
  have hX : BuildFur_afterWait env BuildType.Full (BuildFur_beforeWait env BuildType.Full d0)
      = Except.ok d1 := by
    unfold BuildFur at h1
    rw [if_pos hsc, spinWait_of_not_pending _ (by rw [bp]; exact hidle)] at h1
    exact h1
  have hin0 := fun b h1 h2 h3 h4 => beforeWait_inputs env b d0 hdet h1 h2 h3 h4
  generalize BuildFur_beforeWait env BuildType.Full d0 = X at hX bp bq bs bt b1 b2 b3 b4 hin0
  -- the first build
  obtain ⟨memX, hlockX, hmemX⟩ := hdet.2.2.2 (u32 (X.VertexCountPerLayer * X.FurLayerCount))
    X.VertexBuffer
  obtain ⟨uX, huX⟩ : ∃ u, decide (X.Sections.length ≠ 0) = u := ⟨_, rfl⟩
  have keyX := afterWait_full env X uX huX memX hlockX _ rfl
  have hSXl : (SetNum (getLocalSections uX X) env.RenderSections.length).length
      = env.RenderSections.length := SetNum_length _ _
  generalize SetNum (getLocalSections uX X) env.RenderSections.length = SX at keyX hSXl
  have agree := fun b V2 S2 hab => vertexPass_agree env (setLocalSections uX X SX) b hdet hab
    (by rw [show (setLocalSections uX X SX).FurLayerCount = X.FurLayerCount from by
      cases uX <;> rfl, b1]; exact hL) memX V2 SX S2
  generalize vertexPass env BuildType.Full (setLocalSections uX X SX) memX SX = vpX
    at keyX agree
  obtain ⟨rX, hrX⟩ : ∃ r, rebuildIndices env X vpX.LocalSections = r := ⟨_, rfl⟩
  rw [hrX] at keyX
  obtain ⟨haX, hbX⟩ := keyX
  cases rX with
  | error e =>
    rw [haX e rfl] at hX
    exact absurd hX (by simp)
  | ok x =>
    obtain ⟨R, hR, r1, r2, r3, r4, r5, r6, r7, r8⟩ := hbX x rfl
    have hRd : R = d1 := by
      rw [hR] at hX
      injection hX
    subst hRd
    rw [bq, hq, List.nil_append] at r5
    obtain ⟨p1, p2, p3, p4⟩ := drain_published R _ r5 r6
    -- the second build
    obtain ⟨wp, wq, ws, wt, _, _, _, _⟩ := beforeWait_full_fields env R
    have c8 : R.FurLayerCount = X.FurLayerCount ∧
        R.RemoveFacesWithoutSplines = X.RemoveFacesWithoutSplines ∧
        R.FurSplinesUsed = X.FurSplinesUsed ∧ R.FurLength = X.FurLength := by
      unfold configuration at r8
      simp only [Prod.mk.injEq] at r8
      exact ⟨r8.1, r8.2.1, r8.2.2.1, r8.2.2.2.1⟩
    have hinW := hin0 R (c8.1.trans b1) (c8.2.1.trans b2) (c8.2.2.1.trans b3)
      (c8.2.2.2.trans b4)
    obtain ⟨Y, hspin, y1, y2, y3, y4⟩ := spinWait_published
      (BuildFur_beforeWait env BuildType.Full R)
      (u32 (X.VertexCountPerLayer * X.FurLayerCount)) (by rw [wp]; exact r7)
      (by rw [wq, wt]; exact r5)
    rw [wt, ws] at y1
    rw [wt] at y2
    have hXY : generationInputs X = generationInputs Y := (y4.trans hinW).symm
    obtain ⟨g1, _, _, _, _, _, g7⟩ := generationInputs_fields X Y hXY
    obtain ⟨memY, hlockY, hmemY⟩ := hdet.2.2.2 (u32 (Y.VertexCountPerLayer * Y.FurLayerCount))
      Y.VertexBuffer
    obtain ⟨uY, huY⟩ : ∃ u, decide (Y.Sections.length ≠ 0) = u := ⟨_, rfl⟩
    have keyY := afterWait_full env Y uY huY memY hlockY _ rfl
    have hSYl : (SetNum (getLocalSections uY Y) env.RenderSections.length).length
        = env.RenderSections.length := SetNum_length _ _
    generalize SetNum (getLocalSections uY Y) env.RenderSections.length = SY at keyY hSYl
    obtain ⟨a1, a2, a3, a4⟩ := agree (setLocalSections uY Y SY) memY SY
      (by rw [generationInputs_setLocalSections, generationInputs_setLocalSections]; exact hXY)
      (by rw [hmemX, hmemY, g1, g7]) (by rw [hSXl, hSYl])
    generalize vertexPass env BuildType.Full (setLocalSections uY Y SY) memY SY = vpY
      at keyY a1 a2 a3 a4
    have hrY : rebuildIndices env Y vpY.LocalSections = Except.ok x := by
      obtain ⟨k1, k2, k3, _, k5, k6, _⟩ := generationInputs_fields X Y hXY
      rw [rebuildIndices_data env Y X _ k1.symm k3.symm k2.symm k5.symm k6.symm]
      exact rebuildIndices_agree env X vpX.LocalSections vpY.LocalSections
        (by rw [a2, hSXl]) (by rw [a3, hSYl]) a4 x hrX
    rw [hrY] at keyY
    obtain ⟨R2, hR2, s1, s2, s3, s4, s5, s6, s7, s8⟩ := keyY.2 x rfl
    rw [y3, List.nil_append] at s5
    obtain ⟨q1, q2, q3, q4⟩ := drain_published R2 _ s5 s6
    refine ⟨R2, ?_, ?_, ?_, ?_, ?_⟩
    · unfold BuildFur
      rw [if_pos hsc, hspin]
      exact hR2
    · rw [q1, p1]
      have hX0 : X.Sections.length = 0 → X.TempSections.length = 0 := by
        rw [bs, bt]; exact hstaged
      cases uX <;> cases uY <;>
        simp only [getLocalSections, Bool.false_eq_true, if_false, if_true, Bool.not_false,
          Bool.not_true, decide_eq_true_eq, decide_eq_false_iff_not, ne_eq, not_not]
          at r3 r4 s3 s4 huX huY
      · have hT : R.TempSections.length = 0 := by rw [r4]; exact hX0 huX
        have hT2 : R2.TempSections.length = 0 := by rw [s4, y2]; exact hT
        rw [if_neg (show ¬ (R2.TempSections.length ≠ 0) from by omega),
          if_neg (show ¬ (R.TempSections.length ≠ 0) from by omega), s3, r3]
      · have hT : R.TempSections.length = 0 := by rw [r4]; exact hX0 huX
        rw [if_neg (show ¬ (R.TempSections.length ≠ 0) from by omega)] at y1
        rw [y1, r3] at huY
        have hT2 : R2.TempSections.length ≠ 0 := by rw [s3]; exact huY
        rw [if_pos hT2, if_neg (show ¬ (R.TempSections.length ≠ 0) from by omega), s3, r3]
      · exfalso
        by_cases hx : R.TempSections.length ≠ 0
        · rw [if_pos hx] at y1
          rw [y1] at huY
          exact hx huY
        · rw [if_neg hx, r4] at y1
          rw [y1] at huY
          exact huX huY
      · by_cases hx : x.2.length ≠ 0
        · rw [s3, r3, if_pos hx, if_pos hx]
        · rw [r3] at y1
          rw [if_neg hx] at y1
          rw [s3, r3, if_neg hx, if_neg hx, s4, y1]
    · rw [q2, p2, s1, r1]
    · rw [q3, p3, g1, g7]
    · rw [q4, p4, s2, r2, a1]

theorem take_replicate_drop {α : Type} (k : Nat) (m : List α) (d : α) :
    (List.replicate (min k m.length) d ++ m.drop k).take k
      = List.replicate (min k m.length) d := by
  by_cases h : k ≤ m.length
  · rw [Nat.min_eq_left h]
    have e : (List.replicate k d ++ m.drop k).take k
        = (List.replicate k d ++ m.drop k).take ((List.replicate k d).length + 0) := by
      rw [List.length_replicate, Nat.add_zero]
    rw [e, List.take_append]
    simp
  · rw [List.drop_eq_nil_of_le (by omega), List.append_nil]
    apply List.take_of_length_le
    rw [List.length_replicate]
    omega

theorem envQuadWriting_deterministic : DeterministicRoutines envQuadWriting := by
  refine ⟨fun _ _ _ => rfl, fun _ _ _ _ => rfl, ?_, ?_⟩
  · intro a b Begin End m1 m2 hab hm
    obtain ⟨hL, _⟩ := generationInputs_fields a b hab
    have e : ∀ (d : FFurSkinData) (m : List FFurSkinVertex),
        envQuadWriting.GenerateFurVertices d Begin End m
          = (List.replicate (min ((End - Begin) * d.FurLayerCount) m.length) default
            ++ m.drop ((End - Begin) * d.FurLayerCount), End - Begin) := fun _ _ => rfl
    rw [e a m1, e b m2]
    refine ⟨rfl, ?_, ?_⟩
    · simp only [List.length_append, List.length_replicate, List.length_drop]
      omega
    · simp only []
      rw [take_replicate_drop, hL, take_replicate_drop, hm]
  · intro n buf
    exact ⟨SetNum buf n, rfl, SetNum_length buf n⟩

/-- C26 on a concrete mesh: one section of 4 vertices and 2 triangles, built twice with
2 layers: the second build returns and publishes what the first published, 8 vertices
among them. -/
theorem C26_full_build_repeatable_witness :
    (renderThreadDrain dataWritingPending).VertexCount = 8 ∧
    ∃ d2, BuildFur envQuadWriting BuildType.Full dataWritingPending = Except.ok d2 ∧
      (renderThreadDrain d2).Sections = (renderThreadDrain dataWritingPending).Sections ∧
      (renderThreadDrain d2).IndexBuffer = (renderThreadDrain dataWritingPending).IndexBuffer ∧
      (renderThreadDrain d2).VertexCount = (renderThreadDrain dataWritingPending).VertexCount ∧
      (renderThreadDrain d2).MaxVertexBoneDistance
        = (renderThreadDrain dataWritingPending).MaxVertexBoneDistance :=
  ⟨rfl, C26_full_build_repeatable envQuadWriting (newFurSkinData 2 false false)
    dataWritingPending envQuadWriting_deterministic (by decide) rfl rfl (fun _ => rfl) rfl⟩

end GFur
